import Mathlib

/-!
# Football-Predictor: strength estimation, head-to-head aggregation, simulation

A shallow embedding of `FootballLib/DataTypes.h`, `FootballLib/Team.h`,
`FootballLib/DataLoader.h` and `FootballLib/Match.h`.

Modelling conventions.

* `double` is `Dbl`: a finite value is an exact rational, and the three special
  values of IEEE-754 (plus infinity, minus infinity, not-a-number) are kept, so
  a division by a zero league average behaves as in the program (`0/0` is
  not-a-number, `x/0` is an infinity). Rounding, overflow to infinity and the
  sign of zero are not modelled: every zero is the positive zero, which is the
  only zero the program ever divides by (a converted `int` or a quotient of one
  by a positive count).
* `int` is `Int`; the sums of goals and corners are far from the 32-bit range.
* `std::chrono::system_clock::time_point` is the `Int` number of clock ticks
  since the epoch, so `from_time_t(0)` is `0` and `time_point::max()` is
  `2^63 - 1`.
* `std::map<K, V>` is `StdMap K V`, a list of entries with pairwise distinct
  keys. The iteration order of a map is not modelled; no modelled result
  depends on it.
* The C++ library calls whose behaviour is outside the repository
  (`std::get_time` / `std::mktime`, `std::stoi`, `std::sort`, the random
  generator) are the fields of `Env` or explicit function arguments.
-/

namespace FootballPredictor

/-! ## `double` -/

/-- The values of a `double`, without the rounding of its arithmetic: a rational held
exactly, or one of the IEEE-754 special values. The operations below give the
mathematical result on finite values, of which the program's result is the rounding to
binary64; where that rounding decides a statement, the statement is made in `F64`. -/
inductive Dbl where
  | fin (q : ℚ)
  | pinf
  | ninf
  | nan
deriving DecidableEq

namespace Dbl

/-- The conversion `static_cast<double>(n)` of an `int`. -/
def ofInt (n : Int) : Dbl := fin n

/-- Multiplication of doubles before rounding: the exact product on finite values (the
program's product is its rounding to binary64, `F64.mul`), IEEE-754 on the special
ones. -/
def mul : Dbl → Dbl → Dbl
  | fin a, fin b => fin (a * b)
  | fin a, pinf => if a = 0 then nan else if 0 < a then pinf else ninf
  | fin a, ninf => if a = 0 then nan else if 0 < a then ninf else pinf
  | pinf, fin b => if b = 0 then nan else if 0 < b then pinf else ninf
  | ninf, fin b => if b = 0 then nan else if 0 < b then ninf else pinf
  | pinf, pinf => pinf
  | pinf, ninf => ninf
  | ninf, pinf => ninf
  | ninf, ninf => pinf
  | nan, _ => nan
  | _, nan => nan

/-- Division of doubles before rounding: the exact quotient on finite values with a
non-zero divisor (the program's quotient is its rounding to binary64, `F64.div`),
IEEE-754 otherwise (`0/0` is not-a-number, `x/0` is the infinity of the sign of `x`). -/
def div : Dbl → Dbl → Dbl
  | fin a, fin b =>
    if b = 0 then (if a = 0 then nan else if 0 < a then pinf else ninf) else fin (a / b)
  | fin _, pinf => fin 0
  | fin _, ninf => fin 0
  | pinf, fin b => if b < 0 then ninf else pinf
  | ninf, fin b => if b < 0 then pinf else ninf
  | pinf, pinf => nan
  | pinf, ninf => nan
  | ninf, pinf => nan
  | ninf, ninf => nan
  | nan, _ => nan
  | _, nan => nan

/-- Addition of doubles before rounding. -/
def add : Dbl → Dbl → Dbl
  | fin a, fin b => fin (a + b)
  | fin _, pinf => pinf
  | fin _, ninf => ninf
  | pinf, fin _ => pinf
  | ninf, fin _ => ninf
  | pinf, pinf => pinf
  | ninf, ninf => ninf
  | pinf, ninf => nan
  | ninf, pinf => nan
  | nan, _ => nan
  | _, nan => nan

/-- Subtraction of doubles before rounding. -/
def sub : Dbl → Dbl → Dbl
  | fin a, fin b => fin (a - b)
  | fin _, pinf => ninf
  | fin _, ninf => pinf
  | pinf, fin _ => pinf
  | ninf, fin _ => ninf
  | pinf, ninf => pinf
  | ninf, pinf => ninf
  | pinf, pinf => nan
  | ninf, ninf => nan
  | nan, _ => nan
  | _, nan => nan

/-- The comparison `x < y` of doubles; false as soon as one side is not-a-number. -/
def lt : Dbl → Dbl → Bool
  | fin a, fin b => decide (a < b)
  | fin _, pinf => true
  | ninf, fin _ => true
  | ninf, pinf => true
  | _, _ => false

/-- The comparison `x <= y` of doubles; false as soon as one side is not-a-number. -/
def le : Dbl → Dbl → Bool
  | fin a, fin b => decide (a ≤ b)
  | fin _, pinf => true
  | ninf, fin _ => true
  | ninf, pinf => true
  | pinf, pinf => true
  | ninf, ninf => true
  | _, _ => false

/-- The test `std::isnan`. -/
def isNaN : Dbl → Bool
  | nan => true
  | _ => false

end Dbl

/-! ### Rounding

The type `Dbl` computes without rounding. Where the rounding of `double` decides a
statement, the arithmetic is also given as binary64 performs it, on the values that
occur there: non-negative and finite. -/

/-- A non-negative finite `double`, as the fraction `num / den` of its exact value. -/
structure F64 where
  num : Nat
  den : Nat
deriving DecidableEq

namespace F64

/-- Scales the fraction `num / den` by powers of two until it lies in `[2^52, 2^53)`;
`up` and `down` collect the factors applied to the numerator and the denominator. -/
def normalise : Nat → Nat → Nat → Nat → Nat → Nat × Nat × Nat × Nat
  | 0, num, den, up, down => (num, den, up, down)
  | fuel + 1, num, den, up, down =>
    if num < den * 2 ^ 52 then normalise fuel (2 * num) den (2 * up) down
    else if den * 2 ^ 53 ≤ num then normalise fuel num (2 * den) up (2 * down)
    else (num, den, up, down)

/-- Rounding of the fraction `num / den` to the nearest value with a significand of
53 bits, a tie going to the even significand: the default rounding of binary64. The
exponent range is not bounded here (no overflow, no subnormal values). -/
def round (num den : Nat) : F64 :=
  if num = 0 then ⟨0, 1⟩
  else
    let s := normalise 2200 num den 1 1
    let q := s.1 / s.2.1
    let r := s.1 % s.2.1
    let m := if s.2.1 < 2 * r ∨ (2 * r = s.2.1 ∧ q % 2 = 1) then q + 1 else q
    ⟨m * s.2.2.2, s.2.2.1⟩

/-- The conversion `static_cast<double>(n)` of a non-negative `int`. -/
def ofNat (n : Nat) : F64 := round n 1

/-- Division of doubles by a non-zero divisor, rounded. -/
def div (a b : F64) : F64 := round (a.num * b.den) (a.den * b.num)

/-- Multiplication of doubles, rounded. -/
def mul (a b : F64) : F64 := round (a.num * b.num) (a.den * b.den)

/-- Addition of doubles, rounded. -/
def add (a b : F64) : F64 := round (a.num * b.den + b.num * a.den) (a.den * b.den)

/-- The comparison `x < y` of doubles. -/
def lt (a b : F64) : Bool := decide (a.num * b.den < b.num * a.den)

/-- The comparison `x == y` of doubles. -/
def same (a b : F64) : Bool := decide (a.num * b.den = b.num * a.den)

end F64

/-! ## `std::map` -/

/-- A `std::map<K, V>`: entries with pairwise distinct keys. -/
structure StdMap (K : Type) (V : Type) where
  entries : List (K × V)
  nodup : (entries.map Prod.fst).Nodup

namespace StdMap

variable {K : Type} {V W : Type}

/-- The empty map (a default-constructed or cleared `std::map`). -/
def empty : StdMap K V := ⟨[], List.nodup_nil⟩

/-- The keys of the map. -/
def keys (m : StdMap K V) : List K := m.entries.map Prod.fst

/-- The lookup `m.find(k)`: the mapped value, or `none` for `end()`. -/
def find? [DecidableEq K] (m : StdMap K V) (k : K) : Option V :=
  (m.entries.find? (fun p => decide (p.1 = k))).map Prod.snd

/-- The assignment `m[k] = v`: replaces the value of an existing key, inserts otherwise. -/
def set [DecidableEq K] (m : StdMap K V) (k : K) (v : V) : StdMap K V :=
  if h : k ∈ m.entries.map Prod.fst then
    ⟨m.entries.map (fun p => if p.1 = k then (p.1, v) else p), by
      have hk : (m.entries.map (fun p => if p.1 = k then (p.1, v) else p)).map Prod.fst
          = m.entries.map Prod.fst := by
        rw [List.map_map]
        apply List.map_congr_left
        intro p _
        by_cases hp : p.1 = k <;> simp [hp]
      rw [hk]
      exact m.nodup⟩
  else
    ⟨m.entries ++ [(k, v)], by
      rw [List.map_append, List.map_cons, List.map_nil]
      exact List.Nodup.append m.nodup (List.nodup_singleton k)
        (by
          intro a ha hb
          rw [List.mem_singleton] at hb
          have hak : a = k := hb
          subst hak
          exact h ha)⟩

/-- The read `m[k]` with a default-constructed value `d` for a missing key. -/
def getD [DecidableEq K] (m : StdMap K V) (k : K) (d : V) : V :=
  (m.find? k).getD d

/-- A loop `for (auto& pair : m)` that rewrites each mapped value from its key and
its old value. -/
def mapVals (f : K → V → W) (m : StdMap K V) : StdMap K W :=
  ⟨m.entries.map (fun p => (p.1, f p.1 p.2)), by
    have hk : (m.entries.map (fun p => (p.1, f p.1 p.2))).map Prod.fst
        = m.entries.map Prod.fst := by
      rw [List.map_map]
      apply List.map_congr_left
      intro p _
      rfl
    rw [hk]
    exact m.nodup⟩

end StdMap

/-! ## `DataTypes.h`, `Team.h` -/

/-- A `time_point`: clock ticks since the epoch. -/
abbrev TimePoint := Int

/-- The value `std::chrono::system_clock::time_point::max()`. -/
def timePointMax : TimePoint := 2 ^ 63 - 1

/-- An upcoming match from the fixtures file. -/
structure Fixture where
  dateStr : String
  homeTeamName : String
  awayTeamName : String
deriving DecidableEq

/-- A completed match from the data files. -/
structure MatchResult where
  dateStr : String
  date : TimePoint
  homeTeamName : String
  awayTeamName : String
  homeGoals : Int
  awayGoals : Int
deriving DecidableEq

/-- Head-to-head statistics between two teams. -/
structure H2HStats where
  totalMatches : Int := 0
  homeTeamWins : Int := 0
  awayTeamWins : Int := 0
  draws : Int := 0
  avgHomeGoals : Dbl := Dbl.fin 0
  avgAwayGoals : Dbl := Dbl.fin 0
  bttsPercentage : Dbl := Dbl.fin 0
  over25Percentage : Dbl := Dbl.fin 0
  recentH2H : List MatchResult := []
deriving DecidableEq

/-- The class `Team`: a name, eight relative strengths defaulting to `1.0`, and the
match history. -/
structure Team where
  name : String
  homeAttackStrength : Dbl := Dbl.fin 1
  homeDefenseStrength : Dbl := Dbl.fin 1
  awayAttackStrength : Dbl := Dbl.fin 1
  awayDefenseStrength : Dbl := Dbl.fin 1
  homeCornerAttackStrength : Dbl := Dbl.fin 1
  homeCornerDefenseStrength : Dbl := Dbl.fin 1
  awayCornerAttackStrength : Dbl := Dbl.fin 1
  awayCornerDefenseStrength : Dbl := Dbl.fin 1
  matchHistory : List MatchResult := []
deriving DecidableEq

namespace Team

/-- The constructor `Team(const std::string& teamName)`. -/
def ofName (teamName : String) : Team := { name := teamName }

/-- The default constructor `Team()`, used by `operator[]` on a missing key. -/
def default : Team := { name := "" }

end Team

/-! ## `DataLoader.h` -/

/-- The struct `TeamData`: temporary raw totals of one team. -/
structure TeamData where
  homeMatches : Int := 0
  awayMatches : Int := 0
  homeGoalsScored : Int := 0
  awayGoalsScored : Int := 0
  homeGoalsConceded : Int := 0
  awayGoalsConceded : Int := 0
  homeCornersFor : Int := 0
  awayCornersFor : Int := 0
  homeCornersAgainst : Int := 0
  awayCornersAgainst : Int := 0
deriving DecidableEq

/-- The library calls the loader relies on. `getTimeDMY s` is
`ss >> std::get_time(&tm, "%d/%m/%Y")` followed by `mktime` and `from_time_t`
(`none` when the stream fails), `getTimeYMD` the same with `"%Y-%m-%d"`;
`stoi s` is `std::stoi(s)` (`none` when it throws); `sortByDate` is
`std::sort` with the comparator `a.date < b.date`. -/
structure Env where
  getTimeDMY : String → Option TimePoint
  getTimeYMD : String → Option TimePoint
  stoi : String → Option Int
  sortByDate : List MatchResult → List MatchResult

/-- The private method `DataLoader::parseDate`; `0` is `from_time_t(0)`, the value
returned for an invalid format or a failed parse. -/
def parseDate (env : Env) (dateStr : String) : TimePoint :=
  if '/' ∈ dateStr.data then
    match env.getTimeDMY dateStr with
    | none => 0
    | some t => t
  else if '-' ∈ dateStr.data then
    match env.getTimeYMD dateStr with
    | none => 0
    | some t => t
  else 0

/-- The private method `DataLoader::isdigit`. -/
def isdigit (c : Char) : Bool := decide ('0' ≤ c) && decide (c ≤ '9')

/-- The test `!s.empty() && isdigit(s[0])` on a score cell. -/
def startsWithDigit (s : String) : Bool :=
  match s.data with
  | [] => false
  | c :: _ => isdigit c

/-- The class `DataLoader`: six league averages, the fixtures and the loaded teams. -/
structure DataLoader where
  leagueAvgHomeGoalsScored : Dbl := Dbl.fin 0
  leagueAvgAwayGoalsScored : Dbl := Dbl.fin 0
  leagueAvgHomeGoalsConceded : Dbl := Dbl.fin 0
  leagueAvgAwayGoalsConceded : Dbl := Dbl.fin 0
  leagueAvgHomeCorners : Dbl := Dbl.fin 0
  leagueAvgAwayCorners : Dbl := Dbl.fin 0
  upcomingFixtures : List Fixture := []
  loadedTeams : StdMap String Team := StdMap.empty

/-- The local variables of `loadMultipleFiles` that its reading loop updates. -/
structure LoadAcc where
  loadedTeams : StdMap String Team := StdMap.empty
  allResults : List MatchResult := []
  rawData : String → TeamData := fun _ => {}
  totalHomeGoals : Int := 0
  totalAwayGoals : Int := 0
  totalMatches : Int := 0
  totalHomeCorners : Int := 0
  totalAwayCorners : Int := 0

/-- The update `rawData[name] = f(rawData[name])` of the raw totals of one team
(`operator[]` default-constructs a missing entry, all zero). -/
def updateRaw (rawData : String → TeamData) (name : String) (f : TeamData → TeamData) :
    String → TeamData :=
  fun k => if k = name then f (rawData name) else rawData k

/-- Lines 96-100: the five updates of the home side's raw totals. -/
def accumulateHome (homeGoals awayGoals homeCorners awayCorners : Int) (d : TeamData) :
    TeamData :=
  { d with
    homeMatches := d.homeMatches + 1
    homeGoalsScored := d.homeGoalsScored + homeGoals
    homeGoalsConceded := d.homeGoalsConceded + awayGoals
    homeCornersFor := d.homeCornersFor + homeCorners
    homeCornersAgainst := d.homeCornersAgainst + awayCorners }

/-- Lines 102-106: the five updates of the away side's raw totals. -/
def accumulateAway (homeGoals awayGoals homeCorners awayCorners : Int) (d : TeamData) :
    TeamData :=
  { d with
    awayMatches := d.awayMatches + 1
    awayGoalsScored := d.awayGoalsScored + awayGoals
    awayGoalsConceded := d.awayGoalsConceded + homeGoals
    awayCornersFor := d.awayCornersFor + awayCorners
    awayCornersAgainst := d.awayCornersAgainst + homeCorners }

/-- Lines 81-82: `if (loadedTeams.find(name) == loadedTeams.end()) loadedTeams[name] = Team(name)`. -/
def ensureTeam (teams : StdMap String Team) (name : String) : StdMap String Team :=
  match teams.find? name with
  | none => teams.set name (Team.ofName name)
  | some _ => teams

/-- Lines 89-90: a corner cell, `0` when it is empty or `std::stoi` throws. -/
def cornerCell (env : Env) (cell : String) : Int :=
  if cell ≠ "" then
    match env.stoi cell with
    | some n => n
    | none => 0
  else 0

/-- The body of the reading loop of `loadMultipleFiles` for one line, already split
at the commas into `row` (lines 69-114). A line without a comma has one cell and is
skipped by the size test, as by line 61. -/
def processRow (env : Env) (acc : LoadAcc) (row : List String) : LoadAcc :=
  if row.length < 19 then acc
  else
    let dateStr := row.getD 1 ""
    let homeTeamName := row.getD 3 ""
    let awayTeamName := row.getD 4 ""
    if homeTeamName = "" ∨ awayTeamName = "" then acc
    else
      let matchDate := parseDate env dateStr
      if matchDate = 0 then acc
      else
        let acc1 : LoadAcc :=
          { acc with
            loadedTeams := ensureTeam (ensureTeam acc.loadedTeams homeTeamName) awayTeamName }
        if startsWithDigit (row.getD 5 "") && startsWithDigit (row.getD 6 "") then
          match env.stoi (row.getD 5 "") with
          | none => acc1
          | some homeGoals =>
            match env.stoi (row.getD 6 "") with
            | none => acc1
            | some awayGoals =>
              let homeCorners := cornerCell env (row.getD 17 "")
              let awayCorners := cornerCell env (row.getD 18 "")
              let result : MatchResult :=
                { dateStr := dateStr, date := matchDate, homeTeamName := homeTeamName,
                  awayTeamName := awayTeamName, homeGoals := homeGoals, awayGoals := awayGoals }
              let rawData1 := updateRaw acc1.rawData homeTeamName
                (accumulateHome homeGoals awayGoals homeCorners awayCorners)
              let rawData2 := updateRaw rawData1 awayTeamName
                (accumulateAway homeGoals awayGoals homeCorners awayCorners)
              { acc1 with
                allResults := acc1.allResults ++ [result]
                rawData := rawData2
                totalHomeGoals := acc1.totalHomeGoals + homeGoals
                totalAwayGoals := acc1.totalAwayGoals + awayGoals
                totalHomeCorners := acc1.totalHomeCorners + homeCorners
                totalAwayCorners := acc1.totalAwayCorners + awayCorners
                totalMatches := acc1.totalMatches + 1 }
        else acc1

/-- One results file: `none` when it cannot be opened, otherwise its lines, each
split at the commas, the header line first. -/
abbrev ResultsFile := Option (List (List String))

/-- The loop over one file (lines 49-117): an unopenable file is skipped, the header
line is dropped, every other line goes through `processRow`. -/
def processFile (env : Env) (acc : LoadAcc) (file : ResultsFile) : LoadAcc :=
  match file with
  | none => acc
  | some lines => (lines.drop 1).foldl (processRow env) acc

/-- Lines 152-165: the overall strengths of one team from its raw totals. -/
def overallStrengths (avgHomeGoalsScored avgAwayGoalsScored avgHomeGoalsConceded
    avgAwayGoalsConceded avgHomeCorners avgAwayCorners : Dbl) (data : TeamData)
    (team : Team) : Team :=
  let team1 : Team :=
    if data.homeMatches > 0 then
      { team with
        homeAttackStrength :=
          Dbl.div (Dbl.div (Dbl.ofInt data.homeGoalsScored) (Dbl.ofInt data.homeMatches))
            avgHomeGoalsScored
        homeDefenseStrength :=
          Dbl.div (Dbl.div (Dbl.ofInt data.homeGoalsConceded) (Dbl.ofInt data.homeMatches))
            avgHomeGoalsConceded
        homeCornerAttackStrength :=
          Dbl.div (Dbl.div (Dbl.ofInt data.homeCornersFor) (Dbl.ofInt data.homeMatches))
            avgHomeCorners
        homeCornerDefenseStrength :=
          Dbl.div (Dbl.div (Dbl.ofInt data.homeCornersAgainst) (Dbl.ofInt data.homeMatches))
            avgAwayCorners }
    else team
  if data.awayMatches > 0 then
    { team1 with
      awayAttackStrength :=
        Dbl.div (Dbl.div (Dbl.ofInt data.awayGoalsScored) (Dbl.ofInt data.awayMatches))
          avgAwayGoalsScored
      awayDefenseStrength :=
        Dbl.div (Dbl.div (Dbl.ofInt data.awayGoalsConceded) (Dbl.ofInt data.awayMatches))
          avgAwayGoalsConceded
      awayCornerAttackStrength :=
        Dbl.div (Dbl.div (Dbl.ofInt data.awayCornersFor) (Dbl.ofInt data.awayMatches))
          avgAwayCorners
      awayCornerDefenseStrength :=
        Dbl.div (Dbl.div (Dbl.ofInt data.awayCornersAgainst) (Dbl.ofInt data.awayMatches))
          avgHomeCorners }
  else team1

/-- Lines 146-150: the matches of the sorted list in which the team plays, appended
to its history. -/
def attachHistory (allResults : List MatchResult) (teamName : String) (team : Team) : Team :=
  { team with
    matchHistory := team.matchHistory ++
      allResults.filter
        (fun result => decide (result.homeTeamName = teamName ∨ result.awayTeamName = teamName)) }

namespace DataLoader

/-- The method `DataLoader::loadMultipleFiles`: the returned flag and the loader
afterwards. -/
def loadMultipleFiles (env : Env) (self : DataLoader) (files : List ResultsFile) :
    Bool × DataLoader :=
  let acc := files.foldl (processFile env) { loadedTeams := StdMap.empty }
  if acc.totalMatches = 0 then
    (false, { self with loadedTeams := acc.loadedTeams })
  else
    let avgHomeGoalsScored := Dbl.div (Dbl.ofInt acc.totalHomeGoals) (Dbl.ofInt acc.totalMatches)
    let avgAwayGoalsScored := Dbl.div (Dbl.ofInt acc.totalAwayGoals) (Dbl.ofInt acc.totalMatches)
    let avgHomeGoalsConceded := avgAwayGoalsScored
    let avgAwayGoalsConceded := avgHomeGoalsScored
    let avgHomeCorners := Dbl.div (Dbl.ofInt acc.totalHomeCorners) (Dbl.ofInt acc.totalMatches)
    let avgAwayCorners := Dbl.div (Dbl.ofInt acc.totalAwayCorners) (Dbl.ofInt acc.totalMatches)
    let sorted := env.sortByDate acc.allResults
    (true,
      { self with
        leagueAvgHomeGoalsScored := avgHomeGoalsScored
        leagueAvgAwayGoalsScored := avgAwayGoalsScored
        leagueAvgHomeGoalsConceded := avgHomeGoalsConceded
        leagueAvgAwayGoalsConceded := avgAwayGoalsConceded
        leagueAvgHomeCorners := avgHomeCorners
        leagueAvgAwayCorners := avgAwayCorners
        loadedTeams := acc.loadedTeams.mapVals (fun teamName team =>
          overallStrengths avgHomeGoalsScored avgAwayGoalsScored avgHomeGoalsConceded
            avgAwayGoalsConceded avgHomeCorners avgAwayCorners (acc.rawData teamName)
            (attachHistory sorted teamName team)) })

end DataLoader

/-! ### Form -/

/-- The state of the history scan of `calculateFormStrengths` for one team: the
raw totals and the two local counters `homeMatches`, `awayMatches`. -/
structure FormAcc where
  rawData : String → TeamData
  homeMatches : Int
  awayMatches : Int

/-- Lines 228-238: the update of the scan state by one match dated before the
fixture. -/
def formStep (teamName : String) (formMatches : Int) (result : MatchResult) (st : FormAcc) :
    FormAcc :=
  if result.homeTeamName = teamName ∧ st.homeMatches < formMatches then
    { rawData := updateRaw st.rawData teamName (fun d =>
        { d with
          homeMatches := d.homeMatches + 1
          homeGoalsScored := d.homeGoalsScored + result.homeGoals
          homeGoalsConceded := d.homeGoalsConceded + result.awayGoals })
      homeMatches := st.homeMatches + 1
      awayMatches := st.awayMatches }
  else if result.awayTeamName = teamName ∧ st.awayMatches < formMatches then
    { rawData := updateRaw st.rawData teamName (fun d =>
        { d with
          awayMatches := d.awayMatches + 1
          awayGoalsScored := d.awayGoalsScored + result.awayGoals
          awayGoalsConceded := d.awayGoalsConceded + result.homeGoals })
      homeMatches := st.homeMatches
      awayMatches := st.awayMatches + 1 }
  else st

/-- Lines 222-240: the scan of a history given most recent first (the reverse
iteration of the stored vector), with its `continue` and its `break`. -/
def formScan (teamName : String) (fixtureDate : TimePoint) (formMatches : Int) :
    List MatchResult → FormAcc → FormAcc
  | [], st => st
  | result :: rest, st =>
    if result.date ≥ fixtureDate then formScan teamName fixtureDate formMatches rest st
    else
      let st1 := formStep teamName formMatches result st
      if st1.homeMatches ≥ formMatches ∧ st1.awayMatches ≥ formMatches then st1
      else formScan teamName fixtureDate formMatches rest st1

/-- Lines 214-241 for one entry of `loadedTeams`: the fresh form team and the scan
of the team's history. -/
def formCollect (fixtureDate : TimePoint) (formMatches : Int)
    (st : StdMap String Team × (String → TeamData)) (pair : String × Team) :
    StdMap String Team × (String → TeamData) :=
  (st.1.set pair.1 (Team.ofName pair.1),
    (formScan pair.1 fixtureDate formMatches pair.2.matchHistory.reverse
      { rawData := st.2, homeMatches := 0, awayMatches := 0 }).rawData)

/-- Lines 247-269: the form strengths of one team from its windowed raw totals
`data`, the league averages of the loader, and `overall`, the value of
`loadedTeams[teamName]`. -/
def formStrengths (self : DataLoader) (data : TeamData) (overall : Team) (team : Team) : Team :=
  let team1 : Team :=
    if data.homeMatches > 0 then
      { team with
        homeAttackStrength :=
          Dbl.div (Dbl.div (Dbl.ofInt data.homeGoalsScored) (Dbl.ofInt data.homeMatches))
            self.leagueAvgHomeGoalsScored
        homeDefenseStrength :=
          Dbl.div (Dbl.div (Dbl.ofInt data.homeGoalsConceded) (Dbl.ofInt data.homeMatches))
            self.leagueAvgHomeGoalsConceded }
    else
      { team with
        homeAttackStrength := overall.homeAttackStrength
        homeDefenseStrength := overall.homeDefenseStrength }
  let team2 : Team :=
    if data.awayMatches > 0 then
      { team1 with
        awayAttackStrength :=
          Dbl.div (Dbl.div (Dbl.ofInt data.awayGoalsScored) (Dbl.ofInt data.awayMatches))
            self.leagueAvgAwayGoalsScored
        awayDefenseStrength :=
          Dbl.div (Dbl.div (Dbl.ofInt data.awayGoalsConceded) (Dbl.ofInt data.awayMatches))
            self.leagueAvgAwayGoalsConceded }
    else
      { team1 with
        awayAttackStrength := overall.awayAttackStrength
        awayDefenseStrength := overall.awayDefenseStrength }
  { team2 with
    homeCornerAttackStrength := overall.homeCornerAttackStrength
    homeCornerDefenseStrength := overall.homeCornerDefenseStrength
    awayCornerAttackStrength := overall.awayCornerAttackStrength
    awayCornerDefenseStrength := overall.awayCornerDefenseStrength }

/-- The effect on a non-const map of the access `m[k]`: a missing key is inserted
with the default-constructed value `d`. -/
def touch {V : Type} (m : StdMap String V) (k : String) (d : V) : StdMap String V :=
  match m.find? k with
  | some _ => m
  | none => m.set k d

/-- Lines 210-241: the first loop of `calculateFormStrengths` over `loadedTeams`,
giving the fresh `formTeams` and the windowed `rawData`. -/
def formCollected (self : DataLoader) (fixtureDate : TimePoint) (formMatches : Int) :
    StdMap String Team × (String → TeamData) :=
  self.loadedTeams.entries.foldl (formCollect fixtureDate formMatches)
    (StdMap.empty, fun _ => {})

namespace DataLoader

/-- The method `DataLoader::calculateFormStrengths`: the returned map and the loader
afterwards. The second loop reads `loadedTeams[teamName]` through `operator[]`;
the value read is `getD` of the stored map (an entry inserted for another key does
not change it), and the insertions of the reads are applied to the loader. -/
def calculateFormStrengths (env : Env) (self : DataLoader) (fixtureDateStr : String)
    (formMatches : Int) : StdMap String Team × DataLoader :=
  let fixtureDate := parseDate env fixtureDateStr
  if fixtureDate = 0 then (StdMap.empty, self)
  else
    let collected := formCollected self fixtureDate formMatches
    let formTeams := collected.1.mapVals (fun teamName team =>
      formStrengths self (collected.2 teamName)
        (self.loadedTeams.getD teamName Team.default) team)
    (formTeams,
      { self with
        loadedTeams := collected.1.keys.foldl (fun m k => touch m k Team.default)
          self.loadedTeams })

end DataLoader

/-! ### Head to head -/

/-- The state of the scan of `getHeadToHeadStats`. -/
structure H2HAcc where
  stats : H2HStats := {}
  totalGoalsHome : Int := 0
  totalGoalsAway : Int := 0
  bttsCount : Int := 0
  over25Count : Int := 0

/-- Lines 319-347: the update of the scan state by one head-to-head match;
`homeTeamWasHome` tells whether the first team hosted it. -/
def h2hStep (homeTeamWasHome : Bool) (m : MatchResult) (acc : H2HAcc) : H2HAcc :=
  let goalsForHomeTeam := if homeTeamWasHome then m.homeGoals else m.awayGoals
  let goalsForAwayTeam := if homeTeamWasHome then m.awayGoals else m.homeGoals
  let stats1 : H2HStats :=
    { acc.stats with
      recentH2H := acc.stats.recentH2H ++ [m]
      totalMatches := acc.stats.totalMatches + 1 }
  let stats2 : H2HStats :=
    if goalsForHomeTeam > goalsForAwayTeam then
      { stats1 with homeTeamWins := stats1.homeTeamWins + 1 }
    else if goalsForAwayTeam > goalsForHomeTeam then
      { stats1 with awayTeamWins := stats1.awayTeamWins + 1 }
    else { stats1 with draws := stats1.draws + 1 }
  { stats := stats2
    totalGoalsHome := acc.totalGoalsHome + goalsForHomeTeam
    totalGoalsAway := acc.totalGoalsAway + goalsForAwayTeam
    bttsCount := if goalsForHomeTeam > 0 ∧ goalsForAwayTeam > 0 then acc.bttsCount + 1
      else acc.bttsCount
    over25Count := if goalsForHomeTeam + goalsForAwayTeam > 2 then acc.over25Count + 1
      else acc.over25Count }

/-- Lines 297-348: the scan of a history given most recent first, stopped by the
loop condition `stats.totalMatches < maxMatches`. -/
def h2hScan (homeTeam awayTeam : String) (cutoffDate : TimePoint) (maxMatches : Int) :
    List MatchResult → H2HAcc → H2HAcc
  | [], acc => acc
  | m :: rest, acc =>
    if acc.stats.totalMatches < maxMatches then
      if m.date ≥ cutoffDate then h2hScan homeTeam awayTeam cutoffDate maxMatches rest acc
      else if m.homeTeamName = homeTeam ∧ m.awayTeamName = awayTeam then
        h2hScan homeTeam awayTeam cutoffDate maxMatches rest (h2hStep true m acc)
      else if m.homeTeamName = awayTeam ∧ m.awayTeamName = homeTeam then
        h2hScan homeTeam awayTeam cutoffDate maxMatches rest (h2hStep false m acc)
      else h2hScan homeTeam awayTeam cutoffDate maxMatches rest acc
    else acc

/-- Lines 350-358: the averages and percentages, computed when a match was found. -/
def h2hFinish (acc : H2HAcc) : H2HStats :=
  if acc.stats.totalMatches > 0 then
    { acc.stats with
      avgHomeGoals := Dbl.div (Dbl.ofInt acc.totalGoalsHome) (Dbl.ofInt acc.stats.totalMatches)
      avgAwayGoals := Dbl.div (Dbl.ofInt acc.totalGoalsAway) (Dbl.ofInt acc.stats.totalMatches)
      bttsPercentage :=
        Dbl.mul (Dbl.div (Dbl.ofInt acc.bttsCount) (Dbl.ofInt acc.stats.totalMatches))
          (Dbl.fin 100)
      over25Percentage :=
        Dbl.mul (Dbl.div (Dbl.ofInt acc.over25Count) (Dbl.ofInt acc.stats.totalMatches))
          (Dbl.fin 100) }
  else acc.stats

/-- Lines 281-284: the cutoff of `getHeadToHeadStats`. -/
def h2hCutoff (env : Env) (beforeDate : String) : TimePoint :=
  if beforeDate ≠ "" then parseDate env beforeDate else timePointMax

namespace DataLoader

/-- The method `DataLoader::getHeadToHeadStats`. -/
def getHeadToHeadStats (env : Env) (self : DataLoader) (homeTeam awayTeam : String)
    (beforeDate : String) (maxMatches : Int) : H2HStats :=
  let cutoffDate := h2hCutoff env beforeDate
  match self.loadedTeams.find? homeTeam, self.loadedTeams.find? awayTeam with
  | some team, some _ =>
    h2hFinish (h2hScan homeTeam awayTeam cutoffDate maxMatches team.matchHistory.reverse {})
  | _, _ => {}

end DataLoader

/-! ## `Match.h` -/

/-- The four rates of one fixture. -/
structure Rates where
  lambdaHomeG : Dbl
  lambdaAwayG : Dbl
  lambdaHomeC : Dbl
  lambdaAwayC : Dbl
deriving DecidableEq

/-- The four numbers drawn in one trial. -/
structure Sample where
  homeGoals : Int
  awayGoals : Int
  homeCorners : Int
  awayCorners : Int
deriving DecidableEq

/-- The statement `if (lambda < 0.01) lambda = 0.01;`. -/
def floorRate (lambda : Dbl) : Dbl :=
  if Dbl.lt lambda (Dbl.fin (1 / 100)) then Dbl.fin (1 / 100) else lambda

/-- Lines 115-123 of `Match::simulateSingleGame`: the four rates handed to the
Poisson distributions. -/
def gameRates (home away : Team) (avgHomeGoals avgAwayGoals avgHomeCorners
    avgAwayCorners : Dbl) : Rates :=
  { lambdaHomeG :=
      floorRate (Dbl.mul (Dbl.mul home.homeAttackStrength away.awayDefenseStrength) avgHomeGoals)
    lambdaAwayG :=
      floorRate (Dbl.mul (Dbl.mul away.awayAttackStrength home.homeDefenseStrength) avgAwayGoals)
    lambdaHomeC :=
      floorRate (Dbl.mul (Dbl.mul home.homeCornerAttackStrength away.awayCornerDefenseStrength)
        avgHomeCorners)
    lambdaAwayC :=
      floorRate (Dbl.mul (Dbl.mul away.awayCornerAttackStrength home.homeCornerDefenseStrength)
        avgAwayCorners) }

/-- The statement `if (lambda < 0.01) lambda = 0.01;` in binary64; the literal `0.01`
is the double nearest to 1/100. -/
def floorRateF64 (lambda : F64) : F64 :=
  if F64.lt lambda (F64.round 1 100) = true then F64.round 1 100 else lambda

/-- One rate of `simulateSingleGame` (lines 115-122) as binary64 evaluates it: the
product `attack * defense * average`, multiplied from left to right and rounded after
each multiplication, then floored. -/
def gameRateF64 (attack defense average : F64) : F64 :=
  floorRateF64 (F64.mul (F64.mul attack defense) average)

/-- The class `Match`: the last sampled game, the tallies and the trial count. -/
structure Match where
  homeGoals : Int := 0
  awayGoals : Int := 0
  homeWins : Int := 0
  draws : Int := 0
  awayWins : Int := 0
  over05 : Int := 0
  over15 : Int := 0
  over25 : Int := 0
  scoreCounts : StdMap (Int × Int) Int := StdMap.empty
  bttsCount : Int := 0
  homeCorners : Int := 0
  awayCorners : Int := 0
  totalSimulatedCorners : Int := 0
  cornerCounts : StdMap Int Int := StdMap.empty
  simulationsToRun : Int := 10000

/-- The statement `counts[key]++` on a `std::map` of counters. -/
def bump {K : Type} [DecidableEq K] (counts : StdMap K Int) (key : K) : StdMap K Int :=
  counts.set key (counts.getD key 0 + 1)

namespace Match

/-- The method `Match::simulateSingleGame`; `draw` is the four Poisson draws of
this call from the static generator, as a function of the four rates. -/
def simulateSingleGame (self : Match) (draw : Rates → Sample) (home away : Team)
    (avgHomeGoals avgAwayGoals avgHomeCorners avgAwayCorners : Dbl) : Match :=
  let s := draw (gameRates home away avgHomeGoals avgAwayGoals avgHomeCorners avgAwayCorners)
  { self with
    homeGoals := s.homeGoals
    awayGoals := s.awayGoals
    homeCorners := s.homeCorners
    awayCorners := s.awayCorners }

/-- Lines 32-52: the tallies of the game just sampled. -/
def tally (self : Match) : Match :=
  let m1 : Match :=
    if self.homeGoals > self.awayGoals then { self with homeWins := self.homeWins + 1 }
    else if self.homeGoals < self.awayGoals then { self with awayWins := self.awayWins + 1 }
    else { self with draws := self.draws + 1 }
  let totalGoals := m1.homeGoals + m1.awayGoals
  let m2 : Match := if totalGoals > 0 then { m1 with over05 := m1.over05 + 1 } else m1
  let m3 : Match := if totalGoals > 1 then { m2 with over15 := m2.over15 + 1 } else m2
  let m4 : Match := if totalGoals > 2 then { m3 with over25 := m3.over25 + 1 } else m3
  let m5 : Match :=
    if m4.homeGoals > 0 ∧ m4.awayGoals > 0 then { m4 with bttsCount := m4.bttsCount + 1 }
    else m4
  let totalCorners := m5.homeCorners + m5.awayCorners
  { m5 with
    totalSimulatedCorners := m5.totalSimulatedCorners + totalCorners
    cornerCounts := bump m5.cornerCounts totalCorners
    scoreCounts := bump m5.scoreCounts (m5.homeGoals, m5.awayGoals) }

/-- Lines 20-25: the reset at the start of `runFullSimulation`. -/
def reset (self : Match) : Match :=
  { self with
    homeWins := 0, draws := 0, awayWins := 0
    over05 := 0, over15 := 0, over25 := 0
    totalSimulatedCorners := 0
    cornerCounts := StdMap.empty
    scoreCounts := StdMap.empty
    bttsCount := 0 }

/-- The method `Match::runFullSimulation`; `gen i` is the draw of trial `i`. -/
def runFullSimulation (self : Match) (gen : Nat → Rates → Sample) (home away : Team)
    (avgHomeGoals avgAwayGoals avgHomeCorners avgAwayCorners : Dbl) : Match :=
  (List.range self.simulationsToRun.toNat).foldl
    (fun m i =>
      tally (simulateSingleGame m (gen i) home away avgHomeGoals avgAwayGoals avgHomeCorners
        avgAwayCorners))
    (reset self)

end Match

/-- The expression `(simulationsToRun > 0) ? (double)count / simulationsToRun * 100.0 : 0.0`
shared by the percentage getters. -/
def percentOf (count simulationsToRun : Int) : Dbl :=
  if simulationsToRun > 0 then
    Dbl.mul (Dbl.div (Dbl.ofInt count) (Dbl.ofInt simulationsToRun)) (Dbl.fin 100)
  else Dbl.fin 0

/-- The percentage expression of the getters as binary64 evaluates it, for a count
and a trial count that are not negative. -/
def percentOfF64 (count simulationsToRun : Nat) : F64 :=
  if simulationsToRun > 0 then
    F64.mul (F64.div (F64.ofNat count) (F64.ofNat simulationsToRun)) (F64.ofNat 100)
  else F64.ofNat 0

/-- The order `operator<` of `std::pair<int, std::pair<int, int>>`: lexicographic on
the count, then the home goals, then the away goals. -/
def entryLt (a b : Int × (Int × Int)) : Prop :=
  a.1 < b.1 ∨ (a.1 = b.1 ∧ (a.2.1 < b.2.1 ∨ (a.2.1 = b.2.1 ∧ a.2.2 < b.2.2)))

instance entryLtDecidable (a b : Int × (Int × Int)) : Decidable (entryLt a b) := by
  unfold entryLt
  exact inferInstance

/-- The relation "not less": `a` may stand before `b` in a descending sequence. -/
def entryGe (a b : Int × (Int × Int)) : Prop := ¬ entryLt a b

instance entryGeDecidable (a b : Int × (Int × Int)) : Decidable (entryGe a b) := by
  unfold entryGe
  exact inferInstance

/-- The label of a score, `std::to_string(h) + " - " + std::to_string(a)`. -/
def scoreLabel (score : Int × Int) : String :=
  toString score.1 ++ " - " ++ toString score.2

namespace Match

/-- The getter `Match::getHomeWinPercent`. -/
def getHomeWinPercent (self : Match) : Dbl := percentOf self.homeWins self.simulationsToRun

/-- The getter `Match::getDrawPercent`. -/
def getDrawPercent (self : Match) : Dbl := percentOf self.draws self.simulationsToRun

/-- The getter `Match::getAwayWinPercent`. -/
def getAwayWinPercent (self : Match) : Dbl := percentOf self.awayWins self.simulationsToRun

/-- The getter `Match::getOver05Percent`. -/
def getOver05Percent (self : Match) : Dbl := percentOf self.over05 self.simulationsToRun

/-- The getter `Match::getOver15Percent`. -/
def getOver15Percent (self : Match) : Dbl := percentOf self.over15 self.simulationsToRun

/-- The getter `Match::getOver25Percent`. -/
def getOver25Percent (self : Match) : Dbl := percentOf self.over25 self.simulationsToRun

/-- The getter `Match::getBttsYesPercent`. -/
def getBttsYesPercent (self : Match) : Dbl := percentOf self.bttsCount self.simulationsToRun

/-- The getter `Match::getBttsNoPercent`. -/
def getBttsNoPercent (self : Match) : Dbl := Dbl.sub (Dbl.fin 100) (getBttsYesPercent self)

/-- The getter `Match::getAverageTotalCorners`. -/
def getAverageTotalCorners (self : Match) : Dbl :=
  if self.simulationsToRun > 0 then
    Dbl.div (Dbl.ofInt self.totalSimulatedCorners) (Dbl.ofInt self.simulationsToRun)
  else Dbl.fin 0

/-- The loop of `Match::getCornerPercent` (lines 72-76): the local `count` after the
pass over `cornerCounts`, the key of an entry converted to `double` for the
comparison with `line`. -/
def cornerTally (self : Match) (line : Dbl) (over : Bool) : Int :=
  self.cornerCounts.entries.foldl
    (fun count pair =>
      if over = true ∧ Dbl.lt line (Dbl.ofInt pair.1) = true then count + pair.2
      else if over = false ∧ Dbl.lt (Dbl.ofInt pair.1) line = true then count + pair.2
      else count)
    0

/-- The method `Match::getCornerPercent`. -/
def getCornerPercent (self : Match) (line : Dbl) (over : Bool) : Dbl :=
  percentOf (cornerTally self line over) self.simulationsToRun

/-- The method `Match::getCornerPercent`, its return expression evaluated in
binary64. -/
def getCornerPercentF64 (self : Match) (line : Dbl) (over : Bool) : F64 :=
  percentOfF64 (cornerTally self line over).toNat self.simulationsToRun.toNat

/-- The local `sortedScores` of `Match::getMostLikelyScores` after
`std::sort(sortedScores.rbegin(), sortedScores.rend())`: the pairs (count, score) of
`scoreCounts` in descending order. The pairs are pairwise distinct (the scores are
the keys of a map), so the descending arrangement is unique and any sort yields it;
insertion sort stands for `std::sort`. -/
def sortedScores (self : Match) : List (Int × (Int × Int)) :=
  (self.scoreCounts.entries.map (fun p => (p.2, p.1))).insertionSort entryGe

/-- The method `Match::getMostLikelyScores`: the first `topN` pairs of `sortedScores`
(all of them when there are fewer, none when `topN <= 0`), each as its label and its
percentage of the trials. -/
def getMostLikelyScores (self : Match) (topN : Int) : List (String × Dbl) :=
  ((sortedScores self).take topN.toNat).map
    (fun e => (scoreLabel e.2, percentOf e.1 self.simulationsToRun))

end Match

/-! ## Reference notions for the statements -/

/-- An accepted completed match: the record pushed to `allResults` together with
the two corner counts read from the same row. -/
structure Completed where
  result : MatchResult
  homeCorners : Int
  awayCorners : Int
deriving DecidableEq

/-- The acceptance of a row as a completed match (lines 69-90): at least 19 cells,
both team names present, a date that parses, both score cells starting with a digit
and converted by `std::stoi`. -/
def completedRow (env : Env) (row : List String) : Option Completed :=
  if 19 ≤ row.length ∧ row.getD 3 "" ≠ "" ∧ row.getD 4 "" ≠ "" ∧
      parseDate env (row.getD 1 "") ≠ 0 ∧
      startsWithDigit (row.getD 5 "") = true ∧ startsWithDigit (row.getD 6 "") = true then
    match env.stoi (row.getD 5 ""), env.stoi (row.getD 6 "") with
    | some homeGoals, some awayGoals =>
      some
        { result :=
            { dateStr := row.getD 1 "", date := parseDate env (row.getD 1 ""),
              homeTeamName := row.getD 3 "", awayTeamName := row.getD 4 "",
              homeGoals := homeGoals, awayGoals := awayGoals }
          homeCorners := cornerCell env (row.getD 17 "")
          awayCorners := cornerCell env (row.getD 18 "") }
    | _, _ => none
  else none

/-- The two team names of a row that passes the checks of lines 69-78, whether or
not it carries a score. -/
def rowTeams (env : Env) (row : List String) : Option (String × String) :=
  if 19 ≤ row.length ∧ row.getD 3 "" ≠ "" ∧ row.getD 4 "" ≠ "" ∧
      parseDate env (row.getD 1 "") ≠ 0 then
    some (row.getD 3 "", row.getD 4 "")
  else none

/-- The data lines of all the files that open, in reading order. -/
def dataRows (files : List ResultsFile) : List (List String) :=
  files.flatMap (fun file =>
    match file with
    | none => []
    | some lines => lines.drop 1)

/-- The accepted completed matches of the input, in reading order. -/
def acceptedMatches (env : Env) (files : List ResultsFile) : List Completed :=
  (dataRows files).filterMap (completedRow env)

/-- The accepted matches in which team `t` is the home side. -/
def homeMatchesOf (t : String) (ms : List Completed) : List Completed :=
  ms.filter (fun c => decide (c.result.homeTeamName = t))

/-- The accepted matches in which team `t` is the away side. -/
def awayMatchesOf (t : String) (ms : List Completed) : List Completed :=
  ms.filter (fun c => decide (c.result.awayTeamName = t))

/-- The sum of a quantity over a list of accepted matches. -/
def total (f : Completed → Int) (ms : List Completed) : Int :=
  (ms.map f).sum

/-- The number of matches of a list, as an `int`. -/
def countOf {α : Type} (ms : List α) : Int :=
  (ms.length : Int)

/-- The raw totals of team `t` over a list of accepted matches, as sums over the
matches it hosts and the matches it visits. -/
def rawTotals (t : String) (ms : List Completed) : TeamData :=
  { homeMatches := countOf (homeMatchesOf t ms)
    awayMatches := countOf (awayMatchesOf t ms)
    homeGoalsScored := total (fun c => c.result.homeGoals) (homeMatchesOf t ms)
    awayGoalsScored := total (fun c => c.result.awayGoals) (awayMatchesOf t ms)
    homeGoalsConceded := total (fun c => c.result.awayGoals) (homeMatchesOf t ms)
    awayGoalsConceded := total (fun c => c.result.homeGoals) (awayMatchesOf t ms)
    homeCornersFor := total (fun c => c.homeCorners) (homeMatchesOf t ms)
    awayCornersFor := total (fun c => c.awayCorners) (awayMatchesOf t ms)
    homeCornersAgainst := total (fun c => c.awayCorners) (homeMatchesOf t ms)
    awayCornersAgainst := total (fun c => c.homeCorners) (awayMatchesOf t ms) }

/-- The field-wise sum of two records of raw totals. -/
def TeamData.add (a b : TeamData) : TeamData :=
  { homeMatches := a.homeMatches + b.homeMatches
    awayMatches := a.awayMatches + b.awayMatches
    homeGoalsScored := a.homeGoalsScored + b.homeGoalsScored
    awayGoalsScored := a.awayGoalsScored + b.awayGoalsScored
    homeGoalsConceded := a.homeGoalsConceded + b.homeGoalsConceded
    awayGoalsConceded := a.awayGoalsConceded + b.awayGoalsConceded
    homeCornersFor := a.homeCornersFor + b.homeCornersFor
    awayCornersFor := a.awayCornersFor + b.awayCornersFor
    homeCornersAgainst := a.homeCornersAgainst + b.homeCornersAgainst
    awayCornersAgainst := a.awayCornersAgainst + b.awayCornersAgainst }

/-- The effect of one accepted match on the totals of the reading loop
(lines 92-112), the team map left as it is. -/
def applyCompleted (acc : LoadAcc) (c : Completed) : LoadAcc :=
  { acc with
    allResults := acc.allResults ++ [c.result]
    rawData :=
      updateRaw
        (updateRaw acc.rawData c.result.homeTeamName
          (accumulateHome c.result.homeGoals c.result.awayGoals c.homeCorners c.awayCorners))
        c.result.awayTeamName
        (accumulateAway c.result.homeGoals c.result.awayGoals c.homeCorners c.awayCorners)
    totalHomeGoals := acc.totalHomeGoals + c.result.homeGoals
    totalAwayGoals := acc.totalAwayGoals + c.result.awayGoals
    totalHomeCorners := acc.totalHomeCorners + c.homeCorners
    totalAwayCorners := acc.totalAwayCorners + c.awayCorners
    totalMatches := acc.totalMatches + 1 }

/-- The team map after the team-creation step of a row (lines 81-82). -/
def rowTeamStep (env : Env) (teams : StdMap String Team) (row : List String) :
    StdMap String Team :=
  match rowTeams env row with
  | none => teams
  | some p => ensureTeam (ensureTeam teams p.1) p.2

/-- Every stored team is the freshly constructed team of its key. -/
def AllFresh (teams : StdMap String Team) : Prop :=
  ∀ k v, teams.find? k = some v → v = Team.ofName k

/-- The per-match average of a quantity over a list of accepted matches, computed
as the program does: `static_cast<double>(sum) / count`. -/
def perMatch (f : Completed → Int) (ms : List Completed) : Dbl :=
  Dbl.div (Dbl.ofInt (total f ms)) (Dbl.ofInt (countOf ms))

/-- The relation between a product of strengths and the rate the simulator uses:
the rate is the product, replaced by `0.01` when the product compares below `0.01`;
the rate does not compare below `0.01`; and the rate is at least `0.01` when the
product is a number. -/
def IsFloorOf (product rate : Dbl) : Prop :=
  rate = (if Dbl.lt product (Dbl.fin (1 / 100)) = true then Dbl.fin (1 / 100) else product) ∧
  Dbl.lt rate (Dbl.fin (1 / 100)) = false ∧
  (Dbl.isNaN product = false → Dbl.le (Dbl.fin (1 / 100)) rate = true)

/-- The samples of a run of `runFullSimulation`, in trial order: trial `i` draws
`gen i` at the four rates of the fixture, for `i` below `simulationsToRun`. -/
def trialSamples (self : Match) (gen : Nat → Rates → Sample) (home away : Team)
    (avgHomeGoals avgAwayGoals avgHomeCorners avgAwayCorners : Dbl) : List Sample :=
  (List.range self.simulationsToRun.toNat).map (fun i =>
    gen i (gameRates home away avgHomeGoals avgAwayGoals avgHomeCorners avgAwayCorners))

/-- The number of samples of a list that satisfy a test. -/
def countWhere (p : Sample → Bool) (samples : List Sample) : Int :=
  countOf (samples.filter p)

/-- A match of the history qualifies for the head-to-head list of `teamA` against
`teamB` when its date is strictly before the cutoff and its two sides are the two
teams, in either order. -/
def h2hQualifies (teamA teamB : String) (cutoffDate : TimePoint) (m : MatchResult) : Bool :=
  decide (m.date < cutoffDate) &&
    (decide (m.homeTeamName = teamA ∧ m.awayTeamName = teamB) ||
      decide (m.homeTeamName = teamB ∧ m.awayTeamName = teamA))

/-- The qualification in terms of the cutoff string: no bound on the date when the
string is empty, otherwise the date is strictly before the parsed string. -/
def qualifiesBefore (env : Env) (teamA teamB beforeDate : String) (m : MatchResult) : Bool :=
  (decide (beforeDate = "") || decide (m.date < parseDate env beforeDate)) &&
    (decide (m.homeTeamName = teamA ∧ m.awayTeamName = teamB) ||
      decide (m.homeTeamName = teamB ∧ m.awayTeamName = teamA))

/-- The goals of `teamA` in a match against it: the home goals when it hosted. -/
def goalsOf (teamA : String) (m : MatchResult) : Int :=
  if m.homeTeamName = teamA then m.homeGoals else m.awayGoals

/-- The goals of the opponent of `teamA` in a match: the away goals when `teamA`
hosted. -/
def goalsAgainst (teamA : String) (m : MatchResult) : Int :=
  if m.homeTeamName = teamA then m.awayGoals else m.homeGoals

/-- The sum of a quantity over a list of matches. -/
def sumOver (f : MatchResult → Int) (ms : List MatchResult) : Int :=
  (ms.map f).sum

/-- The home window of team `t` for the reference date `d` and the window size `w`:
the `w` most recent matches of the history (all of them when there are fewer) that
are dated strictly before `d` and have `t` as home side, most recent first. -/
def homeWindow (t : String) (d : TimePoint) (w : Int) (history : List MatchResult) :
    List MatchResult :=
  (history.reverse.filter (fun m => decide (m.date < d ∧ m.homeTeamName = t))).take w.toNat

/-- The away window of team `t`: as `homeWindow`, with `t` as away side. -/
def awayWindow (t : String) (d : TimePoint) (w : Int) (history : List MatchResult) :
    List MatchResult :=
  (history.reverse.filter (fun m => decide (m.date < d ∧ m.awayTeamName = t))).take w.toNat

/-- The raw totals of a home window `hs` and an away window `as`: match counts and
goal sums, the corner totals left at zero. -/
def windowTotals (hs as : List MatchResult) : TeamData :=
  { homeMatches := countOf hs
    awayMatches := countOf as
    homeGoalsScored := sumOver (fun m => m.homeGoals) hs
    awayGoalsScored := sumOver (fun m => m.awayGoals) as
    homeGoalsConceded := sumOver (fun m => m.awayGoals) hs
    awayGoalsConceded := sumOver (fun m => m.homeGoals) as }

/-- The per-match average of a quantity over a window of matches, computed as the
program does: `static_cast<double>(sum) / count`. -/
def windowAverage (f : MatchResult → Int) (ms : List MatchResult) : Dbl :=
  Dbl.div (Dbl.ofInt (sumOver f ms)) (Dbl.ofInt (countOf ms))

/-- The distinct scorelines of a sequence of samples, each listed once. -/
def simulatedScores (samples : List Sample) : List (Int × Int) :=
  (samples.map (fun s => (s.homeGoals, s.awayGoals))).dedup

/-- The number of samples with the scoreline `score`. -/
def scoreCount (score : Int × Int) (samples : List Sample) : Int :=
  countWhere (fun s => decide ((s.homeGoals, s.awayGoals) = score)) samples

/-- A double that is a number and not an infinity. -/
def Dbl.isFinite : Dbl → Bool
  | Dbl.fin _ => true
  | _ => false

/-- All eight ratios of a team are finite numbers. -/
def Team.ratiosFinite (team : Team) : Bool :=
  Dbl.isFinite team.homeAttackStrength && Dbl.isFinite team.homeDefenseStrength &&
  Dbl.isFinite team.awayAttackStrength && Dbl.isFinite team.awayDefenseStrength &&
  Dbl.isFinite team.homeCornerAttackStrength && Dbl.isFinite team.homeCornerDefenseStrength &&
  Dbl.isFinite team.awayCornerAttackStrength && Dbl.isFinite team.awayCornerDefenseStrength

/-- A league average is a finite number other than zero: a divisor that leaves every
finite quotient finite. -/
def Dbl.isDivisor : Dbl → Bool
  | Dbl.fin q => decide (q ≠ 0)
  | _ => false

/-- The match-weighted sum of a ratio over the teams of a map: the sum over the
entries of `weight(name) x ratio(team)`, in the arithmetic of `Dbl`. -/
def weightedRatioSum (weight : String → Int) (ratio : Team → Dbl)
    (teams : StdMap String Team) : Dbl :=
  teams.entries.foldl
    (fun acc p => Dbl.add acc (Dbl.mul (Dbl.ofInt (weight p.1)) (ratio p.2))) (Dbl.fin 0)

/-- The expression of an overall ratio (lines 153-163) with the league average of
lines 127-135 in its place, as binary64 evaluates it:
`(double(quantity) / matches) / (double(leagueTotal) / totalMatches)`. -/
def overallRatioF64 (quantity teamMatches leagueTotal totalMatches : Nat) : F64 :=
  F64.div (F64.div (F64.ofNat quantity) (F64.ofNat teamMatches))
    (F64.div (F64.ofNat leagueTotal) (F64.ofNat totalMatches))

/-- The match-weighted sum of a list of (match count, ratio) pairs, each product and
each addition rounded as binary64 does. -/
def weightedRatioSumF64 (terms : List (Nat × F64)) : F64 :=
  terms.foldl (fun acc p => F64.add acc (F64.mul (F64.ofNat p.1) p.2)) (F64.ofNat 0)

/-! ### A small concrete input -/

/-- A date parser for the examples: four dates in the form year-month-day. -/
def demoGetTimeYMD (s : String) : Option TimePoint :=
  if s = "2024-01-01" then some 1704067200
  else if s = "2024-01-08" then some 1704672000
  else if s = "2024-01-15" then some 1705276800
  else if s = "2024-01-22" then some 1705881600
  else none

/-- An integer parser for the examples: the numbers 0 to 9. -/
def demoStoi (s : String) : Option Int :=
  if s = "0" then some 0
  else if s = "1" then some 1
  else if s = "2" then some 2
  else if s = "3" then some 3
  else if s = "4" then some 4
  else if s = "5" then some 5
  else if s = "6" then some 6
  else if s = "7" then some 7
  else if s = "8" then some 8
  else if s = "9" then some 9
  else none

/-- The library calls of the examples; the inputs of the examples are already in
date order, so the sort returns its argument. -/
def demoEnv : Env :=
  { getTimeDMY := fun _ => none
    getTimeYMD := demoGetTimeYMD
    stoi := demoStoi
    sortByDate := fun l => l }

/-- A data line of 21 cells with the date, the teams, the score and the corners in
the columns the loader reads (1, 3, 4, 5, 6, 17, 18), followed by two card counts,
so that the line ends in a non-empty cell as a line split at its commas does. -/
def demoRow (date home away homeGoals awayGoals homeCorners awayCorners : String) :
    List String :=
  ["E0", date, "", home, away, homeGoals, awayGoals] ++ List.replicate 10 "" ++
    [homeCorners, awayCorners, "1", "2"]

/-- One file: a header, three completed matches and one fixture without a score. -/
def demoFiles : List ResultsFile :=
  [some
    [["Div", "Date"],
     demoRow "2024-01-01" "A" "B" "2" "1" "5" "3",
     demoRow "2024-01-08" "B" "A" "0" "0" "4" "6",
     demoRow "2024-01-15" "A" "B" "1" "1" "7" "2",
     demoRow "2024-01-22" "C" "A" "" "" "" ""]]

/-- One file with a header and one completed match whose corner cells are empty. -/
def demoFilesNoCorners : List ResultsFile :=
  [some [["Div", "Date"], demoRow "2024-01-01" "A" "B" "2" "1" "" ""]]

/-- The first match of the examples: A 2-1 B. -/
def demoMatch1 : MatchResult :=
  { dateStr := "2024-01-01", date := 1704067200, homeTeamName := "A", awayTeamName := "B",
    homeGoals := 2, awayGoals := 1 }

/-- The second match of the examples: B 0-0 A. -/
def demoMatch2 : MatchResult :=
  { dateStr := "2024-01-08", date := 1704672000, homeTeamName := "B", awayTeamName := "A",
    homeGoals := 0, awayGoals := 0 }

/-- The third match of the examples: A 1-1 B. -/
def demoMatch3 : MatchResult :=
  { dateStr := "2024-01-15", date := 1705276800, homeTeamName := "A", awayTeamName := "B",
    homeGoals := 1, awayGoals := 1 }

/-- Team A of the examples, with its overall strengths and its history in date order. -/
def demoTeamA : Team :=
  { name := "A"
    homeAttackStrength := Dbl.fin (3 / 2)
    homeDefenseStrength := Dbl.fin (3 / 2)
    awayAttackStrength := Dbl.fin 0
    awayDefenseStrength := Dbl.fin 0
    homeCornerAttackStrength := Dbl.fin (9 / 8)
    homeCornerDefenseStrength := Dbl.fin (15 / 22)
    awayCornerAttackStrength := Dbl.fin (18 / 11)
    awayCornerDefenseStrength := Dbl.fin (3 / 4)
    matchHistory := [demoMatch1, demoMatch2, demoMatch3] }

/-- Team B of the examples. -/
def demoTeamB : Team :=
  { name := "B"
    homeAttackStrength := Dbl.fin 0
    homeDefenseStrength := Dbl.fin 0
    awayAttackStrength := Dbl.fin (3 / 2)
    awayDefenseStrength := Dbl.fin (3 / 2)
    homeCornerAttackStrength := Dbl.fin (3 / 4)
    homeCornerDefenseStrength := Dbl.fin (18 / 11)
    awayCornerAttackStrength := Dbl.fin (15 / 22)
    awayCornerDefenseStrength := Dbl.fin (9 / 8)
    matchHistory := [demoMatch1, demoMatch2, demoMatch3] }

/-- A loader holding the two teams and the league averages of the three matches. -/
def demoLoader : DataLoader :=
  { leagueAvgHomeGoalsScored := Dbl.fin 1
    leagueAvgAwayGoalsScored := Dbl.fin (2 / 3)
    leagueAvgHomeGoalsConceded := Dbl.fin (2 / 3)
    leagueAvgAwayGoalsConceded := Dbl.fin 1
    leagueAvgHomeCorners := Dbl.fin (16 / 3)
    leagueAvgAwayCorners := Dbl.fin (11 / 3)
    loadedTeams := (StdMap.empty.set "A" demoTeamA).set "B" demoTeamB }

/-- One file with a header and one fixture row: both teams and a date, no score. -/
def demoFilesNoScore : List ResultsFile :=
  [some [["Div", "Date"], demoRow "2024-01-22" "C" "A" "" "" "" ""]]

/-- One file with a header and one completed match won 2-0 by the home side. -/
def demoFilesHomeOnly : List ResultsFile :=
  [some [["Div", "Date"], demoRow "2024-01-01" "A" "B" "2" "0" "5" "3"]]

/-- A ratio of a split is not negative, and it is strictly positive exactly when the
split has no match or the total of its quantity over the split is positive. -/
def NonNegRatio (ratio : Dbl) (f : Completed → Int) (split : List Completed) : Prop :=
  Dbl.le (Dbl.fin 0) ratio = true ∧
  (Dbl.lt (Dbl.fin 0) ratio = true ↔ (split = [] ∨ 0 < total f split))

/-- The total corners of a sample. -/
def totalCorners (s : Sample) : Int := s.homeCorners + s.awayCorners

/-- The draws of a short run: the scores 0-1, 1-0, 1-1, 1-0 with 9, 10, 10 and 7
total corners, and 0-0 with 9 corners in any further trial. -/
def demoDraws (i : Nat) (_ : Rates) : Sample :=
  if i = 0 then { homeGoals := 0, awayGoals := 1, homeCorners := 5, awayCorners := 4 }
  else if i = 1 then { homeGoals := 1, awayGoals := 0, homeCorners := 6, awayCorners := 4 }
  else if i = 2 then { homeGoals := 1, awayGoals := 1, homeCorners := 5, awayCorners := 5 }
  else if i = 3 then { homeGoals := 1, awayGoals := 0, homeCorners := 3, awayCorners := 4 }
  else { homeGoals := 0, awayGoals := 0, homeCorners := 5, awayCorners := 4 }

/-- The state after a run of four trials with the draws `demoDraws`. -/
def demoRun : Match :=
  Match.runFullSimulation { simulationsToRun := 4 } demoDraws demoTeamA demoTeamB
    (Dbl.fin 1) (Dbl.fin 1) (Dbl.fin 1) (Dbl.fin 1)

/-- The draws of a run in which the first 4 trials have 10 total corners and all
the others have 9. -/
def demoCornerDraws (i : Nat) (_ : Rates) : Sample :=
  if i < 4 then { homeGoals := 1, awayGoals := 0, homeCorners := 6, awayCorners := 4 }
  else { homeGoals := 1, awayGoals := 0, homeCorners := 5, awayCorners := 4 }

/-- The state after a run of a default-constructed `Match` (10000 trials) with the
draws `demoCornerDraws`. -/
def demoCornerRun : Match :=
  Match.runFullSimulation {} demoCornerDraws demoTeamA demoTeamB
    (Dbl.fin 1) (Dbl.fin 1) (Dbl.fin 1) (Dbl.fin 1)

/-- The cases in which `parseDate` reports a failure: a string with a slash that
`std::get_time` rejects in the form day/month/year, a string without a slash and with
a dash that it rejects in the form year-month-day, a string with neither. -/
def parseFails (env : Env) (dateStr : String) : Bool :=
  if '/' ∈ dateStr.data then (env.getTimeDMY dateStr).isNone
  else if '-' ∈ dateStr.data then (env.getTimeYMD dateStr).isNone
  else true

/-- The library calls of the examples, with one more date: 1960-01-01, which `mktime`
places before the epoch. -/
def demoOldEnv : Env :=
  { demoEnv with
    getTimeYMD := fun s => if s = "1960-01-01" then some (-315619200) else demoGetTimeYMD s }

/-- One file with a header and one completed match dated 1960-01-01: A 1-0 B. -/
def demoOldFiles : List ResultsFile :=
  [some [["Div", "Date"], demoRow "1960-01-01" "A" "B" "1" "0" "5" "3"]]

/-- One file with a header and three completed matches, each team hosting one:
A 0-0 B, B 1-0 C, C 6-0 A. -/
def demoSkewFiles : List ResultsFile :=
  [some
    [["Div", "Date"],
     demoRow "2024-01-01" "A" "B" "0" "0" "5" "3",
     demoRow "2024-01-08" "B" "C" "1" "0" "4" "6",
     demoRow "2024-01-15" "C" "A" "6" "0" "7" "2"]]

/-- One file with a header and one completed match with the same name in both team
columns: A 2-1 A. -/
def demoSelfFiles : List ResultsFile :=
  [some [["Div", "Date"], demoRow "2024-01-01" "A" "A" "2" "1" "5" "3"]]

/-! ## Lemmas: the reading loop -/

/-- The reading of one row, split into team creation and accumulation. -/
theorem processRow_eq (env : Env) (acc : LoadAcc) (row : List String) :
    processRow env acc row =
      match completedRow env row with
      | none =>
        (match rowTeams env row with
          | none => acc
          | some p => { acc with loadedTeams := ensureTeam (ensureTeam acc.loadedTeams p.1) p.2 })
      | some c =>
        applyCompleted
          (match rowTeams env row with
            | none => acc
            | some p => { acc with loadedTeams := ensureTeam (ensureTeam acc.loadedTeams p.1) p.2 })
          c := by
  unfold processRow completedRow rowTeams
  generalize row.getD 1 "" = c1
  generalize row.getD 3 "" = c3
  generalize row.getD 4 "" = c4
  generalize row.getD 5 "" = c5
  generalize row.getD 6 "" = c6
  generalize row.getD 17 "" = c17
  generalize row.getD 18 "" = c18
  by_cases h19 : row.length < 19
  · have : ¬ 19 ≤ row.length := by omega
    simp [h19, this]
  · have h19' : 19 ≤ row.length := by omega
    by_cases h3 : c3 = ""
    · simp [h19, h3]
    by_cases h4 : c4 = ""
    · simp [h19, h4]
    by_cases hd : parseDate env c1 = 0
    · simp [h19, hd, h3, h4]
    by_cases h5 : startsWithDigit c5 = true
    · by_cases h6 : startsWithDigit c6 = true
      · cases hs5 : env.stoi c5 with
        | none => simp [h19, h19', hd, h3, h4, h5, h6, hs5]
        | some hg =>
          cases hs6 : env.stoi c6 with
          | none => simp [h19, h19', hd, h3, h4, h5, h6, hs5, hs6]
          | some ag => simp [h19, h19', hd, h3, h4, h5, h6, hs5, hs6, applyCompleted]
      · simp [h19, h19', hd, h3, h4, h5, h6]
    · simp [h19, h19', hd, h3, h4, h5]

namespace StdMap

variable {K : Type} [DecidableEq K] {V W : Type}

theorem find?_empty (k : K) : (StdMap.empty : StdMap K V).find? k = none := rfl

theorem find?_eq_none_iff (m : StdMap K V) (k : K) :
    m.find? k = none ↔ k ∉ m.keys := by
  unfold find? keys
  rw [Option.map_eq_none', List.find?_eq_none]
  constructor
  · intro h hk
    rw [List.mem_map] at hk
    obtain ⟨p, hp, rfl⟩ := hk
    exact h p hp (by simp)
  · intro h p hp hpk
    apply h
    rw [List.mem_map]
    exact ⟨p, hp, by simpa using hpk⟩

theorem entries_find?_map_set (l : List (K × V)) (k k2 : K) (v : V) :
    ((l.map (fun p => if p.1 = k then (p.1, v) else p)).find?
        (fun p => decide (p.1 = k2))).map Prod.snd =
      if k2 = k then (l.find? (fun p => decide (p.1 = k))).map (fun _ => v)
      else (l.find? (fun p => decide (p.1 = k2))).map Prod.snd := by
  induction l with
  | nil => simp
  | cons p l ih =>
    have hfst : (if p.1 = k then (p.1, v) else p).1 = p.1 := by split <;> rfl
    rw [List.map_cons, List.find?_cons, hfst]
    by_cases hp2 : p.1 = k2
    · by_cases hk : k2 = k
      · have hpk : p.1 = k := hp2.trans hk
        simp [hp2, hk, hpk, List.find?_cons]
      · have hpk : ¬ p.1 = k := fun h => hk (hp2.symm.trans h)
        simp [hp2, hk, hpk, List.find?_cons]
    · by_cases hk : k2 = k
      · subst hk
        simp only [hp2, decide_False, if_true, List.find?_cons]
        rw [ih, if_pos rfl]
      · simp only [hp2, decide_False, hk, if_false, List.find?_cons]
        rw [ih, if_neg hk]

theorem find?_set_self (m : StdMap K V) (k : K) (v : V) : (m.set k v).find? k = some v := by
  unfold set
  split
  next h =>
    show ((m.entries.map _).find? _).map Prod.snd = some v
    rw [entries_find?_map_set]
    simp only [if_true]
    have : m.find? k ≠ none := by
      rw [Ne, find?_eq_none_iff]
      exact fun hn => hn h
    unfold find? at this
    cases hf : m.entries.find? (fun p => decide (p.1 = k)) with
    | none => rw [hf] at this; simp at this
    | some p => simp
  next h =>
    show ((m.entries ++ [(k, v)]).find? _).map Prod.snd = some v
    have hnone : m.entries.find? (fun p => decide (p.1 = k)) = none := by
      have := (find?_eq_none_iff m k).2 h
      unfold find? at this
      simpa using this
    rw [List.find?_append, hnone]
    simp

theorem find?_set_ne (m : StdMap K V) (k k2 : K) (v : V) (hne : k2 ≠ k) :
    (m.set k v).find? k2 = m.find? k2 := by
  unfold set
  split
  next h =>
    show ((m.entries.map _).find? _).map Prod.snd = _
    rw [entries_find?_map_set]
    simp [hne, find?]
  next h =>
    show ((m.entries ++ [(k, v)]).find? _).map Prod.snd = _
    rw [List.find?_append]
    unfold find?
    have hne2 : ¬ k = k2 := fun h => hne h.symm
    cases hf : m.entries.find? (fun p => decide (p.1 = k2)) with
    | none => simp [List.find?_cons, hne2]
    | some p => simp

theorem find?_mapVals (f : K → V → W) (m : StdMap K V) (k : K) :
    (m.mapVals f).find? k = (m.find? k).map (f k) := by
  unfold mapVals find?
  simp only
  induction m.entries with
  | nil => simp
  | cons p l ih =>
    rw [List.map_cons, List.find?_cons, List.find?_cons]
    by_cases hp : p.1 = k
    · subst hp; simp
    · simp only [hp, decide_False]
      exact ih

omit [DecidableEq K] in
theorem keys_mapVals (f : K → V → W) (m : StdMap K V) : (m.mapVals f).keys = m.keys := by
  unfold mapVals keys
  simp only [List.map_map]
  apply List.map_congr_left
  intro p _
  rfl

end StdMap

theorem foldl_processFile (env : Env) (files : List ResultsFile) (acc : LoadAcc) :
    files.foldl (processFile env) acc = (dataRows files).foldl (processRow env) acc := by
  induction files generalizing acc with
  | nil => rfl
  | cons file files ih =>
    rw [List.foldl_cons, ih]
    unfold dataRows
    rw [List.flatMap_cons, List.foldl_append]
    cases file <;> rfl

theorem processRow_loadedTeams (env : Env) (acc : LoadAcc) (row : List String) :
    (processRow env acc row).loadedTeams = rowTeamStep env acc.loadedTeams row := by
  rw [processRow_eq]
  unfold rowTeamStep
  cases completedRow env row <;> cases rowTeams env row <;> rfl

theorem rawTotals_nil (t : String) : rawTotals t [] = {} := rfl

theorem TeamData.add_zero (d : TeamData) : d.add {} = d := by
  cases d
  simp [TeamData.add]

theorem rawData_applyCompleted (acc : LoadAcc) (c : Completed) (cs : List Completed) (t : String) :
    ((applyCompleted acc c).rawData t).add (rawTotals t cs) =
      (acc.rawData t).add (rawTotals t (c :: cs)) := by
  unfold applyCompleted updateRaw rawTotals homeMatchesOf awayMatchesOf total countOf
    accumulateHome accumulateAway TeamData.add
  simp only [List.filter_cons]
  by_cases hh : c.result.homeTeamName = t <;> by_cases ha : c.result.awayTeamName = t
  · have hha : c.result.awayTeamName = c.result.homeTeamName := ha.trans hh.symm
    subst hh
    simp [ha, hha]
    refine ⟨?_, ?_, ?_, ?_, ?_, ?_, ?_, ?_, ?_, ?_⟩ <;> ring
  · have h1 : ¬ t = c.result.awayTeamName := fun h => ha h.symm
    subst hh
    simp [ha, h1]
    refine ⟨?_, ?_, ?_, ?_, ?_⟩ <;> ring
  · have h1 : ¬ t = c.result.homeTeamName := fun h => hh h.symm
    subst ha
    simp [hh, h1]
    refine ⟨?_, ?_, ?_, ?_, ?_⟩ <;> ring
  · have h1 : ¬ t = c.result.homeTeamName := fun h => hh h.symm
    have h2 : ¬ t = c.result.awayTeamName := fun h => ha h.symm
    simp [hh, ha, h1, h2]

theorem total_cons (f : Completed → Int) (c : Completed) (cs : List Completed) :
    total f (c :: cs) = f c + total f cs := by
  simp [total]

theorem countOf_cons {α : Type} (c : α) (cs : List α) : countOf (c :: cs) = 1 + countOf cs := by
  simp [countOf]; ring

/-- The totals after the reading loop over a list of rows. -/
theorem foldl_processRow_totals (env : Env) (rows : List (List String)) (acc : LoadAcc) :
    ((rows.foldl (processRow env) acc).totalMatches =
        acc.totalMatches + countOf (rows.filterMap (completedRow env))) ∧
    ((rows.foldl (processRow env) acc).totalHomeGoals =
        acc.totalHomeGoals + total (fun c => c.result.homeGoals) (rows.filterMap (completedRow env))) ∧
    ((rows.foldl (processRow env) acc).totalAwayGoals =
        acc.totalAwayGoals + total (fun c => c.result.awayGoals) (rows.filterMap (completedRow env))) ∧
    ((rows.foldl (processRow env) acc).totalHomeCorners =
        acc.totalHomeCorners + total (fun c => c.homeCorners) (rows.filterMap (completedRow env))) ∧
    ((rows.foldl (processRow env) acc).totalAwayCorners =
        acc.totalAwayCorners + total (fun c => c.awayCorners) (rows.filterMap (completedRow env))) ∧
    ((rows.foldl (processRow env) acc).allResults =
        acc.allResults ++ (rows.filterMap (completedRow env)).map (fun c => c.result)) ∧
    (∀ t, (rows.foldl (processRow env) acc).rawData t =
        (acc.rawData t).add (rawTotals t (rows.filterMap (completedRow env)))) := by
  induction rows generalizing acc with
  | nil =>
    simp [total, countOf, rawTotals_nil, TeamData.add_zero]
  | cons row rows ih =>
    rw [List.foldl_cons, List.filterMap_cons]
    obtain ⟨h1, h2, h3, h4, h5, h6, h7⟩ := ih (processRow env acc row)
    rw [h1, h2, h3, h4, h5, h6]
    simp only [h7]
    rw [processRow_eq]
    cases hc : completedRow env row with
    | none =>
      cases rowTeams env row <;> simp
    | some c =>
      simp only [total_cons, countOf_cons, rawData_applyCompleted]
      cases rowTeams env row <;>
        simp [applyCompleted, add_assoc]

theorem foldl_rowTeamStep (env : Env) (rows : List (List String)) (acc : LoadAcc) :
    (rows.foldl (processRow env) acc).loadedTeams =
      rows.foldl (rowTeamStep env) acc.loadedTeams := by
  induction rows generalizing acc with
  | nil => rfl
  | cons row rows ih => rw [List.foldl_cons, List.foldl_cons, ih, processRow_loadedTeams]

theorem find?_ensureTeam (teams : StdMap String Team) (n k : String) :
    (ensureTeam teams n).find? k =
      if k = n then some ((teams.find? n).getD (Team.ofName n)) else teams.find? k := by
  unfold ensureTeam
  cases hf : teams.find? n with
  | none =>
    by_cases hk : k = n
    · subst hk; simp [StdMap.find?_set_self]
    · simp [hk, StdMap.find?_set_ne _ _ _ _ hk]
  | some v =>
    by_cases hk : k = n
    · subst hk; simp [hf]
    · simp [hk]

theorem allFresh_ensureTeam {teams : StdMap String Team} (h : AllFresh teams) (n : String) :
    AllFresh (ensureTeam teams n) := by
  intro k v hk
  rw [find?_ensureTeam] at hk
  by_cases hkn : k = n
  · subst hkn
    simp only [if_true, Option.some.injEq] at hk
    cases hf : teams.find? k with
    | none => rw [hf] at hk; exact hk.symm
    | some w => rw [hf] at hk; simp at hk; subst hk; exact h k w hf
  · simp only [hkn, if_false] at hk
    exact h k v hk

theorem allFresh_rowTeamStep {teams : StdMap String Team} (h : AllFresh teams) (env : Env)
    (row : List String) : AllFresh (rowTeamStep env teams row) := by
  unfold rowTeamStep
  cases rowTeams env row with
  | none => exact h
  | some p => exact allFresh_ensureTeam (allFresh_ensureTeam h p.1) p.2

theorem allFresh_foldl {teams : StdMap String Team} (h : AllFresh teams) (env : Env)
    (rows : List (List String)) : AllFresh (rows.foldl (rowTeamStep env) teams) := by
  induction rows generalizing teams with
  | nil => exact h
  | cons row rows ih => exact ih (allFresh_rowTeamStep h env row)

theorem allFresh_empty : AllFresh (StdMap.empty : StdMap String Team) := by
  intro k v hk
  simp [StdMap.find?_empty] at hk

theorem ensureTeam_keeps (teams : StdMap String Team) (n k : String)
    (h : teams.find? k ≠ none) : (ensureTeam teams n).find? k ≠ none := by
  rw [find?_ensureTeam]
  by_cases hkn : k = n
  · simp [hkn]
  · simpa [hkn] using h

theorem rowTeamStep_keeps (env : Env) (teams : StdMap String Team) (row : List String)
    (k : String) (h : teams.find? k ≠ none) : (rowTeamStep env teams row).find? k ≠ none := by
  unfold rowTeamStep
  cases rowTeams env row with
  | none => exact h
  | some p => exact ensureTeam_keeps _ _ _ (ensureTeam_keeps _ _ _ h)

theorem foldl_rowTeamStep_keeps (env : Env) (rows : List (List String))
    (teams : StdMap String Team) (k : String) (h : teams.find? k ≠ none) :
    (rows.foldl (rowTeamStep env) teams).find? k ≠ none := by
  induction rows generalizing teams with
  | nil => exact h
  | cons row rows ih => exact ih _ (rowTeamStep_keeps env teams row k h)

theorem rowTeams_of_completedRow (env : Env) (row : List String) (c : Completed)
    (h : completedRow env row = some c) :
    rowTeams env row = some (c.result.homeTeamName, c.result.awayTeamName) := by
  unfold completedRow at h
  unfold rowTeams
  split at h
  next hc =>
    obtain ⟨h19, h3, h4, hd, _, _⟩ := hc
    rw [if_pos ⟨h19, h3, h4, hd⟩]
    split at h
    next hg ag _ _ =>
      simp only [Option.some.injEq] at h
      subst h
      rfl
    next => simp at h
  next => simp at h

theorem rowTeamStep_adds (env : Env) (teams : StdMap String Team) (row : List String)
    (c : Completed) (h : completedRow env row = some c) :
    (rowTeamStep env teams row).find? c.result.homeTeamName ≠ none ∧
      (rowTeamStep env teams row).find? c.result.awayTeamName ≠ none := by
  unfold rowTeamStep
  rw [rowTeams_of_completedRow env row c h]
  constructor
  · apply ensureTeam_keeps
    rw [find?_ensureTeam]
    simp
  · rw [find?_ensureTeam]
    simp

theorem foldl_rowTeamStep_adds (env : Env) (rows : List (List String))
    (teams : StdMap String Team) (c : Completed)
    (h : c ∈ rows.filterMap (completedRow env)) :
    (rows.foldl (rowTeamStep env) teams).find? c.result.homeTeamName ≠ none ∧
      (rows.foldl (rowTeamStep env) teams).find? c.result.awayTeamName ≠ none := by
  induction rows generalizing teams with
  | nil => simp at h
  | cons row rows ih =>
    rw [List.foldl_cons]
    rw [List.filterMap_cons] at h
    cases hc : completedRow env row with
    | none =>
      rw [hc] at h
      exact ih _ h
    | some c2 =>
      rw [hc] at h
      rcases List.mem_cons.1 h with h | h
      · subst h
        have := rowTeamStep_adds env teams row c hc
        exact ⟨foldl_rowTeamStep_keeps env rows _ _ this.1,
          foldl_rowTeamStep_keeps env rows _ _ this.2⟩
      · exact ih _ h

theorem TeamData.zero_add (d : TeamData) : TeamData.add {} d = d := by
  cases d
  simp [TeamData.add]

/-- The local variables of `loadMultipleFiles` after its reading loop. -/
theorem loadAcc_summary (env : Env) (files : List ResultsFile) :
    ((files.foldl (processFile env) { loadedTeams := StdMap.empty }).totalMatches =
        countOf (acceptedMatches env files)) ∧
    ((files.foldl (processFile env) { loadedTeams := StdMap.empty }).totalHomeGoals =
        total (fun c => c.result.homeGoals) (acceptedMatches env files)) ∧
    ((files.foldl (processFile env) { loadedTeams := StdMap.empty }).totalAwayGoals =
        total (fun c => c.result.awayGoals) (acceptedMatches env files)) ∧
    ((files.foldl (processFile env) { loadedTeams := StdMap.empty }).totalHomeCorners =
        total (fun c => c.homeCorners) (acceptedMatches env files)) ∧
    ((files.foldl (processFile env) { loadedTeams := StdMap.empty }).totalAwayCorners =
        total (fun c => c.awayCorners) (acceptedMatches env files)) ∧
    ((files.foldl (processFile env) { loadedTeams := StdMap.empty }).allResults =
        (acceptedMatches env files).map (fun c => c.result)) ∧
    (∀ t, (files.foldl (processFile env) { loadedTeams := StdMap.empty }).rawData t =
        rawTotals t (acceptedMatches env files)) := by
  rw [foldl_processFile]
  obtain ⟨h1, h2, h3, h4, h5, h6, h7⟩ :=
    foldl_processRow_totals env (dataRows files) { loadedTeams := StdMap.empty }
  unfold acceptedMatches
  refine ⟨?_, ?_, ?_, ?_, ?_, ?_, ?_⟩
  · rw [h1]; simp
  · rw [h2]; simp
  · rw [h3]; simp
  · rw [h4]; simp
  · rw [h5]; simp
  · rw [h6]; simp
  · intro t; rw [h7]; exact TeamData.zero_add _

theorem loadAcc_allFresh (env : Env) (files : List ResultsFile) :
    AllFresh (files.foldl (processFile env) { loadedTeams := StdMap.empty }).loadedTeams := by
  rw [foldl_processFile, foldl_rowTeamStep]
  exact allFresh_foldl allFresh_empty env _

theorem loadAcc_has_teams (env : Env) (files : List ResultsFile) (c : Completed)
    (h : c ∈ acceptedMatches env files) :
    (files.foldl (processFile env) { loadedTeams := StdMap.empty }).loadedTeams.find?
        c.result.homeTeamName = some (Team.ofName c.result.homeTeamName) ∧
    (files.foldl (processFile env) { loadedTeams := StdMap.empty }).loadedTeams.find?
        c.result.awayTeamName = some (Team.ofName c.result.awayTeamName) := by
  have hf := loadAcc_allFresh env files
  rw [foldl_processFile, foldl_rowTeamStep] at hf ⊢
  obtain ⟨h1, h2⟩ := foldl_rowTeamStep_adds env (dataRows files) StdMap.empty c h
  constructor
  · cases hx : (List.foldl (rowTeamStep env) StdMap.empty (dataRows files)).find?
        c.result.homeTeamName with
    | none => exact absurd hx h1
    | some v => rw [hf _ v hx]
  · cases hx : (List.foldl (rowTeamStep env) StdMap.empty (dataRows files)).find?
        c.result.awayTeamName with
    | none => exact absurd hx h2
    | some v => rw [hf _ v hx]

theorem countOf_pos_iff {α : Type} (ms : List α) : 0 < countOf ms ↔ ms ≠ [] := by
  unfold countOf
  cases ms with
  | nil => simp
  | cons a l => simp

theorem countOf_eq_zero_iff {α : Type} (ms : List α) : countOf ms = 0 ↔ ms = [] := by
  unfold countOf
  cases ms with
  | nil => simp
  | cons a l => simp; omega

/-- The loader after a load that accepted at least one completed match. -/
theorem loadMultipleFiles_of_ne_nil (env : Env) (self : DataLoader) (files : List ResultsFile)
    (h : acceptedMatches env files ≠ []) :
    DataLoader.loadMultipleFiles env self files =
      (true,
        { self with
          leagueAvgHomeGoalsScored :=
            perMatch (fun c => c.result.homeGoals) (acceptedMatches env files)
          leagueAvgAwayGoalsScored :=
            perMatch (fun c => c.result.awayGoals) (acceptedMatches env files)
          leagueAvgHomeGoalsConceded :=
            perMatch (fun c => c.result.awayGoals) (acceptedMatches env files)
          leagueAvgAwayGoalsConceded :=
            perMatch (fun c => c.result.homeGoals) (acceptedMatches env files)
          leagueAvgHomeCorners := perMatch (fun c => c.homeCorners) (acceptedMatches env files)
          leagueAvgAwayCorners := perMatch (fun c => c.awayCorners) (acceptedMatches env files)
          loadedTeams :=
            (files.foldl (processFile env) { loadedTeams := StdMap.empty }).loadedTeams.mapVals
              (fun teamName team =>
                overallStrengths
                  (perMatch (fun c => c.result.homeGoals) (acceptedMatches env files))
                  (perMatch (fun c => c.result.awayGoals) (acceptedMatches env files))
                  (perMatch (fun c => c.result.awayGoals) (acceptedMatches env files))
                  (perMatch (fun c => c.result.homeGoals) (acceptedMatches env files))
                  (perMatch (fun c => c.homeCorners) (acceptedMatches env files))
                  (perMatch (fun c => c.awayCorners) (acceptedMatches env files))
                  (rawTotals teamName (acceptedMatches env files))
                  (attachHistory
                    (env.sortByDate ((acceptedMatches env files).map (fun c => c.result)))
                    teamName team)) }) := by
  obtain ⟨h1, h2, h3, h4, h5, h6, h7⟩ := loadAcc_summary env files
  have hN : ¬ countOf (acceptedMatches env files) = 0 := by
    rw [countOf_eq_zero_iff]; exact h
  unfold DataLoader.loadMultipleFiles perMatch
  simp only [h1, h2, h3, h4, h5, h6, h7, hN, if_false]

/-- The loader after a load that accepted no completed match. -/
theorem loadMultipleFiles_of_nil (env : Env) (self : DataLoader) (files : List ResultsFile)
    (h : acceptedMatches env files = []) :
    DataLoader.loadMultipleFiles env self files =
      (false,
        { self with
          loadedTeams :=
            (files.foldl (processFile env) { loadedTeams := StdMap.empty }).loadedTeams }) := by
  obtain ⟨h1, _⟩ := loadAcc_summary env files
  have hN : countOf (acceptedMatches env files) = 0 := by
    rw [countOf_eq_zero_iff]; exact h
  unfold DataLoader.loadMultipleFiles
  simp only [h1, hN, if_true]

/-! ## Lemmas: overall strengths -/

theorem overallStrengths_home (a1 a2 a3 a4 a5 a6 : Dbl) (data : TeamData) (team : Team)
    (h : data.homeMatches > 0) :
    (overallStrengths a1 a2 a3 a4 a5 a6 data team).homeAttackStrength =
        Dbl.div (Dbl.div (Dbl.ofInt data.homeGoalsScored) (Dbl.ofInt data.homeMatches)) a1 ∧
    (overallStrengths a1 a2 a3 a4 a5 a6 data team).homeDefenseStrength =
        Dbl.div (Dbl.div (Dbl.ofInt data.homeGoalsConceded) (Dbl.ofInt data.homeMatches)) a3 ∧
    (overallStrengths a1 a2 a3 a4 a5 a6 data team).homeCornerAttackStrength =
        Dbl.div (Dbl.div (Dbl.ofInt data.homeCornersFor) (Dbl.ofInt data.homeMatches)) a5 ∧
    (overallStrengths a1 a2 a3 a4 a5 a6 data team).homeCornerDefenseStrength =
        Dbl.div (Dbl.div (Dbl.ofInt data.homeCornersAgainst) (Dbl.ofInt data.homeMatches)) a6 := by
  unfold overallStrengths
  simp only [h, if_true]
  split <;> simp

theorem overallStrengths_away (a1 a2 a3 a4 a5 a6 : Dbl) (data : TeamData) (team : Team)
    (h : data.awayMatches > 0) :
    (overallStrengths a1 a2 a3 a4 a5 a6 data team).awayAttackStrength =
        Dbl.div (Dbl.div (Dbl.ofInt data.awayGoalsScored) (Dbl.ofInt data.awayMatches)) a2 ∧
    (overallStrengths a1 a2 a3 a4 a5 a6 data team).awayDefenseStrength =
        Dbl.div (Dbl.div (Dbl.ofInt data.awayGoalsConceded) (Dbl.ofInt data.awayMatches)) a4 ∧
    (overallStrengths a1 a2 a3 a4 a5 a6 data team).awayCornerAttackStrength =
        Dbl.div (Dbl.div (Dbl.ofInt data.awayCornersFor) (Dbl.ofInt data.awayMatches)) a6 ∧
    (overallStrengths a1 a2 a3 a4 a5 a6 data team).awayCornerDefenseStrength =
        Dbl.div (Dbl.div (Dbl.ofInt data.awayCornersAgainst) (Dbl.ofInt data.awayMatches)) a5 := by
  unfold overallStrengths
  simp [h]

theorem overallStrengths_home_none (a1 a2 a3 a4 a5 a6 : Dbl) (data : TeamData) (team : Team)
    (h : ¬ data.homeMatches > 0) :
    (overallStrengths a1 a2 a3 a4 a5 a6 data team).homeAttackStrength = team.homeAttackStrength ∧
    (overallStrengths a1 a2 a3 a4 a5 a6 data team).homeDefenseStrength =
        team.homeDefenseStrength ∧
    (overallStrengths a1 a2 a3 a4 a5 a6 data team).homeCornerAttackStrength =
        team.homeCornerAttackStrength ∧
    (overallStrengths a1 a2 a3 a4 a5 a6 data team).homeCornerDefenseStrength =
        team.homeCornerDefenseStrength := by
  unfold overallStrengths
  simp only [h, if_false]
  split <;> simp

theorem overallStrengths_away_none (a1 a2 a3 a4 a5 a6 : Dbl) (data : TeamData) (team : Team)
    (h : ¬ data.awayMatches > 0) :
    (overallStrengths a1 a2 a3 a4 a5 a6 data team).awayAttackStrength = team.awayAttackStrength ∧
    (overallStrengths a1 a2 a3 a4 a5 a6 data team).awayDefenseStrength =
        team.awayDefenseStrength ∧
    (overallStrengths a1 a2 a3 a4 a5 a6 data team).awayCornerAttackStrength =
        team.awayCornerAttackStrength ∧
    (overallStrengths a1 a2 a3 a4 a5 a6 data team).awayCornerDefenseStrength =
        team.awayCornerDefenseStrength := by
  unfold overallStrengths
  simp only [h, if_false]
  split <;> simp

theorem mem_of_homeMatchesOf_pos (t : String) (ms : List Completed)
    (h : 0 < (homeMatchesOf t ms).length) :
    ∃ c, c ∈ ms ∧ c.result.homeTeamName = t := by
  obtain ⟨c, hc⟩ := List.exists_mem_of_length_pos h
  unfold homeMatchesOf at hc
  rw [List.mem_filter] at hc
  exact ⟨c, hc.1, by simpa using hc.2⟩

theorem mem_of_awayMatchesOf_pos (t : String) (ms : List Completed)
    (h : 0 < (awayMatchesOf t ms).length) :
    ∃ c, c ∈ ms ∧ c.result.awayTeamName = t := by
  obtain ⟨c, hc⟩ := List.exists_mem_of_length_pos h
  unfold awayMatchesOf at hc
  rw [List.mem_filter] at hc
  exact ⟨c, hc.1, by simpa using hc.2⟩

/-- The stored team of a name that plays in an accepted match, after a load. -/
theorem loaded_team_of_mem (env : Env) (self : DataLoader) (files : List ResultsFile)
    (t : String) (c : Completed) (hc : c ∈ acceptedMatches env files)
    (ht : c.result.homeTeamName = t ∨ c.result.awayTeamName = t) :
    (DataLoader.loadMultipleFiles env self files).2.loadedTeams.find? t =
      some (overallStrengths
        (perMatch (fun c => c.result.homeGoals) (acceptedMatches env files))
        (perMatch (fun c => c.result.awayGoals) (acceptedMatches env files))
        (perMatch (fun c => c.result.awayGoals) (acceptedMatches env files))
        (perMatch (fun c => c.result.homeGoals) (acceptedMatches env files))
        (perMatch (fun c => c.homeCorners) (acceptedMatches env files))
        (perMatch (fun c => c.awayCorners) (acceptedMatches env files))
        (rawTotals t (acceptedMatches env files))
        (attachHistory (env.sortByDate ((acceptedMatches env files).map (fun c => c.result)))
          t (Team.ofName t))) := by
  have hne : acceptedMatches env files ≠ [] := List.ne_nil_of_mem hc
  rw [loadMultipleFiles_of_ne_nil env self files hne]
  simp only
  rw [StdMap.find?_mapVals]
  obtain ⟨h1, h2⟩ := loadAcc_has_teams env files c hc
  rcases ht with ht | ht
  · rw [ht] at h1; rw [h1]; rfl
  · rw [ht] at h2; rw [h2]; rfl

/-! ## The claims -/

/-- C1. After `loadMultipleFiles`, a team with at least one accepted match as home
side has its four home ratios equal to its per-match home average (goals scored,
goals conceded, corners for, corners against, each summed over the accepted matches
it hosts and divided by their number) divided by the matching league average
(home goals, away goals, home corners, away corners); symmetrically, a team with at
least one accepted match as away side has its four away ratios equal to its per-match
away average divided by the league average of away goals, home goals, away corners
and home corners. -/
theorem overall_ratios_are_normalised_averages (env : Env) (self : DataLoader)
    (files : List ResultsFile) (t : String) :
    (0 < (homeMatchesOf t (acceptedMatches env files)).length →
      ∃ team, (DataLoader.loadMultipleFiles env self files).2.loadedTeams.find? t = some team ∧
        team.homeAttackStrength =
          Dbl.div
            (perMatch (fun c => c.result.homeGoals) (homeMatchesOf t (acceptedMatches env files)))
            (DataLoader.loadMultipleFiles env self files).2.leagueAvgHomeGoalsScored ∧
        team.homeDefenseStrength =
          Dbl.div
            (perMatch (fun c => c.result.awayGoals) (homeMatchesOf t (acceptedMatches env files)))
            (DataLoader.loadMultipleFiles env self files).2.leagueAvgAwayGoalsScored ∧
        team.homeCornerAttackStrength =
          Dbl.div
            (perMatch (fun c => c.homeCorners) (homeMatchesOf t (acceptedMatches env files)))
            (DataLoader.loadMultipleFiles env self files).2.leagueAvgHomeCorners ∧
        team.homeCornerDefenseStrength =
          Dbl.div
            (perMatch (fun c => c.awayCorners) (homeMatchesOf t (acceptedMatches env files)))
            (DataLoader.loadMultipleFiles env self files).2.leagueAvgAwayCorners) ∧
    (0 < (awayMatchesOf t (acceptedMatches env files)).length →
      ∃ team, (DataLoader.loadMultipleFiles env self files).2.loadedTeams.find? t = some team ∧
        team.awayAttackStrength =
          Dbl.div
            (perMatch (fun c => c.result.awayGoals) (awayMatchesOf t (acceptedMatches env files)))
            (DataLoader.loadMultipleFiles env self files).2.leagueAvgAwayGoalsScored ∧
        team.awayDefenseStrength =
          Dbl.div
            (perMatch (fun c => c.result.homeGoals) (awayMatchesOf t (acceptedMatches env files)))
            (DataLoader.loadMultipleFiles env self files).2.leagueAvgHomeGoalsScored ∧
        team.awayCornerAttackStrength =
          Dbl.div
            (perMatch (fun c => c.awayCorners) (awayMatchesOf t (acceptedMatches env files)))
            (DataLoader.loadMultipleFiles env self files).2.leagueAvgAwayCorners ∧
        team.awayCornerDefenseStrength =
          Dbl.div
            (perMatch (fun c => c.homeCorners) (awayMatchesOf t (acceptedMatches env files)))
            (DataLoader.loadMultipleFiles env self files).2.leagueAvgHomeCorners) := by
  constructor
  · intro h
    obtain ⟨c, hc, hct⟩ := mem_of_homeMatchesOf_pos t _ h
    have hne : acceptedMatches env files ≠ [] := List.ne_nil_of_mem hc
    refine ⟨_, loaded_team_of_mem env self files t c hc (Or.inl hct), ?_⟩
    have hpos : (rawTotals t (acceptedMatches env files)).homeMatches > 0 := by
      show countOf _ > 0
      unfold countOf
      exact_mod_cast h
    rw [loadMultipleFiles_of_ne_nil env self files hne]
    exact overallStrengths_home _ _ _ _ _ _ _ _ hpos
  · intro h
    obtain ⟨c, hc, hct⟩ := mem_of_awayMatchesOf_pos t _ h
    have hne : acceptedMatches env files ≠ [] := List.ne_nil_of_mem hc
    refine ⟨_, loaded_team_of_mem env self files t c hc (Or.inr hct), ?_⟩
    have hpos : (rawTotals t (acceptedMatches env files)).awayMatches > 0 := by
      show countOf _ > 0
      unfold countOf
      exact_mod_cast h
    rw [loadMultipleFiles_of_ne_nil env self files hne]
    exact overallStrengths_away _ _ _ _ _ _ _ _ hpos

theorem Dbl.div_fin (a b : ℚ) (hb : b ≠ 0) : Dbl.div (Dbl.fin a) (Dbl.fin b) = Dbl.fin (a / b) := by
  simp [Dbl.div, hb]

theorem perMatch_eq (f : Completed → Int) (ms : List Completed) (h : ms ≠ []) :
    perMatch f ms = Dbl.fin ((total f ms : ℚ) / (countOf ms : ℚ)) := by
  unfold perMatch Dbl.ofInt
  apply Dbl.div_fin
  have := (countOf_eq_zero_iff ms).not.2 h
  exact_mod_cast this

/-- C1, at a concrete input: team A hosts two of the three accepted matches
(2-1 with corners 5-3 and 1-1 with corners 7-2) and visits one (0-0 with corners
4-6, as the away side). -/
theorem overall_ratios_are_normalised_averages_witness :
    (0 < (homeMatchesOf "A" (acceptedMatches demoEnv demoFiles)).length ∧
      ∃ team, (DataLoader.loadMultipleFiles demoEnv {} demoFiles).2.loadedTeams.find? "A"
          = some team ∧
        team.homeAttackStrength =
          Dbl.div
            (perMatch (fun c => c.result.homeGoals)
              (homeMatchesOf "A" (acceptedMatches demoEnv demoFiles)))
            (DataLoader.loadMultipleFiles demoEnv {} demoFiles).2.leagueAvgHomeGoalsScored) ∧
    (0 < (awayMatchesOf "A" (acceptedMatches demoEnv demoFiles)).length ∧
      ∃ team, (DataLoader.loadMultipleFiles demoEnv {} demoFiles).2.loadedTeams.find? "A"
          = some team ∧
        team.awayAttackStrength =
          Dbl.div
            (perMatch (fun c => c.result.awayGoals)
              (awayMatchesOf "A" (acceptedMatches demoEnv demoFiles)))
            (DataLoader.loadMultipleFiles demoEnv {} demoFiles).2.leagueAvgAwayGoalsScored) := by
  have hh : 0 < (homeMatchesOf "A" (acceptedMatches demoEnv demoFiles)).length := by decide
  have ha : 0 < (awayMatchesOf "A" (acceptedMatches demoEnv demoFiles)).length := by decide
  obtain ⟨team, hf, h1, _⟩ :=
    (overall_ratios_are_normalised_averages demoEnv {} demoFiles "A").1 hh
  obtain ⟨team2, hf2, h2, _⟩ :=
    (overall_ratios_are_normalised_averages demoEnv {} demoFiles "A").2 ha
  exact ⟨⟨hh, team, hf, h1⟩, ⟨ha, team2, hf2, h2⟩⟩

/-- C2. When at least one completed match is accepted, the league averages stored by
`loadMultipleFiles` are the totals over the accepted matches divided by their number
`N` (home goals, away goals, home corners, away corners), and the two conceded
averages are the scored averages of the other side. -/
theorem league_averages_are_totals_over_count (env : Env) (self : DataLoader)
    (files : List ResultsFile) (h : acceptedMatches env files ≠ []) :
    (DataLoader.loadMultipleFiles env self files).2.leagueAvgHomeGoalsScored =
        Dbl.fin ((total (fun c => c.result.homeGoals) (acceptedMatches env files) : ℚ) /
          (countOf (acceptedMatches env files) : ℚ)) ∧
    (DataLoader.loadMultipleFiles env self files).2.leagueAvgAwayGoalsScored =
        Dbl.fin ((total (fun c => c.result.awayGoals) (acceptedMatches env files) : ℚ) /
          (countOf (acceptedMatches env files) : ℚ)) ∧
    (DataLoader.loadMultipleFiles env self files).2.leagueAvgHomeCorners =
        Dbl.fin ((total (fun c => c.homeCorners) (acceptedMatches env files) : ℚ) /
          (countOf (acceptedMatches env files) : ℚ)) ∧
    (DataLoader.loadMultipleFiles env self files).2.leagueAvgAwayCorners =
        Dbl.fin ((total (fun c => c.awayCorners) (acceptedMatches env files) : ℚ) /
          (countOf (acceptedMatches env files) : ℚ)) ∧
    (DataLoader.loadMultipleFiles env self files).2.leagueAvgHomeGoalsConceded =
        (DataLoader.loadMultipleFiles env self files).2.leagueAvgAwayGoalsScored ∧
    (DataLoader.loadMultipleFiles env self files).2.leagueAvgAwayGoalsConceded =
        (DataLoader.loadMultipleFiles env self files).2.leagueAvgHomeGoalsScored := by
  rw [loadMultipleFiles_of_ne_nil env self files h]
  refine ⟨perMatch_eq _ _ h, perMatch_eq _ _ h, perMatch_eq _ _ h, perMatch_eq _ _ h, rfl, rfl⟩

/-- C2, at a concrete input: three accepted matches with 3 home goals, 2 away goals,
16 home corners and 11 away corners in total. -/
theorem league_averages_are_totals_over_count_witness :
    acceptedMatches demoEnv demoFiles ≠ [] ∧
    (DataLoader.loadMultipleFiles demoEnv {} demoFiles).2.leagueAvgHomeGoalsScored
      = Dbl.fin 1 ∧
    (DataLoader.loadMultipleFiles demoEnv {} demoFiles).2.leagueAvgAwayGoalsScored
      = Dbl.fin (2 / 3) ∧
    (DataLoader.loadMultipleFiles demoEnv {} demoFiles).2.leagueAvgHomeCorners
      = Dbl.fin (16 / 3) ∧
    (DataLoader.loadMultipleFiles demoEnv {} demoFiles).2.leagueAvgAwayCorners
      = Dbl.fin (11 / 3) := by
  have hne : acceptedMatches demoEnv demoFiles ≠ [] := by decide
  obtain ⟨h1, h2, h3, h4, _, _⟩ := league_averages_are_totals_over_count demoEnv {} demoFiles hne
  have hN : countOf (acceptedMatches demoEnv demoFiles) = 3 := by decide
  have t1 : total (fun c => c.result.homeGoals) (acceptedMatches demoEnv demoFiles) = 3 := by
    decide
  have t2 : total (fun c => c.result.awayGoals) (acceptedMatches demoEnv demoFiles) = 2 := by
    decide
  have t3 : total (fun c => c.homeCorners) (acceptedMatches demoEnv demoFiles) = 16 := by decide
  have t4 : total (fun c => c.awayCorners) (acceptedMatches demoEnv demoFiles) = 11 := by decide
  rw [hN, t1] at h1
  rw [hN, t2] at h2
  rw [hN, t3] at h3
  rw [hN, t4] at h4
  refine ⟨hne, ?_, ?_, ?_, ?_⟩
  · rw [h1]; norm_num
  · rw [h2]; norm_num
  · rw [h3]; norm_num
  · rw [h4]; norm_num

/-- The stored team of any loaded name, after a successful load. -/
theorem loaded_team_of_find (env : Env) (self : DataLoader) (files : List ResultsFile)
    (t : String) (team : Team)
    (hok : (DataLoader.loadMultipleFiles env self files).1 = true)
    (hfind : (DataLoader.loadMultipleFiles env self files).2.loadedTeams.find? t = some team) :
    team = overallStrengths
        (perMatch (fun c => c.result.homeGoals) (acceptedMatches env files))
        (perMatch (fun c => c.result.awayGoals) (acceptedMatches env files))
        (perMatch (fun c => c.result.awayGoals) (acceptedMatches env files))
        (perMatch (fun c => c.result.homeGoals) (acceptedMatches env files))
        (perMatch (fun c => c.homeCorners) (acceptedMatches env files))
        (perMatch (fun c => c.awayCorners) (acceptedMatches env files))
        (rawTotals t (acceptedMatches env files))
        (attachHistory (env.sortByDate ((acceptedMatches env files).map (fun c => c.result)))
          t (Team.ofName t)) := by
  have hne : acceptedMatches env files ≠ [] := by
    intro hnil
    rw [loadMultipleFiles_of_nil env self files hnil] at hok
    simp at hok
  rw [loadMultipleFiles_of_ne_nil env self files hne] at hfind
  simp only at hfind
  rw [StdMap.find?_mapVals] at hfind
  cases hv : (files.foldl (processFile env) { loadedTeams := StdMap.empty }).loadedTeams.find? t with
  | none => rw [hv] at hfind; simp at hfind
  | some v =>
    rw [hv] at hfind
    have hfresh := loadAcc_allFresh env files t v hv
    subst hfresh
    simp only [Option.map_some', Option.some.injEq] at hfind
    exact hfind.symm

/-- C10. After a successful `loadMultipleFiles`, a loaded team with no accepted
completed match as home side has its four home ratios equal to `1.0`, and a loaded
team with no accepted completed match as away side has its four away ratios equal
to `1.0`; this covers a team that appears only in rows without a score. -/
theorem empty_split_ratios_are_one (env : Env) (self : DataLoader) (files : List ResultsFile)
    (t : String) (team : Team)
    (hok : (DataLoader.loadMultipleFiles env self files).1 = true)
    (hfind : (DataLoader.loadMultipleFiles env self files).2.loadedTeams.find? t = some team) :
    (homeMatchesOf t (acceptedMatches env files) = [] →
      team.homeAttackStrength = Dbl.fin 1 ∧ team.homeDefenseStrength = Dbl.fin 1 ∧
      team.homeCornerAttackStrength = Dbl.fin 1 ∧ team.homeCornerDefenseStrength = Dbl.fin 1) ∧
    (awayMatchesOf t (acceptedMatches env files) = [] →
      team.awayAttackStrength = Dbl.fin 1 ∧ team.awayDefenseStrength = Dbl.fin 1 ∧
      team.awayCornerAttackStrength = Dbl.fin 1 ∧ team.awayCornerDefenseStrength = Dbl.fin 1) := by
  rw [loaded_team_of_find env self files t team hok hfind]
  constructor
  · intro h
    have hz : ¬ (rawTotals t (acceptedMatches env files)).homeMatches > 0 := by
      show ¬ countOf _ > 0
      rw [h]
      simp [countOf]
    exact overallStrengths_home_none _ _ _ _ _ _ _ _ hz
  · intro h
    have hz : ¬ (rawTotals t (acceptedMatches env files)).awayMatches > 0 := by
      show ¬ countOf _ > 0
      rw [h]
      simp [countOf]
    exact overallStrengths_away_none _ _ _ _ _ _ _ _ hz

/-- C10, at a concrete input: team C appears only in a row without a score, and all
its eight ratios are `1.0` after the load. -/
theorem empty_split_ratios_are_one_witness :
    (DataLoader.loadMultipleFiles demoEnv {} demoFiles).1 = true ∧
    homeMatchesOf "C" (acceptedMatches demoEnv demoFiles) = [] ∧
    awayMatchesOf "C" (acceptedMatches demoEnv demoFiles) = [] ∧
    ∃ team, (DataLoader.loadMultipleFiles demoEnv {} demoFiles).2.loadedTeams.find? "C"
        = some team ∧
      team.homeAttackStrength = Dbl.fin 1 ∧ team.homeDefenseStrength = Dbl.fin 1 ∧
      team.homeCornerAttackStrength = Dbl.fin 1 ∧ team.homeCornerDefenseStrength = Dbl.fin 1 ∧
      team.awayAttackStrength = Dbl.fin 1 ∧ team.awayDefenseStrength = Dbl.fin 1 ∧
      team.awayCornerAttackStrength = Dbl.fin 1 ∧ team.awayCornerDefenseStrength = Dbl.fin 1 := by
  have hok : (DataLoader.loadMultipleFiles demoEnv {} demoFiles).1 = true := by decide
  have hh : homeMatchesOf "C" (acceptedMatches demoEnv demoFiles) = [] := by decide
  have ha : awayMatchesOf "C" (acceptedMatches demoEnv demoFiles) = [] := by decide
  have hsome :
      ((DataLoader.loadMultipleFiles demoEnv {} demoFiles).2.loadedTeams.find? "C").isSome
        = true := by decide
  obtain ⟨team, hteam⟩ := Option.isSome_iff_exists.1 hsome
  obtain ⟨h1, h2⟩ := empty_split_ratios_are_one demoEnv {} demoFiles "C" team hok hteam
  obtain ⟨a1, a2, a3, a4⟩ := h1 hh
  obtain ⟨b1, b2, b3, b4⟩ := h2 ha
  exact ⟨hok, hh, ha, team, hteam, a1, a2, a3, a4, b1, b2, b3, b4⟩

/-- The floor leaves no rate below `0.01`, and yields a rate of at least `0.01`
unless the product is not-a-number. -/
theorem floorRate_spec (p : Dbl) : IsFloorOf p (floorRate p) := by
  refine ⟨rfl, ?_, ?_⟩
  · unfold floorRate
    by_cases h : Dbl.lt p (Dbl.fin (1 / 100)) = true
    · rw [if_pos h]; simp [Dbl.lt]
    · rw [if_neg h]; simpa using h
  · intro hn
    unfold floorRate
    by_cases h : Dbl.lt p (Dbl.fin (1 / 100)) = true
    · rw [if_pos h]; simp [Dbl.le]
    · rw [if_neg h]
      cases p with
      | fin q =>
        simp only [Dbl.lt, decide_eq_true_eq, not_lt] at h
        simp only [Dbl.le, decide_eq_true_eq]
        exact h
      | pinf => simp [Dbl.le]
      | ninf => simp [Dbl.lt] at h
      | nan => simp [Dbl.isNaN] at hn

/-- C3, as the code has it. The four rates of `simulateSingleGame` are the products
home attack x away defense x average home goals, away attack x home defense x
average away goals, and the same with the corner strengths and corner averages,
each replaced by `0.01` when it compares below `0.01`; no rate compares below
`0.01`, and a rate whose product is a number (not not-a-number) is at least `0.01`.
In binary64, a rate is its rounded product floored and does not compare below
`0.01`; for league averages 1.4 and 1.1, a home team with home attack 1.5 and home
defense 0.8 and an away team with away attack 1.2 and away defense 1.0, the home goal
rate `1.5 * 1.0 * 1.4` is 1182194902184755 / 2^49 = 2.0999999999999996, the double
next below the double 2.1, and the away goal rate `1.2 * 0.8 * 1.1` is the double
1.056. -/
theorem game_rates_are_floored_products :
    (∀ (home away : Team) (avgHomeGoals avgAwayGoals avgHomeCorners avgAwayCorners : Dbl),
      IsFloorOf
        (Dbl.mul (Dbl.mul home.homeAttackStrength away.awayDefenseStrength) avgHomeGoals)
        (gameRates home away avgHomeGoals avgAwayGoals avgHomeCorners avgAwayCorners).lambdaHomeG ∧
      IsFloorOf
        (Dbl.mul (Dbl.mul away.awayAttackStrength home.homeDefenseStrength) avgAwayGoals)
        (gameRates home away avgHomeGoals avgAwayGoals avgHomeCorners avgAwayCorners).lambdaAwayG ∧
      IsFloorOf
        (Dbl.mul (Dbl.mul home.homeCornerAttackStrength away.awayCornerDefenseStrength)
          avgHomeCorners)
        (gameRates home away avgHomeGoals avgAwayGoals avgHomeCorners avgAwayCorners).lambdaHomeC ∧
      IsFloorOf
        (Dbl.mul (Dbl.mul away.awayCornerAttackStrength home.homeCornerDefenseStrength)
          avgAwayCorners)
        (gameRates home away avgHomeGoals avgAwayGoals avgHomeCorners
          avgAwayCorners).lambdaAwayC) ∧
    (∀ attack defense average : F64,
      gameRateF64 attack defense average =
        (if F64.lt (F64.mul (F64.mul attack defense) average) (F64.round 1 100) = true then
          F64.round 1 100
        else F64.mul (F64.mul attack defense) average) ∧
      F64.lt (gameRateF64 attack defense average) (F64.round 1 100) = false) ∧
    F64.same (gameRateF64 (F64.round 3 2) (F64.round 1 1) (F64.round 7 5))
      ⟨1182194902184755, 562949953421312⟩ = true ∧
    F64.lt (gameRateF64 (F64.round 3 2) (F64.round 1 1) (F64.round 7 5)) (F64.round 21 10)
      = true ∧
    F64.same (gameRateF64 (F64.round 6 5) (F64.round 4 5) (F64.round 11 10))
      (F64.round 132 125) = true := by
  refine ⟨?_, ?_, by decide, by decide, by decide⟩
  · intro home away a b c d
    exact ⟨floorRate_spec _, floorRate_spec _, floorRate_spec _, floorRate_spec _⟩
  · intro attack defense average
    refine ⟨rfl, ?_⟩
    unfold gameRateF64 floorRateF64
    by_cases h : F64.lt (F64.mul (F64.mul attack defense) average) (F64.round 1 100) = true
    · rw [if_pos h]
      decide
    · rw [if_neg h]
      simpa using h

/-- C3, at a concrete input: the two teams of the scenario, their other strengths at
the default `1.0`, and corner averages 5 and 4; neither goal rate compares below
`0.01`. -/
theorem game_rates_are_floored_products_witness :
    Dbl.lt
      (gameRates
        { name := "A", homeAttackStrength := Dbl.fin (3 / 2), homeDefenseStrength := Dbl.fin (4 / 5) }
        { name := "B", awayAttackStrength := Dbl.fin (6 / 5), awayDefenseStrength := Dbl.fin 1 }
        (Dbl.fin (7 / 5)) (Dbl.fin (11 / 10)) (Dbl.fin 5) (Dbl.fin 4)).lambdaHomeG
      (Dbl.fin (1 / 100)) = false ∧
    Dbl.lt
      (gameRates
        { name := "A", homeAttackStrength := Dbl.fin (3 / 2), homeDefenseStrength := Dbl.fin (4 / 5) }
        { name := "B", awayAttackStrength := Dbl.fin (6 / 5), awayDefenseStrength := Dbl.fin 1 }
        (Dbl.fin (7 / 5)) (Dbl.fin (11 / 10)) (Dbl.fin 5) (Dbl.fin 4)).lambdaAwayG
      (Dbl.fin (1 / 100)) = false :=
  ⟨(game_rates_are_floored_products.1 _ _ _ _ _ _).1.2.1,
    (game_rates_are_floored_products.1 _ _ _ _ _ _).2.1.2.1⟩

/-- C3 as stated fails. A results file whose corner cells are empty gives a league
average of home corners of `0.0`, so the loader stores `0.0 / 0.0`, not-a-number,
as the home corner attack of team A; the home corner rate of the fixture A against
B, computed from the loaded teams and league averages, is then not-a-number after
the floor, hence not at least `0.01`. -/
theorem game_rate_nan_not_floored :
    ∃ teamA teamB,
      (DataLoader.loadMultipleFiles demoEnv {} demoFilesNoCorners).2.loadedTeams.find? "A"
        = some teamA ∧
      (DataLoader.loadMultipleFiles demoEnv {} demoFilesNoCorners).2.loadedTeams.find? "B"
        = some teamB ∧
      (gameRates teamA teamB
        (DataLoader.loadMultipleFiles demoEnv {} demoFilesNoCorners).2.leagueAvgHomeGoalsScored
        (DataLoader.loadMultipleFiles demoEnv {} demoFilesNoCorners).2.leagueAvgAwayGoalsScored
        (DataLoader.loadMultipleFiles demoEnv {} demoFilesNoCorners).2.leagueAvgHomeCorners
        (DataLoader.loadMultipleFiles demoEnv {} demoFilesNoCorners).2.leagueAvgAwayCorners
        ).lambdaHomeC = Dbl.nan ∧
      Dbl.le (Dbl.fin (1 / 100)) Dbl.nan = false := by
  have hh : 0 < (homeMatchesOf "A" (acceptedMatches demoEnv demoFilesNoCorners)).length := by
    decide
  have ha : 0 < (awayMatchesOf "B" (acceptedMatches demoEnv demoFilesNoCorners)).length := by
    decide
  obtain ⟨c1, hc1, ht1⟩ := mem_of_homeMatchesOf_pos _ _ hh
  obtain ⟨c2, hc2, ht2⟩ := mem_of_awayMatchesOf_pos _ _ ha
  have hne : acceptedMatches demoEnv demoFilesNoCorners ≠ [] := List.ne_nil_of_mem hc1
  have hA := loaded_team_of_mem demoEnv {} demoFilesNoCorners "A" c1 hc1 (Or.inl ht1)
  have hB := loaded_team_of_mem demoEnv {} demoFilesNoCorners "B" c2 hc2 (Or.inr ht2)
  refine ⟨_, _, hA, hB, ?_, rfl⟩
  have hposA : (rawTotals "A" (acceptedMatches demoEnv demoFilesNoCorners)).homeMatches > 0 := by
    decide
  have hposB : (rawTotals "B" (acceptedMatches demoEnv demoFilesNoCorners)).awayMatches > 0 := by
    decide
  have hcorn : perMatch (fun c => c.homeCorners) (acceptedMatches demoEnv demoFilesNoCorners)
      = Dbl.fin 0 := by
    rw [perMatch_eq _ _ hne]
    have h0 : total (fun c => c.homeCorners) (acceptedMatches demoEnv demoFilesNoCorners) = 0 := by
      decide
    rw [h0]
    simp
  have h1 := (overallStrengths_home
    (perMatch (fun c => c.result.homeGoals) (acceptedMatches demoEnv demoFilesNoCorners))
    (perMatch (fun c => c.result.awayGoals) (acceptedMatches demoEnv demoFilesNoCorners))
    (perMatch (fun c => c.result.awayGoals) (acceptedMatches demoEnv demoFilesNoCorners))
    (perMatch (fun c => c.result.homeGoals) (acceptedMatches demoEnv demoFilesNoCorners))
    (perMatch (fun c => c.homeCorners) (acceptedMatches demoEnv demoFilesNoCorners))
    (perMatch (fun c => c.awayCorners) (acceptedMatches demoEnv demoFilesNoCorners))
    (rawTotals "A" (acceptedMatches demoEnv demoFilesNoCorners))
    (attachHistory
      (demoEnv.sortByDate ((acceptedMatches demoEnv demoFilesNoCorners).map (fun c => c.result)))
      "A" (Team.ofName "A")) hposA).2.2.1
  have hfor : (rawTotals "A" (acceptedMatches demoEnv demoFilesNoCorners)).homeCornersFor = 0 := by
    decide
  have hcnt : (rawTotals "A" (acceptedMatches demoEnv demoFilesNoCorners)).homeMatches = 1 := by
    decide
  rw [hfor, hcnt, hcorn] at h1
  have hnan : Dbl.div (Dbl.div (Dbl.ofInt 0) (Dbl.ofInt 1)) (Dbl.fin 0) = Dbl.nan := by
    simp [Dbl.div, Dbl.ofInt]
  rw [hnan] at h1
  unfold gameRates
  rw [loadMultipleFiles_of_ne_nil demoEnv {} demoFilesNoCorners hne]
  simp only [hcorn, h1]
  cases (overallStrengths
    (perMatch (fun c => c.result.homeGoals) (acceptedMatches demoEnv demoFilesNoCorners))
    (perMatch (fun c => c.result.awayGoals) (acceptedMatches demoEnv demoFilesNoCorners))
    (perMatch (fun c => c.result.awayGoals) (acceptedMatches demoEnv demoFilesNoCorners))
    (perMatch (fun c => c.result.homeGoals) (acceptedMatches demoEnv demoFilesNoCorners))
    (Dbl.fin 0)
    (perMatch (fun c => c.awayCorners) (acceptedMatches demoEnv demoFilesNoCorners))
    (rawTotals "B" (acceptedMatches demoEnv demoFilesNoCorners))
    (attachHistory
      (demoEnv.sortByDate ((acceptedMatches demoEnv demoFilesNoCorners).map (fun c => c.result)))
      "B" (Team.ofName "B"))).awayCornerDefenseStrength <;>
    simp [Dbl.mul, floorRate, Dbl.lt]

/-! ## Lemmas: the simulation loop -/

theorem getD_bump {K : Type} [DecidableEq K] (counts : StdMap K Int) (key k : K) :
    (bump counts key).getD k 0 = counts.getD k 0 + (if k = key then 1 else 0) := by
  unfold bump StdMap.getD
  by_cases h : k = key
  · subst h
    rw [StdMap.find?_set_self]
    simp
  · rw [StdMap.find?_set_ne _ _ _ _ h]
    simp [h]

theorem countWhere_nil (p : Sample → Bool) : countWhere p [] = 0 := rfl

theorem countWhere_cons (p : Sample → Bool) (s : Sample) (l : List Sample) :
    countWhere p (s :: l) = (if p s = true then 1 else 0) + countWhere p l := by
  unfold countWhere countOf
  rw [List.filter_cons]
  split <;> simp
  ring

/-- The tallies after one trial that drew the sample `s`. -/
theorem tally_simulateSingleGame (m : Match) (draw : Rates → Sample) (home away : Team)
    (a b c d : Dbl) :
    (Match.tally (Match.simulateSingleGame m draw home away a b c d)).homeWins =
        m.homeWins + (if (draw (gameRates home away a b c d)).homeGoals >
          (draw (gameRates home away a b c d)).awayGoals then 1 else 0) ∧
    (Match.tally (Match.simulateSingleGame m draw home away a b c d)).awayWins =
        m.awayWins + (if (draw (gameRates home away a b c d)).homeGoals <
          (draw (gameRates home away a b c d)).awayGoals then 1 else 0) ∧
    (Match.tally (Match.simulateSingleGame m draw home away a b c d)).draws =
        m.draws + (if (draw (gameRates home away a b c d)).homeGoals =
          (draw (gameRates home away a b c d)).awayGoals then 1 else 0) ∧
    (Match.tally (Match.simulateSingleGame m draw home away a b c d)).over05 =
        m.over05 + (if (draw (gameRates home away a b c d)).homeGoals +
          (draw (gameRates home away a b c d)).awayGoals > 0 then 1 else 0) ∧
    (Match.tally (Match.simulateSingleGame m draw home away a b c d)).over15 =
        m.over15 + (if (draw (gameRates home away a b c d)).homeGoals +
          (draw (gameRates home away a b c d)).awayGoals > 1 then 1 else 0) ∧
    (Match.tally (Match.simulateSingleGame m draw home away a b c d)).over25 =
        m.over25 + (if (draw (gameRates home away a b c d)).homeGoals +
          (draw (gameRates home away a b c d)).awayGoals > 2 then 1 else 0) ∧
    (Match.tally (Match.simulateSingleGame m draw home away a b c d)).bttsCount =
        m.bttsCount + (if (draw (gameRates home away a b c d)).homeGoals > 0 ∧
          (draw (gameRates home away a b c d)).awayGoals > 0 then 1 else 0) ∧
    (Match.tally (Match.simulateSingleGame m draw home away a b c d)).totalSimulatedCorners =
        m.totalSimulatedCorners + ((draw (gameRates home away a b c d)).homeCorners +
          (draw (gameRates home away a b c d)).awayCorners) ∧
    (Match.tally (Match.simulateSingleGame m draw home away a b c d)).cornerCounts =
        bump m.cornerCounts ((draw (gameRates home away a b c d)).homeCorners +
          (draw (gameRates home away a b c d)).awayCorners) ∧
    (Match.tally (Match.simulateSingleGame m draw home away a b c d)).scoreCounts =
        bump m.scoreCounts ((draw (gameRates home away a b c d)).homeGoals,
          (draw (gameRates home away a b c d)).awayGoals) ∧
    (Match.tally (Match.simulateSingleGame m draw home away a b c d)).simulationsToRun =
        m.simulationsToRun := by
  unfold Match.tally Match.simulateSingleGame
  generalize draw (gameRates home away a b c d) = s
  simp only [apply_ite Match.homeWins, apply_ite Match.awayWins, apply_ite Match.draws,
    apply_ite Match.homeGoals, apply_ite Match.awayGoals,
    apply_ite Match.over05, apply_ite Match.over15, apply_ite Match.over25,
    apply_ite Match.bttsCount, apply_ite Match.homeCorners, apply_ite Match.awayCorners,
    apply_ite Match.totalSimulatedCorners, apply_ite Match.cornerCounts,
    apply_ite Match.scoreCounts, apply_ite Match.simulationsToRun, ite_self]
  refine ⟨?_, ?_, ?_, ?_, ?_, ?_, ?_, ?_, ?_, ?_, ?_⟩ <;>
    first
    | trivial
    | rfl
    | (split_ifs <;> first | rfl | omega)

/-- The tallies after the trials of a list of indices, from any starting state. -/
theorem foldl_tally (gen : Nat → Rates → Sample) (home away : Team) (a b c d : Dbl)
    (idx : List Nat) (m : Match) :
    ((idx.foldl (fun m i => Match.tally (Match.simulateSingleGame m (gen i) home away a b c d))
        m).homeWins = m.homeWins +
      countWhere (fun s => decide (s.homeGoals > s.awayGoals))
        (idx.map (fun i => gen i (gameRates home away a b c d)))) ∧
    ((idx.foldl (fun m i => Match.tally (Match.simulateSingleGame m (gen i) home away a b c d))
        m).awayWins = m.awayWins +
      countWhere (fun s => decide (s.homeGoals < s.awayGoals))
        (idx.map (fun i => gen i (gameRates home away a b c d)))) ∧
    ((idx.foldl (fun m i => Match.tally (Match.simulateSingleGame m (gen i) home away a b c d))
        m).draws = m.draws +
      countWhere (fun s => decide (s.homeGoals = s.awayGoals))
        (idx.map (fun i => gen i (gameRates home away a b c d)))) ∧
    ((idx.foldl (fun m i => Match.tally (Match.simulateSingleGame m (gen i) home away a b c d))
        m).over05 = m.over05 +
      countWhere (fun s => decide (s.homeGoals + s.awayGoals > 0))
        (idx.map (fun i => gen i (gameRates home away a b c d)))) ∧
    ((idx.foldl (fun m i => Match.tally (Match.simulateSingleGame m (gen i) home away a b c d))
        m).over15 = m.over15 +
      countWhere (fun s => decide (s.homeGoals + s.awayGoals > 1))
        (idx.map (fun i => gen i (gameRates home away a b c d)))) ∧
    ((idx.foldl (fun m i => Match.tally (Match.simulateSingleGame m (gen i) home away a b c d))
        m).over25 = m.over25 +
      countWhere (fun s => decide (s.homeGoals + s.awayGoals > 2))
        (idx.map (fun i => gen i (gameRates home away a b c d)))) ∧
    ((idx.foldl (fun m i => Match.tally (Match.simulateSingleGame m (gen i) home away a b c d))
        m).bttsCount = m.bttsCount +
      countWhere (fun s => decide (s.homeGoals > 0 ∧ s.awayGoals > 0))
        (idx.map (fun i => gen i (gameRates home away a b c d)))) ∧
    (∀ k, (idx.foldl
        (fun m i => Match.tally (Match.simulateSingleGame m (gen i) home away a b c d))
        m).cornerCounts.getD k 0 = m.cornerCounts.getD k 0 +
      countWhere (fun s => decide (s.homeCorners + s.awayCorners = k))
        (idx.map (fun i => gen i (gameRates home away a b c d)))) ∧
    (∀ k, (idx.foldl
        (fun m i => Match.tally (Match.simulateSingleGame m (gen i) home away a b c d))
        m).scoreCounts.getD k 0 = m.scoreCounts.getD k 0 +
      countWhere (fun s => decide ((s.homeGoals, s.awayGoals) = k))
        (idx.map (fun i => gen i (gameRates home away a b c d)))) := by
  induction idx generalizing m with
  | nil => simp [countWhere_nil]
  | cons i idx ih =>
    rw [List.foldl_cons, List.map_cons]
    obtain ⟨h1, h2, h3, h4, h5, h6, h7, h8, h9⟩ :=
      ih (Match.tally (Match.simulateSingleGame m (gen i) home away a b c d))
    obtain ⟨t1, t2, t3, t4, t5, t6, t7, _, t9, t10, _⟩ :=
      tally_simulateSingleGame m (gen i) home away a b c d
    rw [h1, h2, h3, h4, h5, h6, h7, t1, t2, t3, t4, t5, t6, t7]
    simp only [countWhere_cons, decide_eq_true_eq]
    refine ⟨by ring, by ring, by ring, by ring, by ring, by ring, by ring, ?_, ?_⟩
    · intro k
      rw [h8, t9, getD_bump]
      have : (k = (gen i (gameRates home away a b c d)).homeCorners +
          (gen i (gameRates home away a b c d)).awayCorners) ↔
          ((gen i (gameRates home away a b c d)).homeCorners +
          (gen i (gameRates home away a b c d)).awayCorners = k) := eq_comm
      simp only [this]
      ring
    · intro k
      rw [h9, t10, getD_bump]
      have : (k = ((gen i (gameRates home away a b c d)).homeGoals,
          (gen i (gameRates home away a b c d)).awayGoals)) ↔
          (((gen i (gameRates home away a b c d)).homeGoals,
          (gen i (gameRates home away a b c d)).awayGoals) = k) := eq_comm
      simp only [this]
      ring

theorem getD_empty {K : Type} [DecidableEq K] (k : K) :
    (StdMap.empty : StdMap K Int).getD k 0 = 0 := rfl

/-- C4. After `runFullSimulation`, the tallies are the counts over the sequence of
the `N` sampled trials: `homeWins`, `awayWins` and `draws` count the trials with
home goals greater than, less than and equal to away goals; `over05`, `over15`,
`over25` count the trials with total goals greater than 0, 1, 2; `bttsCount` counts
the trials with both sides scoring at least once; `cornerCounts[k]` counts the
trials with `k` total corners and `scoreCounts[(h, a)]` the trials with the
score `(h, a)`. -/
theorem simulation_tallies_are_counts (self : Match) (gen : Nat → Rates → Sample)
    (home away : Team) (avgHomeGoals avgAwayGoals avgHomeCorners avgAwayCorners : Dbl) :
    (Match.runFullSimulation self gen home away avgHomeGoals avgAwayGoals avgHomeCorners
        avgAwayCorners).homeWins =
      countWhere (fun s => decide (s.homeGoals > s.awayGoals))
        (trialSamples self gen home away avgHomeGoals avgAwayGoals avgHomeCorners
          avgAwayCorners) ∧
    (Match.runFullSimulation self gen home away avgHomeGoals avgAwayGoals avgHomeCorners
        avgAwayCorners).awayWins =
      countWhere (fun s => decide (s.homeGoals < s.awayGoals))
        (trialSamples self gen home away avgHomeGoals avgAwayGoals avgHomeCorners
          avgAwayCorners) ∧
    (Match.runFullSimulation self gen home away avgHomeGoals avgAwayGoals avgHomeCorners
        avgAwayCorners).draws =
      countWhere (fun s => decide (s.homeGoals = s.awayGoals))
        (trialSamples self gen home away avgHomeGoals avgAwayGoals avgHomeCorners
          avgAwayCorners) ∧
    (Match.runFullSimulation self gen home away avgHomeGoals avgAwayGoals avgHomeCorners
        avgAwayCorners).over05 =
      countWhere (fun s => decide (s.homeGoals + s.awayGoals > 0))
        (trialSamples self gen home away avgHomeGoals avgAwayGoals avgHomeCorners
          avgAwayCorners) ∧
    (Match.runFullSimulation self gen home away avgHomeGoals avgAwayGoals avgHomeCorners
        avgAwayCorners).over15 =
      countWhere (fun s => decide (s.homeGoals + s.awayGoals > 1))
        (trialSamples self gen home away avgHomeGoals avgAwayGoals avgHomeCorners
          avgAwayCorners) ∧
    (Match.runFullSimulation self gen home away avgHomeGoals avgAwayGoals avgHomeCorners
        avgAwayCorners).over25 =
      countWhere (fun s => decide (s.homeGoals + s.awayGoals > 2))
        (trialSamples self gen home away avgHomeGoals avgAwayGoals avgHomeCorners
          avgAwayCorners) ∧
    (Match.runFullSimulation self gen home away avgHomeGoals avgAwayGoals avgHomeCorners
        avgAwayCorners).bttsCount =
      countWhere (fun s => decide (s.homeGoals ≥ 1 ∧ s.awayGoals ≥ 1))
        (trialSamples self gen home away avgHomeGoals avgAwayGoals avgHomeCorners
          avgAwayCorners) ∧
    (∀ k : Int,
      (Match.runFullSimulation self gen home away avgHomeGoals avgAwayGoals avgHomeCorners
        avgAwayCorners).cornerCounts.getD k 0 =
      countWhere (fun s => decide (s.homeCorners + s.awayCorners = k))
        (trialSamples self gen home away avgHomeGoals avgAwayGoals avgHomeCorners
          avgAwayCorners)) ∧
    (∀ h a : Int,
      (Match.runFullSimulation self gen home away avgHomeGoals avgAwayGoals avgHomeCorners
        avgAwayCorners).scoreCounts.getD (h, a) 0 =
      countWhere (fun s => decide (s.homeGoals = h ∧ s.awayGoals = a))
        (trialSamples self gen home away avgHomeGoals avgAwayGoals avgHomeCorners
          avgAwayCorners)) ∧
    (trialSamples self gen home away avgHomeGoals avgAwayGoals avgHomeCorners
        avgAwayCorners).length = self.simulationsToRun.toNat := by
  obtain ⟨h1, h2, h3, h4, h5, h6, h7, h8, h9⟩ :=
    foldl_tally gen home away avgHomeGoals avgAwayGoals avgHomeCorners avgAwayCorners
      (List.range self.simulationsToRun.toNat) (Match.reset self)
  unfold Match.runFullSimulation trialSamples
  have hb : (fun s : Sample => decide (s.homeGoals ≥ 1 ∧ s.awayGoals ≥ 1)) =
      (fun s : Sample => decide (s.homeGoals > 0 ∧ s.awayGoals > 0)) := by
    funext s
    apply decide_eq_decide.2
    constructor <;> intro h <;> constructor <;> omega
  have hs : ∀ h a : Int, (fun s : Sample => decide (s.homeGoals = h ∧ s.awayGoals = a)) =
      (fun s : Sample => decide ((s.homeGoals, s.awayGoals) = (h, a))) := by
    intro h a
    funext s
    apply decide_eq_decide.2
    simp
  refine ⟨?_, ?_, ?_, ?_, ?_, ?_, ?_, ?_, ?_, ?_⟩
  · rw [h1]; simp [Match.reset]
  · rw [h2]; simp [Match.reset]
  · rw [h3]; simp [Match.reset]
  · rw [h4]; simp [Match.reset]
  · rw [h5]; simp [Match.reset]
  · rw [h6]; simp [Match.reset]
  · rw [h7, hb]; simp [Match.reset]
  · intro k; rw [h8]; simp [Match.reset, getD_empty]
  · intro h a; rw [h9, hs]; simp [Match.reset, getD_empty]
  · simp

/-! ## Lemmas: the head-to-head scan -/

theorem h2hStep_totalMatches (w : Bool) (m : MatchResult) (acc : H2HAcc) :
    (h2hStep w m acc).stats.totalMatches = acc.stats.totalMatches + 1 := by
  unfold h2hStep
  simp only
  split_ifs <;> rfl

/-- The scan is the fold of `h2hStep` over the first qualifying matches, as many as
the loop condition lets through. -/
theorem h2hScan_eq_foldl (teamA teamB : String) (cutoffDate : TimePoint) (maxMatches : Int)
    (l : List MatchResult) (acc : H2HAcc) :
    h2hScan teamA teamB cutoffDate maxMatches l acc =
      ((l.filter (h2hQualifies teamA teamB cutoffDate)).take
          (maxMatches - acc.stats.totalMatches).toNat).foldl
        (fun a m => h2hStep (decide (m.homeTeamName = teamA ∧ m.awayTeamName = teamB)) m a)
        acc := by
  induction l generalizing acc with
  | nil => simp [h2hScan]
  | cons m rest ih =>
    unfold h2hScan
    by_cases hlt : acc.stats.totalMatches < maxMatches
    · rw [if_pos hlt]
      have hk : (maxMatches - acc.stats.totalMatches).toNat
          = (maxMatches - (acc.stats.totalMatches + 1)).toNat + 1 := by omega
      by_cases hd : m.date ≥ cutoffDate
      · rw [if_pos hd, ih]
        have hq : h2hQualifies teamA teamB cutoffDate m = false := by
          unfold h2hQualifies
          have : ¬ m.date < cutoffDate := not_lt.mpr hd
          simp [this]
        rw [List.filter_cons, hq]
        simp
      · rw [if_neg hd]
        have hdl : m.date < cutoffDate := lt_of_not_ge hd
        by_cases h1 : m.homeTeamName = teamA ∧ m.awayTeamName = teamB
        · rw [if_pos h1, ih, h2hStep_totalMatches]
          have hq : h2hQualifies teamA teamB cutoffDate m = true := by
            unfold h2hQualifies
            simp [hdl, h1]
          rw [List.filter_cons, hq, if_pos rfl, hk, List.take_succ_cons, List.foldl_cons]
          simp [h1]
        · rw [if_neg h1]
          by_cases h2 : m.homeTeamName = teamB ∧ m.awayTeamName = teamA
          · rw [if_pos h2, ih, h2hStep_totalMatches]
            have hq : h2hQualifies teamA teamB cutoffDate m = true := by
              unfold h2hQualifies
              simp [hdl, h2]
            rw [List.filter_cons, hq, if_pos rfl, hk, List.take_succ_cons, List.foldl_cons]
            simp [h1]
          · rw [if_neg h2, ih]
            have hq : h2hQualifies teamA teamB cutoffDate m = false := by
              unfold h2hQualifies
              simp [h1, h2]
            rw [List.filter_cons, hq]
            simp
    · rw [if_neg hlt]
      have hk : (maxMatches - acc.stats.totalMatches).toNat = 0 := by omega
      rw [hk]
      simp

theorem sumOver_cons (f : MatchResult → Int) (m : MatchResult) (l : List MatchResult) :
    sumOver f (m :: l) = f m + sumOver f l := by
  simp [sumOver]

theorem countOf_filter_cons {α : Type} (p : α → Bool) (x : α) (l : List α) :
    countOf ((x :: l).filter p) = (if p x = true then 1 else 0) + countOf (l.filter p) := by
  unfold countOf
  rw [List.filter_cons]
  split <;> simp
  ring

/-- The fields after one step of the head-to-head scan. -/
theorem h2hStep_fields (w : Bool) (m : MatchResult) (acc : H2HAcc) :
    (h2hStep w m acc).stats.recentH2H = acc.stats.recentH2H ++ [m] ∧
    (h2hStep w m acc).stats.homeTeamWins = acc.stats.homeTeamWins +
      (if (if w = true then m.homeGoals else m.awayGoals) >
          (if w = true then m.awayGoals else m.homeGoals) then 1 else 0) ∧
    (h2hStep w m acc).stats.awayTeamWins = acc.stats.awayTeamWins +
      (if (if w = true then m.homeGoals else m.awayGoals) <
          (if w = true then m.awayGoals else m.homeGoals) then 1 else 0) ∧
    (h2hStep w m acc).stats.draws = acc.stats.draws +
      (if (if w = true then m.homeGoals else m.awayGoals) =
          (if w = true then m.awayGoals else m.homeGoals) then 1 else 0) ∧
    (h2hStep w m acc).totalGoalsHome = acc.totalGoalsHome +
      (if w = true then m.homeGoals else m.awayGoals) ∧
    (h2hStep w m acc).totalGoalsAway = acc.totalGoalsAway +
      (if w = true then m.awayGoals else m.homeGoals) ∧
    (h2hStep w m acc).bttsCount = acc.bttsCount +
      (if (if w = true then m.homeGoals else m.awayGoals) > 0 ∧
          (if w = true then m.awayGoals else m.homeGoals) > 0 then 1 else 0) ∧
    (h2hStep w m acc).over25Count = acc.over25Count +
      (if (if w = true then m.homeGoals else m.awayGoals) +
          (if w = true then m.awayGoals else m.homeGoals) > 2 then 1 else 0) ∧
    (h2hStep w m acc).stats.avgHomeGoals = acc.stats.avgHomeGoals ∧
    (h2hStep w m acc).stats.avgAwayGoals = acc.stats.avgAwayGoals ∧
    (h2hStep w m acc).stats.bttsPercentage = acc.stats.bttsPercentage ∧
    (h2hStep w m acc).stats.over25Percentage = acc.stats.over25Percentage := by
  unfold h2hStep
  generalize (if w = true then m.homeGoals else m.awayGoals) = g1
  generalize (if w = true then m.awayGoals else m.homeGoals) = g2
  simp only [apply_ite H2HStats.recentH2H, apply_ite H2HStats.homeTeamWins,
    apply_ite H2HStats.awayTeamWins, apply_ite H2HStats.draws,
    apply_ite H2HStats.avgHomeGoals, apply_ite H2HStats.avgAwayGoals,
    apply_ite H2HStats.bttsPercentage, apply_ite H2HStats.over25Percentage, ite_self]
  refine ⟨?_, ?_, ?_, ?_, ?_, ?_, ?_, ?_, ?_, ?_, ?_, ?_⟩ <;>
    first
    | trivial
    | rfl
    | (split_ifs <;> first | rfl | omega)

/-- The state after folding `h2hStep` over a list of matches, each oriented by `w`. -/
theorem foldl_h2hStep (w : MatchResult → Bool) (l : List MatchResult) (acc : H2HAcc) :
    (l.foldl (fun a m => h2hStep (w m) m a) acc).stats.recentH2H = acc.stats.recentH2H ++ l ∧
    (l.foldl (fun a m => h2hStep (w m) m a) acc).stats.totalMatches =
      acc.stats.totalMatches + countOf l ∧
    (l.foldl (fun a m => h2hStep (w m) m a) acc).stats.homeTeamWins = acc.stats.homeTeamWins +
      countOf (l.filter (fun m => decide ((if w m = true then m.homeGoals else m.awayGoals) >
          (if w m = true then m.awayGoals else m.homeGoals)))) ∧
    (l.foldl (fun a m => h2hStep (w m) m a) acc).stats.awayTeamWins = acc.stats.awayTeamWins +
      countOf (l.filter (fun m => decide ((if w m = true then m.homeGoals else m.awayGoals) <
          (if w m = true then m.awayGoals else m.homeGoals)))) ∧
    (l.foldl (fun a m => h2hStep (w m) m a) acc).stats.draws = acc.stats.draws +
      countOf (l.filter (fun m => decide ((if w m = true then m.homeGoals else m.awayGoals) =
          (if w m = true then m.awayGoals else m.homeGoals)))) ∧
    (l.foldl (fun a m => h2hStep (w m) m a) acc).totalGoalsHome = acc.totalGoalsHome +
      sumOver (fun m => if w m = true then m.homeGoals else m.awayGoals) l ∧
    (l.foldl (fun a m => h2hStep (w m) m a) acc).totalGoalsAway = acc.totalGoalsAway +
      sumOver (fun m => if w m = true then m.awayGoals else m.homeGoals) l ∧
    (l.foldl (fun a m => h2hStep (w m) m a) acc).bttsCount = acc.bttsCount +
      countOf (l.filter (fun m => decide ((if w m = true then m.homeGoals else m.awayGoals) > 0 ∧
          (if w m = true then m.awayGoals else m.homeGoals) > 0))) ∧
    (l.foldl (fun a m => h2hStep (w m) m a) acc).over25Count = acc.over25Count +
      countOf (l.filter (fun m => decide ((if w m = true then m.homeGoals else m.awayGoals) +
          (if w m = true then m.awayGoals else m.homeGoals) > 2))) ∧
    (l.foldl (fun a m => h2hStep (w m) m a) acc).stats.avgHomeGoals = acc.stats.avgHomeGoals ∧
    (l.foldl (fun a m => h2hStep (w m) m a) acc).stats.avgAwayGoals = acc.stats.avgAwayGoals ∧
    (l.foldl (fun a m => h2hStep (w m) m a) acc).stats.bttsPercentage =
      acc.stats.bttsPercentage ∧
    (l.foldl (fun a m => h2hStep (w m) m a) acc).stats.over25Percentage =
      acc.stats.over25Percentage := by
  induction l generalizing acc with
  | nil => simp [countOf, sumOver]
  | cons m l ih =>
    rw [List.foldl_cons]
    obtain ⟨h1, h2, h3, h4, h5, h6, h7, h8, h9, h10, h11, h12, h13⟩ := ih (h2hStep (w m) m acc)
    obtain ⟨s1, s3, s4, s5, s6, s7, s8, s9, s10, s11, s12, s13⟩ := h2hStep_fields (w m) m acc
    rw [h1, h2, h3, h4, h5, h6, h7, h8, h9, h10, h11, h12, h13,
      s1, h2hStep_totalMatches, s3, s4, s5, s6, s7, s8, s9, s10, s11, s12, s13]
    simp only [countOf_filter_cons, sumOver_cons, countOf_cons, decide_eq_true_eq]
    refine ⟨by simp, by ring, by ring, by ring, by ring, by ring, by ring, by ring, by ring,
      ?_⟩
    simp

/-- The head-to-head list of a known pair of teams: the scan state before the final
averages. -/
theorem getHeadToHeadStats_known (env : Env) (self : DataLoader) (teamA teamB beforeDate : String)
    (maxMatches : Int) (team other : Team)
    (hA : self.loadedTeams.find? teamA = some team)
    (hB : self.loadedTeams.find? teamB = some other) :
    DataLoader.getHeadToHeadStats env self teamA teamB beforeDate maxMatches =
      h2hFinish
        (((team.matchHistory.reverse.filter
            (h2hQualifies teamA teamB (h2hCutoff env beforeDate))).take maxMatches.toNat).foldl
          (fun a m => h2hStep (decide (m.homeTeamName = teamA ∧ m.awayTeamName = teamB)) m a)
          {}) := by
  unfold DataLoader.getHeadToHeadStats
  simp only [hA, hB]
  rw [h2hScan_eq_foldl]
  simp

theorem h2hFinish_keeps (acc : H2HAcc) :
    (h2hFinish acc).recentH2H = acc.stats.recentH2H ∧
    (h2hFinish acc).totalMatches = acc.stats.totalMatches ∧
    (h2hFinish acc).homeTeamWins = acc.stats.homeTeamWins ∧
    (h2hFinish acc).awayTeamWins = acc.stats.awayTeamWins ∧
    (h2hFinish acc).draws = acc.stats.draws := by
  unfold h2hFinish
  split <;> simp

theorem qualifiesBefore_eq (env : Env) (teamA teamB beforeDate : String) (m : MatchResult)
    (hm : m.date < timePointMax) :
    h2hQualifies teamA teamB (h2hCutoff env beforeDate) m =
      qualifiesBefore env teamA teamB beforeDate m := by
  unfold h2hQualifies qualifiesBefore h2hCutoff
  by_cases hb : beforeDate = ""
  · simp [hb, hm]
  · simp [hb]

/-- C5. For known teams A and B, the list `recentH2H` returned by
`getHeadToHeadStats(A, B, cutoff, maxMatches)` is the first `maxMatches` elements
(none when `maxMatches <= 0`, all of them when there are fewer) of A's history read
from most recent to oldest and filtered to the qualifying matches: those dated
strictly before the cutoff (no bound for the empty cutoff string) whose two sides
are A and B in either order. `totalMatches` is the length of that list, and the
listed matches are records of the history, unchanged. The dates of the history are
time points below `time_point::max()`. -/
theorem h2h_recent_is_prefix_of_qualifying (env : Env) (self : DataLoader)
    (teamA teamB beforeDate : String) (maxMatches : Int) (team other : Team)
    (hA : self.loadedTeams.find? teamA = some team)
    (hB : self.loadedTeams.find? teamB = some other)
    (hdates : ∀ m ∈ team.matchHistory, m.date < timePointMax) :
    (DataLoader.getHeadToHeadStats env self teamA teamB beforeDate maxMatches).recentH2H =
      (team.matchHistory.reverse.filter (qualifiesBefore env teamA teamB beforeDate)).take
        maxMatches.toNat ∧
    (DataLoader.getHeadToHeadStats env self teamA teamB beforeDate maxMatches).recentH2H.length =
      min maxMatches.toNat
        (team.matchHistory.reverse.filter (qualifiesBefore env teamA teamB beforeDate)).length ∧
    (maxMatches ≤ 0 →
      (DataLoader.getHeadToHeadStats env self teamA teamB beforeDate maxMatches).recentH2H = []) ∧
    (DataLoader.getHeadToHeadStats env self teamA teamB beforeDate maxMatches).totalMatches =
      countOf
        (DataLoader.getHeadToHeadStats env self teamA teamB beforeDate maxMatches).recentH2H ∧
    (∀ m ∈ (DataLoader.getHeadToHeadStats env self teamA teamB beforeDate maxMatches).recentH2H,
      m ∈ team.matchHistory) := by
  have hfilter : team.matchHistory.reverse.filter
        (h2hQualifies teamA teamB (h2hCutoff env beforeDate)) =
      team.matchHistory.reverse.filter (qualifiesBefore env teamA teamB beforeDate) := by
    apply List.filter_congr
    intro m hm
    exact qualifiesBefore_eq env teamA teamB beforeDate m (hdates m (List.mem_reverse.1 hm))
  have hlist :
      (DataLoader.getHeadToHeadStats env self teamA teamB beforeDate maxMatches).recentH2H =
        (team.matchHistory.reverse.filter (qualifiesBefore env teamA teamB beforeDate)).take
          maxMatches.toNat := by
    rw [getHeadToHeadStats_known env self teamA teamB beforeDate maxMatches team other hA hB,
      (h2hFinish_keeps _).1, (foldl_h2hStep _ _ _).1, hfilter]
    simp
  have htotal :
      (DataLoader.getHeadToHeadStats env self teamA teamB beforeDate maxMatches).totalMatches =
        countOf ((team.matchHistory.reverse.filter
          (qualifiesBefore env teamA teamB beforeDate)).take maxMatches.toNat) := by
    rw [getHeadToHeadStats_known env self teamA teamB beforeDate maxMatches team other hA hB,
      (h2hFinish_keeps _).2.1, (foldl_h2hStep _ _ _).2.1, hfilter]
    simp
  refine ⟨hlist, ?_, ?_, ?_, ?_⟩
  · rw [hlist, List.length_take]
  · intro hle
    rw [hlist]
    have : maxMatches.toNat = 0 := by omega
    rw [this]
    rfl
  · rw [htotal, hlist]
  · intro m hm
    rw [hlist] at hm
    have := List.mem_of_mem_take hm
    rw [List.mem_filter] at this
    exact List.mem_reverse.1 this.1

theorem Dbl.mul_fin (a b : ℚ) : Dbl.mul (Dbl.fin a) (Dbl.fin b) = Dbl.fin (a * b) := rfl

theorem h2hFinish_pos (acc : H2HAcc) (h : acc.stats.totalMatches > 0) :
    (h2hFinish acc).avgHomeGoals =
      Dbl.fin ((acc.totalGoalsHome : ℚ) / (acc.stats.totalMatches : ℚ)) ∧
    (h2hFinish acc).avgAwayGoals =
      Dbl.fin ((acc.totalGoalsAway : ℚ) / (acc.stats.totalMatches : ℚ)) ∧
    (h2hFinish acc).bttsPercentage =
      Dbl.fin ((acc.bttsCount : ℚ) / (acc.stats.totalMatches : ℚ) * 100) ∧
    (h2hFinish acc).over25Percentage =
      Dbl.fin ((acc.over25Count : ℚ) / (acc.stats.totalMatches : ℚ) * 100) := by
  have hne : (acc.stats.totalMatches : ℚ) ≠ 0 := by
    have : acc.stats.totalMatches ≠ 0 := by omega
    exact_mod_cast this
  unfold h2hFinish
  rw [if_pos h]
  simp [Dbl.ofInt, Dbl.div_fin _ _ hne, Dbl.mul_fin]

theorem getHeadToHeadStats_unknown (env : Env) (self : DataLoader)
    (teamA teamB beforeDate : String) (maxMatches : Int)
    (h : self.loadedTeams.find? teamA = none ∨ self.loadedTeams.find? teamB = none) :
    DataLoader.getHeadToHeadStats env self teamA teamB beforeDate maxMatches = {} := by
  unfold DataLoader.getHeadToHeadStats
  rcases h with h | h
  · simp [h]
  · rw [h]
    cases self.loadedTeams.find? teamA <;> rfl

/-- In a qualifying match, the first team is the home side exactly when the match
is the pairing `teamA` at home against `teamB`. -/
theorem wasHome_of_qualifies (teamA teamB : String) (cutoffDate : TimePoint) (m : MatchResult)
    (h : h2hQualifies teamA teamB cutoffDate m = true) :
    decide (m.homeTeamName = teamA ∧ m.awayTeamName = teamB) = decide (m.homeTeamName = teamA) := by
  unfold h2hQualifies at h
  simp only [Bool.and_eq_true, Bool.or_eq_true, decide_eq_true_eq] at h
  apply decide_eq_decide.2
  constructor
  · exact fun hh => hh.1
  · intro hh
    rcases h.2 with h2 | h2
    · exact h2
    · exact ⟨hh, by rw [h2.2, ← hh, h2.1]⟩

theorem oriented_goals_of_qualifies (teamA teamB : String) (cutoffDate : TimePoint)
    (m : MatchResult) (h : h2hQualifies teamA teamB cutoffDate m = true) :
    (if decide (m.homeTeamName = teamA ∧ m.awayTeamName = teamB) = true then m.homeGoals
      else m.awayGoals) = goalsOf teamA m ∧
    (if decide (m.homeTeamName = teamA ∧ m.awayTeamName = teamB) = true then m.awayGoals
      else m.homeGoals) = goalsAgainst teamA m := by
  rw [wasHome_of_qualifies teamA teamB cutoffDate m h]
  unfold goalsOf goalsAgainst
  simp

theorem countOf_trichotomy (f g : MatchResult → Int) (l : List MatchResult) :
    countOf (l.filter (fun m => decide (f m > g m))) +
      countOf (l.filter (fun m => decide (f m < g m))) +
      countOf (l.filter (fun m => decide (f m = g m))) = countOf l := by
  induction l with
  | nil => rfl
  | cons m l ih =>
    simp only [countOf_filter_cons, countOf_cons, decide_eq_true_eq]
    rcases lt_trichotomy (f m) (g m) with h | h | h
    · have h1 : ¬ f m > g m := by omega
      have h2 : ¬ f m = g m := by omega
      simp only [h, h1, h2, if_true, if_false]
      omega
    · have h1 : ¬ f m > g m := by omega
      have h2 : ¬ f m < g m := by omega
      simp only [h, h1, h2, if_true, if_false]
      omega
    · have h1 : ¬ f m < g m := by omega
      have h2 : ¬ f m = g m := by omega
      simp only [h, h1, h2, if_true, if_false]
      omega

/-- C6. When `getHeadToHeadStats(A, B, ...)` finds at least one match, its statistics
are those of the listed matches with the goals reoriented to A (A's goals as home
goals, the opponent's as away goals, whoever hosted): the three result counts are
the numbers of listed matches A won, lost and drew, and they sum to `totalMatches`;
the two averages are the sums of A's goals and of the opponent's goals divided by
`totalMatches`; the two percentages are the numbers of listed matches where both
sides scored, and where more than 2 goals were scored, divided by `totalMatches`
and multiplied by 100. -/
theorem h2h_statistics_of_listed_matches (env : Env) (self : DataLoader)
    (teamA teamB beforeDate : String) (maxMatches : Int)
    (hpos : 0 < (DataLoader.getHeadToHeadStats env self teamA teamB beforeDate
      maxMatches).totalMatches) :
    (DataLoader.getHeadToHeadStats env self teamA teamB beforeDate maxMatches).homeTeamWins =
      countOf ((DataLoader.getHeadToHeadStats env self teamA teamB beforeDate
        maxMatches).recentH2H.filter (fun m => decide (goalsOf teamA m > goalsAgainst teamA m))) ∧
    (DataLoader.getHeadToHeadStats env self teamA teamB beforeDate maxMatches).awayTeamWins =
      countOf ((DataLoader.getHeadToHeadStats env self teamA teamB beforeDate
        maxMatches).recentH2H.filter (fun m => decide (goalsOf teamA m < goalsAgainst teamA m))) ∧
    (DataLoader.getHeadToHeadStats env self teamA teamB beforeDate maxMatches).draws =
      countOf ((DataLoader.getHeadToHeadStats env self teamA teamB beforeDate
        maxMatches).recentH2H.filter (fun m => decide (goalsOf teamA m = goalsAgainst teamA m))) ∧
    (DataLoader.getHeadToHeadStats env self teamA teamB beforeDate maxMatches).homeTeamWins +
      (DataLoader.getHeadToHeadStats env self teamA teamB beforeDate maxMatches).awayTeamWins +
      (DataLoader.getHeadToHeadStats env self teamA teamB beforeDate maxMatches).draws =
      (DataLoader.getHeadToHeadStats env self teamA teamB beforeDate maxMatches).totalMatches ∧
    (DataLoader.getHeadToHeadStats env self teamA teamB beforeDate maxMatches).avgHomeGoals =
      Dbl.fin
        ((sumOver (goalsOf teamA) (DataLoader.getHeadToHeadStats env self teamA teamB beforeDate
            maxMatches).recentH2H : ℚ) /
          ((DataLoader.getHeadToHeadStats env self teamA teamB beforeDate
            maxMatches).totalMatches : ℚ)) ∧
    (DataLoader.getHeadToHeadStats env self teamA teamB beforeDate maxMatches).avgAwayGoals =
      Dbl.fin
        ((sumOver (goalsAgainst teamA) (DataLoader.getHeadToHeadStats env self teamA teamB
            beforeDate maxMatches).recentH2H : ℚ) /
          ((DataLoader.getHeadToHeadStats env self teamA teamB beforeDate
            maxMatches).totalMatches : ℚ)) ∧
    (DataLoader.getHeadToHeadStats env self teamA teamB beforeDate maxMatches).bttsPercentage =
      Dbl.fin
        ((countOf ((DataLoader.getHeadToHeadStats env self teamA teamB beforeDate
            maxMatches).recentH2H.filter
              (fun m => decide (goalsOf teamA m ≥ 1 ∧ goalsAgainst teamA m ≥ 1))) : ℚ) /
          ((DataLoader.getHeadToHeadStats env self teamA teamB beforeDate
            maxMatches).totalMatches : ℚ) * 100) ∧
    (DataLoader.getHeadToHeadStats env self teamA teamB beforeDate maxMatches).over25Percentage =
      Dbl.fin
        ((countOf ((DataLoader.getHeadToHeadStats env self teamA teamB beforeDate
            maxMatches).recentH2H.filter
              (fun m => decide (goalsOf teamA m + goalsAgainst teamA m > 2))) : ℚ) /
          ((DataLoader.getHeadToHeadStats env self teamA teamB beforeDate
            maxMatches).totalMatches : ℚ) * 100) := by
  cases hA : self.loadedTeams.find? teamA with
  | none =>
    rw [getHeadToHeadStats_unknown env self teamA teamB beforeDate maxMatches (Or.inl hA)] at hpos
    exact absurd hpos (by decide)
  | some team =>
    cases hB : self.loadedTeams.find? teamB with
    | none =>
      rw [getHeadToHeadStats_unknown env self teamA teamB beforeDate maxMatches (Or.inr hB)]
        at hpos
      exact absurd hpos (by decide)
    | some other =>
      rw [getHeadToHeadStats_known env self teamA teamB beforeDate maxMatches team other hA hB]
        at hpos ⊢
      generalize hT : (team.matchHistory.reverse.filter
        (h2hQualifies teamA teamB (h2hCutoff env beforeDate))).take maxMatches.toNat = T
        at hpos ⊢
      have hq : ∀ m ∈ T, h2hQualifies teamA teamB (h2hCutoff env beforeDate) m = true := by
        intro m hm
        rw [← hT] at hm
        have := List.mem_of_mem_take hm
        rw [List.mem_filter] at this
        exact this.2
      obtain ⟨f1, f2, f3, f4, f5, f6, f7, f8, f9, _⟩ :=
        foldl_h2hStep (fun m => decide (m.homeTeamName = teamA ∧ m.awayTeamName = teamB)) T {}
      generalize hacc : List.foldl
        (fun a m => h2hStep (decide (m.homeTeamName = teamA ∧ m.awayTeamName = teamB)) m a)
        {} T = acc at hpos f1 f2 f3 f4 f5 f6 f7 f8 f9 ⊢
      obtain ⟨k1, k2, k3, k4, k5⟩ := h2hFinish_keeps acc
      rw [k2] at hpos
      obtain ⟨p1, p2, p3, p4⟩ := h2hFinish_pos acc hpos
      have e1 : ∀ m ∈ T,
          (if decide (m.homeTeamName = teamA ∧ m.awayTeamName = teamB) = true then m.homeGoals
            else m.awayGoals) = goalsOf teamA m :=
        fun m hm => (oriented_goals_of_qualifies teamA teamB _ m (hq m hm)).1
      have e2 : ∀ m ∈ T,
          (if decide (m.homeTeamName = teamA ∧ m.awayTeamName = teamB) = true then m.awayGoals
            else m.homeGoals) = goalsAgainst teamA m :=
        fun m hm => (oriented_goals_of_qualifies teamA teamB _ m (hq m hm)).2
      have hT' : acc.stats.recentH2H = T := by rw [f1]; rfl
      rw [k1, k2, k3, k4, k5, p1, p2, p3, p4, hT', f2, f3, f4, f5, f6, f7, f8, f9]
      have c1 : T.filter (fun m => decide
            ((if decide (m.homeTeamName = teamA ∧ m.awayTeamName = teamB) = true then m.homeGoals
              else m.awayGoals) >
            (if decide (m.homeTeamName = teamA ∧ m.awayTeamName = teamB) = true then m.awayGoals
              else m.homeGoals))) =
          T.filter (fun m => decide (goalsOf teamA m > goalsAgainst teamA m)) :=
        List.filter_congr (fun m hm => by rw [e1 m hm, e2 m hm])
      have c2 : T.filter (fun m => decide
            ((if decide (m.homeTeamName = teamA ∧ m.awayTeamName = teamB) = true then m.homeGoals
              else m.awayGoals) <
            (if decide (m.homeTeamName = teamA ∧ m.awayTeamName = teamB) = true then m.awayGoals
              else m.homeGoals))) =
          T.filter (fun m => decide (goalsOf teamA m < goalsAgainst teamA m)) :=
        List.filter_congr (fun m hm => by rw [e1 m hm, e2 m hm])
      have c3 : T.filter (fun m => decide
            ((if decide (m.homeTeamName = teamA ∧ m.awayTeamName = teamB) = true then m.homeGoals
              else m.awayGoals) =
            (if decide (m.homeTeamName = teamA ∧ m.awayTeamName = teamB) = true then m.awayGoals
              else m.homeGoals))) =
          T.filter (fun m => decide (goalsOf teamA m = goalsAgainst teamA m)) :=
        List.filter_congr (fun m hm => by rw [e1 m hm, e2 m hm])
      have c4 : T.filter (fun m => decide
            ((if decide (m.homeTeamName = teamA ∧ m.awayTeamName = teamB) = true then m.homeGoals
              else m.awayGoals) > 0 ∧
            (if decide (m.homeTeamName = teamA ∧ m.awayTeamName = teamB) = true then m.awayGoals
              else m.homeGoals) > 0)) =
          T.filter (fun m => decide (goalsOf teamA m ≥ 1 ∧ goalsAgainst teamA m ≥ 1)) :=
        List.filter_congr (fun m hm => by
          rw [e1 m hm, e2 m hm]
          apply decide_eq_decide.2
          constructor <;> intro h <;> constructor <;> omega)
      have c5 : T.filter (fun m => decide
            ((if decide (m.homeTeamName = teamA ∧ m.awayTeamName = teamB) = true then m.homeGoals
              else m.awayGoals) +
            (if decide (m.homeTeamName = teamA ∧ m.awayTeamName = teamB) = true then m.awayGoals
              else m.homeGoals) > 2)) =
          T.filter (fun m => decide (goalsOf teamA m + goalsAgainst teamA m > 2)) :=
        List.filter_congr (fun m hm => by rw [e1 m hm, e2 m hm])
      have s1 : sumOver (fun m =>
            if decide (m.homeTeamName = teamA ∧ m.awayTeamName = teamB) = true then m.homeGoals
            else m.awayGoals) T = sumOver (goalsOf teamA) T := by
        unfold sumOver
        rw [List.map_congr_left e1]
      have s2 : sumOver (fun m =>
            if decide (m.homeTeamName = teamA ∧ m.awayTeamName = teamB) = true then m.awayGoals
            else m.homeGoals) T = sumOver (goalsAgainst teamA) T := by
        unfold sumOver
        rw [List.map_congr_left e2]
      rw [c1, c2, c3, c4, c5, s1, s2]
      refine ⟨by simp, by simp, by simp, ?_, by simp, by simp, by simp, by simp⟩
      have := countOf_trichotomy (goalsOf teamA) (goalsAgainst teamA) T
      simp only [H2HAcc.stats, H2HStats.homeTeamWins, H2HStats.awayTeamWins, H2HStats.draws,
        H2HStats.totalMatches, zero_add]
      exact this

theorem demoLoader_find_A : demoLoader.loadedTeams.find? "A" = some demoTeamA := by
  unfold demoLoader
  simp only
  rw [StdMap.find?_set_ne _ _ _ _ (by decide), StdMap.find?_set_self]

theorem demoLoader_find_B : demoLoader.loadedTeams.find? "B" = some demoTeamB := by
  unfold demoLoader
  simp only
  rw [StdMap.find?_set_self]

/-- C5, at a concrete input: of the three matches between A and B, the two most
recent before the cutoff are listed, most recent first. -/
theorem h2h_recent_is_prefix_of_qualifying_witness :
    (∀ m ∈ demoTeamA.matchHistory, m.date < timePointMax) ∧
    (DataLoader.getHeadToHeadStats demoEnv demoLoader "A" "B" "2024-01-22" 2).recentH2H =
      [demoMatch3, demoMatch2] ∧
    (DataLoader.getHeadToHeadStats demoEnv demoLoader "A" "B" "2024-01-15" 2).recentH2H =
      [demoMatch2, demoMatch1] ∧
    (DataLoader.getHeadToHeadStats demoEnv demoLoader "A" "B" "" 0).recentH2H = [] := by
  have hd : ∀ m ∈ demoTeamA.matchHistory, m.date < timePointMax := by decide
  refine ⟨hd, ?_, ?_, ?_⟩
  · rw [(h2h_recent_is_prefix_of_qualifying demoEnv demoLoader "A" "B" "2024-01-22" 2
      demoTeamA demoTeamB demoLoader_find_A demoLoader_find_B hd).1]
    decide
  · rw [(h2h_recent_is_prefix_of_qualifying demoEnv demoLoader "A" "B" "2024-01-15" 2
      demoTeamA demoTeamB demoLoader_find_A demoLoader_find_B hd).1]
    decide
  · exact (h2h_recent_is_prefix_of_qualifying demoEnv demoLoader "A" "B" "" 0
      demoTeamA demoTeamB demoLoader_find_A demoLoader_find_B hd).2.2.1 (by decide)

/-- C6, at a concrete input: three matches between A and B with goals (2,1), (0,0),
(1,1) from A's side, one of them hosted by B: one win and two draws for A, both
sides scoring in two of the three, more than two goals in one. -/
theorem h2h_statistics_of_listed_matches_witness :
    0 < (DataLoader.getHeadToHeadStats demoEnv demoLoader "A" "B" "" 10).totalMatches ∧
    (DataLoader.getHeadToHeadStats demoEnv demoLoader "A" "B" "" 10).homeTeamWins = 1 ∧
    (DataLoader.getHeadToHeadStats demoEnv demoLoader "A" "B" "" 10).awayTeamWins = 0 ∧
    (DataLoader.getHeadToHeadStats demoEnv demoLoader "A" "B" "" 10).draws = 2 ∧
    (DataLoader.getHeadToHeadStats demoEnv demoLoader "A" "B" "" 10).avgHomeGoals = Dbl.fin 1 ∧
    (DataLoader.getHeadToHeadStats demoEnv demoLoader "A" "B" "" 10).avgAwayGoals
      = Dbl.fin (2 / 3) ∧
    (DataLoader.getHeadToHeadStats demoEnv demoLoader "A" "B" "" 10).bttsPercentage
      = Dbl.fin (200 / 3) ∧
    (DataLoader.getHeadToHeadStats demoEnv demoLoader "A" "B" "" 10).over25Percentage
      = Dbl.fin (100 / 3) := by
  have hpos : 0 < (DataLoader.getHeadToHeadStats demoEnv demoLoader "A" "B" "" 10).totalMatches := by
    decide
  obtain ⟨h1, h2, h3, _, h5, h6, h7, h8⟩ :=
    h2h_statistics_of_listed_matches demoEnv demoLoader "A" "B" "" 10 hpos
  have hN : (DataLoader.getHeadToHeadStats demoEnv demoLoader "A" "B" "" 10).totalMatches = 3 := by
    decide
  refine ⟨hpos, ?_, ?_, ?_, ?_, ?_, ?_, ?_⟩
  · rw [h1]; decide
  · rw [h2]; decide
  · rw [h3]; decide
  · rw [h5, hN]
    have : sumOver (goalsOf "A")
        (DataLoader.getHeadToHeadStats demoEnv demoLoader "A" "B" "" 10).recentH2H = 3 := by
      decide
    rw [this]; norm_num
  · rw [h6, hN]
    have : sumOver (goalsAgainst "A")
        (DataLoader.getHeadToHeadStats demoEnv demoLoader "A" "B" "" 10).recentH2H = 2 := by
      decide
    rw [this]; norm_num
  · rw [h7, hN]
    have : countOf ((DataLoader.getHeadToHeadStats demoEnv demoLoader "A" "B" "" 10).recentH2H.filter
        (fun m => decide (goalsOf "A" m ≥ 1 ∧ goalsAgainst "A" m ≥ 1))) = 2 := by
      decide
    rw [this]; norm_num
  · rw [h8, hN]
    have : countOf ((DataLoader.getHeadToHeadStats demoEnv demoLoader "A" "B" "" 10).recentH2H.filter
        (fun m => decide (goalsOf "A" m + goalsAgainst "A" m > 2))) = 1 := by
      decide
    rw [this]; norm_num

/-! ## Lemmas: the form scan -/

theorem windowTotals_nil : windowTotals [] [] = {} := rfl

theorem updateRaw_same (rawData : String → TeamData) (name : String) (f : TeamData → TeamData) :
    updateRaw rawData name f name = f (rawData name) := by
  simp [updateRaw]

theorem updateRaw_other (rawData : String → TeamData) (name k : String)
    (f : TeamData → TeamData) (h : k ≠ name) : updateRaw rawData name f k = rawData k := by
  simp [updateRaw, h]

theorem add_home_cons (x : TeamData) (m : MatchResult) (hs as : List MatchResult) :
    TeamData.add
        { x with
          homeMatches := x.homeMatches + 1
          homeGoalsScored := x.homeGoalsScored + m.homeGoals
          homeGoalsConceded := x.homeGoalsConceded + m.awayGoals }
        (windowTotals hs as) =
      TeamData.add x (windowTotals (m :: hs) as) := by
  simp only [TeamData.add, windowTotals, sumOver_cons, countOf_cons, TeamData.mk.injEq]
  refine ⟨?_, ?_, ?_, ?_, ?_, ?_, ?_, ?_, ?_, ?_⟩ <;> first | trivial | ring

theorem add_away_cons (x : TeamData) (m : MatchResult) (hs as : List MatchResult) :
    TeamData.add
        { x with
          awayMatches := x.awayMatches + 1
          awayGoalsScored := x.awayGoalsScored + m.awayGoals
          awayGoalsConceded := x.awayGoalsConceded + m.homeGoals }
        (windowTotals hs as) =
      TeamData.add x (windowTotals hs (m :: as)) := by
  simp only [TeamData.add, windowTotals, sumOver_cons, countOf_cons, TeamData.mk.injEq]
  refine ⟨?_, ?_, ?_, ?_, ?_, ?_, ?_, ?_, ?_, ?_⟩ <;> first | trivial | ring

/-- The scan of one team's history leaves the raw totals of every other name as
they were. -/
theorem formScan_other (t : String) (d : TimePoint) (w : Int) (l : List MatchResult)
    (st : FormAcc) (k : String) (hk : k ≠ t) :
    (formScan t d w l st).rawData k = st.rawData k := by
  induction l generalizing st with
  | nil => rfl
  | cons m rest ih =>
    unfold formScan
    have hstep : (formStep t w m st).rawData k = st.rawData k := by
      unfold formStep
      split_ifs <;> simp [updateRaw_other _ _ _ _ hk]
    by_cases hd : m.date ≥ d
    · rw [if_pos hd]
      exact ih st
    · rw [if_neg hd]
      simp only
      by_cases hb : (formStep t w m st).homeMatches ≥ w ∧ (formStep t w m st).awayMatches ≥ w
      · rw [if_pos hb]
        exact hstep
      · rw [if_neg hb, ih, hstep]

theorem formStep_home (t : String) (w : Int) (m : MatchResult) (st : FormAcc)
    (h1 : m.homeTeamName = t) (h2 : st.homeMatches < w) :
    (formStep t w m st).rawData t =
        { st.rawData t with
          homeMatches := (st.rawData t).homeMatches + 1
          homeGoalsScored := (st.rawData t).homeGoalsScored + m.homeGoals
          homeGoalsConceded := (st.rawData t).homeGoalsConceded + m.awayGoals } ∧
    (formStep t w m st).homeMatches = st.homeMatches + 1 ∧
    (formStep t w m st).awayMatches = st.awayMatches := by
  unfold formStep
  rw [if_pos ⟨h1, h2⟩]
  exact ⟨by simp [updateRaw], rfl, rfl⟩

theorem formStep_away (t : String) (w : Int) (m : MatchResult) (st : FormAcc)
    (h0 : ¬ (m.homeTeamName = t ∧ st.homeMatches < w))
    (h1 : m.awayTeamName = t) (h2 : st.awayMatches < w) :
    (formStep t w m st).rawData t =
        { st.rawData t with
          awayMatches := (st.rawData t).awayMatches + 1
          awayGoalsScored := (st.rawData t).awayGoalsScored + m.awayGoals
          awayGoalsConceded := (st.rawData t).awayGoalsConceded + m.homeGoals } ∧
    (formStep t w m st).homeMatches = st.homeMatches ∧
    (formStep t w m st).awayMatches = st.awayMatches + 1 := by
  unfold formStep
  rw [if_neg h0, if_pos ⟨h1, h2⟩]
  exact ⟨by simp [updateRaw], rfl, rfl⟩

theorem formStep_none (t : String) (w : Int) (m : MatchResult) (st : FormAcc)
    (h0 : ¬ (m.homeTeamName = t ∧ st.homeMatches < w))
    (h1 : ¬ (m.awayTeamName = t ∧ st.awayMatches < w)) :
    formStep t w m st = st := by
  unfold formStep
  rw [if_neg h0, if_neg h1]

theorem take_filter_cons_of_full {α : Type} (p : α → Bool) (x : α) (l : List α) (n : Nat)
    (h : p x = true → n = 0) :
    ((x :: l).filter p).take n = (l.filter p).take n := by
  rw [List.filter_cons]
  by_cases hp : p x = true
  · rw [if_pos hp, h hp]
    rfl
  · rw [if_neg hp]

/-- The raw totals of team `t` after the scan of a history (most recent first) in
which `t` never plays itself: the totals before, plus those of the first home
matches and the first away matches dated before `d`, as many as the quotas allow. -/
theorem formScan_rawData (t : String) (d : TimePoint) (w : Int) (l : List MatchResult)
    (st : FormAcc) (hno : ∀ m ∈ l, ¬ (m.homeTeamName = t ∧ m.awayTeamName = t)) :
    (formScan t d w l st).rawData t =
      (st.rawData t).add
        (windowTotals
          ((l.filter (fun m => decide (m.date < d ∧ m.homeTeamName = t))).take
            (w - st.homeMatches).toNat)
          ((l.filter (fun m => decide (m.date < d ∧ m.awayTeamName = t))).take
            (w - st.awayMatches).toNat)) := by
  induction l generalizing st with
  | nil => simp [formScan, windowTotals_nil, TeamData.add_zero]
  | cons m rest ih =>
    have hno' : ∀ m ∈ rest, ¬ (m.homeTeamName = t ∧ m.awayTeamName = t) :=
      fun x hx => hno x (List.mem_cons_of_mem _ hx)
    have hm := hno m (List.mem_cons_self _ _)
    have hfin : ∀ st1 : FormAcc,
        (if st1.homeMatches ≥ w ∧ st1.awayMatches ≥ w then st1
          else formScan t d w rest st1).rawData t =
        (st1.rawData t).add
          (windowTotals
            ((rest.filter (fun m => decide (m.date < d ∧ m.homeTeamName = t))).take
              (w - st1.homeMatches).toNat)
            ((rest.filter (fun m => decide (m.date < d ∧ m.awayTeamName = t))).take
              (w - st1.awayMatches).toNat)) := by
      intro st1
      by_cases hb : st1.homeMatches ≥ w ∧ st1.awayMatches ≥ w
      · rw [if_pos hb]
        have e1 : (w - st1.homeMatches).toNat = 0 := by omega
        have e2 : (w - st1.awayMatches).toNat = 0 := by omega
        rw [e1, e2]
        simp [windowTotals_nil, TeamData.add_zero]
      · rw [if_neg hb]
        exact ih st1 hno'
    unfold formScan
    by_cases hd : m.date ≥ d
    · rw [if_pos hd, ih st hno']
      have hlt : ¬ m.date < d := not_lt.mpr hd
      have p1 : decide (m.date < d ∧ m.homeTeamName = t) = false := by simp [hlt]
      have p2 : decide (m.date < d ∧ m.awayTeamName = t) = false := by simp [hlt]
      simp only [List.filter_cons, p1, p2]
      simp
    · rw [if_neg hd]
      have hlt : m.date < d := lt_of_not_ge hd
      simp only
      rw [hfin]
      by_cases ha : m.homeTeamName = t ∧ st.homeMatches < w
      · obtain ⟨r1, r2, r3⟩ := formStep_home t w m st ha.1 ha.2
        have hat : ¬ m.awayTeamName = t := fun h => hm ⟨ha.1, h⟩
        rw [r1, r2, r3, add_home_cons]
        have p1 : decide (m.date < d ∧ m.homeTeamName = t) = true := by simp [hlt, ha.1]
        have p2 : decide (m.date < d ∧ m.awayTeamName = t) = false := by simp [hat]
        have hk : (w - st.homeMatches).toNat = (w - (st.homeMatches + 1)).toNat + 1 := by
          have := ha.2
          omega
        simp only [List.filter_cons, p1, p2, if_true, hk, List.take_succ_cons]
        simp
      · by_cases hb : m.awayTeamName = t ∧ st.awayMatches < w
        · obtain ⟨r1, r2, r3⟩ := formStep_away t w m st ha hb.1 hb.2
          have hht : ¬ m.homeTeamName = t := fun h => hm ⟨h, hb.1⟩
          rw [r1, r2, r3, add_away_cons]
          have p1 : decide (m.date < d ∧ m.homeTeamName = t) = false := by simp [hht]
          have p2 : decide (m.date < d ∧ m.awayTeamName = t) = true := by simp [hlt, hb.1]
          have hk : (w - st.awayMatches).toNat = (w - (st.awayMatches + 1)).toNat + 1 := by
            have := hb.2
            omega
          simp only [List.filter_cons, p1, p2, if_true, hk, List.take_succ_cons]
          simp
        · rw [formStep_none t w m st ha hb]
          rw [take_filter_cons_of_full (fun m => decide (m.date < d ∧ m.homeTeamName = t)) m rest
              (w - st.homeMatches).toNat,
            take_filter_cons_of_full (fun m => decide (m.date < d ∧ m.awayTeamName = t)) m rest
              (w - st.awayMatches).toNat]
          · intro hp
            simp only [decide_eq_true_eq] at hp
            have : ¬ st.awayMatches < w := fun h => hb ⟨hp.2, h⟩
            omega
          · intro hp
            simp only [decide_eq_true_eq] at hp
            have : ¬ st.homeMatches < w := fun h => ha ⟨hp.2, h⟩
            omega

/-! ## Lemmas: the form computation -/

theorem entries_split_of_find {K V : Type} [DecidableEq K] (m : StdMap K V) (k : K) (v : V)
    (h : m.find? k = some v) :
    ∃ l1 l2, m.entries = l1 ++ (k, v) :: l2 ∧ k ∉ l1.map Prod.fst ∧ k ∉ l2.map Prod.fst := by
  unfold StdMap.find? at h
  rw [Option.map_eq_some'] at h
  obtain ⟨p, hp, hv⟩ := h
  rw [List.find?_eq_some] at hp
  obtain ⟨hpk, l1, l2, hl, hnot⟩ := hp
  have hk : p.1 = k := by simpa using hpk
  have hpe : p = (k, v) := by
    cases p
    simp only at hk hv
    rw [hk, hv]
  subst hpe
  refine ⟨l1, l2, hl, ?_, ?_⟩
  · intro hmem
    rw [List.mem_map] at hmem
    obtain ⟨q, hq, hqk⟩ := hmem
    have := hnot q hq
    simp [hqk] at this
  · have hnd := m.nodup
    rw [hl, List.map_append, List.map_cons] at hnd
    have := (List.nodup_middle.1 hnd)
    rw [List.nodup_cons] at this
    intro hmem
    exact this.1 (List.mem_append_right _ hmem)

/-- The first loop of `calculateFormStrengths` leaves a name that is no key of the
entries it runs over as it found it. -/
theorem foldl_formCollect_other (d : TimePoint) (w : Int) (es : List (String × Team))
    (st : StdMap String Team × (String → TeamData)) (t : String)
    (h : t ∉ es.map Prod.fst) :
    (es.foldl (formCollect d w) st).2 t = st.2 t ∧
    (es.foldl (formCollect d w) st).1.find? t = st.1.find? t := by
  induction es generalizing st with
  | nil => exact ⟨rfl, rfl⟩
  | cons e es ih =>
    rw [List.map_cons, List.mem_cons, not_or] at h
    rw [List.foldl_cons]
    obtain ⟨i1, i2⟩ := ih (formCollect d w st e) h.2
    rw [i1, i2]
    unfold formCollect
    exact ⟨formScan_other _ _ _ _ _ _ h.1, StdMap.find?_set_ne _ _ _ _ h.1⟩

/-- The first loop of `calculateFormStrengths`, at a loaded team: the fresh form team
is stored under its name, and its raw totals are those of the scan of its history,
started from totals that are zero at that name. -/
theorem formCollected_at (self : DataLoader) (d : TimePoint) (w : Int) (t : String)
    (team : Team) (h : self.loadedTeams.find? t = some team) :
    (formCollected self d w).1.find? t = some (Team.ofName t) ∧
    ∃ raw : String → TeamData, raw t = {} ∧
      (formCollected self d w).2 t =
        (formScan t d w team.matchHistory.reverse
          { rawData := raw, homeMatches := 0, awayMatches := 0 }).rawData t := by
  obtain ⟨l1, l2, hl, h1, h2⟩ := entries_split_of_find self.loadedTeams t team h
  unfold formCollected
  rw [hl, List.foldl_append, List.foldl_cons]
  obtain ⟨a1, a2⟩ := foldl_formCollect_other d w l2
    (formCollect d w (l1.foldl (formCollect d w) (StdMap.empty, fun _ => {})) (t, team)) t h2
  obtain ⟨b1, _⟩ := foldl_formCollect_other d w l1 (StdMap.empty, fun _ => {}) t h1
  rw [a1, a2]
  refine ⟨?_, (l1.foldl (formCollect d w) (StdMap.empty, fun _ => {})).2, b1, ?_⟩
  · unfold formCollect
    exact StdMap.find?_set_self _ _ _
  · rfl

theorem formCollected_none (self : DataLoader) (d : TimePoint) (w : Int) (t : String)
    (h : self.loadedTeams.find? t = none) :
    (formCollected self d w).1.find? t = none := by
  have hk := (StdMap.find?_eq_none_iff _ _).1 h
  unfold formCollected
  rw [(foldl_formCollect_other d w _ _ t hk).2]
  rfl

theorem getD_of_find {K V : Type} [DecidableEq K] (m : StdMap K V) (k : K) (v d : V)
    (h : m.find? k = some v) : m.getD k d = v := by
  unfold StdMap.getD
  rw [h]
  rfl

/-- The form profile of a loaded team, for a reference date that parses. -/
theorem calculateFormStrengths_at (env : Env) (self : DataLoader) (s : String) (w : Int)
    (t : String) (overall : Team) (hfind : self.loadedTeams.find? t = some overall)
    (hdate : parseDate env s ≠ 0) :
    (DataLoader.calculateFormStrengths env self s w).1.find? t =
      some (formStrengths self ((formCollected self (parseDate env s) w).2 t) overall
        (Team.ofName t)) := by
  unfold DataLoader.calculateFormStrengths
  simp only [hdate, if_false]
  rw [StdMap.find?_mapVals, (formCollected_at self (parseDate env s) w t overall hfind).1,
    getD_of_find _ _ _ _ hfind]
  rfl

/-- The form profiles exist only for loaded teams. -/
theorem calculateFormStrengths_none (env : Env) (self : DataLoader) (s : String) (w : Int)
    (t : String) (hfind : self.loadedTeams.find? t = none) :
    (DataLoader.calculateFormStrengths env self s w).1.find? t = none := by
  unfold DataLoader.calculateFormStrengths
  by_cases hdate : parseDate env s = 0
  · simp only [hdate, if_true]
    rfl
  · simp only [hdate, if_false]
    rw [StdMap.find?_mapVals, formCollected_none self (parseDate env s) w t hfind]
    rfl

theorem calculateFormStrengths_invalid (env : Env) (self : DataLoader) (s : String) (w : Int)
    (hdate : parseDate env s = 0) :
    DataLoader.calculateFormStrengths env self s w = (StdMap.empty, self) := by
  unfold DataLoader.calculateFormStrengths
  simp only [hdate, if_true]

theorem formStrengths_home (self : DataLoader) (data : TeamData) (overall team : Team) :
    (data.homeMatches > 0 →
      (formStrengths self data overall team).homeAttackStrength =
        Dbl.div (Dbl.div (Dbl.ofInt data.homeGoalsScored) (Dbl.ofInt data.homeMatches))
          self.leagueAvgHomeGoalsScored ∧
      (formStrengths self data overall team).homeDefenseStrength =
        Dbl.div (Dbl.div (Dbl.ofInt data.homeGoalsConceded) (Dbl.ofInt data.homeMatches))
          self.leagueAvgHomeGoalsConceded) ∧
    (¬ data.homeMatches > 0 →
      (formStrengths self data overall team).homeAttackStrength = overall.homeAttackStrength ∧
      (formStrengths self data overall team).homeDefenseStrength =
        overall.homeDefenseStrength) := by
  unfold formStrengths
  constructor <;> intro h <;> simp only [h, if_true, if_false] <;> split_ifs <;> simp

theorem formStrengths_away (self : DataLoader) (data : TeamData) (overall team : Team) :
    (data.awayMatches > 0 →
      (formStrengths self data overall team).awayAttackStrength =
        Dbl.div (Dbl.div (Dbl.ofInt data.awayGoalsScored) (Dbl.ofInt data.awayMatches))
          self.leagueAvgAwayGoalsScored ∧
      (formStrengths self data overall team).awayDefenseStrength =
        Dbl.div (Dbl.div (Dbl.ofInt data.awayGoalsConceded) (Dbl.ofInt data.awayMatches))
          self.leagueAvgAwayGoalsConceded) ∧
    (¬ data.awayMatches > 0 →
      (formStrengths self data overall team).awayAttackStrength = overall.awayAttackStrength ∧
      (formStrengths self data overall team).awayDefenseStrength =
        overall.awayDefenseStrength) := by
  unfold formStrengths
  constructor <;> intro h <;> simp [h]

theorem formStrengths_corners (self : DataLoader) (data : TeamData) (overall team : Team) :
    (formStrengths self data overall team).homeCornerAttackStrength =
      overall.homeCornerAttackStrength ∧
    (formStrengths self data overall team).homeCornerDefenseStrength =
      overall.homeCornerDefenseStrength ∧
    (formStrengths self data overall team).awayCornerAttackStrength =
      overall.awayCornerAttackStrength ∧
    (formStrengths self data overall team).awayCornerDefenseStrength =
      overall.awayCornerDefenseStrength := by
  unfold formStrengths
  exact ⟨rfl, rfl, rfl, rfl⟩

theorem formStep_mono (t : String) (w : Int) (m : MatchResult) (st : FormAcc) :
    (st.rawData t).homeMatches ≤ ((formStep t w m st).rawData t).homeMatches ∧
    (st.rawData t).awayMatches ≤ ((formStep t w m st).rawData t).awayMatches := by
  unfold formStep
  split_ifs <;> simp [updateRaw]

theorem formScan_mono (t : String) (d : TimePoint) (w : Int) (l : List MatchResult)
    (st : FormAcc) :
    (st.rawData t).homeMatches ≤ ((formScan t d w l st).rawData t).homeMatches ∧
    (st.rawData t).awayMatches ≤ ((formScan t d w l st).rawData t).awayMatches := by
  induction l generalizing st with
  | nil => exact ⟨le_refl _, le_refl _⟩
  | cons m rest ih =>
    unfold formScan
    by_cases hd : m.date ≥ d
    · rw [if_pos hd]
      exact ih st
    · rw [if_neg hd]
      simp only
      obtain ⟨s1, s2⟩ := formStep_mono t w m st
      by_cases hb : (formStep t w m st).homeMatches ≥ w ∧ (formStep t w m st).awayMatches ≥ w
      · rw [if_pos hb]
        exact ⟨s1, s2⟩
      · rw [if_neg hb]
        obtain ⟨i1, i2⟩ := ih (formStep t w m st)
        exact ⟨le_trans s1 i1, le_trans s2 i2⟩

/-- The window counts of a loaded team are not negative. -/
theorem formCollected_nonneg (self : DataLoader) (d : TimePoint) (w : Int) (t : String)
    (team : Team) (h : self.loadedTeams.find? t = some team) :
    0 ≤ ((formCollected self d w).2 t).homeMatches ∧
    0 ≤ ((formCollected self d w).2 t).awayMatches := by
  obtain ⟨_, raw, hraw, hscan⟩ := formCollected_at self d w t team h
  rw [hscan]
  obtain ⟨m1, m2⟩ := formScan_mono t d w team.matchHistory.reverse
    { rawData := raw, homeMatches := 0, awayMatches := 0 }
  simp only [hraw] at m1 m2
  exact ⟨m1, m2⟩

/-- The windowed raw totals of a loaded team that never plays itself. -/
theorem formCollected_windowTotals (self : DataLoader) (d : TimePoint) (w : Int) (t : String)
    (team : Team) (h : self.loadedTeams.find? t = some team)
    (hno : ∀ m ∈ team.matchHistory, ¬ (m.homeTeamName = t ∧ m.awayTeamName = t)) :
    (formCollected self d w).2 t =
      windowTotals (homeWindow t d w team.matchHistory) (awayWindow t d w team.matchHistory) := by
  obtain ⟨_, raw, hraw, hscan⟩ := formCollected_at self d w t team h
  rw [hscan, formScan_rawData t d w _ _ (fun m hm => hno m (List.mem_reverse.1 hm))]
  simp only [hraw, sub_zero]
  rw [TeamData.zero_add]
  rfl

theorem countOf_windowTotals_pos {ms : List MatchResult} (h : ms ≠ []) : countOf ms > 0 :=
  (countOf_pos_iff ms).2 h

/-- C7. For a loaded team `t` whose history has no match with `t` on both sides and
a reference date that parses, the raw totals `calculateFormStrengths` collects for
`t` are the match counts and goal sums of the home window and of the away window:
the `w` most recent matches (all of them when there are fewer, so `min(w, k)` of
`k`) dated strictly before the reference date with `t` as home side, resp. away
side. The form ratios of a non-empty window are the per-match averages over exactly
that window divided by the league averages. -/
theorem form_window_is_most_recent_matches (env : Env) (self : DataLoader) (s : String)
    (w : Int) (t : String) (team : Team)
    (hfind : self.loadedTeams.find? t = some team)
    (hno : ∀ m ∈ team.matchHistory, ¬ (m.homeTeamName = t ∧ m.awayTeamName = t))
    (hdate : parseDate env s ≠ 0) :
    (formCollected self (parseDate env s) w).2 t =
      windowTotals (homeWindow t (parseDate env s) w team.matchHistory)
        (awayWindow t (parseDate env s) w team.matchHistory) ∧
    (homeWindow t (parseDate env s) w team.matchHistory).length =
      min w.toNat
        (team.matchHistory.reverse.filter
          (fun m => decide (m.date < parseDate env s ∧ m.homeTeamName = t))).length ∧
    (awayWindow t (parseDate env s) w team.matchHistory).length =
      min w.toNat
        (team.matchHistory.reverse.filter
          (fun m => decide (m.date < parseDate env s ∧ m.awayTeamName = t))).length ∧
    ∃ prof, (DataLoader.calculateFormStrengths env self s w).1.find? t = some prof ∧
      (homeWindow t (parseDate env s) w team.matchHistory ≠ [] →
        prof.homeAttackStrength =
          Dbl.div
            (windowAverage (fun m => m.homeGoals)
              (homeWindow t (parseDate env s) w team.matchHistory))
            self.leagueAvgHomeGoalsScored ∧
        prof.homeDefenseStrength =
          Dbl.div
            (windowAverage (fun m => m.awayGoals)
              (homeWindow t (parseDate env s) w team.matchHistory))
            self.leagueAvgHomeGoalsConceded) ∧
      (awayWindow t (parseDate env s) w team.matchHistory ≠ [] →
        prof.awayAttackStrength =
          Dbl.div
            (windowAverage (fun m => m.awayGoals)
              (awayWindow t (parseDate env s) w team.matchHistory))
            self.leagueAvgAwayGoalsScored ∧
        prof.awayDefenseStrength =
          Dbl.div
            (windowAverage (fun m => m.homeGoals)
              (awayWindow t (parseDate env s) w team.matchHistory))
            self.leagueAvgAwayGoalsConceded) := by
  have hw := formCollected_windowTotals self (parseDate env s) w t team hfind hno
  refine ⟨hw, ?_, ?_, _, calculateFormStrengths_at env self s w t team hfind hdate, ?_, ?_⟩
  · unfold homeWindow
    rw [List.length_take]
  · unfold awayWindow
    rw [List.length_take]
  · intro hne
    rw [hw]
    exact (formStrengths_home self _ team (Team.ofName t)).1 (countOf_windowTotals_pos hne)
  · intro hne
    rw [hw]
    exact (formStrengths_away self _ team (Team.ofName t)).1 (countOf_windowTotals_pos hne)

/-- C7, at a concrete input: team A has two home matches, both before the reference
date; with a window of 5 its home window is exactly those two matches, most recent
first, and its home ratios are their averages (3 goals scored and 2 conceded in 2
matches) over the league averages 1 and 2/3. -/
theorem form_window_is_most_recent_matches_witness :
    (∀ m ∈ demoTeamA.matchHistory, ¬ (m.homeTeamName = "A" ∧ m.awayTeamName = "A")) ∧
    parseDate demoEnv "2024-01-22" ≠ 0 ∧
    homeWindow "A" (parseDate demoEnv "2024-01-22") 5 demoTeamA.matchHistory =
      [demoMatch3, demoMatch1] ∧
    ((formCollected demoLoader (parseDate demoEnv "2024-01-22") 5).2 "A").homeMatches = 2 ∧
    ∃ prof,
      (DataLoader.calculateFormStrengths demoEnv demoLoader "2024-01-22" 5).1.find? "A"
        = some prof ∧
      prof.homeAttackStrength = Dbl.fin (3 / 2) ∧ prof.homeDefenseStrength = Dbl.fin (3 / 2) := by
  have hno : ∀ m ∈ demoTeamA.matchHistory, ¬ (m.homeTeamName = "A" ∧ m.awayTeamName = "A") := by
    decide
  have hdate : parseDate demoEnv "2024-01-22" ≠ 0 := by decide
  have hwin : homeWindow "A" (parseDate demoEnv "2024-01-22") 5 demoTeamA.matchHistory =
      [demoMatch3, demoMatch1] := by decide
  obtain ⟨h1, _, _, prof, hprof, hhome, _⟩ :=
    form_window_is_most_recent_matches demoEnv demoLoader "2024-01-22" 5 "A" demoTeamA
      demoLoader_find_A hno hdate
  refine ⟨hno, hdate, hwin, ?_, prof, hprof, ?_⟩
  · rw [h1, hwin]
    rfl
  · have hne : homeWindow "A" (parseDate demoEnv "2024-01-22") 5 demoTeamA.matchHistory ≠ [] := by
      rw [hwin]
      exact List.cons_ne_nil _ _
    obtain ⟨a1, a2⟩ := hhome hne
    rw [a1, a2, hwin]
    have s1 : sumOver (fun m => m.homeGoals) [demoMatch3, demoMatch1] = 3 := by decide
    have s2 : sumOver (fun m => m.awayGoals) [demoMatch3, demoMatch1] = 2 := by decide
    have s3 : countOf [demoMatch3, demoMatch1] = 2 := by decide
    unfold windowAverage demoLoader
    simp only [s1, s2, s3, Dbl.ofInt, Dbl.div]
    constructor <;> norm_num

/-- C8. For a loaded team `t` and a reference date that parses, with `data` the
windowed raw totals `calculateFormStrengths` collects for `t` (its window match
counts are not negative): when the home window has zero matches the home attack and
defense ratios of the returned profile are the overall ratios stored in the loader,
otherwise they are the windowed goals per match divided by the league averages
stored in the loader (goals scored over the home scoring average, goals conceded
over the home conceding average); and likewise for the away window. -/
theorem form_goal_ratios_fall_back_to_overall (env : Env) (self : DataLoader) (s : String)
    (w : Int) (t : String) (overall : Team)
    (hfind : self.loadedTeams.find? t = some overall)
    (hdate : parseDate env s ≠ 0) :
    ∃ prof, (DataLoader.calculateFormStrengths env self s w).1.find? t = some prof ∧
      0 ≤ ((formCollected self (parseDate env s) w).2 t).homeMatches ∧
      0 ≤ ((formCollected self (parseDate env s) w).2 t).awayMatches ∧
      (((formCollected self (parseDate env s) w).2 t).homeMatches = 0 →
        prof.homeAttackStrength = overall.homeAttackStrength ∧
        prof.homeDefenseStrength = overall.homeDefenseStrength) ∧
      (((formCollected self (parseDate env s) w).2 t).homeMatches ≠ 0 →
        prof.homeAttackStrength =
          Dbl.div
            (Dbl.div (Dbl.ofInt ((formCollected self (parseDate env s) w).2 t).homeGoalsScored)
              (Dbl.ofInt ((formCollected self (parseDate env s) w).2 t).homeMatches))
            self.leagueAvgHomeGoalsScored ∧
        prof.homeDefenseStrength =
          Dbl.div
            (Dbl.div (Dbl.ofInt ((formCollected self (parseDate env s) w).2 t).homeGoalsConceded)
              (Dbl.ofInt ((formCollected self (parseDate env s) w).2 t).homeMatches))
            self.leagueAvgHomeGoalsConceded) ∧
      (((formCollected self (parseDate env s) w).2 t).awayMatches = 0 →
        prof.awayAttackStrength = overall.awayAttackStrength ∧
        prof.awayDefenseStrength = overall.awayDefenseStrength) ∧
      (((formCollected self (parseDate env s) w).2 t).awayMatches ≠ 0 →
        prof.awayAttackStrength =
          Dbl.div
            (Dbl.div (Dbl.ofInt ((formCollected self (parseDate env s) w).2 t).awayGoalsScored)
              (Dbl.ofInt ((formCollected self (parseDate env s) w).2 t).awayMatches))
            self.leagueAvgAwayGoalsScored ∧
        prof.awayDefenseStrength =
          Dbl.div
            (Dbl.div (Dbl.ofInt ((formCollected self (parseDate env s) w).2 t).awayGoalsConceded)
              (Dbl.ofInt ((formCollected self (parseDate env s) w).2 t).awayMatches))
            self.leagueAvgAwayGoalsConceded) := by
  obtain ⟨n1, n2⟩ := formCollected_nonneg self (parseDate env s) w t overall hfind
  refine ⟨_, calculateFormStrengths_at env self s w t overall hfind hdate, n1, n2, ?_, ?_, ?_, ?_⟩
  · intro h0
    exact (formStrengths_home self _ overall (Team.ofName t)).2 (by omega)
  · intro h0
    exact (formStrengths_home self _ overall (Team.ofName t)).1 (by omega)
  · intro h0
    exact (formStrengths_away self _ overall (Team.ofName t)).2 (by omega)
  · intro h0
    exact (formStrengths_away self _ overall (Team.ofName t)).1 (by omega)

/-- C8, at a concrete input: with the reference date of the first match no match of
team A is before it, both windows are empty and the four goal ratios of the form
profile are the overall ratios of team A. -/
theorem form_goal_ratios_fall_back_to_overall_witness :
    parseDate demoEnv "2024-01-01" ≠ 0 ∧
    ((formCollected demoLoader (parseDate demoEnv "2024-01-01") 5).2 "A").homeMatches = 0 ∧
    ((formCollected demoLoader (parseDate demoEnv "2024-01-01") 5).2 "A").awayMatches = 0 ∧
    ∃ prof,
      (DataLoader.calculateFormStrengths demoEnv demoLoader "2024-01-01" 5).1.find? "A"
        = some prof ∧
      prof.homeAttackStrength = demoTeamA.homeAttackStrength ∧
      prof.homeDefenseStrength = demoTeamA.homeDefenseStrength ∧
      prof.awayAttackStrength = demoTeamA.awayAttackStrength ∧
      prof.awayDefenseStrength = demoTeamA.awayDefenseStrength := by
  have hdate : parseDate demoEnv "2024-01-01" ≠ 0 := by decide
  have hno : ∀ m ∈ demoTeamA.matchHistory, ¬ (m.homeTeamName = "A" ∧ m.awayTeamName = "A") := by
    decide
  have hw := formCollected_windowTotals demoLoader (parseDate demoEnv "2024-01-01") 5 "A"
    demoTeamA demoLoader_find_A hno
  have h1 : ((formCollected demoLoader (parseDate demoEnv "2024-01-01") 5).2 "A").homeMatches
      = 0 := by
    rw [hw]; decide
  have h2 : ((formCollected demoLoader (parseDate demoEnv "2024-01-01") 5).2 "A").awayMatches
      = 0 := by
    rw [hw]; decide
  obtain ⟨prof, hprof, _, _, a1, _, a3, _⟩ :=
    form_goal_ratios_fall_back_to_overall demoEnv demoLoader "2024-01-01" 5 "A" demoTeamA
      demoLoader_find_A hdate
  exact ⟨hdate, h1, h2, prof, hprof, (a1 h1).1, (a1 h1).2, (a3 h2).1, (a3 h2).2⟩

/-- C9. Every profile returned by `calculateFormStrengths`, for any reference date
string and any window size, belongs to a loaded team and has its four corner ratios
equal to the overall corner ratios stored for that team. -/
theorem form_corner_ratios_are_overall (env : Env) (self : DataLoader) (s : String) (w : Int)
    (t : String) (prof : Team)
    (hprof : (DataLoader.calculateFormStrengths env self s w).1.find? t = some prof) :
    ∃ overall, self.loadedTeams.find? t = some overall ∧
      prof.homeCornerAttackStrength = overall.homeCornerAttackStrength ∧
      prof.homeCornerDefenseStrength = overall.homeCornerDefenseStrength ∧
      prof.awayCornerAttackStrength = overall.awayCornerAttackStrength ∧
      prof.awayCornerDefenseStrength = overall.awayCornerDefenseStrength := by
  cases hfind : self.loadedTeams.find? t with
  | none =>
    rw [calculateFormStrengths_none env self s w t hfind] at hprof
    exact absurd hprof (by simp)
  | some overall =>
    by_cases hdate : parseDate env s = 0
    · rw [calculateFormStrengths_invalid env self s w hdate] at hprof
      exact absurd hprof (by simp [StdMap.find?_empty])
    · rw [calculateFormStrengths_at env self s w t overall hfind hdate] at hprof
      simp only [Option.some.injEq] at hprof
      subst hprof
      exact ⟨overall, rfl, formStrengths_corners self _ overall (Team.ofName t)⟩

/-- C9, at a concrete input: the form profile of team A has the corner ratios stored
for team A in the loader. -/
theorem form_corner_ratios_are_overall_witness :
    ∃ prof,
      (DataLoader.calculateFormStrengths demoEnv demoLoader "2024-01-22" 5).1.find? "A"
        = some prof ∧
      prof.homeCornerAttackStrength = Dbl.fin (9 / 8) ∧
      prof.homeCornerDefenseStrength = Dbl.fin (15 / 22) ∧
      prof.awayCornerAttackStrength = Dbl.fin (18 / 11) ∧
      prof.awayCornerDefenseStrength = Dbl.fin (3 / 4) := by
  have hdate : parseDate demoEnv "2024-01-22" ≠ 0 := by decide
  have hprof := calculateFormStrengths_at demoEnv demoLoader "2024-01-22" 5 "A" demoTeamA
    demoLoader_find_A hdate
  obtain ⟨overall, hov, c1, c2, c3, c4⟩ :=
    form_corner_ratios_are_overall demoEnv demoLoader "2024-01-22" 5 "A" _ hprof
  rw [demoLoader_find_A] at hov
  simp only [Option.some.injEq] at hov
  subst hov
  exact ⟨_, hprof, c1, c2, c3, c4⟩

/-! ## Lemmas: the outcome of a load -/

theorem loadMultipleFiles_flag (env : Env) (self : DataLoader) (files : List ResultsFile) :
    (DataLoader.loadMultipleFiles env self files).1 = true ↔ acceptedMatches env files ≠ [] := by
  by_cases h : acceptedMatches env files = []
  · rw [loadMultipleFiles_of_nil env self files h]
    simp [h]
  · rw [loadMultipleFiles_of_ne_nil env self files h]
    simp [h]

/-- C17. `loadMultipleFiles` returns `false` exactly when no completed match is
accepted across the input files (the number of accepted matches is zero), and
`true` as soon as one is accepted. -/
theorem load_fails_iff_no_accepted_match (env : Env) (self : DataLoader)
    (files : List ResultsFile) :
    ((DataLoader.loadMultipleFiles env self files).1 = false ↔
      countOf (acceptedMatches env files) = 0) ∧
    (acceptedMatches env files ≠ [] →
      (DataLoader.loadMultipleFiles env self files).1 = true) := by
  have hflag := loadMultipleFiles_flag env self files
  constructor
  · rw [countOf_eq_zero_iff]
    constructor
    · intro hf
      by_contra hne
      rw [hflag.2 hne] at hf
      exact absurd hf (by decide)
    · intro hnil
      cases hb : (DataLoader.loadMultipleFiles env self files).1 with
      | false => rfl
      | true => exact absurd hnil (hflag.1 hb)
  · exact hflag.2

/-- C17, at concrete inputs: a file with three completed matches loads, a file with
only a fixture row fails. -/
theorem load_fails_iff_no_accepted_match_witness :
    acceptedMatches demoEnv demoFiles ≠ [] ∧
    (DataLoader.loadMultipleFiles demoEnv {} demoFiles).1 = true ∧
    countOf (acceptedMatches demoEnv demoFilesNoScore) = 0 ∧
    (DataLoader.loadMultipleFiles demoEnv {} demoFilesNoScore).1 = false := by
  have h1 : acceptedMatches demoEnv demoFiles ≠ [] := by decide
  have h2 : countOf (acceptedMatches demoEnv demoFilesNoScore) = 0 := by decide
  exact ⟨h1, (load_fails_iff_no_accepted_match demoEnv {} demoFiles).2 h1, h2,
    (load_fails_iff_no_accepted_match demoEnv {} demoFilesNoScore).1.2 h2⟩

theorem rowTeamStep_find (env : Env) (teams : StdMap String Team) (row : List String)
    (t : String) :
    (rowTeamStep env teams row).find? t ≠ none ↔
      (teams.find? t ≠ none ∨ ∃ p, rowTeams env row = some p ∧ (t = p.1 ∨ t = p.2)) := by
  unfold rowTeamStep
  cases hr : rowTeams env row with
  | none => simp
  | some p =>
    simp only [find?_ensureTeam]
    by_cases h2 : t = p.2
    · simp [h2]
    · by_cases h1 : t = p.1
      · subst h1
        simp [h2]
      · simp [h1, h2]

/-- The teams after the reading loop: those present before, and those named by a row
that passes the checks on the names and the date. -/
theorem foldl_rowTeamStep_find (env : Env) (rows : List (List String))
    (teams : StdMap String Team) (t : String) :
    (rows.foldl (rowTeamStep env) teams).find? t ≠ none ↔
      (teams.find? t ≠ none ∨
        ∃ row ∈ rows, ∃ p, rowTeams env row = some p ∧ (t = p.1 ∨ t = p.2)) := by
  induction rows generalizing teams with
  | nil => simp
  | cons row rows ih =>
    rw [List.foldl_cons, ih, rowTeamStep_find]
    constructor
    · rintro ((h | ⟨p, hp, ht⟩) | ⟨r, hr, p, hp, ht⟩)
      · exact Or.inl h
      · exact Or.inr ⟨row, List.mem_cons_self _ _, p, hp, ht⟩
      · exact Or.inr ⟨r, List.mem_cons_of_mem _ hr, p, hp, ht⟩
    · rintro (h | ⟨r, hr, p, hp, ht⟩)
      · exact Or.inl (Or.inl h)
      · rcases List.mem_cons.1 hr with rfl | hr
        · exact Or.inl (Or.inr ⟨p, hp, ht⟩)
        · exact Or.inr ⟨r, hr, p, hp, ht⟩

/-- C18, as the code has it. When `loadMultipleFiles` fails, the league averages and
the fixtures are left as they were, and the team mapping holds exactly the teams
named by the rows that have both team names and a date that parses; each of them is
a freshly constructed team (all ratios `1.0`, no history). -/
theorem failed_load_keeps_named_teams (env : Env) (self : DataLoader)
    (files : List ResultsFile)
    (hfail : (DataLoader.loadMultipleFiles env self files).1 = false) :
    (DataLoader.loadMultipleFiles env self files).2.leagueAvgHomeGoalsScored =
      self.leagueAvgHomeGoalsScored ∧
    (DataLoader.loadMultipleFiles env self files).2.leagueAvgAwayGoalsScored =
      self.leagueAvgAwayGoalsScored ∧
    (DataLoader.loadMultipleFiles env self files).2.leagueAvgHomeGoalsConceded =
      self.leagueAvgHomeGoalsConceded ∧
    (DataLoader.loadMultipleFiles env self files).2.leagueAvgAwayGoalsConceded =
      self.leagueAvgAwayGoalsConceded ∧
    (DataLoader.loadMultipleFiles env self files).2.leagueAvgHomeCorners =
      self.leagueAvgHomeCorners ∧
    (DataLoader.loadMultipleFiles env self files).2.leagueAvgAwayCorners =
      self.leagueAvgAwayCorners ∧
    (DataLoader.loadMultipleFiles env self files).2.upcomingFixtures = self.upcomingFixtures ∧
    (∀ t team, (DataLoader.loadMultipleFiles env self files).2.loadedTeams.find? t = some team →
      team = Team.ofName t) ∧
    (∀ t, (DataLoader.loadMultipleFiles env self files).2.loadedTeams.find? t ≠ none ↔
      ∃ row ∈ dataRows files, ∃ p, rowTeams env row = some p ∧ (t = p.1 ∨ t = p.2)) := by
  have hnil : acceptedMatches env files = [] := by
    by_contra hne
    rw [(loadMultipleFiles_flag env self files).2 hne] at hfail
    exact absurd hfail (by decide)
  rw [loadMultipleFiles_of_nil env self files hnil]
  refine ⟨rfl, rfl, rfl, rfl, rfl, rfl, rfl, ?_, ?_⟩
  · exact loadAcc_allFresh env files
  · intro t
    show (files.foldl (processFile env) { loadedTeams := StdMap.empty }).loadedTeams.find? t
      ≠ none ↔ _
    rw [foldl_processFile, foldl_rowTeamStep, foldl_rowTeamStep_find]
    simp [StdMap.find?_empty]

/-- C18, at a concrete input: the load of a file with one fixture row fails and
leaves the two teams of that row, as default teams. -/
theorem failed_load_keeps_named_teams_witness :
    (DataLoader.loadMultipleFiles demoEnv {} demoFilesNoScore).1 = false ∧
    ∀ t team,
      (DataLoader.loadMultipleFiles demoEnv {} demoFilesNoScore).2.loadedTeams.find? t
        = some team → team = Team.ofName t := by
  have hfail : (DataLoader.loadMultipleFiles demoEnv {} demoFilesNoScore).1 = false := by decide
  exact ⟨hfail, (failed_load_keeps_named_teams demoEnv {} demoFilesNoScore hfail).2.2.2.2.2.2.2.1⟩

/-- C18 as stated fails: a file whose only row names two teams with a valid date
and no score makes the load fail, and the team mapping then holds team C. -/
theorem failed_load_is_not_empty :
    (DataLoader.loadMultipleFiles demoEnv {} demoFilesNoScore).1 = false ∧
    ((DataLoader.loadMultipleFiles demoEnv {} demoFilesNoScore).2.loadedTeams.find? "C").isSome
      = true ∧
    (DataLoader.loadMultipleFiles demoEnv {} demoFilesNoScore).2.loadedTeams.keys
      = ["C", "A"] := by
  refine ⟨by decide, by decide, by decide⟩

theorem countOf_cast_pos {α : Type} (ms : List α) (h : ms ≠ []) : (0 : ℚ) < (countOf ms : ℚ) := by
  have := (countOf_pos_iff ms).2 h
  exact_mod_cast this

theorem perMatch_pos_iff (f : Completed → Int) (ms : List Completed) (h : ms ≠ []) :
    Dbl.lt (Dbl.fin 0) (perMatch f ms) = true ↔ 0 < total f ms := by
  rw [perMatch_eq f ms h]
  have hN := countOf_cast_pos ms h
  simp only [Dbl.lt, decide_eq_true_eq]
  rw [div_pos_iff_of_pos_right hN]
  exact_mod_cast Iff.rfl

/-- C20, as the code has it. When at least one completed match is accepted, the
league average of goals scored by home teams is strictly greater than 0 exactly
when the total of home goals is, and the league average of goals scored by away
teams is strictly greater than 0 exactly when the total of away goals is. -/
theorem league_goal_average_positive_iff (env : Env) (self : DataLoader)
    (files : List ResultsFile) (hne : acceptedMatches env files ≠ []) :
    (Dbl.lt (Dbl.fin 0) (DataLoader.loadMultipleFiles env self files).2.leagueAvgHomeGoalsScored
        = true ↔
      0 < total (fun c => c.result.homeGoals) (acceptedMatches env files)) ∧
    (Dbl.lt (Dbl.fin 0) (DataLoader.loadMultipleFiles env self files).2.leagueAvgAwayGoalsScored
        = true ↔
      0 < total (fun c => c.result.awayGoals) (acceptedMatches env files)) := by
  rw [loadMultipleFiles_of_ne_nil env self files hne]
  exact ⟨perMatch_pos_iff _ _ hne, perMatch_pos_iff _ _ hne⟩

/-- C20, at a concrete input: three accepted matches with 3 home goals and 2 away
goals, both averages strictly positive. -/
theorem league_goal_average_positive_iff_witness :
    acceptedMatches demoEnv demoFiles ≠ [] ∧
    Dbl.lt (Dbl.fin 0) (DataLoader.loadMultipleFiles demoEnv {} demoFiles).2.leagueAvgHomeGoalsScored
      = true ∧
    Dbl.lt (Dbl.fin 0) (DataLoader.loadMultipleFiles demoEnv {} demoFiles).2.leagueAvgAwayGoalsScored
      = true := by
  have hne : acceptedMatches demoEnv demoFiles ≠ [] := by decide
  obtain ⟨h1, h2⟩ := league_goal_average_positive_iff demoEnv {} demoFiles hne
  exact ⟨hne, h1.2 (by decide), h2.2 (by decide)⟩

/-- C20 as stated fails: one accepted match won 2-0 by the home side has total goals
2, greater than 0, and the league average of goals scored by away teams is `0.0`,
which is not strictly greater than 0. -/
theorem league_away_average_zero :
    acceptedMatches demoEnv demoFilesHomeOnly ≠ [] ∧
    0 < total (fun c => c.result.homeGoals) (acceptedMatches demoEnv demoFilesHomeOnly) +
      total (fun c => c.result.awayGoals) (acceptedMatches demoEnv demoFilesHomeOnly) ∧
    (DataLoader.loadMultipleFiles demoEnv {} demoFilesHomeOnly).2.leagueAvgAwayGoalsScored
      = Dbl.fin 0 ∧
    Dbl.lt (Dbl.fin 0)
      (DataLoader.loadMultipleFiles demoEnv {} demoFilesHomeOnly).2.leagueAvgAwayGoalsScored
      = false := by
  have hne : acceptedMatches demoEnv demoFilesHomeOnly ≠ [] := by decide
  have h0 : total (fun c => c.result.awayGoals) (acceptedMatches demoEnv demoFilesHomeOnly) = 0 := by
    decide
  have hv : (DataLoader.loadMultipleFiles demoEnv {} demoFilesHomeOnly).2.leagueAvgAwayGoalsScored
      = Dbl.fin 0 := by
    rw [loadMultipleFiles_of_ne_nil demoEnv {} demoFilesHomeOnly hne]
    simp only
    rw [perMatch_eq _ _ hne, h0]
    simp
  refine ⟨hne, by decide, hv, ?_⟩
  rw [hv]
  simp [Dbl.lt]

theorem total_nonneg (f : Completed → Int) (l : List Completed) (h : ∀ c ∈ l, 0 ≤ f c) :
    0 ≤ total f l := by
  induction l with
  | nil => simp [total]
  | cons c l ih =>
    rw [total_cons]
    have h1 := h c (List.mem_cons_self _ _)
    have h2 := ih (fun x hx => h x (List.mem_cons_of_mem _ hx))
    omega

theorem nonNegRatio_one (f : Completed → Int) (split : List Completed) (h : split = []) :
    NonNegRatio (Dbl.fin 1) f split := by
  unfold NonNegRatio
  simp [Dbl.le, Dbl.lt, h]

theorem nonNegRatio_of_split (f g : Completed → Int) (split ms : List Completed)
    (hsplit : split ≠ []) (hms : ms ≠ []) (hf : ∀ c ∈ split, 0 ≤ f c) (hT : 0 < total g ms) :
    NonNegRatio
      (Dbl.div (Dbl.div (Dbl.ofInt (total f split)) (Dbl.ofInt (countOf split))) (perMatch g ms))
      f split := by
  have hn := countOf_cast_pos split hsplit
  have hN := countOf_cast_pos ms hms
  have hTq : (0 : ℚ) < (total g ms : ℚ) := by exact_mod_cast hT
  have hx : (0 : ℚ) ≤ (total f split : ℚ) := by exact_mod_cast total_nonneg f split hf
  have havg : (0 : ℚ) < (total g ms : ℚ) / (countOf ms : ℚ) := div_pos hTq hN
  rw [perMatch_eq g ms hms]
  unfold Dbl.ofInt
  rw [Dbl.div_fin _ _ (ne_of_gt hn), Dbl.div_fin _ _ (ne_of_gt havg)]
  unfold NonNegRatio
  simp only [Dbl.le, Dbl.lt, decide_eq_true_eq]
  constructor
  · exact div_nonneg (div_nonneg hx (le_of_lt hn)) (le_of_lt havg)
  · rw [div_pos_iff_of_pos_right havg, div_pos_iff_of_pos_right hn]
    constructor
    · intro h
      exact Or.inr (by exact_mod_cast h)
    · rintro (h | h)
      · exact absurd h hsplit
      · exact_mod_cast h

theorem mem_homeMatchesOf {t : String} {ms : List Completed} {c : Completed}
    (h : c ∈ homeMatchesOf t ms) : c ∈ ms := by
  unfold homeMatchesOf at h
  exact (List.mem_filter.1 h).1

theorem mem_awayMatchesOf {t : String} {ms : List Completed} {c : Completed}
    (h : c ∈ awayMatchesOf t ms) : c ∈ ms := by
  unfold awayMatchesOf at h
  exact (List.mem_filter.1 h).1

theorem nonNegRatio_cases (ratio : Dbl) (f g : Completed → Int) (split ms : List Completed)
    (hms : ms ≠ []) (hf : ∀ c ∈ split, 0 ≤ f c) (hT : 0 < total g ms)
    (h1 : split = [] → ratio = Dbl.fin 1)
    (h2 : split ≠ [] →
      ratio = Dbl.div (Dbl.div (Dbl.ofInt (total f split)) (Dbl.ofInt (countOf split)))
        (perMatch g ms)) :
    NonNegRatio ratio f split := by
  by_cases hs : split = []
  · rw [h1 hs]
    exact nonNegRatio_one f split hs
  · rw [h2 hs]
    exact nonNegRatio_of_split f g split ms hs hms hf hT

/-- C19, as the code has it. After a successful `loadMultipleFiles` in which no
accepted goal or corner count is negative and the four league totals (home goals,
away goals, home corners, away corners) are positive, each of the eight ratios of
every loaded team is not negative; it is strictly positive exactly when the team has
no match in the split or its total of the ratio's quantity over the split is
positive (so a team without a home goal has home attack `0.0`). -/
theorem overall_ratios_are_nonnegative (env : Env) (self : DataLoader)
    (files : List ResultsFile) (t : String) (team : Team)
    (hok : (DataLoader.loadMultipleFiles env self files).1 = true)
    (hfind : (DataLoader.loadMultipleFiles env self files).2.loadedTeams.find? t = some team)
    (hnonneg : ∀ c ∈ acceptedMatches env files,
      0 ≤ c.result.homeGoals ∧ 0 ≤ c.result.awayGoals ∧ 0 ≤ c.homeCorners ∧ 0 ≤ c.awayCorners)
    (hHG : 0 < total (fun c => c.result.homeGoals) (acceptedMatches env files))
    (hAG : 0 < total (fun c => c.result.awayGoals) (acceptedMatches env files))
    (hHC : 0 < total (fun c => c.homeCorners) (acceptedMatches env files))
    (hAC : 0 < total (fun c => c.awayCorners) (acceptedMatches env files)) :
    NonNegRatio team.homeAttackStrength (fun c => c.result.homeGoals)
      (homeMatchesOf t (acceptedMatches env files)) ∧
    NonNegRatio team.homeDefenseStrength (fun c => c.result.awayGoals)
      (homeMatchesOf t (acceptedMatches env files)) ∧
    NonNegRatio team.awayAttackStrength (fun c => c.result.awayGoals)
      (awayMatchesOf t (acceptedMatches env files)) ∧
    NonNegRatio team.awayDefenseStrength (fun c => c.result.homeGoals)
      (awayMatchesOf t (acceptedMatches env files)) ∧
    NonNegRatio team.homeCornerAttackStrength (fun c => c.homeCorners)
      (homeMatchesOf t (acceptedMatches env files)) ∧
    NonNegRatio team.homeCornerDefenseStrength (fun c => c.awayCorners)
      (homeMatchesOf t (acceptedMatches env files)) ∧
    NonNegRatio team.awayCornerAttackStrength (fun c => c.awayCorners)
      (awayMatchesOf t (acceptedMatches env files)) ∧
    NonNegRatio team.awayCornerDefenseStrength (fun c => c.homeCorners)
      (awayMatchesOf t (acceptedMatches env files)) := by
  have hne : acceptedMatches env files ≠ [] := (loadMultipleFiles_flag env self files).1 hok
  have hteam := loaded_team_of_find env self files t team hok hfind
  have hH0 : homeMatchesOf t (acceptedMatches env files) = [] →
      ¬ (rawTotals t (acceptedMatches env files)).homeMatches > 0 := by
    intro hs
    show ¬ countOf _ > 0
    rw [hs]
    simp [countOf]
  have hH1 : homeMatchesOf t (acceptedMatches env files) ≠ [] →
      (rawTotals t (acceptedMatches env files)).homeMatches > 0 :=
    fun hs => (countOf_pos_iff _).2 hs
  have hA0 : awayMatchesOf t (acceptedMatches env files) = [] →
      ¬ (rawTotals t (acceptedMatches env files)).awayMatches > 0 := by
    intro hs
    show ¬ countOf _ > 0
    rw [hs]
    simp [countOf]
  have hA1 : awayMatchesOf t (acceptedMatches env files) ≠ [] →
      (rawTotals t (acceptedMatches env files)).awayMatches > 0 :=
    fun hs => (countOf_pos_iff _).2 hs
  refine ⟨?_, ?_, ?_, ?_, ?_, ?_, ?_, ?_⟩
  · apply nonNegRatio_cases _ _ (fun c => c.result.homeGoals) _ _ hne
      (fun c hc => (hnonneg c (mem_homeMatchesOf hc)).1) hHG
    · intro hs; rw [hteam]; exact (overallStrengths_home_none _ _ _ _ _ _ _ _ (hH0 hs)).1
    · intro hs; rw [hteam]; exact (overallStrengths_home _ _ _ _ _ _ _ _ (hH1 hs)).1
  · apply nonNegRatio_cases _ _ (fun c => c.result.awayGoals) _ _ hne
      (fun c hc => (hnonneg c (mem_homeMatchesOf hc)).2.1) hAG
    · intro hs; rw [hteam]; exact (overallStrengths_home_none _ _ _ _ _ _ _ _ (hH0 hs)).2.1
    · intro hs; rw [hteam]; exact (overallStrengths_home _ _ _ _ _ _ _ _ (hH1 hs)).2.1
  · apply nonNegRatio_cases _ _ (fun c => c.result.awayGoals) _ _ hne
      (fun c hc => (hnonneg c (mem_awayMatchesOf hc)).2.1) hAG
    · intro hs; rw [hteam]; exact (overallStrengths_away_none _ _ _ _ _ _ _ _ (hA0 hs)).1
    · intro hs; rw [hteam]; exact (overallStrengths_away _ _ _ _ _ _ _ _ (hA1 hs)).1
  · apply nonNegRatio_cases _ _ (fun c => c.result.homeGoals) _ _ hne
      (fun c hc => (hnonneg c (mem_awayMatchesOf hc)).1) hHG
    · intro hs; rw [hteam]; exact (overallStrengths_away_none _ _ _ _ _ _ _ _ (hA0 hs)).2.1
    · intro hs; rw [hteam]; exact (overallStrengths_away _ _ _ _ _ _ _ _ (hA1 hs)).2.1
  · apply nonNegRatio_cases _ _ (fun c => c.homeCorners) _ _ hne
      (fun c hc => (hnonneg c (mem_homeMatchesOf hc)).2.2.1) hHC
    · intro hs; rw [hteam]; exact (overallStrengths_home_none _ _ _ _ _ _ _ _ (hH0 hs)).2.2.1
    · intro hs; rw [hteam]; exact (overallStrengths_home _ _ _ _ _ _ _ _ (hH1 hs)).2.2.1
  · apply nonNegRatio_cases _ _ (fun c => c.awayCorners) _ _ hne
      (fun c hc => (hnonneg c (mem_homeMatchesOf hc)).2.2.2) hAC
    · intro hs; rw [hteam]; exact (overallStrengths_home_none _ _ _ _ _ _ _ _ (hH0 hs)).2.2.2
    · intro hs; rw [hteam]; exact (overallStrengths_home _ _ _ _ _ _ _ _ (hH1 hs)).2.2.2
  · apply nonNegRatio_cases _ _ (fun c => c.awayCorners) _ _ hne
      (fun c hc => (hnonneg c (mem_awayMatchesOf hc)).2.2.2) hAC
    · intro hs; rw [hteam]; exact (overallStrengths_away_none _ _ _ _ _ _ _ _ (hA0 hs)).2.2.1
    · intro hs; rw [hteam]; exact (overallStrengths_away _ _ _ _ _ _ _ _ (hA1 hs)).2.2.1
  · apply nonNegRatio_cases _ _ (fun c => c.homeCorners) _ _ hne
      (fun c hc => (hnonneg c (mem_awayMatchesOf hc)).2.2.1) hHC
    · intro hs; rw [hteam]; exact (overallStrengths_away_none _ _ _ _ _ _ _ _ (hA0 hs)).2.2.2
    · intro hs; rw [hteam]; exact (overallStrengths_away _ _ _ _ _ _ _ _ (hA1 hs)).2.2.2

/-- C19, at a concrete input: after the load of the three matches, the home attack of
team A (3 goals in 2 home matches, league average 1) is strictly positive. -/
theorem overall_ratios_are_nonnegative_witness :
    (DataLoader.loadMultipleFiles demoEnv {} demoFiles).1 = true ∧
    ∃ team, (DataLoader.loadMultipleFiles demoEnv {} demoFiles).2.loadedTeams.find? "A"
        = some team ∧
      Dbl.le (Dbl.fin 0) team.homeAttackStrength = true ∧
      Dbl.lt (Dbl.fin 0) team.homeAttackStrength = true ∧
      Dbl.le (Dbl.fin 0) team.awayAttackStrength = true := by
  have hok : (DataLoader.loadMultipleFiles demoEnv {} demoFiles).1 = true := by decide
  have hsome :
      ((DataLoader.loadMultipleFiles demoEnv {} demoFiles).2.loadedTeams.find? "A").isSome
        = true := by decide
  obtain ⟨team, hteam⟩ := Option.isSome_iff_exists.1 hsome
  obtain ⟨h1, _, h3, _⟩ := overall_ratios_are_nonnegative demoEnv {} demoFiles "A" team hok hteam
    (by decide) (by decide) (by decide) (by decide) (by decide)
  exact ⟨hok, team, hteam, h1.1, h1.2.2 (Or.inr (by decide)), h3.1⟩

/-- C19 as stated fails: after the successful load of the three matches, team A,
which scored no goal in its one away match, has away attack `0.0`, which is not
strictly positive. -/
theorem away_attack_is_zero :
    (DataLoader.loadMultipleFiles demoEnv {} demoFiles).1 = true ∧
    ∃ team, (DataLoader.loadMultipleFiles demoEnv {} demoFiles).2.loadedTeams.find? "A"
        = some team ∧
      team.awayAttackStrength = Dbl.fin 0 ∧
      Dbl.lt (Dbl.fin 0) team.awayAttackStrength = false := by
  have hok : (DataLoader.loadMultipleFiles demoEnv {} demoFiles).1 = true := by decide
  have ha : 0 < (awayMatchesOf "A" (acceptedMatches demoEnv demoFiles)).length := by decide
  obtain ⟨c, hc, hct⟩ := mem_of_awayMatchesOf_pos _ _ ha
  have hne : acceptedMatches demoEnv demoFiles ≠ [] := List.ne_nil_of_mem hc
  have hA := loaded_team_of_mem demoEnv {} demoFiles "A" c hc (Or.inr hct)
  have hpos : (rawTotals "A" (acceptedMatches demoEnv demoFiles)).awayMatches > 0 := by decide
  have hval := (overallStrengths_away
    (perMatch (fun c => c.result.homeGoals) (acceptedMatches demoEnv demoFiles))
    (perMatch (fun c => c.result.awayGoals) (acceptedMatches demoEnv demoFiles))
    (perMatch (fun c => c.result.awayGoals) (acceptedMatches demoEnv demoFiles))
    (perMatch (fun c => c.result.homeGoals) (acceptedMatches demoEnv demoFiles))
    (perMatch (fun c => c.homeCorners) (acceptedMatches demoEnv demoFiles))
    (perMatch (fun c => c.awayCorners) (acceptedMatches demoEnv demoFiles))
    (rawTotals "A" (acceptedMatches demoEnv demoFiles))
    (attachHistory
      (demoEnv.sortByDate ((acceptedMatches demoEnv demoFiles).map (fun c => c.result)))
      "A" (Team.ofName "A")) hpos).1
  have hg : (rawTotals "A" (acceptedMatches demoEnv demoFiles)).awayGoalsScored = 0 := by decide
  have hn : (rawTotals "A" (acceptedMatches demoEnv demoFiles)).awayMatches = 1 := by decide
  have hT : total (fun c => c.result.awayGoals) (acceptedMatches demoEnv demoFiles) = 2 := by
    decide
  have hN : countOf (acceptedMatches demoEnv demoFiles) = 3 := by decide
  have hE : Dbl.div
      (Dbl.div (Dbl.ofInt (rawTotals "A" (acceptedMatches demoEnv demoFiles)).awayGoalsScored)
        (Dbl.ofInt (rawTotals "A" (acceptedMatches demoEnv demoFiles)).awayMatches))
      (perMatch (fun c => c.result.awayGoals) (acceptedMatches demoEnv demoFiles))
      = Dbl.fin 0 := by
    rw [hg, hn, perMatch_eq _ _ hne, hT, hN]
    simp [Dbl.div, Dbl.ofInt]
  have hzero := hval.trans hE
  refine ⟨hok, _, hA, hzero, ?_⟩
  rw [hzero]
  simp [Dbl.lt]

/-! ## Lemmas: the attached history -/

theorem overallStrengths_matchHistory (a1 a2 a3 a4 a5 a6 : Dbl) (data : TeamData) (team : Team) :
    (overallStrengths a1 a2 a3 a4 a5 a6 data team).matchHistory = team.matchHistory := by
  unfold overallStrengths
  simp only
  split_ifs <;> rfl

/-- The history attached to a loaded team by a successful load. -/
theorem loaded_team_history (env : Env) (self : DataLoader) (files : List ResultsFile)
    (t : String) (team : Team)
    (hok : (DataLoader.loadMultipleFiles env self files).1 = true)
    (hfind : (DataLoader.loadMultipleFiles env self files).2.loadedTeams.find? t = some team) :
    team.matchHistory =
      (env.sortByDate ((acceptedMatches env files).map (fun c => c.result))).filter
        (fun result => decide (result.homeTeamName = t ∨ result.awayTeamName = t)) := by
  rw [loaded_team_of_find env self files t team hok hfind, overallStrengths_matchHistory]
  unfold attachHistory Team.ofName
  simp

/-- C11. After a successful `loadMultipleFiles`, `std::sort` having returned its
input rearranged in non-decreasing order of date, the history attached to a loaded
team is a rearrangement of the accepted completed matches in which the team is the
home or the away side (each record as often as it was accepted) and is in
non-decreasing order of date. -/
theorem history_is_sorted_matches_of_team (env : Env) (self : DataLoader)
    (files : List ResultsFile) (t : String) (team : Team)
    (hok : (DataLoader.loadMultipleFiles env self files).1 = true)
    (hfind : (DataLoader.loadMultipleFiles env self files).2.loadedTeams.find? t = some team)
    (hperm : (env.sortByDate ((acceptedMatches env files).map (fun c => c.result))).Perm
      ((acceptedMatches env files).map (fun c => c.result)))
    (hsorted : (env.sortByDate ((acceptedMatches env files).map (fun c => c.result))).Pairwise
      (fun a b => a.date ≤ b.date)) :
    team.matchHistory.Perm
      (((acceptedMatches env files).map (fun c => c.result)).filter
        (fun result => decide (result.homeTeamName = t ∨ result.awayTeamName = t))) ∧
    team.matchHistory.Pairwise (fun a b => a.date ≤ b.date) ∧
    (∀ m, team.matchHistory.count m =
      if m.homeTeamName = t ∨ m.awayTeamName = t then
        ((acceptedMatches env files).map (fun c => c.result)).count m
      else 0) := by
  have hh := loaded_team_history env self files t team hok hfind
  have hp : team.matchHistory.Perm
      (((acceptedMatches env files).map (fun c => c.result)).filter
        (fun result => decide (result.homeTeamName = t ∨ result.awayTeamName = t))) := by
    rw [hh]
    exact hperm.filter _
  refine ⟨hp, ?_, ?_⟩
  · rw [hh]
    exact hsorted.filter _
  · intro m
    rw [hp.count_eq]
    by_cases hm : m.homeTeamName = t ∨ m.awayTeamName = t
    · rw [if_pos hm, List.count_filter (by simpa using hm)]
    · rw [if_neg hm, List.count_eq_zero]
      intro hmem
      exact hm (by simpa using (List.mem_filter.1 hmem).2)

/-- C11, at a concrete input: the three accepted matches, read in date order; the
history of team A holds the three of them, in date order. -/
theorem history_is_sorted_matches_of_team_witness :
    (DataLoader.loadMultipleFiles demoEnv {} demoFiles).1 = true ∧
    (∃ team, (DataLoader.loadMultipleFiles demoEnv {} demoFiles).2.loadedTeams.find? "A"
        = some team ∧
      team.matchHistory.Perm [demoMatch1, demoMatch2, demoMatch3] ∧
      team.matchHistory.Pairwise (fun a b => a.date ≤ b.date)) := by
  have hok : (DataLoader.loadMultipleFiles demoEnv {} demoFiles).1 = true := by decide
  have hsome :
      ((DataLoader.loadMultipleFiles demoEnv {} demoFiles).2.loadedTeams.find? "A").isSome
        = true := by decide
  obtain ⟨team, hteam⟩ := Option.isSome_iff_exists.1 hsome
  obtain ⟨h1, h2, _⟩ := history_is_sorted_matches_of_team demoEnv {} demoFiles "A" team hok hteam
    (List.Perm.refl _) (by decide)
  have hl : ((acceptedMatches demoEnv demoFiles).map (fun c => c.result)).filter
      (fun result => decide (result.homeTeamName = "A" ∨ result.awayTeamName = "A"))
      = [demoMatch1, demoMatch2, demoMatch3] := by decide
  rw [hl] at h1
  exact ⟨hok, team, hteam, h1, h2⟩

/-! ## Lemmas: the tallies of a run -/

theorem foldl_tally_simulationsToRun (gen : Nat → Rates → Sample) (home away : Team)
    (a b c d : Dbl) (idx : List Nat) (m : Match) :
    (idx.foldl (fun m i => Match.tally (Match.simulateSingleGame m (gen i) home away a b c d))
        m).simulationsToRun = m.simulationsToRun := by
  induction idx generalizing m with
  | nil => rfl
  | cons i idx ih =>
    rw [List.foldl_cons, ih]
    exact (tally_simulateSingleGame m (gen i) home away a b c d).2.2.2.2.2.2.2.2.2.2

/-- A run leaves the trial count as it was. -/
theorem runFullSimulation_simulationsToRun (self : Match) (gen : Nat → Rates → Sample)
    (home away : Team) (a b c d : Dbl) :
    (Match.runFullSimulation self gen home away a b c d).simulationsToRun
      = self.simulationsToRun := by
  unfold Match.runFullSimulation
  rw [foldl_tally_simulationsToRun]
  rfl

/-- The goal tallies of a run, as counts over its samples. -/
theorem runFullSimulation_goal_tallies (self : Match) (gen : Nat → Rates → Sample)
    (home away : Team) (a b c d : Dbl) :
    (Match.runFullSimulation self gen home away a b c d).homeWins =
      countWhere (fun s => decide (s.homeGoals > s.awayGoals))
        (trialSamples self gen home away a b c d) ∧
    (Match.runFullSimulation self gen home away a b c d).awayWins =
      countWhere (fun s => decide (s.homeGoals < s.awayGoals))
        (trialSamples self gen home away a b c d) ∧
    (Match.runFullSimulation self gen home away a b c d).draws =
      countWhere (fun s => decide (s.homeGoals = s.awayGoals))
        (trialSamples self gen home away a b c d) ∧
    (Match.runFullSimulation self gen home away a b c d).over05 =
      countWhere (fun s => decide (s.homeGoals + s.awayGoals > 0))
        (trialSamples self gen home away a b c d) ∧
    (Match.runFullSimulation self gen home away a b c d).over15 =
      countWhere (fun s => decide (s.homeGoals + s.awayGoals > 1))
        (trialSamples self gen home away a b c d) ∧
    (Match.runFullSimulation self gen home away a b c d).over25 =
      countWhere (fun s => decide (s.homeGoals + s.awayGoals > 2))
        (trialSamples self gen home away a b c d) := by
  obtain ⟨h1, h2, h3, h4, h5, h6, _⟩ :=
    foldl_tally gen home away a b c d (List.range self.simulationsToRun.toNat)
      (Match.reset self)
  unfold Match.runFullSimulation trialSamples
  refine ⟨?_, ?_, ?_, ?_, ?_, ?_⟩
  · rw [h1]; simp [Match.reset]
  · rw [h2]; simp [Match.reset]
  · rw [h3]; simp [Match.reset]
  · rw [h4]; simp [Match.reset]
  · rw [h5]; simp [Match.reset]
  · rw [h6]; simp [Match.reset]

theorem trialSamples_length (self : Match) (gen : Nat → Rates → Sample)
    (home away : Team) (a b c d : Dbl) :
    (trialSamples self gen home away a b c d).length = self.simulationsToRun.toNat := by
  simp [trialSamples]

/-- Each sample is a home win, an away win or a draw, and only one of them. -/
theorem countWhere_outcomes (l : List Sample) :
    countWhere (fun s => decide (s.homeGoals > s.awayGoals)) l +
      countWhere (fun s => decide (s.homeGoals = s.awayGoals)) l +
      countWhere (fun s => decide (s.homeGoals < s.awayGoals)) l = (l.length : Int) := by
  induction l with
  | nil => simp [countWhere_nil]
  | cons s l ih =>
    simp only [countWhere_cons, decide_eq_true_eq, List.length_cons, Nat.cast_add, Nat.cast_one]
    rcases lt_trichotomy s.homeGoals s.awayGoals with h | h | h
    · rw [if_neg (by omega), if_neg (by omega), if_pos h]
      omega
    · rw [if_neg (by omega), if_pos h, if_neg (by omega)]
      omega
    · rw [if_pos h, if_neg (by omega), if_neg (by omega)]
      omega

theorem countWhere_mono (p q : Sample → Bool) (hpq : ∀ s, p s = true → q s = true)
    (l : List Sample) : countWhere p l ≤ countWhere q l := by
  induction l with
  | nil => simp [countWhere_nil]
  | cons s l ih =>
    simp only [countWhere_cons]
    by_cases hp : p s = true
    · rw [if_pos hp, if_pos (hpq s hp)]
      omega
    · rw [if_neg hp]
      split <;> omega

theorem countWhere_nonneg (p : Sample → Bool) (l : List Sample) : 0 ≤ countWhere p l := by
  induction l with
  | nil => simp [countWhere_nil]
  | cons s l ih =>
    simp only [countWhere_cons]
    split <;> omega

/-- The percentage expression does not decrease when the count grows. -/
theorem percentOf_mono (c1 c2 n : Int) (h : c1 ≤ c2) :
    Dbl.le (percentOf c1 n) (percentOf c2 n) = true := by
  unfold percentOf
  by_cases hn : n > 0
  · rw [if_pos hn, if_pos hn]
    have hq : (n : ℚ) ≠ 0 := by
      have : (0 : ℚ) < n := by exact_mod_cast hn
      exact ne_of_gt this
    unfold Dbl.ofInt
    rw [Dbl.div_fin _ _ hq, Dbl.div_fin _ _ hq, Dbl.mul_fin, Dbl.mul_fin]
    unfold Dbl.le
    simp only [decide_eq_true_eq]
    have hpos : (0 : ℚ) < n := by exact_mod_cast hn
    have hc : (c1 : ℚ) ≤ c2 := by exact_mod_cast h
    have := div_le_div_of_nonneg_right hc (le_of_lt hpos)
    nlinarith
  · rw [if_neg hn, if_neg hn]
    unfold Dbl.le
    simp

/-- C12. After `runFullSimulation`, `homeWins + draws + awayWins` is the number of
trials of the run: the length of the sequence of samples, which is
`simulationsToRun` as soon as that count is not negative, whatever the samples. -/
theorem outcome_tallies_sum_to_trials (self : Match) (gen : Nat → Rates → Sample)
    (home away : Team) (avgHomeGoals avgAwayGoals avgHomeCorners avgAwayCorners : Dbl) :
    ((Match.runFullSimulation self gen home away avgHomeGoals avgAwayGoals avgHomeCorners
        avgAwayCorners).homeWins +
      (Match.runFullSimulation self gen home away avgHomeGoals avgAwayGoals avgHomeCorners
        avgAwayCorners).draws +
      (Match.runFullSimulation self gen home away avgHomeGoals avgAwayGoals avgHomeCorners
        avgAwayCorners).awayWins =
      ((trialSamples self gen home away avgHomeGoals avgAwayGoals avgHomeCorners
        avgAwayCorners).length : Int)) ∧
    ((trialSamples self gen home away avgHomeGoals avgAwayGoals avgHomeCorners
        avgAwayCorners).length = self.simulationsToRun.toNat) ∧
    (0 ≤ self.simulationsToRun →
      (Match.runFullSimulation self gen home away avgHomeGoals avgAwayGoals avgHomeCorners
        avgAwayCorners).homeWins +
      (Match.runFullSimulation self gen home away avgHomeGoals avgAwayGoals avgHomeCorners
        avgAwayCorners).draws +
      (Match.runFullSimulation self gen home away avgHomeGoals avgAwayGoals avgHomeCorners
        avgAwayCorners).awayWins =
      (Match.runFullSimulation self gen home away avgHomeGoals avgAwayGoals avgHomeCorners
        avgAwayCorners).simulationsToRun) := by
  obtain ⟨h1, h2, h3, _⟩ := runFullSimulation_goal_tallies self gen home away avgHomeGoals
    avgAwayGoals avgHomeCorners avgAwayCorners
  have hsum := countWhere_outcomes (trialSamples self gen home away avgHomeGoals avgAwayGoals
    avgHomeCorners avgAwayCorners)
  have hlen := trialSamples_length self gen home away avgHomeGoals avgAwayGoals
    avgHomeCorners avgAwayCorners
  refine ⟨?_, hlen, ?_⟩
  · rw [h1, h2, h3]
    exact hsum
  · intro hn
    rw [h1, h2, h3, hsum, hlen, runFullSimulation_simulationsToRun]
    exact Int.toNat_of_nonneg hn

/-- C13. After `runFullSimulation`, whatever the samples, the over-goal tallies do
not increase with the threshold, `over05 >= over15 >= over25`, and neither do the
three percentages read from them. -/
theorem over_tallies_decrease_with_threshold (self : Match) (gen : Nat → Rates → Sample)
    (home away : Team) (avgHomeGoals avgAwayGoals avgHomeCorners avgAwayCorners : Dbl) :
    (Match.runFullSimulation self gen home away avgHomeGoals avgAwayGoals avgHomeCorners
        avgAwayCorners).over15 ≤
      (Match.runFullSimulation self gen home away avgHomeGoals avgAwayGoals avgHomeCorners
        avgAwayCorners).over05 ∧
    (Match.runFullSimulation self gen home away avgHomeGoals avgAwayGoals avgHomeCorners
        avgAwayCorners).over25 ≤
      (Match.runFullSimulation self gen home away avgHomeGoals avgAwayGoals avgHomeCorners
        avgAwayCorners).over15 ∧
    Dbl.le
      (Match.getOver15Percent (Match.runFullSimulation self gen home away avgHomeGoals
        avgAwayGoals avgHomeCorners avgAwayCorners))
      (Match.getOver05Percent (Match.runFullSimulation self gen home away avgHomeGoals
        avgAwayGoals avgHomeCorners avgAwayCorners)) = true ∧
    Dbl.le
      (Match.getOver25Percent (Match.runFullSimulation self gen home away avgHomeGoals
        avgAwayGoals avgHomeCorners avgAwayCorners))
      (Match.getOver15Percent (Match.runFullSimulation self gen home away avgHomeGoals
        avgAwayGoals avgHomeCorners avgAwayCorners)) = true := by
  obtain ⟨_, _, _, h4, h5, h6⟩ := runFullSimulation_goal_tallies self gen home away
    avgHomeGoals avgAwayGoals avgHomeCorners avgAwayCorners
  have h15 : (Match.runFullSimulation self gen home away avgHomeGoals avgAwayGoals
      avgHomeCorners avgAwayCorners).over15 ≤
      (Match.runFullSimulation self gen home away avgHomeGoals avgAwayGoals avgHomeCorners
        avgAwayCorners).over05 := by
    rw [h4, h5]
    apply countWhere_mono
    intro s hs
    simp only [decide_eq_true_eq] at hs ⊢
    omega
  have h25 : (Match.runFullSimulation self gen home away avgHomeGoals avgAwayGoals
      avgHomeCorners avgAwayCorners).over25 ≤
      (Match.runFullSimulation self gen home away avgHomeGoals avgAwayGoals avgHomeCorners
        avgAwayCorners).over15 := by
    rw [h5, h6]
    apply countWhere_mono
    intro s hs
    simp only [decide_eq_true_eq] at hs ⊢
    omega
  exact ⟨h15, h25, percentOf_mono _ _ _ h15, percentOf_mono _ _ _ h25⟩

/-! ## Lemmas: head-to-head statistics from the oriented scores -/

/-- The statistics of a known pair of teams in terms of the matches taken by the
scan, the goals oriented to the first team. -/
theorem getHeadToHeadStats_of_taken (env : Env) (self : DataLoader)
    (teamA teamB beforeDate : String) (maxMatches : Int) (team other : Team)
    (hA : self.loadedTeams.find? teamA = some team)
    (hB : self.loadedTeams.find? teamB = some other) (T : List MatchResult)
    (hT : (team.matchHistory.reverse.filter
      (h2hQualifies teamA teamB (h2hCutoff env beforeDate))).take maxMatches.toNat = T)
    (hpos : 0 < countOf T) :
    (DataLoader.getHeadToHeadStats env self teamA teamB beforeDate maxMatches).totalMatches =
      countOf T ∧
    (DataLoader.getHeadToHeadStats env self teamA teamB beforeDate maxMatches).homeTeamWins =
      countOf (T.filter (fun m => decide (goalsOf teamA m > goalsAgainst teamA m))) ∧
    (DataLoader.getHeadToHeadStats env self teamA teamB beforeDate maxMatches).awayTeamWins =
      countOf (T.filter (fun m => decide (goalsOf teamA m < goalsAgainst teamA m))) ∧
    (DataLoader.getHeadToHeadStats env self teamA teamB beforeDate maxMatches).draws =
      countOf (T.filter (fun m => decide (goalsOf teamA m = goalsAgainst teamA m))) ∧
    (DataLoader.getHeadToHeadStats env self teamA teamB beforeDate maxMatches).avgHomeGoals =
      Dbl.fin ((sumOver (goalsOf teamA) T : ℚ) / (countOf T : ℚ)) ∧
    (DataLoader.getHeadToHeadStats env self teamA teamB beforeDate maxMatches).avgAwayGoals =
      Dbl.fin ((sumOver (goalsAgainst teamA) T : ℚ) / (countOf T : ℚ)) ∧
    (DataLoader.getHeadToHeadStats env self teamA teamB beforeDate maxMatches).bttsPercentage =
      Dbl.fin ((countOf (T.filter
        (fun m => decide (goalsOf teamA m > 0 ∧ goalsAgainst teamA m > 0))) : ℚ) /
          (countOf T : ℚ) * 100) ∧
    (DataLoader.getHeadToHeadStats env self teamA teamB beforeDate maxMatches).over25Percentage =
      Dbl.fin ((countOf (T.filter
        (fun m => decide (goalsOf teamA m + goalsAgainst teamA m > 2))) : ℚ) /
          (countOf T : ℚ) * 100) := by
  rw [getHeadToHeadStats_known env self teamA teamB beforeDate maxMatches team other hA hB, hT]
  have hq : ∀ m ∈ T, h2hQualifies teamA teamB (h2hCutoff env beforeDate) m = true := by
    intro m hm
    rw [← hT] at hm
    have := List.mem_of_mem_take hm
    rw [List.mem_filter] at this
    exact this.2
  obtain ⟨_, f2, f3, f4, f5, f6, f7, f8, f9, _⟩ :=
    foldl_h2hStep (fun m => decide (m.homeTeamName = teamA ∧ m.awayTeamName = teamB)) T {}
  generalize List.foldl
    (fun a m => h2hStep (decide (m.homeTeamName = teamA ∧ m.awayTeamName = teamB)) m a)
    {} T = acc at f2 f3 f4 f5 f6 f7 f8 f9 ⊢
  have f2' : acc.stats.totalMatches = countOf T := by
    rw [f2]
    simp
  obtain ⟨_, k2, k3, k4, k5⟩ := h2hFinish_keeps acc
  obtain ⟨p1, p2, p3, p4⟩ := h2hFinish_pos acc (by rw [f2']; exact hpos)
  have e1 : ∀ m ∈ T,
      (if decide (m.homeTeamName = teamA ∧ m.awayTeamName = teamB) = true then m.homeGoals
        else m.awayGoals) = goalsOf teamA m :=
    fun m hm => (oriented_goals_of_qualifies teamA teamB _ m (hq m hm)).1
  have e2 : ∀ m ∈ T,
      (if decide (m.homeTeamName = teamA ∧ m.awayTeamName = teamB) = true then m.awayGoals
        else m.homeGoals) = goalsAgainst teamA m :=
    fun m hm => (oriented_goals_of_qualifies teamA teamB _ m (hq m hm)).2
  rw [k2, k3, k4, k5, p1, p2, p3, p4, f2', f3, f4, f5, f6, f7, f8, f9]
  have c1 : T.filter (fun m => decide
        ((if decide (m.homeTeamName = teamA ∧ m.awayTeamName = teamB) = true then m.homeGoals
          else m.awayGoals) >
        (if decide (m.homeTeamName = teamA ∧ m.awayTeamName = teamB) = true then m.awayGoals
          else m.homeGoals))) =
      T.filter (fun m => decide (goalsOf teamA m > goalsAgainst teamA m)) :=
    List.filter_congr (fun m hm => by rw [e1 m hm, e2 m hm])
  have c2 : T.filter (fun m => decide
        ((if decide (m.homeTeamName = teamA ∧ m.awayTeamName = teamB) = true then m.homeGoals
          else m.awayGoals) <
        (if decide (m.homeTeamName = teamA ∧ m.awayTeamName = teamB) = true then m.awayGoals
          else m.homeGoals))) =
      T.filter (fun m => decide (goalsOf teamA m < goalsAgainst teamA m)) :=
    List.filter_congr (fun m hm => by rw [e1 m hm, e2 m hm])
  have c3 : T.filter (fun m => decide
        ((if decide (m.homeTeamName = teamA ∧ m.awayTeamName = teamB) = true then m.homeGoals
          else m.awayGoals) =
        (if decide (m.homeTeamName = teamA ∧ m.awayTeamName = teamB) = true then m.awayGoals
          else m.homeGoals))) =
      T.filter (fun m => decide (goalsOf teamA m = goalsAgainst teamA m)) :=
    List.filter_congr (fun m hm => by rw [e1 m hm, e2 m hm])
  have c4 : T.filter (fun m => decide
        ((if decide (m.homeTeamName = teamA ∧ m.awayTeamName = teamB) = true then m.homeGoals
          else m.awayGoals) > 0 ∧
        (if decide (m.homeTeamName = teamA ∧ m.awayTeamName = teamB) = true then m.awayGoals
          else m.homeGoals) > 0)) =
      T.filter (fun m => decide (goalsOf teamA m > 0 ∧ goalsAgainst teamA m > 0)) :=
    List.filter_congr (fun m hm => by rw [e1 m hm, e2 m hm])
  have c5 : T.filter (fun m => decide
        ((if decide (m.homeTeamName = teamA ∧ m.awayTeamName = teamB) = true then m.homeGoals
          else m.awayGoals) +
        (if decide (m.homeTeamName = teamA ∧ m.awayTeamName = teamB) = true then m.awayGoals
          else m.homeGoals) > 2)) =
      T.filter (fun m => decide (goalsOf teamA m + goalsAgainst teamA m > 2)) :=
    List.filter_congr (fun m hm => by rw [e1 m hm, e2 m hm])
  have s1 : sumOver (fun m =>
        if decide (m.homeTeamName = teamA ∧ m.awayTeamName = teamB) = true then m.homeGoals
        else m.awayGoals) T = sumOver (goalsOf teamA) T := by
    unfold sumOver
    rw [List.map_congr_left e1]
  have s2 : sumOver (fun m =>
        if decide (m.homeTeamName = teamA ∧ m.awayTeamName = teamB) = true then m.awayGoals
        else m.homeGoals) T = sumOver (goalsAgainst teamA) T := by
    unfold sumOver
    rw [List.map_congr_left e2]
  rw [c1, c2, c3, c4, c5, s1, s2]
  refine ⟨rfl, by simp, by simp, by simp, by simp, by simp, by simp, by simp⟩

/-- A count over matches selected by their oriented score depends only on the
scores, in any order. -/
theorem countOf_filter_of_scores (teamA : String) (q : Int × Int → Bool)
    (T : List MatchResult) (S : List (Int × Int))
    (h : (T.map (fun m => (goalsOf teamA m, goalsAgainst teamA m))).Perm S) :
    countOf (T.filter (fun m => q (goalsOf teamA m, goalsAgainst teamA m))) =
      countOf (S.filter q) := by
  unfold countOf
  have := (h.filter q).length_eq
  rw [List.filter_map, List.length_map] at this
  exact_mod_cast this

theorem sumOver_of_scores (teamA : String) (T : List MatchResult) (S : List (Int × Int))
    (h : (T.map (fun m => (goalsOf teamA m, goalsAgainst teamA m))).Perm S) :
    sumOver (goalsOf teamA) T = (S.map Prod.fst).sum ∧
    sumOver (goalsAgainst teamA) T = (S.map Prod.snd).sum := by
  unfold sumOver
  constructor
  · have := (h.map Prod.fst).sum_eq
    rw [List.map_map] at this
    exact this
  · have := (h.map Prod.snd).sum_eq
    rw [List.map_map] at this
    exact this

/-- The matches taken by the scan when the qualifying matches are at most as many
as the limit: all of them, and their oriented scores are those of the history. -/
theorem taken_scores (teamA teamB : String) (cutoffDate : TimePoint) (maxMatches : Int)
    (history : List MatchResult) (S : List (Int × Int))
    (hmax : (S.length : Int) ≤ maxMatches)
    (h : ((history.filter (h2hQualifies teamA teamB cutoffDate)).map
      (fun m => (goalsOf teamA m, goalsAgainst teamA m))).Perm S) :
    ((((history.reverse.filter (h2hQualifies teamA teamB cutoffDate)).take
      maxMatches.toNat)).map (fun m => (goalsOf teamA m, goalsAgainst teamA m))).Perm S := by
  have hlen : (history.reverse.filter (h2hQualifies teamA teamB cutoffDate)).length
      = S.length := by
    have h1 := h.length_eq
    rw [List.length_map] at h1
    rw [← h1]
    exact ((List.reverse_perm history).filter _).length_eq
  rw [List.take_of_length_le (by rw [hlen]; omega)]
  exact (((List.reverse_perm history).filter _).map _).trans h

/-- C16, as the code has it. For loaded teams A and B and a limit of at least 3
matches: when the matches of A's history against B before the cutoff are exactly
3, with goals (2,1), (0,0), (1,1) from A's perspective in any order,
`getHeadToHeadStats(A, B, cutoff)` returns `totalMatches = 3`, `homeTeamWins = 1`,
`draws = 2`, `awayTeamWins = 0`, `avgHomeGoals = 1.0`, `avgAwayGoals = 2/3`,
`bttsPercentage = 200/3` (both sides scored in two of the three) and
`over25Percentage = 100/3` (more than two goals in one of the three). -/
theorem h2h_scenario_of_three_matches (env : Env) (self : DataLoader)
    (teamA teamB beforeDate : String) (maxMatches : Int) (team other : Team)
    (hA : self.loadedTeams.find? teamA = some team)
    (hB : self.loadedTeams.find? teamB = some other)
    (hmax : 3 ≤ maxMatches)
    (hscores : ((team.matchHistory.filter
        (h2hQualifies teamA teamB (h2hCutoff env beforeDate))).map
      (fun m => (goalsOf teamA m, goalsAgainst teamA m))).Perm [(2, 1), (0, 0), (1, 1)]) :
    (DataLoader.getHeadToHeadStats env self teamA teamB beforeDate maxMatches).totalMatches = 3 ∧
    (DataLoader.getHeadToHeadStats env self teamA teamB beforeDate maxMatches).homeTeamWins = 1 ∧
    (DataLoader.getHeadToHeadStats env self teamA teamB beforeDate maxMatches).draws = 2 ∧
    (DataLoader.getHeadToHeadStats env self teamA teamB beforeDate maxMatches).awayTeamWins = 0 ∧
    (DataLoader.getHeadToHeadStats env self teamA teamB beforeDate maxMatches).avgHomeGoals
      = Dbl.fin 1 ∧
    (DataLoader.getHeadToHeadStats env self teamA teamB beforeDate maxMatches).avgAwayGoals
      = Dbl.fin (2 / 3) ∧
    (DataLoader.getHeadToHeadStats env self teamA teamB beforeDate maxMatches).bttsPercentage
      = Dbl.fin (200 / 3) ∧
    (DataLoader.getHeadToHeadStats env self teamA teamB beforeDate maxMatches).over25Percentage
      = Dbl.fin (100 / 3) := by
  have hS := taken_scores teamA teamB (h2hCutoff env beforeDate) maxMatches team.matchHistory
    [(2, 1), (0, 0), (1, 1)] (by simpa using hmax) hscores
  generalize hT : (team.matchHistory.reverse.filter
    (h2hQualifies teamA teamB (h2hCutoff env beforeDate))).take maxMatches.toNat = T at hS
  have hN : countOf T = 3 := by
    unfold countOf
    have := hS.length_eq
    rw [List.length_map] at this
    rw [this]
    rfl
  obtain ⟨g1, g2, g3, g4, g5, g6, g7, g8⟩ :=
    getHeadToHeadStats_of_taken env self teamA teamB beforeDate maxMatches team other hA hB T hT
      (by rw [hN]; decide)
  have w1 : countOf (T.filter (fun m => decide (goalsOf teamA m > goalsAgainst teamA m))) = 1 :=
    (countOf_filter_of_scores teamA (fun p => decide (p.1 > p.2)) T _ hS).trans (by decide)
  have w2 : countOf (T.filter (fun m => decide (goalsOf teamA m < goalsAgainst teamA m))) = 0 :=
    (countOf_filter_of_scores teamA (fun p => decide (p.1 < p.2)) T _ hS).trans (by decide)
  have w3 : countOf (T.filter (fun m => decide (goalsOf teamA m = goalsAgainst teamA m))) = 2 :=
    (countOf_filter_of_scores teamA (fun p => decide (p.1 = p.2)) T _ hS).trans (by decide)
  have w4 : countOf (T.filter
      (fun m => decide (goalsOf teamA m > 0 ∧ goalsAgainst teamA m > 0))) = 2 :=
    (countOf_filter_of_scores teamA (fun p => decide (p.1 > 0 ∧ p.2 > 0)) T _ hS).trans
      (by decide)
  have w5 : countOf (T.filter
      (fun m => decide (goalsOf teamA m + goalsAgainst teamA m > 2))) = 1 :=
    (countOf_filter_of_scores teamA (fun p => decide (p.1 + p.2 > 2)) T _ hS).trans (by decide)
  obtain ⟨s1, s2⟩ := sumOver_of_scores teamA T _ hS
  have s1' : sumOver (goalsOf teamA) T = 3 := s1.trans (by decide)
  have s2' : sumOver (goalsAgainst teamA) T = 2 := s2.trans (by decide)
  rw [g1, g2, g3, g4, g5, g6, g7, g8, hN, w1, w2, w3, w4, w5, s1', s2']
  refine ⟨rfl, rfl, rfl, rfl, ?_, ?_, ?_, ?_⟩ <;> norm_num

/-- C16, at a concrete input: the loader whose team A has the history A 2-1 B,
B 0-0 A, A 1-1 B, no cutoff and the default limit of 10 matches. -/
theorem h2h_scenario_of_three_matches_witness :
    (DataLoader.getHeadToHeadStats demoEnv demoLoader "A" "B" "" 10).totalMatches = 3 ∧
    (DataLoader.getHeadToHeadStats demoEnv demoLoader "A" "B" "" 10).homeTeamWins = 1 ∧
    (DataLoader.getHeadToHeadStats demoEnv demoLoader "A" "B" "" 10).draws = 2 ∧
    (DataLoader.getHeadToHeadStats demoEnv demoLoader "A" "B" "" 10).awayTeamWins = 0 ∧
    (DataLoader.getHeadToHeadStats demoEnv demoLoader "A" "B" "" 10).avgHomeGoals = Dbl.fin 1 ∧
    (DataLoader.getHeadToHeadStats demoEnv demoLoader "A" "B" "" 10).avgAwayGoals
      = Dbl.fin (2 / 3) ∧
    (DataLoader.getHeadToHeadStats demoEnv demoLoader "A" "B" "" 10).bttsPercentage
      = Dbl.fin (200 / 3) ∧
    (DataLoader.getHeadToHeadStats demoEnv demoLoader "A" "B" "" 10).over25Percentage
      = Dbl.fin (100 / 3) :=
  h2h_scenario_of_three_matches demoEnv demoLoader "A" "B" "" 10 demoTeamA demoTeamB
    demoLoader_find_A demoLoader_find_B (by decide)
    (by
      have h : (demoTeamA.matchHistory.filter
          (h2hQualifies "A" "B" (h2hCutoff demoEnv ""))).map
          (fun m => (goalsOf "A" m, goalsAgainst "A" m)) = [(2, 1), (0, 0), (1, 1)] := by
        decide
      rw [h])

/-- C16 refuted as stated: the scenario holds (team A's history is exactly the three
matches against B with goals (2,1), (0,0), (1,1) from A's side, all before the
cutoff), and `getHeadToHeadStats` returns `bttsPercentage = 200/3`, above 66, not
33.3, and `over25Percentage = 100/3`, above 33, not 0.0. -/
theorem h2h_scenario_btts_and_over25_differ :
    demoLoader.loadedTeams.find? "A" = some demoTeamA ∧
    demoLoader.loadedTeams.find? "B" = some demoTeamB ∧
    demoTeamA.matchHistory.map (fun m => (goalsOf "A" m, goalsAgainst "A" m))
      = [(2, 1), (0, 0), (1, 1)] ∧
    (∀ m ∈ demoTeamA.matchHistory,
      h2hQualifies "A" "B" (h2hCutoff demoEnv "2024-01-22") m = true) ∧
    (DataLoader.getHeadToHeadStats demoEnv demoLoader "A" "B" "2024-01-22" 10).totalMatches
      = 3 ∧
    (DataLoader.getHeadToHeadStats demoEnv demoLoader "A" "B" "2024-01-22" 10).bttsPercentage
      = Dbl.fin (200 / 3) ∧
    (DataLoader.getHeadToHeadStats demoEnv demoLoader "A" "B" "2024-01-22" 10).over25Percentage
      = Dbl.fin (100 / 3) ∧
    Dbl.lt (Dbl.fin 66)
      (DataLoader.getHeadToHeadStats demoEnv demoLoader "A" "B" "2024-01-22" 10).bttsPercentage
      = true ∧
    Dbl.lt (Dbl.fin 33)
      (DataLoader.getHeadToHeadStats demoEnv demoLoader "A" "B" "2024-01-22" 10).over25Percentage
      = true := by
  have hq : ∀ m ∈ demoTeamA.matchHistory,
      h2hQualifies "A" "B" (h2hCutoff demoEnv "2024-01-22") m = true := by decide
  have hT : (demoTeamA.matchHistory.reverse.filter
      (h2hQualifies "A" "B" (h2hCutoff demoEnv "2024-01-22"))).take (10 : Int).toNat
      = [demoMatch3, demoMatch2, demoMatch1] := by decide
  obtain ⟨g1, _, _, _, _, _, g7, g8⟩ :=
    getHeadToHeadStats_of_taken demoEnv demoLoader "A" "B" "2024-01-22" 10 demoTeamA demoTeamB
      demoLoader_find_A demoLoader_find_B _ hT (by decide)
  have hN : countOf [demoMatch3, demoMatch2, demoMatch1] = 3 := by decide
  have w4 : countOf ([demoMatch3, demoMatch2, demoMatch1].filter
      (fun m => decide (goalsOf "A" m > 0 ∧ goalsAgainst "A" m > 0))) = 2 := by decide
  have w5 : countOf ([demoMatch3, demoMatch2, demoMatch1].filter
      (fun m => decide (goalsOf "A" m + goalsAgainst "A" m > 2))) = 1 := by decide
  rw [hN, w4] at g7
  rw [hN, w5] at g8
  rw [hN] at g1
  have e7 : (DataLoader.getHeadToHeadStats demoEnv demoLoader "A" "B" "2024-01-22"
      10).bttsPercentage = Dbl.fin (200 / 3) := by
    rw [g7]; norm_num
  have e8 : (DataLoader.getHeadToHeadStats demoEnv demoLoader "A" "B" "2024-01-22"
      10).over25Percentage = Dbl.fin (100 / 3) := by
    rw [g8]; norm_num
  refine ⟨demoLoader_find_A, demoLoader_find_B, by decide, hq, g1, e7, e8, ?_, ?_⟩
  · rw [e7]
    unfold Dbl.lt
    norm_num
  · rw [e8]
    unfold Dbl.lt
    norm_num

/-! ## Lemmas: the counters of a run -/

theorem find?_bump {K : Type} [DecidableEq K] (counts : StdMap K Int) (key k : K) :
    (bump counts key).find? k =
      if k = key then some (counts.getD key 0 + 1) else counts.find? k := by
  unfold bump
  by_cases h : k = key
  · subst h
    rw [StdMap.find?_set_self, if_pos rfl]
  · rw [StdMap.find?_set_ne _ _ _ _ h, if_neg h]

/-- An entry is in the map exactly when the lookup of its key finds its value. -/
theorem mem_entries_iff_find {K V : Type} [DecidableEq K] (m : StdMap K V) (k : K) (v : V) :
    (k, v) ∈ m.entries ↔ m.find? k = some v := by
  constructor
  · intro hmem
    cases hf : m.find? k with
    | none =>
      rw [StdMap.find?_eq_none_iff] at hf
      exact absurd (List.mem_map.2 ⟨(k, v), hmem, rfl⟩) hf
    | some v2 =>
      obtain ⟨l1, l2, hl, h1, h2⟩ := entries_split_of_find m k v2 hf
      rw [hl, List.mem_append, List.mem_cons] at hmem
      rcases hmem with h | h | h
      · exact absurd (List.mem_map.2 ⟨(k, v), h, rfl⟩) h1
      · rw [Prod.mk.injEq] at h
        rw [h.2]
      · exact absurd (List.mem_map.2 ⟨(k, v), h, rfl⟩) h2
  · intro hf
    obtain ⟨l1, l2, hl, _, _⟩ := entries_split_of_find m k v hf
    rw [hl]
    simp

/-- Counters that are all positive stay so when one of them is incremented. -/
theorem bump_positive {K : Type} [DecidableEq K] (counts : StdMap K Int) (key : K)
    (h : ∀ k v, counts.find? k = some v → 0 < v) :
    ∀ k v, (bump counts key).find? k = some v → 0 < v := by
  intro k v hk
  rw [find?_bump] at hk
  by_cases hkey : k = key
  · rw [if_pos hkey] at hk
    have hv : counts.getD key 0 + 1 = v := by simpa using hk
    have h0 : 0 ≤ counts.getD key 0 := by
      unfold StdMap.getD
      cases hf : counts.find? key with
      | none => simp
      | some c => exact le_of_lt (h key c hf)
    omega
  · rw [if_neg hkey] at hk
    exact h k v hk

theorem foldl_tally_positive (gen : Nat → Rates → Sample) (home away : Team) (a b c d : Dbl)
    (idx : List Nat) (m : Match)
    (hs : ∀ k v, m.scoreCounts.find? k = some v → 0 < v)
    (hc : ∀ k v, m.cornerCounts.find? k = some v → 0 < v) :
    (∀ k v, (idx.foldl
        (fun m i => Match.tally (Match.simulateSingleGame m (gen i) home away a b c d))
        m).scoreCounts.find? k = some v → 0 < v) ∧
    (∀ k v, (idx.foldl
        (fun m i => Match.tally (Match.simulateSingleGame m (gen i) home away a b c d))
        m).cornerCounts.find? k = some v → 0 < v) := by
  induction idx generalizing m with
  | nil => exact ⟨hs, hc⟩
  | cons i idx ih =>
    rw [List.foldl_cons]
    obtain ⟨_, _, _, _, _, _, _, _, t9, t10, _⟩ :=
      tally_simulateSingleGame m (gen i) home away a b c d
    apply ih
    · rw [t10]
      exact bump_positive _ _ hs
    · rw [t9]
      exact bump_positive _ _ hc

theorem countWhere_pos_iff (p : Sample → Bool) (l : List Sample) :
    0 < countWhere p l ↔ ∃ s ∈ l, p s = true := by
  induction l with
  | nil => simp [countWhere_nil]
  | cons s l ih =>
    rw [countWhere_cons]
    have h0 := countWhere_nonneg p l
    by_cases hp : p s = true
    · rw [if_pos hp]
      constructor
      · intro _
        exact ⟨s, List.mem_cons_self _ _, hp⟩
      · intro _
        omega
    · rw [if_neg hp, zero_add, ih]
      constructor
      · rintro ⟨x, hx, hpx⟩
        exact ⟨x, List.mem_cons_of_mem _ hx, hpx⟩
      · rintro ⟨x, hx, hpx⟩
        rw [List.mem_cons] at hx
        rcases hx with rfl | hx
        · exact absurd hpx hp
        · exact ⟨x, hx, hpx⟩

/-- The two maps of counters after a run: a key is present exactly when a trial
produced it, and its counter is the number of those trials. -/
theorem runFullSimulation_counters (self : Match) (gen : Nat → Rates → Sample)
    (home away : Team) (a b c d : Dbl) :
    (∀ k v, (Match.runFullSimulation self gen home away a b c d).scoreCounts.find? k = some v ↔
      (v = countWhere (fun s => decide ((s.homeGoals, s.awayGoals) = k))
        (trialSamples self gen home away a b c d) ∧ 0 < v)) ∧
    (∀ k v, (Match.runFullSimulation self gen home away a b c d).cornerCounts.find? k = some v ↔
      (v = countWhere (fun s => decide (s.homeCorners + s.awayCorners = k))
        (trialSamples self gen home away a b c d) ∧ 0 < v)) := by
  obtain ⟨_, _, _, _, _, _, _, h8, h9⟩ :=
    foldl_tally gen home away a b c d (List.range self.simulationsToRun.toNat)
      (Match.reset self)
  obtain ⟨p1, p2⟩ :=
    foldl_tally_positive gen home away a b c d (List.range self.simulationsToRun.toNat)
      (Match.reset self) (by intro k v h; simp [Match.reset, StdMap.find?_empty] at h)
      (by intro k v h; simp [Match.reset, StdMap.find?_empty] at h)
  unfold Match.runFullSimulation trialSamples
  have h9k : ∀ k, (List.foldl
      (fun m i => Match.tally (Match.simulateSingleGame m (gen i) home away a b c d))
      (Match.reset self) (List.range self.simulationsToRun.toNat)).scoreCounts.getD k 0 =
      countWhere (fun s => decide ((s.homeGoals, s.awayGoals) = k))
        ((List.range self.simulationsToRun.toNat).map
          (fun i => gen i (gameRates home away a b c d))) := by
    intro k
    rw [h9 k]
    simp [Match.reset, getD_empty]
  have h8k : ∀ k, (List.foldl
      (fun m i => Match.tally (Match.simulateSingleGame m (gen i) home away a b c d))
      (Match.reset self) (List.range self.simulationsToRun.toNat)).cornerCounts.getD k 0 =
      countWhere (fun s => decide (s.homeCorners + s.awayCorners = k))
        ((List.range self.simulationsToRun.toNat).map
          (fun i => gen i (gameRates home away a b c d))) := by
    intro k
    rw [h8 k]
    simp [Match.reset, getD_empty]
  generalize List.foldl
    (fun m i => Match.tally (Match.simulateSingleGame m (gen i) home away a b c d))
    (Match.reset self) (List.range self.simulationsToRun.toNat) = r at p1 p2 h8k h9k ⊢
  constructor
  · intro k v
    have hk := h9k k
    constructor
    · intro hf
      rw [getD_of_find _ k v 0 hf] at hk
      exact ⟨hk, p1 k v hf⟩
    · rintro ⟨hv, hpos⟩
      cases hf : r.scoreCounts.find? k with
      | none =>
        unfold StdMap.getD at hk
        rw [hf] at hk
        simp only [Option.getD_none] at hk
        omega
      | some v2 =>
        rw [getD_of_find _ k v2 0 hf] at hk
        rw [hv, ← hk]
  · intro k v
    have hk := h8k k
    constructor
    · intro hf
      rw [getD_of_find _ k v 0 hf] at hk
      exact ⟨hk, p2 k v hf⟩
    · rintro ⟨hv, hpos⟩
      cases hf : r.cornerCounts.find? k with
      | none =>
        unfold StdMap.getD at hk
        rw [hf] at hk
        simp only [Option.getD_none] at hk
        omega
      | some v2 =>
        rw [getD_of_find _ k v2 0 hf] at hk
        rw [hv, ← hk]

/-! ## Lemmas: the most likely scores -/

theorem entryGe_total (x y : Int × (Int × Int)) : entryGe x y ∨ entryGe y x := by
  unfold entryGe entryLt
  omega

theorem entryGe_trans (x y z : Int × (Int × Int)) (h1 : entryGe x y) (h2 : entryGe y z) :
    entryGe x z := by
  unfold entryGe entryLt at *
  omega

theorem entryLt_of_entryGe_of_ne (x y : Int × (Int × Int)) (h : entryGe x y) (hne : x ≠ y) :
    entryLt y x := by
  have hc : x.1 ≠ y.1 ∨ x.2.1 ≠ y.2.1 ∨ x.2.2 ≠ y.2.2 := by
    by_contra hc
    push_neg at hc
    exact hne (Prod.ext hc.1 (Prod.ext hc.2.1 hc.2.2))
  unfold entryGe entryLt at *
  omega

theorem sortedScores_perm (m : Match) :
    (Match.sortedScores m).Perm (m.scoreCounts.entries.map (fun p => (p.2, p.1))) :=
  List.perm_insertionSort _ _

theorem sortedScores_nodup (m : Match) : (Match.sortedScores m).Nodup := by
  rw [(sortedScores_perm m).nodup_iff]
  apply List.Nodup.of_map (fun e : Int × (Int × Int) => e.2)
  rw [List.map_map]
  exact m.scoreCounts.nodup

/-- The sorted pairs are strictly decreasing in (count, home goals, away goals). -/
theorem sortedScores_decreasing (m : Match) :
    (Match.sortedScores m).Pairwise (fun x y => entryLt y x) := by
  haveI : IsTotal (Int × (Int × Int)) entryGe := ⟨entryGe_total⟩
  haveI : IsTrans (Int × (Int × Int)) entryGe := ⟨entryGe_trans⟩
  have hs : (Match.sortedScores m).Pairwise entryGe :=
    List.sorted_insertionSort entryGe _
  have hn : (Match.sortedScores m).Pairwise (fun x y => x ≠ y) := sortedScores_nodup m
  exact (hs.and hn).imp (fun h => entryLt_of_entryGe_of_ne _ _ h.1 h.2)

theorem mem_sortedScores (m : Match) (e : Int × (Int × Int)) :
    e ∈ Match.sortedScores m ↔ m.scoreCounts.find? e.2 = some e.1 := by
  rw [(sortedScores_perm m).mem_iff, ← mem_entries_iff_find, List.mem_map]
  constructor
  · rintro ⟨p, hp, rfl⟩
    exact hp
  · intro h
    exact ⟨(e.2, e.1), h, rfl⟩

theorem sortedScores_length (self : Match) (gen : Nat → Rates → Sample) (home away : Team)
    (a b c d : Dbl) :
    (Match.sortedScores (Match.runFullSimulation self gen home away a b c d)).length =
      (simulatedScores (trialSamples self gen home away a b c d)).length := by
  rw [(sortedScores_perm _).length_eq, List.length_map]
  have hk : ((Match.runFullSimulation self gen home away a b c d).scoreCounts.entries.map
      Prod.fst).length = (simulatedScores (trialSamples self gen home away a b c d)).length := by
    apply List.Perm.length_eq
    unfold simulatedScores
    rw [List.perm_ext_iff_of_nodup
      (Match.runFullSimulation self gen home away a b c d).scoreCounts.nodup
      (List.nodup_dedup _)]
    intro k
    rw [List.mem_dedup, List.mem_map, List.mem_map]
    constructor
    · rintro ⟨p, hp, rfl⟩
      have hf := (mem_entries_iff_find _ p.1 p.2).1 hp
      obtain ⟨hv, hpos⟩ := ((runFullSimulation_counters self gen home away a b c d).1 _ _).1 hf
      rw [hv, countWhere_pos_iff] at hpos
      obtain ⟨s, hs, hps⟩ := hpos
      exact ⟨s, hs, by simpa using hps⟩
    · rintro ⟨s, hs, rfl⟩
      have hpos : 0 < countWhere
          (fun x => decide ((x.homeGoals, x.awayGoals) = (s.homeGoals, s.awayGoals)))
          (trialSamples self gen home away a b c d) :=
        (countWhere_pos_iff _ _).2 ⟨s, hs, by simp⟩
      have hf := ((runFullSimulation_counters self gen home away a b c d).1
        (s.homeGoals, s.awayGoals) _).2 ⟨rfl, hpos⟩
      exact ⟨_, (mem_entries_iff_find _ _ _).2 hf, rfl⟩
  rw [List.length_map] at hk
  exact hk

/-- The percentage expression when there is at least one trial. -/
theorem percentOf_pos (count n : Int) (hn : 0 < n) :
    percentOf count n = Dbl.fin ((count : ℚ) / (n : ℚ) * 100) := by
  unfold percentOf Dbl.ofInt
  have hq : (n : ℚ) ≠ 0 := by
    have : (0 : ℚ) < n := by exact_mod_cast hn
    exact ne_of_gt this
  rw [if_pos hn, Dbl.div_fin _ _ hq, Dbl.mul_fin]

theorem scoreLabel_example : scoreLabel (2, 1) = "2 - 1" := by decide

/-- C14. After `runFullSimulation`, for every `topN`, `getMostLikelyScores(topN)`
is the list of labels "h - a" and percentages `count / trials x 100` of a list `top`
of pairs (count, scoreline) such that: `top` has `min(topN, number of distinct
simulated scorelines)` pairs, none when `topN <= 0`; `top` is strictly decreasing
in (count, homeGoals, awayGoals); each of its pairs is a simulated scoreline with
the number of trials that produced it; and every simulated scoreline not in `top`
is, with its count, below all pairs of `top` in that order. -/
theorem most_likely_scores_are_top_entries (self : Match) (gen : Nat → Rates → Sample)
    (home away : Team) (avgHomeGoals avgAwayGoals avgHomeCorners avgAwayCorners : Dbl)
    (topN : Int) :
    ∃ top : List (Int × (Int × Int)),
      Match.getMostLikelyScores
          (Match.runFullSimulation self gen home away avgHomeGoals avgAwayGoals avgHomeCorners
            avgAwayCorners) topN =
        top.map (fun e =>
          (scoreLabel e.2, Dbl.fin ((e.1 : ℚ) / (self.simulationsToRun : ℚ) * 100))) ∧
      top.length = min topN.toNat
        (simulatedScores (trialSamples self gen home away avgHomeGoals avgAwayGoals
          avgHomeCorners avgAwayCorners)).length ∧
      (topN ≤ 0 → top = []) ∧
      top.Pairwise (fun x y => entryLt y x) ∧
      (∀ e ∈ top,
        e.2 ∈ simulatedScores (trialSamples self gen home away avgHomeGoals avgAwayGoals
          avgHomeCorners avgAwayCorners) ∧
        e.1 = scoreCount e.2 (trialSamples self gen home away avgHomeGoals avgAwayGoals
          avgHomeCorners avgAwayCorners)) ∧
      (∀ k ∈ simulatedScores (trialSamples self gen home away avgHomeGoals avgAwayGoals
          avgHomeCorners avgAwayCorners),
        (scoreCount k (trialSamples self gen home away avgHomeGoals avgAwayGoals
          avgHomeCorners avgAwayCorners), k) ∉ top →
        ∀ t ∈ top, entryLt (scoreCount k (trialSamples self gen home away avgHomeGoals
          avgAwayGoals avgHomeCorners avgAwayCorners), k) t) := by
  have hcount := (runFullSimulation_counters self gen home away avgHomeGoals avgAwayGoals
    avgHomeCorners avgAwayCorners).1
  have hN := runFullSimulation_simulationsToRun self gen home away avgHomeGoals avgAwayGoals
    avgHomeCorners avgAwayCorners
  have hlen := sortedScores_length self gen home away avgHomeGoals avgAwayGoals
    avgHomeCorners avgAwayCorners
  have hdec := sortedScores_decreasing (Match.runFullSimulation self gen home away avgHomeGoals
    avgAwayGoals avgHomeCorners avgAwayCorners)
  have hmem := mem_sortedScores (Match.runFullSimulation self gen home away avgHomeGoals
    avgAwayGoals avgHomeCorners avgAwayCorners)
  have hNpos : (∃ s, s ∈ trialSamples self gen home away avgHomeGoals avgAwayGoals
      avgHomeCorners avgAwayCorners) → 0 < self.simulationsToRun := by
    rintro ⟨s, hs⟩
    have h1 := trialSamples_length self gen home away avgHomeGoals avgAwayGoals
      avgHomeCorners avgAwayCorners
    have h2 : 0 < (trialSamples self gen home away avgHomeGoals avgAwayGoals
      avgHomeCorners avgAwayCorners).length := List.length_pos_of_mem hs
    omega
  generalize trialSamples self gen home away avgHomeGoals avgAwayGoals avgHomeCorners
    avgAwayCorners = samples at hcount hlen hNpos ⊢
  generalize Match.runFullSimulation self gen home away avgHomeGoals avgAwayGoals
    avgHomeCorners avgAwayCorners = r at hcount hlen hN hdec hmem ⊢
  have hentry : ∀ e ∈ Match.sortedScores r,
      e.2 ∈ simulatedScores samples ∧ e.1 = scoreCount e.2 samples ∧
        0 < self.simulationsToRun := by
    intro e he
    obtain ⟨hv, hpos⟩ := (hcount e.2 e.1).1 ((hmem e).1 he)
    rw [hv, countWhere_pos_iff] at hpos
    obtain ⟨s, hs, hps⟩ := hpos
    refine ⟨?_, hv, hNpos ⟨s, hs⟩⟩
    unfold simulatedScores
    rw [List.mem_dedup, List.mem_map]
    exact ⟨s, hs, by simpa using hps⟩
  have hsorted : ∀ k ∈ simulatedScores samples, (scoreCount k samples, k) ∈
      Match.sortedScores r := by
    intro k hk
    unfold simulatedScores at hk
    rw [List.mem_dedup, List.mem_map] at hk
    obtain ⟨s, hs, rfl⟩ := hk
    rw [hmem]
    apply (hcount _ _).2
    refine ⟨rfl, ?_⟩
    exact (countWhere_pos_iff _ _).2 ⟨s, hs, by simp⟩
  refine ⟨(Match.sortedScores r).take topN.toNat, ?_, ?_, ?_, ?_, ?_, ?_⟩
  · unfold Match.getMostLikelyScores
    apply List.map_congr_left
    intro e he
    have hpos := (hentry e (List.mem_of_mem_take he)).2.2
    rw [hN, percentOf_pos _ _ hpos]
  · rw [List.length_take, hlen]
  · intro h0
    have : topN.toNat = 0 := by omega
    rw [this, List.take_zero]
  · exact hdec.sublist (List.take_sublist _ _)
  · intro e he
    have := hentry e (List.mem_of_mem_take he)
    exact ⟨this.1, this.2.1⟩
  · intro k hk hnot t ht
    have hin := hsorted k hk
    rw [← List.take_append_drop topN.toNat (Match.sortedScores r)] at hin hdec
    rw [List.mem_append] at hin
    rcases hin with hin | hin
    · exact absurd hin hnot
    · exact (List.pairwise_append.1 hdec).2.2 t ht _ hin

/-! ## Lemmas: the corner tally -/

/-- The loop of `getCornerPercent` adds up the counters of the selected keys. -/
theorem foldl_cornerTally (line : Dbl) (over : Bool) (entries : List (Int × Int))
    (init : Int) :
    entries.foldl
      (fun count pair =>
        if over = true ∧ Dbl.lt line (Dbl.ofInt pair.1) = true then count + pair.2
        else if over = false ∧ Dbl.lt (Dbl.ofInt pair.1) line = true then count + pair.2
        else count)
      init =
    init + ((entries.filter (fun pair =>
      if over = true then Dbl.lt line (Dbl.ofInt pair.1)
      else Dbl.lt (Dbl.ofInt pair.1) line)).map Prod.snd).sum := by
  induction entries generalizing init with
  | nil => simp
  | cons p l ih =>
    rw [List.foldl_cons, ih, List.filter_cons]
    cases over <;> cases h : Dbl.lt line (Dbl.ofInt p.1) <;>
      cases h2 : Dbl.lt (Dbl.ofInt p.1) line <;> simp [h, h2] <;> ring

theorem sum_indicator (ks : List Int) (x : Int) (hnd : ks.Nodup) :
    (ks.map (fun k => if x = k then (1 : Int) else 0)).sum = if x ∈ ks then 1 else 0 := by
  induction ks with
  | nil => simp
  | cons k ks ih =>
    rw [List.nodup_cons] at hnd
    rw [List.map_cons, List.sum_cons, ih hnd.2]
    by_cases hx : x = k
    · subst hx
      simp [hnd.1]
    · simp [hx]

/-- Over a list of distinct keys that holds the key of every sample, the counters of
the selected keys add up to the number of samples with a selected key. -/
theorem sum_counts_of_selected (key : Sample → Int) (sel : Int → Bool) (ks : List Int)
    (hnd : ks.Nodup) (l : List Sample) (hall : ∀ s ∈ l, key s ∈ ks) :
    ((ks.filter sel).map (fun k => countWhere (fun s => decide (key s = k)) l)).sum =
      countWhere (fun s => sel (key s)) l := by
  induction l with
  | nil => simp [countWhere_nil]
  | cons s l ih =>
    have ih2 := ih (fun x hx => hall x (List.mem_cons_of_mem _ hx))
    simp only [countWhere_cons, decide_eq_true_eq]
    rw [List.sum_map_add, ih2, sum_indicator _ _ (hnd.filter _)]
    have hs := hall s (List.mem_cons_self _ _)
    by_cases hsel : sel (key s) = true
    · rw [if_pos (List.mem_filter.2 ⟨hs, hsel⟩), if_pos hsel]
    · rw [if_neg (fun hm => hsel (List.mem_filter.1 hm).2), if_neg hsel]

/-- The local `count` of `getCornerPercent` after a run: the number of trials whose
total corners compare above the line (`over`), or below it (not `over`). -/
theorem cornerTally_run (self : Match) (gen : Nat → Rates → Sample) (home away : Team)
    (a b c d : Dbl) (line : Dbl) (over : Bool) :
    Match.cornerTally (Match.runFullSimulation self gen home away a b c d) line over =
      countWhere
        (fun s => if over = true then Dbl.lt line (Dbl.ofInt (totalCorners s))
          else Dbl.lt (Dbl.ofInt (totalCorners s)) line)
        (trialSamples self gen home away a b c d) := by
  have hcount := (runFullSimulation_counters self gen home away a b c d).2
  generalize trialSamples self gen home away a b c d = samples at hcount ⊢
  generalize Match.runFullSimulation self gen home away a b c d = r at hcount ⊢
  unfold Match.cornerTally
  rw [foldl_cornerTally, zero_add]
  have hval : ∀ p ∈ r.cornerCounts.entries.filter (fun pair =>
      if over = true then Dbl.lt line (Dbl.ofInt pair.1)
      else Dbl.lt (Dbl.ofInt pair.1) line),
      p.2 = countWhere (fun s => decide (totalCorners s = p.1)) samples := by
    intro p hp
    have hf := (mem_entries_iff_find _ p.1 p.2).1 (List.mem_filter.1 hp).1
    exact ((hcount p.1 p.2).1 hf).1
  have hall : ∀ s ∈ samples, totalCorners s ∈ r.cornerCounts.entries.map Prod.fst := by
    intro s hs
    have hpos : 0 < countWhere (fun x => decide (x.homeCorners + x.awayCorners = totalCorners s))
        samples := (countWhere_pos_iff _ _).2 ⟨s, hs, by simp [totalCorners]⟩
    have hf := (hcount (totalCorners s) _).2 ⟨rfl, hpos⟩
    exact List.mem_map.2 ⟨_, (mem_entries_iff_find _ _ _).2 hf, rfl⟩
  rw [List.map_congr_left hval]
  have := sum_counts_of_selected totalCorners
    (fun k => if over = true then Dbl.lt line (Dbl.ofInt k) else Dbl.lt (Dbl.ofInt k) line)
    (r.cornerCounts.entries.map Prod.fst) r.cornerCounts.nodup samples hall
  rw [← this, List.filter_map, List.map_map]
  rfl

theorem Dbl.lt_asymm (x y : Dbl) (h : Dbl.lt x y = true) : Dbl.lt y x = false := by
  cases x <;> cases y <;> simp_all [Dbl.lt]
  exact le_of_lt h

theorem countWhere_disjoint (p q : Sample → Bool) (h : ∀ s, p s = true → q s = false)
    (l : List Sample) : countWhere p l + countWhere q l ≤ (l.length : Int) := by
  induction l with
  | nil => simp [countWhere_nil]
  | cons s l ih =>
    simp only [countWhere_cons, List.length_cons, Nat.cast_add, Nat.cast_one]
    by_cases hp : p s = true
    · rw [if_pos hp, if_neg (by rw [h s hp]; decide)]
      omega
    · rw [if_neg hp]
      split <;> omega

theorem countWhere_cover (p q : Sample → Bool) (h : ∀ s, p s = true → q s = false)
    (hc : ∀ s, p s = true ∨ q s = true)
    (l : List Sample) : countWhere p l + countWhere q l = (l.length : Int) := by
  induction l with
  | nil => simp [countWhere_nil]
  | cons s l ih =>
    simp only [countWhere_cons, List.length_cons, Nat.cast_add, Nat.cast_one]
    by_cases hp : p s = true
    · rw [if_pos hp, if_neg (by rw [h s hp]; decide)]
      omega
    · rw [if_neg hp, if_pos ((hc s).resolve_left hp)]
      omega

theorem Dbl.lt_or_lt_of_not_integer (q : ℚ) (hq : ∀ n : Int, (n : ℚ) ≠ q) (k : Int) :
    Dbl.lt (Dbl.fin q) (Dbl.ofInt k) = true ∨ Dbl.lt (Dbl.ofInt k) (Dbl.fin q) = true := by
  unfold Dbl.ofInt Dbl.lt
  simp only [decide_eq_true_eq]
  rcases lt_trichotomy q (k : ℚ) with h | h | h
  · exact Or.inl h
  · exact absurd h.symm (hq k)
  · exact Or.inr h

theorem countWhere_append (p : Sample → Bool) (l1 l2 : List Sample) :
    countWhere p (l1 ++ l2) = countWhere p l1 + countWhere p l2 := by
  unfold countWhere countOf
  rw [List.filter_append, List.length_append]
  push_cast
  rfl

/-- The number of selected samples of a run whose first `k` trials, and no others,
draw a selected sample. -/
theorem countWhere_range (p : Sample → Bool) (f : Nat → Sample) (k n : Nat)
    (h : ∀ i, p (f i) = decide (i < k)) :
    countWhere p ((List.range n).map f) = ((min n k : Nat) : Int) := by
  induction n with
  | zero => simp [countWhere_nil]
  | succ n ih =>
    rw [List.range_succ, List.map_append, countWhere_append, ih, List.map_singleton,
      countWhere_cons, countWhere_nil, h n]
    simp only [decide_eq_true_eq]
    split <;> omega

/-- C15, as the code has it. After `runFullSimulation`, for every line, the count
that `getCornerPercent(line, true)` turns into a percentage is the number of trials
whose total corners are strictly greater than the line, the count of
`getCornerPercent(line, false)` is the number of trials whose total corners are
strictly less than the line, and the two counts together are at most the number of
trials; they are all the trials when the line is not an integer. Each percentage is
the expression `count / simulationsToRun * 100.0` of its count. -/
theorem corner_tallies_within_trials (self : Match) (gen : Nat → Rates → Sample)
    (home away : Team) (avgHomeGoals avgAwayGoals avgHomeCorners avgAwayCorners : Dbl)
    (line : Dbl) :
    Match.cornerTally (Match.runFullSimulation self gen home away avgHomeGoals avgAwayGoals
        avgHomeCorners avgAwayCorners) line true =
      countWhere (fun s => Dbl.lt line (Dbl.ofInt (totalCorners s)))
        (trialSamples self gen home away avgHomeGoals avgAwayGoals avgHomeCorners
          avgAwayCorners) ∧
    Match.cornerTally (Match.runFullSimulation self gen home away avgHomeGoals avgAwayGoals
        avgHomeCorners avgAwayCorners) line false =
      countWhere (fun s => Dbl.lt (Dbl.ofInt (totalCorners s)) line)
        (trialSamples self gen home away avgHomeGoals avgAwayGoals avgHomeCorners
          avgAwayCorners) ∧
    Match.cornerTally (Match.runFullSimulation self gen home away avgHomeGoals avgAwayGoals
        avgHomeCorners avgAwayCorners) line true +
      Match.cornerTally (Match.runFullSimulation self gen home away avgHomeGoals avgAwayGoals
        avgHomeCorners avgAwayCorners) line false ≤
      ((trialSamples self gen home away avgHomeGoals avgAwayGoals avgHomeCorners
        avgAwayCorners).length : Int) ∧
    (trialSamples self gen home away avgHomeGoals avgAwayGoals avgHomeCorners
        avgAwayCorners).length = self.simulationsToRun.toNat ∧
    (∀ q : ℚ, line = Dbl.fin q → (∀ n : Int, (n : ℚ) ≠ q) →
      Match.cornerTally (Match.runFullSimulation self gen home away avgHomeGoals avgAwayGoals
          avgHomeCorners avgAwayCorners) line true +
        Match.cornerTally (Match.runFullSimulation self gen home away avgHomeGoals
          avgAwayGoals avgHomeCorners avgAwayCorners) line false =
        ((trialSamples self gen home away avgHomeGoals avgAwayGoals avgHomeCorners
          avgAwayCorners).length : Int)) ∧
    (∀ over : Bool,
      Match.getCornerPercent (Match.runFullSimulation self gen home away avgHomeGoals
          avgAwayGoals avgHomeCorners avgAwayCorners) line over =
        percentOf
          (Match.cornerTally (Match.runFullSimulation self gen home away avgHomeGoals
            avgAwayGoals avgHomeCorners avgAwayCorners) line over)
          self.simulationsToRun) := by
  have h1 := cornerTally_run self gen home away avgHomeGoals avgAwayGoals avgHomeCorners
    avgAwayCorners line true
  have h2 := cornerTally_run self gen home away avgHomeGoals avgAwayGoals avgHomeCorners
    avgAwayCorners line false
  simp only [if_true, Bool.false_eq_true, if_false] at h1 h2
  refine ⟨h1, h2, ?_, trialSamples_length _ _ _ _ _ _ _ _, ?_, ?_⟩
  · rw [h1, h2]
    exact countWhere_disjoint _ _ (fun s hs => Dbl.lt_asymm _ _ hs) _
  · intro q hq hnot
    rw [h1, h2, hq]
    exact countWhere_cover _ _ (fun s hs => Dbl.lt_asymm _ _ hs)
      (fun s => Dbl.lt_or_lt_of_not_integer q hnot _) _
  · intro over
    unfold Match.getCornerPercent
    rw [runFullSimulation_simulationsToRun]

/-- C15 refuted as stated: a run of the default 10000 trials in which 4 trials have
10 total corners and 9996 have 9, and the line 9.5. The two counts are 4 and 9996;
in binary64 the percentages are `4.0 / 10000 * 100.0` and `9996.0 / 10000 * 100.0`,
and their sum is 7036874417766401 / 2^46, the double next above 100.0. -/
theorem corner_percentages_sum_above_hundred :
    demoCornerRun.simulationsToRun = 10000 ∧
    Match.cornerTally demoCornerRun (Dbl.fin (19 / 2)) true = 4 ∧
    Match.cornerTally demoCornerRun (Dbl.fin (19 / 2)) false = 9996 ∧
    F64.add (Match.getCornerPercentF64 demoCornerRun (Dbl.fin (19 / 2)) true)
        (Match.getCornerPercentF64 demoCornerRun (Dbl.fin (19 / 2)) false)
      = ⟨7036874417766401, 70368744177664⟩ ∧
    F64.lt (F64.ofNat 100)
      (F64.add (Match.getCornerPercentF64 demoCornerRun (Dbl.fin (19 / 2)) true)
        (Match.getCornerPercentF64 demoCornerRun (Dbl.fin (19 / 2)) false)) = true := by
  have hN : demoCornerRun.simulationsToRun = 10000 := by
    unfold demoCornerRun
    rw [runFullSimulation_simulationsToRun]
  have hnot : ∀ n : Int, (n : ℚ) ≠ 19 / 2 := by
    intro n h
    have h2 : ((2 * n : Int) : ℚ) = ((19 : Int) : ℚ) := by
      push_cast
      rw [h]
      norm_num
    have h3 : 2 * n = 19 := by exact_mod_cast h2
    omega
  have hover : Match.cornerTally demoCornerRun (Dbl.fin (19 / 2)) true = 4 := by
    unfold demoCornerRun
    rw [cornerTally_run]
    unfold trialSamples
    rw [countWhere_range _ _ 4 _ (by
      intro i
      unfold demoCornerDraws totalCorners Dbl.ofInt Dbl.lt
      by_cases hi : i < 4
      · simp only [hi, if_true]
        norm_num
      · simp only [hi, if_false]
        norm_num)]
    rfl
  have hsum : Match.cornerTally demoCornerRun (Dbl.fin (19 / 2)) true +
      Match.cornerTally demoCornerRun (Dbl.fin (19 / 2)) false = 10000 := by
    unfold demoCornerRun
    rw [cornerTally_run, cornerTally_run]
    simp only [if_true, Bool.false_eq_true, if_false]
    rw [countWhere_cover _ _ (fun s hs => Dbl.lt_asymm _ _ hs)
      (fun s => Dbl.lt_or_lt_of_not_integer _ hnot _), trialSamples_length]
    rfl
  have hunder : Match.cornerTally demoCornerRun (Dbl.fin (19 / 2)) false = 9996 := by
    omega
  refine ⟨hN, hover, hunder, ?_, ?_⟩
  · unfold Match.getCornerPercentF64
    rw [hN, hover, hunder]
    decide
  · unfold Match.getCornerPercentF64
    rw [hN, hover, hunder]
    decide

/-- The descending order of `getMostLikelyScores` at a concrete run of four trials
with the scores 0-1, 1-0, 1-1, 1-0: the score drawn twice first, then the two
scores drawn once, 1-1 before 0-1. -/
theorem sortedScores_example :
    Match.sortedScores demoRun = [(2, (1, 0)), (1, (1, 1)), (1, (0, 1))] ∧
    (Match.getMostLikelyScores demoRun 2).map Prod.fst = ["1 - 0", "1 - 1"] :=
  ⟨by decide, by decide⟩

/-! ## Lemmas: the cutoff of the head-to-head scan -/

theorem parseDate_of_parseFails (env : Env) (s : String) (h : parseFails env s = true) :
    parseDate env s = 0 := by
  unfold parseFails at h
  unfold parseDate
  by_cases h1 : '/' ∈ s.data
  · rw [if_pos h1] at h ⊢
    cases hg : env.getTimeDMY s with
    | none => rfl
    | some t => rw [hg] at h; simp at h
  · rw [if_neg h1] at h ⊢
    by_cases h2 : '-' ∈ s.data
    · rw [if_pos h2] at h ⊢
      cases hg : env.getTimeYMD s with
      | none => rfl
      | some t => rw [hg] at h; simp at h
    · rw [if_neg h2]

/-- The cutoff used for a non-empty string that fails to parse is the epoch. -/
theorem h2hCutoff_of_parseFails (env : Env) (s : String) (hs : s ≠ "")
    (h : parseFails env s = true) : h2hCutoff env s = 0 := by
  unfold h2hCutoff
  rw [if_pos hs, parseDate_of_parseFails env s h]

theorem h2hCutoff_empty (env : Env) : h2hCutoff env "" = timePointMax := by
  unfold h2hCutoff
  simp

/-- The matches listed for a known pair of teams, and their number. -/
theorem getHeadToHeadStats_listed (env : Env) (self : DataLoader)
    (teamA teamB beforeDate : String) (maxMatches : Int) (team other : Team)
    (hA : self.loadedTeams.find? teamA = some team)
    (hB : self.loadedTeams.find? teamB = some other) :
    (DataLoader.getHeadToHeadStats env self teamA teamB beforeDate maxMatches).recentH2H =
      (team.matchHistory.reverse.filter
        (h2hQualifies teamA teamB (h2hCutoff env beforeDate))).take maxMatches.toNat ∧
    (DataLoader.getHeadToHeadStats env self teamA teamB beforeDate maxMatches).totalMatches =
      countOf ((team.matchHistory.reverse.filter
        (h2hQualifies teamA teamB (h2hCutoff env beforeDate))).take maxMatches.toNat) := by
  rw [getHeadToHeadStats_known env self teamA teamB beforeDate maxMatches team other hA hB]
  obtain ⟨f1, f2, _⟩ :=
    foldl_h2hStep (fun m => decide (m.homeTeamName = teamA ∧ m.awayTeamName = teamB))
      ((team.matchHistory.reverse.filter
        (h2hQualifies teamA teamB (h2hCutoff env beforeDate))).take maxMatches.toNat) {}
  obtain ⟨k1, k2, _⟩ := h2hFinish_keeps
    (((team.matchHistory.reverse.filter
        (h2hQualifies teamA teamB (h2hCutoff env beforeDate))).take maxMatches.toNat).foldl
      (fun a m => h2hStep (decide (m.homeTeamName = teamA ∧ m.awayTeamName = teamB)) m a) {})
  rw [k1, k2, f1, f2]
  simp

/-- The summary is the zero-valued one when the scan takes no match. -/
theorem getHeadToHeadStats_of_none_taken (env : Env) (self : DataLoader)
    (teamA teamB beforeDate : String) (maxMatches : Int) (team other : Team)
    (hA : self.loadedTeams.find? teamA = some team)
    (hB : self.loadedTeams.find? teamB = some other)
    (hnil : (team.matchHistory.reverse.filter
        (h2hQualifies teamA teamB (h2hCutoff env beforeDate))).take maxMatches.toNat = []) :
    DataLoader.getHeadToHeadStats env self teamA teamB beforeDate maxMatches = {} := by
  rw [getHeadToHeadStats_known env self teamA teamB beforeDate maxMatches team other hA hB, hnil]
  rfl

/-- C21. Whatever the cutoff string and `maxMatches`, when one of the two names
passed to `getHeadToHeadStats` is not a loaded team the summary is the zero-valued
one: the four counts are 0, the two averages and the two percentages are `0.0`, and
`recentH2H` is empty. -/
theorem h2h_of_unknown_team_is_zero (env : Env) (self : DataLoader)
    (teamA teamB beforeDate : String) (maxMatches : Int)
    (h : self.loadedTeams.find? teamA = none ∨ self.loadedTeams.find? teamB = none) :
    (DataLoader.getHeadToHeadStats env self teamA teamB beforeDate maxMatches).totalMatches = 0 ∧
    (DataLoader.getHeadToHeadStats env self teamA teamB beforeDate maxMatches).homeTeamWins = 0 ∧
    (DataLoader.getHeadToHeadStats env self teamA teamB beforeDate maxMatches).awayTeamWins = 0 ∧
    (DataLoader.getHeadToHeadStats env self teamA teamB beforeDate maxMatches).draws = 0 ∧
    (DataLoader.getHeadToHeadStats env self teamA teamB beforeDate maxMatches).avgHomeGoals
      = Dbl.fin 0 ∧
    (DataLoader.getHeadToHeadStats env self teamA teamB beforeDate maxMatches).avgAwayGoals
      = Dbl.fin 0 ∧
    (DataLoader.getHeadToHeadStats env self teamA teamB beforeDate maxMatches).bttsPercentage
      = Dbl.fin 0 ∧
    (DataLoader.getHeadToHeadStats env self teamA teamB beforeDate maxMatches).over25Percentage
      = Dbl.fin 0 ∧
    (DataLoader.getHeadToHeadStats env self teamA teamB beforeDate maxMatches).recentH2H = [] := by
  rw [getHeadToHeadStats_unknown env self teamA teamB beforeDate maxMatches h]
  exact ⟨rfl, rfl, rfl, rfl, rfl, rfl, rfl, rfl, rfl⟩

/-- C21, at a concrete input: team Z is not loaded, as second and as first name. -/
theorem h2h_of_unknown_team_is_zero_witness :
    demoLoader.loadedTeams.find? "Z" = none ∧
    (DataLoader.getHeadToHeadStats demoEnv demoLoader "A" "Z" "" 10).totalMatches = 0 ∧
    (DataLoader.getHeadToHeadStats demoEnv demoLoader "Z" "A" "2024-01-22" 5).recentH2H = [] := by
  have hZ : demoLoader.loadedTeams.find? "Z" = none := by decide
  exact ⟨hZ,
    (h2h_of_unknown_team_is_zero demoEnv demoLoader "A" "Z" "" 10 (Or.inr hZ)).1,
    (h2h_of_unknown_team_is_zero demoEnv demoLoader "Z" "A" "2024-01-22" 5
      (Or.inl hZ)).2.2.2.2.2.2.2.2⟩

/-- Where the code does as C22 says. For known teams and a non-empty cutoff string that
fails to parse, when no match of the first team's history is dated before the epoch
(time stamp 0), `getHeadToHeadStats` treats no match as qualifying: it returns the
zero-valued summary, with `totalMatches = 0` and an empty `recentH2H`. -/
theorem h2h_unparseable_cutoff_lists_nothing (env : Env) (self : DataLoader)
    (teamA teamB beforeDate : String) (maxMatches : Int) (team other : Team)
    (hA : self.loadedTeams.find? teamA = some team)
    (hB : self.loadedTeams.find? teamB = some other)
    (hs : beforeDate ≠ "") (hfail : parseFails env beforeDate = true)
    (hdates : ∀ m ∈ team.matchHistory, 0 ≤ m.date) :
    (DataLoader.getHeadToHeadStats env self teamA teamB beforeDate maxMatches).totalMatches = 0 ∧
    (DataLoader.getHeadToHeadStats env self teamA teamB beforeDate maxMatches).recentH2H = [] ∧
    DataLoader.getHeadToHeadStats env self teamA teamB beforeDate maxMatches = {} := by
  have hnil : (team.matchHistory.reverse.filter
      (h2hQualifies teamA teamB (h2hCutoff env beforeDate))).take maxMatches.toNat = [] := by
    rw [h2hCutoff_of_parseFails env beforeDate hs hfail]
    have : team.matchHistory.reverse.filter (h2hQualifies teamA teamB 0) = [] := by
      rw [List.filter_eq_nil_iff]
      intro m hm
      have hd := hdates m (List.mem_reverse.1 hm)
      unfold h2hQualifies
      have : ¬ m.date < 0 := not_lt.mpr hd
      simp [this]
    rw [this, List.take_nil]
  rw [getHeadToHeadStats_of_none_taken env self teamA teamB beforeDate maxMatches team other
    hA hB hnil]
  exact ⟨rfl, rfl, rfl⟩

/-- The same at a concrete input: the three matches between A and B are dated in 2024,
and the cutoff string has neither a slash nor a dash. -/
theorem h2h_unparseable_cutoff_lists_nothing_witness :
    parseFails demoEnv "next week" = true ∧
    (DataLoader.getHeadToHeadStats demoEnv demoLoader "A" "B" "next week" 10).totalMatches = 0 ∧
    (DataLoader.getHeadToHeadStats demoEnv demoLoader "A" "B" "next week" 10).recentH2H = [] := by
  have hf : parseFails demoEnv "next week" = true := by decide
  have h := h2h_unparseable_cutoff_lists_nothing demoEnv demoLoader "A" "B" "next week" 10
    demoTeamA demoTeamB demoLoader_find_A demoLoader_find_B (by decide) hf (by decide)
  exact ⟨hf, h.1, h.2.1⟩

/-- C22, where the code departs from it. After the load of one match between A and B
dated 1960-01-01, which is before the epoch, the call of `getHeadToHeadStats` with a
cutoff string that fails to parse lists that match and returns `totalMatches = 1`,
not 0: lines 281-284 take the value `from_time_t(0)` that `parseDate` returns on
failure as the cutoff, without the test for it that the two other callers of
`parseDate` make (lines 78 and 205). -/
theorem h2h_unparseable_cutoff_lists_old_match :
    (DataLoader.loadMultipleFiles demoOldEnv {} demoOldFiles).1 = true ∧
    parseFails demoOldEnv "next week" = true ∧
    (DataLoader.getHeadToHeadStats demoOldEnv
      (DataLoader.loadMultipleFiles demoOldEnv {} demoOldFiles).2 "A" "B" "next week"
      10).totalMatches = 1 ∧
    ((DataLoader.getHeadToHeadStats demoOldEnv
      (DataLoader.loadMultipleFiles demoOldEnv {} demoOldFiles).2 "A" "B" "next week"
      10).recentH2H.map (fun m => (m.dateStr, m.homeTeamName, m.awayTeamName)))
      = [("1960-01-01", "A", "B")] := by
  refine ⟨by decide, by decide, by decide, by decide⟩

/-- C26, as the code has it. For a non-empty cutoff string that fails to parse,
`getHeadToHeadStats` proceeds with the epoch (time stamp 0) as cutoff, whereas the
empty string gives the maximal time point: for known teams the matches listed are
the most recent matches between the two teams dated strictly before the epoch, at
most `maxMatches` of them, and the summary is the one of that list. -/
theorem h2h_unparseable_cutoff_is_epoch (env : Env) (self : DataLoader)
    (teamA teamB beforeDate : String) (maxMatches : Int) (team other : Team)
    (hA : self.loadedTeams.find? teamA = some team)
    (hB : self.loadedTeams.find? teamB = some other)
    (hs : beforeDate ≠ "") (hfail : parseFails env beforeDate = true) :
    h2hCutoff env beforeDate = 0 ∧
    h2hCutoff env "" = timePointMax ∧
    (DataLoader.getHeadToHeadStats env self teamA teamB beforeDate maxMatches).recentH2H =
      (team.matchHistory.reverse.filter (fun m =>
        decide (m.date < 0) &&
          (decide (m.homeTeamName = teamA ∧ m.awayTeamName = teamB) ||
            decide (m.homeTeamName = teamB ∧ m.awayTeamName = teamA)))).take
        maxMatches.toNat ∧
    (DataLoader.getHeadToHeadStats env self teamA teamB beforeDate maxMatches).totalMatches =
      countOf (DataLoader.getHeadToHeadStats env self teamA teamB beforeDate
        maxMatches).recentH2H ∧
    DataLoader.getHeadToHeadStats env self teamA teamB beforeDate maxMatches =
      h2hFinish (h2hScan teamA teamB 0 maxMatches team.matchHistory.reverse {}) := by
  have hc := h2hCutoff_of_parseFails env beforeDate hs hfail
  obtain ⟨l1, l2⟩ := getHeadToHeadStats_listed env self teamA teamB beforeDate maxMatches
    team other hA hB
  refine ⟨hc, h2hCutoff_empty env, ?_, ?_, ?_⟩
  · rw [l1, hc]
    rfl
  · rw [l2, l1]
  · unfold DataLoader.getHeadToHeadStats
    simp only [hA, hB, hc]

/-- C26, at a concrete input: with the three matches of 2024 between A and B, a
cutoff string that fails to parse lists no match. -/
theorem h2h_unparseable_cutoff_is_epoch_witness :
    parseFails demoEnv "next week" = true ∧
    h2hCutoff demoEnv "next week" = 0 ∧
    (DataLoader.getHeadToHeadStats demoEnv demoLoader "A" "B" "next week" 10).recentH2H = [] := by
  have hf : parseFails demoEnv "next week" = true := by decide
  obtain ⟨h1, _, h3, _⟩ := h2h_unparseable_cutoff_is_epoch demoEnv demoLoader "A" "B"
    "next week" 10 demoTeamA demoTeamB demoLoader_find_A demoLoader_find_B (by decide) hf
  refine ⟨hf, h1, ?_⟩
  rw [h3]
  decide

/-- C26 refuted as stated: for the known teams A and B with three matches in 2024,
the cutoff string "next week" fails to parse and yields no match, while the empty
cutoff string yields the three matches. -/
theorem h2h_unparseable_cutoff_differs_from_empty :
    parseFails demoEnv "next week" = true ∧
    (DataLoader.getHeadToHeadStats demoEnv demoLoader "A" "B" "next week" 10).totalMatches = 0 ∧
    (DataLoader.getHeadToHeadStats demoEnv demoLoader "A" "B" "" 10).totalMatches = 3 ∧
    DataLoader.getHeadToHeadStats demoEnv demoLoader "A" "B" "next week" 10 ≠
      DataLoader.getHeadToHeadStats demoEnv demoLoader "A" "B" "" 10 := by
  have h0 : (DataLoader.getHeadToHeadStats demoEnv demoLoader "A" "B" "next week"
      10).totalMatches = 0 := by decide
  have h3 : (DataLoader.getHeadToHeadStats demoEnv demoLoader "A" "B" "" 10).totalMatches
      = 3 := by decide
  refine ⟨by decide, h0, h3, ?_⟩
  intro heq
  rw [heq, h3] at h0
  exact absurd h0 (by decide)

/-! ## Lemmas: repeated runs, the loader after a form call -/

/-- Two states that differ at most in the last sampled game are the same after the
next trial. -/
theorem tally_simulateSingleGame_congr (m1 m2 : Match) (draw : Rates → Sample)
    (home away : Team) (a b c d : Dbl)
    (h1 : m1.homeWins = m2.homeWins) (h2 : m1.draws = m2.draws)
    (h3 : m1.awayWins = m2.awayWins) (h4 : m1.over05 = m2.over05)
    (h5 : m1.over15 = m2.over15) (h6 : m1.over25 = m2.over25)
    (h7 : m1.scoreCounts = m2.scoreCounts) (h8 : m1.bttsCount = m2.bttsCount)
    (h9 : m1.totalSimulatedCorners = m2.totalSimulatedCorners)
    (h10 : m1.cornerCounts = m2.cornerCounts)
    (h11 : m1.simulationsToRun = m2.simulationsToRun) :
    Match.tally (Match.simulateSingleGame m1 draw home away a b c d) =
      Match.tally (Match.simulateSingleGame m2 draw home away a b c d) := by
  have : Match.simulateSingleGame m1 draw home away a b c d =
      Match.simulateSingleGame m2 draw home away a b c d := by
    unfold Match.simulateSingleGame
    cases m1
    cases m2
    simp only at h1 h2 h3 h4 h5 h6 h7 h8 h9 h10 h11
    subst h1 h2 h3 h4 h5 h6 h7 h8 h9 h10 h11
    rfl
  rw [this]

/-- The run from two states that agree on the tallies, the maps and the trial count
before the loop: the tallies, the maps and the trial count agree after it. -/
theorem foldl_tally_congr (gen : Nat → Rates → Sample) (home away : Team) (a b c d : Dbl)
    (idx : List Nat) (m1 m2 : Match)
    (h1 : m1.homeWins = m2.homeWins) (h2 : m1.draws = m2.draws)
    (h3 : m1.awayWins = m2.awayWins) (h4 : m1.over05 = m2.over05)
    (h5 : m1.over15 = m2.over15) (h6 : m1.over25 = m2.over25)
    (h7 : m1.scoreCounts = m2.scoreCounts) (h8 : m1.bttsCount = m2.bttsCount)
    (h9 : m1.totalSimulatedCorners = m2.totalSimulatedCorners)
    (h10 : m1.cornerCounts = m2.cornerCounts)
    (h11 : m1.simulationsToRun = m2.simulationsToRun) :
    (idx.foldl (fun m i => Match.tally (Match.simulateSingleGame m (gen i) home away a b c d))
        m1).homeWins =
      (idx.foldl (fun m i => Match.tally (Match.simulateSingleGame m (gen i) home away a b c d))
        m2).homeWins ∧
    (idx.foldl (fun m i => Match.tally (Match.simulateSingleGame m (gen i) home away a b c d))
        m1).draws =
      (idx.foldl (fun m i => Match.tally (Match.simulateSingleGame m (gen i) home away a b c d))
        m2).draws ∧
    (idx.foldl (fun m i => Match.tally (Match.simulateSingleGame m (gen i) home away a b c d))
        m1).awayWins =
      (idx.foldl (fun m i => Match.tally (Match.simulateSingleGame m (gen i) home away a b c d))
        m2).awayWins ∧
    (idx.foldl (fun m i => Match.tally (Match.simulateSingleGame m (gen i) home away a b c d))
        m1).over05 =
      (idx.foldl (fun m i => Match.tally (Match.simulateSingleGame m (gen i) home away a b c d))
        m2).over05 ∧
    (idx.foldl (fun m i => Match.tally (Match.simulateSingleGame m (gen i) home away a b c d))
        m1).over15 =
      (idx.foldl (fun m i => Match.tally (Match.simulateSingleGame m (gen i) home away a b c d))
        m2).over15 ∧
    (idx.foldl (fun m i => Match.tally (Match.simulateSingleGame m (gen i) home away a b c d))
        m1).over25 =
      (idx.foldl (fun m i => Match.tally (Match.simulateSingleGame m (gen i) home away a b c d))
        m2).over25 ∧
    (idx.foldl (fun m i => Match.tally (Match.simulateSingleGame m (gen i) home away a b c d))
        m1).bttsCount =
      (idx.foldl (fun m i => Match.tally (Match.simulateSingleGame m (gen i) home away a b c d))
        m2).bttsCount ∧
    (idx.foldl (fun m i => Match.tally (Match.simulateSingleGame m (gen i) home away a b c d))
        m1).totalSimulatedCorners =
      (idx.foldl (fun m i => Match.tally (Match.simulateSingleGame m (gen i) home away a b c d))
        m2).totalSimulatedCorners ∧
    (idx.foldl (fun m i => Match.tally (Match.simulateSingleGame m (gen i) home away a b c d))
        m1).cornerCounts =
      (idx.foldl (fun m i => Match.tally (Match.simulateSingleGame m (gen i) home away a b c d))
        m2).cornerCounts ∧
    (idx.foldl (fun m i => Match.tally (Match.simulateSingleGame m (gen i) home away a b c d))
        m1).scoreCounts =
      (idx.foldl (fun m i => Match.tally (Match.simulateSingleGame m (gen i) home away a b c d))
        m2).scoreCounts := by
  cases idx with
  | nil => exact ⟨h1, h2, h3, h4, h5, h6, h8, h9, h10, h7⟩
  | cons i idx =>
    rw [List.foldl_cons, List.foldl_cons,
      tally_simulateSingleGame_congr m1 m2 (gen i) home away a b c d h1 h2 h3 h4 h5 h6 h7 h8
        h9 h10 h11]
    exact ⟨rfl, rfl, rfl, rfl, rfl, rfl, rfl, rfl, rfl, rfl⟩

theorem touch_of_find {V : Type} (m : StdMap String V) (k : String) (d v : V)
    (h : m.find? k = some v) : touch m k d = m := by
  unfold touch
  rw [h]

theorem foldl_touch_of_known {V : Type} (m : StdMap String V) (d : V) (ks : List String)
    (h : ∀ k ∈ ks, m.find? k ≠ none) :
    ks.foldl (fun m k => touch m k d) m = m := by
  induction ks with
  | nil => rfl
  | cons k ks ih =>
    rw [List.foldl_cons]
    have hk := h k (List.mem_cons_self _ _)
    cases hf : m.find? k with
    | none => exact absurd hf hk
    | some v =>
      rw [touch_of_find m k d v hf]
      exact ih (fun x hx => h x (List.mem_cons_of_mem _ hx))

/-- The loader after `calculateFormStrengths` is the loader before it. -/
theorem calculateFormStrengths_loader (env : Env) (self : DataLoader) (s : String) (w : Int) :
    (DataLoader.calculateFormStrengths env self s w).2 = self := by
  by_cases hdate : parseDate env s = 0
  · rw [calculateFormStrengths_invalid env self s w hdate]
  · unfold DataLoader.calculateFormStrengths
    simp only [hdate, if_false]
    rw [foldl_touch_of_known]
    intro k hk hnone
    have := formCollected_none self (parseDate env s) w k hnone
    rw [StdMap.find?_eq_none_iff] at this
    exact this hk

/-- C24. `runFullSimulation` resets before it runs: from every prior state, the
tallies and the two frequency maps after the run are those of the run of the same
samples on a freshly constructed simulator with the same trial count (on the
freshly constructed simulator itself when the trial count is its default 10000). -/
theorem run_on_populated_equals_run_on_fresh (self : Match) (gen : Nat → Rates → Sample)
    (home away : Team) (avgHomeGoals avgAwayGoals avgHomeCorners avgAwayCorners : Dbl) :
    (Match.runFullSimulation self gen home away avgHomeGoals avgAwayGoals avgHomeCorners
        avgAwayCorners).homeWins =
      (Match.runFullSimulation { simulationsToRun := self.simulationsToRun } gen home away
        avgHomeGoals avgAwayGoals avgHomeCorners avgAwayCorners).homeWins ∧
    (Match.runFullSimulation self gen home away avgHomeGoals avgAwayGoals avgHomeCorners
        avgAwayCorners).draws =
      (Match.runFullSimulation { simulationsToRun := self.simulationsToRun } gen home away
        avgHomeGoals avgAwayGoals avgHomeCorners avgAwayCorners).draws ∧
    (Match.runFullSimulation self gen home away avgHomeGoals avgAwayGoals avgHomeCorners
        avgAwayCorners).awayWins =
      (Match.runFullSimulation { simulationsToRun := self.simulationsToRun } gen home away
        avgHomeGoals avgAwayGoals avgHomeCorners avgAwayCorners).awayWins ∧
    (Match.runFullSimulation self gen home away avgHomeGoals avgAwayGoals avgHomeCorners
        avgAwayCorners).over05 =
      (Match.runFullSimulation { simulationsToRun := self.simulationsToRun } gen home away
        avgHomeGoals avgAwayGoals avgHomeCorners avgAwayCorners).over05 ∧
    (Match.runFullSimulation self gen home away avgHomeGoals avgAwayGoals avgHomeCorners
        avgAwayCorners).over15 =
      (Match.runFullSimulation { simulationsToRun := self.simulationsToRun } gen home away
        avgHomeGoals avgAwayGoals avgHomeCorners avgAwayCorners).over15 ∧
    (Match.runFullSimulation self gen home away avgHomeGoals avgAwayGoals avgHomeCorners
        avgAwayCorners).over25 =
      (Match.runFullSimulation { simulationsToRun := self.simulationsToRun } gen home away
        avgHomeGoals avgAwayGoals avgHomeCorners avgAwayCorners).over25 ∧
    (Match.runFullSimulation self gen home away avgHomeGoals avgAwayGoals avgHomeCorners
        avgAwayCorners).bttsCount =
      (Match.runFullSimulation { simulationsToRun := self.simulationsToRun } gen home away
        avgHomeGoals avgAwayGoals avgHomeCorners avgAwayCorners).bttsCount ∧
    (Match.runFullSimulation self gen home away avgHomeGoals avgAwayGoals avgHomeCorners
        avgAwayCorners).totalSimulatedCorners =
      (Match.runFullSimulation { simulationsToRun := self.simulationsToRun } gen home away
        avgHomeGoals avgAwayGoals avgHomeCorners avgAwayCorners).totalSimulatedCorners ∧
    (Match.runFullSimulation self gen home away avgHomeGoals avgAwayGoals avgHomeCorners
        avgAwayCorners).cornerCounts =
      (Match.runFullSimulation { simulationsToRun := self.simulationsToRun } gen home away
        avgHomeGoals avgAwayGoals avgHomeCorners avgAwayCorners).cornerCounts ∧
    (Match.runFullSimulation self gen home away avgHomeGoals avgAwayGoals avgHomeCorners
        avgAwayCorners).scoreCounts =
      (Match.runFullSimulation { simulationsToRun := self.simulationsToRun } gen home away
        avgHomeGoals avgAwayGoals avgHomeCorners avgAwayCorners).scoreCounts ∧
    (self.simulationsToRun = 10000 →
      ({ simulationsToRun := self.simulationsToRun } : Match) = {}) := by
  obtain ⟨h1, h2, h3, h4, h5, h6, h7, h8, h9, h10⟩ :=
    foldl_tally_congr gen home away avgHomeGoals avgAwayGoals avgHomeCorners avgAwayCorners
      (List.range self.simulationsToRun.toNat) (Match.reset self)
      (Match.reset { simulationsToRun := self.simulationsToRun })
      rfl rfl rfl rfl rfl rfl rfl rfl rfl rfl rfl
  exact ⟨h1, h2, h3, h4, h5, h6, h7, h8, h9, h10, fun h => by rw [h]⟩

/-- C25. For every loader state, every reference date string and every window size,
the loader after `calculateFormStrengths` is the loader before it: the six league
averages and the stored team mapping, with each team's ratios and history, are
unchanged. -/
theorem form_call_leaves_loader_unchanged (env : Env) (self : DataLoader)
    (fixtureDateStr : String) (formMatches : Int) :
    (DataLoader.calculateFormStrengths env self fixtureDateStr formMatches).2 = self ∧
    (DataLoader.calculateFormStrengths env self fixtureDateStr
      formMatches).2.leagueAvgHomeGoalsScored = self.leagueAvgHomeGoalsScored ∧
    (DataLoader.calculateFormStrengths env self fixtureDateStr
      formMatches).2.leagueAvgAwayGoalsScored = self.leagueAvgAwayGoalsScored ∧
    (DataLoader.calculateFormStrengths env self fixtureDateStr
      formMatches).2.leagueAvgHomeGoalsConceded = self.leagueAvgHomeGoalsConceded ∧
    (DataLoader.calculateFormStrengths env self fixtureDateStr
      formMatches).2.leagueAvgAwayGoalsConceded = self.leagueAvgAwayGoalsConceded ∧
    (DataLoader.calculateFormStrengths env self fixtureDateStr
      formMatches).2.leagueAvgHomeCorners = self.leagueAvgHomeCorners ∧
    (DataLoader.calculateFormStrengths env self fixtureDateStr
      formMatches).2.leagueAvgAwayCorners = self.leagueAvgAwayCorners ∧
    (DataLoader.calculateFormStrengths env self fixtureDateStr formMatches).2.loadedTeams
      = self.loadedTeams ∧
    (∀ t, (DataLoader.calculateFormStrengths env self fixtureDateStr
      formMatches).2.loadedTeams.find? t = self.loadedTeams.find? t) := by
  rw [calculateFormStrengths_loader]
  exact ⟨rfl, rfl, rfl, rfl, rfl, rfl, rfl, rfl, fun _ => rfl⟩

/-! ## Lemmas: the head-to-head scan with the two teams exchanged -/

theorem h2hQualifies_swap (teamA teamB : String) (cutoffDate : TimePoint) :
    h2hQualifies teamB teamA cutoffDate = h2hQualifies teamA teamB cutoffDate := by
  funext m
  unfold h2hQualifies
  rw [Bool.or_comm]

/-- The qualifying matches of a history that is the selection of the matches of a
team from a list: the qualifying matches of the list. -/
theorem qualifying_of_selected (teamA teamB : String) (cutoffDate : TimePoint)
    (sorted : List MatchResult) :
    ((sorted.filter (fun result =>
        decide (result.homeTeamName = teamA ∨ result.awayTeamName = teamA))).reverse.filter
      (h2hQualifies teamA teamB cutoffDate)) =
    sorted.reverse.filter (h2hQualifies teamA teamB cutoffDate) := by
  rw [List.filter_reverse, List.filter_reverse, List.filter_filter]
  congr 1
  apply List.filter_congr
  intro m _
  unfold h2hQualifies
  by_cases h1 : m.homeTeamName = teamA <;> by_cases h2 : m.awayTeamName = teamA <;>
    simp [h1, h2]

/-- In a match between two distinct teams, the goals of one are the goals against
the other. -/
theorem goals_swap_of_qualifies (teamA teamB : String) (cutoffDate : TimePoint)
    (hne : teamA ≠ teamB) (m : MatchResult)
    (h : h2hQualifies teamA teamB cutoffDate m = true) :
    goalsOf teamB m = goalsAgainst teamA m ∧ goalsAgainst teamB m = goalsOf teamA m := by
  unfold h2hQualifies at h
  simp only [Bool.and_eq_true, Bool.or_eq_true, decide_eq_true_eq] at h
  unfold goalsOf goalsAgainst
  rcases h.2 with ⟨h1, _⟩ | ⟨h1, _⟩
  · have h2 : ¬ m.homeTeamName = teamB := fun hh => hne (h1.symm.trans hh)
    rw [if_neg h2, if_pos h1, if_neg h2, if_pos h1]
    exact ⟨rfl, rfl⟩
  · have h2 : ¬ m.homeTeamName = teamA := fun hh => hne (hh.symm.trans h1)
    rw [if_pos h1, if_neg h2, if_pos h1, if_neg h2]
    exact ⟨rfl, rfl⟩

/-- C29, as the code has it. After a successful `loadMultipleFiles`, for two distinct
loaded teams A and B, every cutoff string and every `maxMatches`, `getHeadToHeadStats(A, B, ...)` and
`getHeadToHeadStats(B, A, ...)` return the same `totalMatches`, `draws`,
`bttsPercentage`, `over25Percentage` and `recentH2H`, with `homeTeamWins` and
`awayTeamWins` exchanged and `avgHomeGoals` and `avgAwayGoals` exchanged. -/
theorem h2h_symmetric_under_swap (env : Env) (self : DataLoader) (files : List ResultsFile)
    (teamA teamB beforeDate : String) (maxMatches : Int) (tA tB : Team)
    (hok : (DataLoader.loadMultipleFiles env self files).1 = true)
    (hA : (DataLoader.loadMultipleFiles env self files).2.loadedTeams.find? teamA = some tA)
    (hB : (DataLoader.loadMultipleFiles env self files).2.loadedTeams.find? teamB = some tB)
    (hne : teamA ≠ teamB) :
    (DataLoader.getHeadToHeadStats env (DataLoader.loadMultipleFiles env self files).2
        teamB teamA beforeDate maxMatches).totalMatches =
      (DataLoader.getHeadToHeadStats env (DataLoader.loadMultipleFiles env self files).2
        teamA teamB beforeDate maxMatches).totalMatches ∧
    (DataLoader.getHeadToHeadStats env (DataLoader.loadMultipleFiles env self files).2
        teamB teamA beforeDate maxMatches).draws =
      (DataLoader.getHeadToHeadStats env (DataLoader.loadMultipleFiles env self files).2
        teamA teamB beforeDate maxMatches).draws ∧
    (DataLoader.getHeadToHeadStats env (DataLoader.loadMultipleFiles env self files).2
        teamB teamA beforeDate maxMatches).bttsPercentage =
      (DataLoader.getHeadToHeadStats env (DataLoader.loadMultipleFiles env self files).2
        teamA teamB beforeDate maxMatches).bttsPercentage ∧
    (DataLoader.getHeadToHeadStats env (DataLoader.loadMultipleFiles env self files).2
        teamB teamA beforeDate maxMatches).over25Percentage =
      (DataLoader.getHeadToHeadStats env (DataLoader.loadMultipleFiles env self files).2
        teamA teamB beforeDate maxMatches).over25Percentage ∧
    (DataLoader.getHeadToHeadStats env (DataLoader.loadMultipleFiles env self files).2
        teamB teamA beforeDate maxMatches).recentH2H =
      (DataLoader.getHeadToHeadStats env (DataLoader.loadMultipleFiles env self files).2
        teamA teamB beforeDate maxMatches).recentH2H ∧
    (DataLoader.getHeadToHeadStats env (DataLoader.loadMultipleFiles env self files).2
        teamB teamA beforeDate maxMatches).homeTeamWins =
      (DataLoader.getHeadToHeadStats env (DataLoader.loadMultipleFiles env self files).2
        teamA teamB beforeDate maxMatches).awayTeamWins ∧
    (DataLoader.getHeadToHeadStats env (DataLoader.loadMultipleFiles env self files).2
        teamB teamA beforeDate maxMatches).awayTeamWins =
      (DataLoader.getHeadToHeadStats env (DataLoader.loadMultipleFiles env self files).2
        teamA teamB beforeDate maxMatches).homeTeamWins ∧
    (DataLoader.getHeadToHeadStats env (DataLoader.loadMultipleFiles env self files).2
        teamB teamA beforeDate maxMatches).avgHomeGoals =
      (DataLoader.getHeadToHeadStats env (DataLoader.loadMultipleFiles env self files).2
        teamA teamB beforeDate maxMatches).avgAwayGoals ∧
    (DataLoader.getHeadToHeadStats env (DataLoader.loadMultipleFiles env self files).2
        teamB teamA beforeDate maxMatches).avgAwayGoals =
      (DataLoader.getHeadToHeadStats env (DataLoader.loadMultipleFiles env self files).2
        teamA teamB beforeDate maxMatches).avgHomeGoals := by
  have hhA := loaded_team_history env self files teamA tA hok hA
  have hhB := loaded_team_history env self files teamB tB hok hB
  generalize DataLoader.loadMultipleFiles env self files = loaded at hA hB ⊢
  generalize env.sortByDate ((acceptedMatches env files).map (fun c => c.result)) = sorted
    at hhA hhB
  have hTA : (tA.matchHistory.reverse.filter
      (h2hQualifies teamA teamB (h2hCutoff env beforeDate))).take maxMatches.toNat =
      (sorted.reverse.filter (h2hQualifies teamA teamB (h2hCutoff env beforeDate))).take
        maxMatches.toNat := by
    rw [hhA, qualifying_of_selected]
  have hTB : (tB.matchHistory.reverse.filter
      (h2hQualifies teamB teamA (h2hCutoff env beforeDate))).take maxMatches.toNat =
      (sorted.reverse.filter (h2hQualifies teamA teamB (h2hCutoff env beforeDate))).take
        maxMatches.toNat := by
    rw [hhB, qualifying_of_selected, h2hQualifies_swap]
  generalize hT : (sorted.reverse.filter
    (h2hQualifies teamA teamB (h2hCutoff env beforeDate))).take maxMatches.toNat = T
    at hTA hTB
  have hq : ∀ m ∈ T, h2hQualifies teamA teamB (h2hCutoff env beforeDate) m = true := by
    intro m hm
    rw [← hT] at hm
    exact (List.mem_filter.1 (List.mem_of_mem_take hm)).2
  obtain ⟨lA, _⟩ := getHeadToHeadStats_listed env loaded.2 teamA teamB beforeDate maxMatches
    tA tB hA hB
  obtain ⟨lB, _⟩ := getHeadToHeadStats_listed env loaded.2 teamB teamA beforeDate maxMatches
    tB tA hB hA
  rw [hTA] at lA
  rw [hTB] at lB
  by_cases hnil : T = []
  · rw [getHeadToHeadStats_of_none_taken env loaded.2 teamA teamB beforeDate maxMatches tA tB
        hA hB (by rw [hTA, hnil]),
      getHeadToHeadStats_of_none_taken env loaded.2 teamB teamA beforeDate maxMatches tB tA
        hB hA (by rw [hTB, hnil])]
    exact ⟨rfl, rfl, rfl, rfl, rfl, rfl, rfl, rfl, rfl⟩
  · have hpos : 0 < countOf T := (countOf_pos_iff T).2 hnil
    obtain ⟨a1, a2, a3, a4, a5, a6, a7, a8⟩ :=
      getHeadToHeadStats_of_taken env loaded.2 teamA teamB beforeDate maxMatches tA tB hA hB
        T hTA hpos
    obtain ⟨b1, b2, b3, b4, b5, b6, b7, b8⟩ :=
      getHeadToHeadStats_of_taken env loaded.2 teamB teamA beforeDate maxMatches tB tA hB hA
        T hTB hpos
    have g1 : ∀ m ∈ T, goalsOf teamB m = goalsAgainst teamA m :=
      fun m hm => (goals_swap_of_qualifies teamA teamB _ hne m (hq m hm)).1
    have g2 : ∀ m ∈ T, goalsAgainst teamB m = goalsOf teamA m :=
      fun m hm => (goals_swap_of_qualifies teamA teamB _ hne m (hq m hm)).2
    have c2 : T.filter (fun m => decide (goalsOf teamB m > goalsAgainst teamB m)) =
        T.filter (fun m => decide (goalsOf teamA m < goalsAgainst teamA m)) :=
      List.filter_congr (fun m hm => by rw [g1 m hm, g2 m hm])
    have c3 : T.filter (fun m => decide (goalsOf teamB m < goalsAgainst teamB m)) =
        T.filter (fun m => decide (goalsOf teamA m > goalsAgainst teamA m)) :=
      List.filter_congr (fun m hm => by rw [g1 m hm, g2 m hm])
    have c4 : T.filter (fun m => decide (goalsOf teamB m = goalsAgainst teamB m)) =
        T.filter (fun m => decide (goalsOf teamA m = goalsAgainst teamA m)) :=
      List.filter_congr (fun m hm => by
        rw [g1 m hm, g2 m hm]
        exact decide_eq_decide.2 eq_comm)
    have c7 : T.filter (fun m => decide (goalsOf teamB m > 0 ∧ goalsAgainst teamB m > 0)) =
        T.filter (fun m => decide (goalsOf teamA m > 0 ∧ goalsAgainst teamA m > 0)) :=
      List.filter_congr (fun m hm => by
        rw [g1 m hm, g2 m hm]
        exact decide_eq_decide.2 and_comm)
    have c8 : T.filter (fun m => decide (goalsOf teamB m + goalsAgainst teamB m > 2)) =
        T.filter (fun m => decide (goalsOf teamA m + goalsAgainst teamA m > 2)) :=
      List.filter_congr (fun m hm => by rw [g1 m hm, g2 m hm, add_comm])
    have s5 : sumOver (goalsOf teamB) T = sumOver (goalsAgainst teamA) T := by
      unfold sumOver
      rw [List.map_congr_left g1]
    have s6 : sumOver (goalsAgainst teamB) T = sumOver (goalsOf teamA) T := by
      unfold sumOver
      rw [List.map_congr_left g2]
    rw [a1, a2, a3, a4, a5, a6, a7, a8, b1, b2, b3, b4, b5, b6, b7, b8, lA, lB, c2, c3, c4,
      c7, c8, s5, s6]
    exact ⟨rfl, rfl, rfl, rfl, rfl, rfl, rfl, rfl, rfl⟩

/-- C29, at a concrete input: after the load of A 2-1 B, B 0-0 A, A 1-1 B, team A
has one win against B and B has one defeat against A, whichever is named first. -/
theorem h2h_symmetric_under_swap_witness :
    (DataLoader.loadMultipleFiles demoEnv {} demoFiles).1 = true ∧
    (DataLoader.getHeadToHeadStats demoEnv (DataLoader.loadMultipleFiles demoEnv {} demoFiles).2
        "B" "A" "" 10).awayTeamWins =
      (DataLoader.getHeadToHeadStats demoEnv (DataLoader.loadMultipleFiles demoEnv {} demoFiles).2
        "A" "B" "" 10).homeTeamWins ∧
    (DataLoader.getHeadToHeadStats demoEnv (DataLoader.loadMultipleFiles demoEnv {} demoFiles).2
        "A" "B" "" 10).homeTeamWins = 1 ∧
    (DataLoader.getHeadToHeadStats demoEnv (DataLoader.loadMultipleFiles demoEnv {} demoFiles).2
        "B" "A" "" 10).avgHomeGoals =
      (DataLoader.getHeadToHeadStats demoEnv (DataLoader.loadMultipleFiles demoEnv {} demoFiles).2
        "A" "B" "" 10).avgAwayGoals := by
  have hok : (DataLoader.loadMultipleFiles demoEnv {} demoFiles).1 = true := by decide
  have hsA :
      ((DataLoader.loadMultipleFiles demoEnv {} demoFiles).2.loadedTeams.find? "A").isSome
        = true := by decide
  have hsB :
      ((DataLoader.loadMultipleFiles demoEnv {} demoFiles).2.loadedTeams.find? "B").isSome
        = true := by decide
  obtain ⟨tA, hA⟩ := Option.isSome_iff_exists.1 hsA
  obtain ⟨tB, hB⟩ := Option.isSome_iff_exists.1 hsB
  have h := h2h_symmetric_under_swap demoEnv {} demoFiles "A" "B" "" 10 tA tB hok hA hB
    (by decide)
  exact ⟨hok, h.2.2.2.2.2.2.1, by decide, h.2.2.2.2.2.2.2.1⟩


/-- C29 refuted as stated: the loader accepts a row with team A in both team columns,
A 2-1 A; the call of `getHeadToHeadStats` with A as both teams is its own swap, and
it returns `homeTeamWins = 1` and `awayTeamWins = 0`, which are not exchanged. -/
theorem h2h_swap_of_same_team_differs :
    (DataLoader.loadMultipleFiles demoEnv {} demoSelfFiles).1 = true ∧
    ((DataLoader.loadMultipleFiles demoEnv {} demoSelfFiles).2.loadedTeams.find? "A").isSome
      = true ∧
    (DataLoader.getHeadToHeadStats demoEnv
      (DataLoader.loadMultipleFiles demoEnv {} demoSelfFiles).2 "A" "A" "" 10).totalMatches
      = 1 ∧
    (DataLoader.getHeadToHeadStats demoEnv
      (DataLoader.loadMultipleFiles demoEnv {} demoSelfFiles).2 "A" "A" "" 10).homeTeamWins
      = 1 ∧
    (DataLoader.getHeadToHeadStats demoEnv
      (DataLoader.loadMultipleFiles demoEnv {} demoSelfFiles).2 "A" "A" "" 10).awayTeamWins
      = 0 ∧
    (DataLoader.getHeadToHeadStats demoEnv
      (DataLoader.loadMultipleFiles demoEnv {} demoSelfFiles).2 "A" "A" "" 10).homeTeamWins ≠
    (DataLoader.getHeadToHeadStats demoEnv
      (DataLoader.loadMultipleFiles demoEnv {} demoSelfFiles).2 "A" "A" "" 10).awayTeamWins := by
  refine ⟨by decide, by decide, by decide, by decide, by decide, by decide⟩

/-! ## Lemmas: the divisions of the ratios -/

theorem isFinite_div_div (a m : Int) (x : Dbl) (hm : m ≠ 0) (hx : Dbl.isDivisor x = true) :
    Dbl.isFinite (Dbl.div (Dbl.div (Dbl.ofInt a) (Dbl.ofInt m)) x) = true := by
  cases x with
  | fin q =>
    have hq : q ≠ 0 := by simpa [Dbl.isDivisor] using hx
    have hmq : (m : ℚ) ≠ 0 := by exact_mod_cast hm
    unfold Dbl.ofInt
    rw [Dbl.div_fin _ _ hmq, Dbl.div_fin _ _ hq]
    rfl
  | pinf => simp [Dbl.isDivisor] at hx
  | ninf => simp [Dbl.isDivisor] at hx
  | nan => simp [Dbl.isDivisor] at hx

theorem not_isFinite_div_zero (x : Dbl) : Dbl.isFinite (Dbl.div x (Dbl.fin 0)) = false := by
  cases x with
  | fin a =>
    unfold Dbl.div
    simp only [if_true]
    split_ifs <;> rfl
  | pinf => simp [Dbl.div, Dbl.isFinite]
  | ninf => simp [Dbl.div, Dbl.isFinite]
  | nan => simp [Dbl.div, Dbl.isFinite]

theorem perMatch_isDivisor (f : Completed → Int) (ms : List Completed) (h : ms ≠ [])
    (hT : total f ms ≠ 0) : Dbl.isDivisor (perMatch f ms) = true := by
  rw [perMatch_eq f ms h]
  have hN : (countOf ms : ℚ) ≠ 0 := ne_of_gt (countOf_cast_pos ms h)
  have hTq : (total f ms : ℚ) ≠ 0 := by exact_mod_cast hT
  simp [Dbl.isDivisor, hN, hTq]

theorem perMatch_zero (f : Completed → Int) (ms : List Completed) (h : ms ≠ [])
    (hT : total f ms = 0) : perMatch f ms = Dbl.fin 0 := by
  rw [perMatch_eq f ms h, hT]
  simp

/-- The ratios computed by lines 152-165 are finite when the six averages are finite
and not zero and the ratios of the team before were finite. -/
theorem overallStrengths_ratiosFinite (a1 a2 a3 a4 a5 a6 : Dbl) (data : TeamData) (team : Team)
    (h1 : Dbl.isDivisor a1 = true) (h2 : Dbl.isDivisor a2 = true)
    (h3 : Dbl.isDivisor a3 = true) (h4 : Dbl.isDivisor a4 = true)
    (h5 : Dbl.isDivisor a5 = true) (h6 : Dbl.isDivisor a6 = true)
    (ht : Team.ratiosFinite team = true) :
    Team.ratiosFinite (overallStrengths a1 a2 a3 a4 a5 a6 data team) = true := by
  unfold Team.ratiosFinite at ht ⊢
  simp only [Bool.and_eq_true] at ht ⊢
  obtain ⟨⟨⟨⟨⟨⟨⟨t1, t2⟩, t3⟩, t4⟩, t5⟩, t6⟩, t7⟩, t8⟩ := ht
  by_cases hh : data.homeMatches > 0
  · obtain ⟨e1, e2, e5, e6⟩ := overallStrengths_home a1 a2 a3 a4 a5 a6 data team hh
    have hm : data.homeMatches ≠ 0 := by omega
    by_cases ha : data.awayMatches > 0
    · obtain ⟨e3, e4, e7, e8⟩ := overallStrengths_away a1 a2 a3 a4 a5 a6 data team ha
      have hma : data.awayMatches ≠ 0 := by omega
      rw [e1, e2, e3, e4, e5, e6, e7, e8]
      exact ⟨⟨⟨⟨⟨⟨⟨isFinite_div_div _ _ _ hm h1, isFinite_div_div _ _ _ hm h3⟩,
        isFinite_div_div _ _ _ hma h2⟩, isFinite_div_div _ _ _ hma h4⟩,
        isFinite_div_div _ _ _ hm h5⟩, isFinite_div_div _ _ _ hm h6⟩,
        isFinite_div_div _ _ _ hma h6⟩, isFinite_div_div _ _ _ hma h5⟩
    · obtain ⟨e3, e4, e7, e8⟩ := overallStrengths_away_none a1 a2 a3 a4 a5 a6 data team ha
      rw [e1, e2, e3, e4, e5, e6, e7, e8]
      exact ⟨⟨⟨⟨⟨⟨⟨isFinite_div_div _ _ _ hm h1, isFinite_div_div _ _ _ hm h3⟩,
        t3⟩, t4⟩, isFinite_div_div _ _ _ hm h5⟩, isFinite_div_div _ _ _ hm h6⟩, t7⟩, t8⟩
  · obtain ⟨e1, e2, e5, e6⟩ := overallStrengths_home_none a1 a2 a3 a4 a5 a6 data team hh
    by_cases ha : data.awayMatches > 0
    · obtain ⟨e3, e4, e7, e8⟩ := overallStrengths_away a1 a2 a3 a4 a5 a6 data team ha
      have hma : data.awayMatches ≠ 0 := by omega
      rw [e1, e2, e3, e4, e5, e6, e7, e8]
      exact ⟨⟨⟨⟨⟨⟨⟨t1, t2⟩,
        isFinite_div_div _ _ _ hma h2⟩, isFinite_div_div _ _ _ hma h4⟩, t5⟩, t6⟩,
        isFinite_div_div _ _ _ hma h6⟩, isFinite_div_div _ _ _ hma h5⟩
    · obtain ⟨e3, e4, e7, e8⟩ := overallStrengths_away_none a1 a2 a3 a4 a5 a6 data team ha
      rw [e1, e2, e3, e4, e5, e6, e7, e8]
      exact ⟨⟨⟨⟨⟨⟨⟨t1, t2⟩, t3⟩, t4⟩, t5⟩, t6⟩, t7⟩, t8⟩

/-- The ratios computed by lines 247-269 are finite when the four goal averages of
the loader are finite and not zero and the overall ratios are finite. -/
theorem formStrengths_ratiosFinite (self : DataLoader) (data : TeamData) (overall team : Team)
    (h1 : Dbl.isDivisor self.leagueAvgHomeGoalsScored = true)
    (h2 : Dbl.isDivisor self.leagueAvgAwayGoalsScored = true)
    (h3 : Dbl.isDivisor self.leagueAvgHomeGoalsConceded = true)
    (h4 : Dbl.isDivisor self.leagueAvgAwayGoalsConceded = true)
    (ht : Team.ratiosFinite overall = true) :
    Team.ratiosFinite (formStrengths self data overall team) = true := by
  unfold Team.ratiosFinite at ht ⊢
  simp only [Bool.and_eq_true] at ht ⊢
  obtain ⟨⟨⟨⟨⟨⟨⟨t1, t2⟩, t3⟩, t4⟩, t5⟩, t6⟩, t7⟩, t8⟩ := ht
  obtain ⟨e5, e6, e7, e8⟩ := formStrengths_corners self data overall team
  obtain ⟨hp, hn⟩ := formStrengths_home self data overall team
  obtain ⟨ap, an⟩ := formStrengths_away self data overall team
  rw [e5, e6, e7, e8]
  have hhome : Dbl.isFinite (formStrengths self data overall team).homeAttackStrength = true ∧
      Dbl.isFinite (formStrengths self data overall team).homeDefenseStrength = true := by
    by_cases hh : data.homeMatches > 0
    · obtain ⟨e1, e2⟩ := hp hh
      have hm : data.homeMatches ≠ 0 := by omega
      rw [e1, e2]
      exact ⟨isFinite_div_div _ _ _ hm h1, isFinite_div_div _ _ _ hm h3⟩
    · obtain ⟨e1, e2⟩ := hn hh
      rw [e1, e2]
      exact ⟨t1, t2⟩
  have haway : Dbl.isFinite (formStrengths self data overall team).awayAttackStrength = true ∧
      Dbl.isFinite (formStrengths self data overall team).awayDefenseStrength = true := by
    by_cases hh : data.awayMatches > 0
    · obtain ⟨e1, e2⟩ := ap hh
      have hm : data.awayMatches ≠ 0 := by omega
      rw [e1, e2]
      exact ⟨isFinite_div_div _ _ _ hm h2, isFinite_div_div _ _ _ hm h4⟩
    · obtain ⟨e1, e2⟩ := an hh
      rw [e1, e2]
      exact ⟨t3, t4⟩
  exact ⟨⟨⟨⟨⟨⟨⟨hhome.1, hhome.2⟩, haway.1⟩, haway.2⟩, t5⟩, t6⟩, t7⟩, t8⟩

theorem ofName_ratiosFinite (t : String) (l : List MatchResult) :
    Team.ratiosFinite (attachHistory l t (Team.ofName t)) = true := rfl

/-- C30. When at least one completed match is accepted, the match count `N` that
divides the league totals is not zero. Under the precondition that the totals of
home goals, away goals, home corners and away corners are all positive, the six
league averages are finite and not zero, so with the match counts guarded by `> 0`
every division has a non-zero divisor: all eight ratios of every loaded team, and of
every team returned by `calculateFormStrengths`, are finite numbers. Without the
precondition, a league total of zero makes the league average `0.0`, and every team
with a match in the split has its ratio divided by it: the result is not a finite
number. -/
theorem ratio_divisions_are_well_defined (env : Env) (self : DataLoader)
    (files : List ResultsFile) (hne : acceptedMatches env files ≠ []) :
    countOf (acceptedMatches env files) ≠ 0 ∧
    ((0 < total (fun c => c.result.homeGoals) (acceptedMatches env files) ∧
        0 < total (fun c => c.result.awayGoals) (acceptedMatches env files) ∧
        0 < total (fun c => c.homeCorners) (acceptedMatches env files) ∧
        0 < total (fun c => c.awayCorners) (acceptedMatches env files)) →
      Dbl.isDivisor (DataLoader.loadMultipleFiles env self files).2.leagueAvgHomeGoalsScored
        = true ∧
      Dbl.isDivisor (DataLoader.loadMultipleFiles env self files).2.leagueAvgAwayGoalsScored
        = true ∧
      Dbl.isDivisor (DataLoader.loadMultipleFiles env self files).2.leagueAvgHomeGoalsConceded
        = true ∧
      Dbl.isDivisor (DataLoader.loadMultipleFiles env self files).2.leagueAvgAwayGoalsConceded
        = true ∧
      Dbl.isDivisor (DataLoader.loadMultipleFiles env self files).2.leagueAvgHomeCorners
        = true ∧
      Dbl.isDivisor (DataLoader.loadMultipleFiles env self files).2.leagueAvgAwayCorners
        = true ∧
      (∀ t team,
        (DataLoader.loadMultipleFiles env self files).2.loadedTeams.find? t = some team →
        Team.ratiosFinite team = true) ∧
      (∀ fixtureDateStr formMatches t team,
        (DataLoader.calculateFormStrengths env (DataLoader.loadMultipleFiles env self files).2
          fixtureDateStr formMatches).1.find? t = some team →
        Team.ratiosFinite team = true)) ∧
    (total (fun c => c.result.homeGoals) (acceptedMatches env files) = 0 →
      (DataLoader.loadMultipleFiles env self files).2.leagueAvgHomeGoalsScored = Dbl.fin 0 ∧
      ∀ t team,
        (DataLoader.loadMultipleFiles env self files).2.loadedTeams.find? t = some team →
        homeMatchesOf t (acceptedMatches env files) ≠ [] →
        Dbl.isFinite team.homeAttackStrength = false) ∧
    (total (fun c => c.result.awayGoals) (acceptedMatches env files) = 0 →
      (DataLoader.loadMultipleFiles env self files).2.leagueAvgAwayGoalsScored = Dbl.fin 0 ∧
      ∀ t team,
        (DataLoader.loadMultipleFiles env self files).2.loadedTeams.find? t = some team →
        awayMatchesOf t (acceptedMatches env files) ≠ [] →
        Dbl.isFinite team.awayAttackStrength = false) ∧
    (total (fun c => c.homeCorners) (acceptedMatches env files) = 0 →
      (DataLoader.loadMultipleFiles env self files).2.leagueAvgHomeCorners = Dbl.fin 0 ∧
      ∀ t team,
        (DataLoader.loadMultipleFiles env self files).2.loadedTeams.find? t = some team →
        homeMatchesOf t (acceptedMatches env files) ≠ [] →
        Dbl.isFinite team.homeCornerAttackStrength = false) ∧
    (total (fun c => c.awayCorners) (acceptedMatches env files) = 0 →
      (DataLoader.loadMultipleFiles env self files).2.leagueAvgAwayCorners = Dbl.fin 0 ∧
      ∀ t team,
        (DataLoader.loadMultipleFiles env self files).2.loadedTeams.find? t = some team →
        awayMatchesOf t (acceptedMatches env files) ≠ [] →
        Dbl.isFinite team.awayCornerAttackStrength = false) := by
  have hok : (DataLoader.loadMultipleFiles env self files).1 = true :=
    (loadMultipleFiles_flag env self files).2 hne
  have hteam := loaded_team_of_find env self files
  have hN : countOf (acceptedMatches env files) ≠ 0 :=
    ne_of_gt ((countOf_pos_iff _).2 hne)
  have hL := loadMultipleFiles_of_ne_nil env self files hne
  have a1 : (DataLoader.loadMultipleFiles env self files).2.leagueAvgHomeGoalsScored =
      perMatch (fun c => c.result.homeGoals) (acceptedMatches env files) := by rw [hL]
  have a2 : (DataLoader.loadMultipleFiles env self files).2.leagueAvgAwayGoalsScored =
      perMatch (fun c => c.result.awayGoals) (acceptedMatches env files) := by rw [hL]
  have a3 : (DataLoader.loadMultipleFiles env self files).2.leagueAvgHomeGoalsConceded =
      perMatch (fun c => c.result.awayGoals) (acceptedMatches env files) := by rw [hL]
  have a4 : (DataLoader.loadMultipleFiles env self files).2.leagueAvgAwayGoalsConceded =
      perMatch (fun c => c.result.homeGoals) (acceptedMatches env files) := by rw [hL]
  have a5 : (DataLoader.loadMultipleFiles env self files).2.leagueAvgHomeCorners =
      perMatch (fun c => c.homeCorners) (acceptedMatches env files) := by rw [hL]
  have a6 : (DataLoader.loadMultipleFiles env self files).2.leagueAvgAwayCorners =
      perMatch (fun c => c.awayCorners) (acceptedMatches env files) := by rw [hL]
  clear hL
  generalize DataLoader.loadMultipleFiles env self files = loaded at hok hteam a1 a2 a3 a4 a5 a6 ⊢
  refine ⟨hN, ?_, ?_, ?_, ?_, ?_⟩
  · rintro ⟨hHG, hAG, hHC, hAC⟩
    have d1 := perMatch_isDivisor (fun c => c.result.homeGoals) _ hne (ne_of_gt hHG)
    have d2 := perMatch_isDivisor (fun c => c.result.awayGoals) _ hne (ne_of_gt hAG)
    have d5 := perMatch_isDivisor (fun c => c.homeCorners) _ hne (ne_of_gt hHC)
    have d6 := perMatch_isDivisor (fun c => c.awayCorners) _ hne (ne_of_gt hAC)
    have hall : ∀ t team, loaded.2.loadedTeams.find? t = some team →
        Team.ratiosFinite team = true := by
      intro t team hfind
      rw [hteam t team hok hfind]
      exact overallStrengths_ratiosFinite _ _ _ _ _ _ _ _ d1 d2 d2 d1 d5 d6
        (ofName_ratiosFinite t _)
    rw [a1, a2, a3, a4, a5, a6]
    refine ⟨d1, d2, d2, d1, d5, d6, hall, ?_⟩
    intro s w t team hfind
    by_cases hdate : parseDate env s = 0
    · rw [calculateFormStrengths_invalid env loaded.2 s w hdate] at hfind
      exact absurd hfind (by simp [StdMap.find?_empty])
    · cases ho : loaded.2.loadedTeams.find? t with
      | none =>
        rw [calculateFormStrengths_none env loaded.2 s w t ho] at hfind
        exact absurd hfind (by simp)
      | some overall =>
        rw [calculateFormStrengths_at env loaded.2 s w t overall ho hdate] at hfind
        have : team = formStrengths loaded.2
            ((formCollected loaded.2 (parseDate env s) w).2 t) overall (Team.ofName t) := by
          simpa using hfind.symm
        rw [this]
        exact formStrengths_ratiosFinite _ _ _ _ (by rw [a1]; exact d1) (by rw [a2]; exact d2)
          (by rw [a3]; exact d2) (by rw [a4]; exact d1) (hall t overall ho)
  · intro h0
    have hz := perMatch_zero (fun c => c.result.homeGoals) _ hne h0
    refine ⟨by rw [a1, hz], ?_⟩
    intro t team hfind hsplit
    rw [hteam t team hok hfind, hz]
    have hpos : (rawTotals t (acceptedMatches env files)).homeMatches > 0 :=
      (countOf_pos_iff _).2 hsplit
    rw [(overallStrengths_home _ _ _ _ _ _ _ _ hpos).1]
    exact not_isFinite_div_zero _
  · intro h0
    have hz := perMatch_zero (fun c => c.result.awayGoals) _ hne h0
    refine ⟨by rw [a2, hz], ?_⟩
    intro t team hfind hsplit
    rw [hteam t team hok hfind, hz]
    have hpos : (rawTotals t (acceptedMatches env files)).awayMatches > 0 :=
      (countOf_pos_iff _).2 hsplit
    rw [(overallStrengths_away _ _ _ _ _ _ _ _ hpos).1]
    exact not_isFinite_div_zero _
  · intro h0
    have hz := perMatch_zero (fun c => c.homeCorners) _ hne h0
    refine ⟨by rw [a5, hz], ?_⟩
    intro t team hfind hsplit
    rw [hteam t team hok hfind, hz]
    have hpos : (rawTotals t (acceptedMatches env files)).homeMatches > 0 :=
      (countOf_pos_iff _).2 hsplit
    rw [(overallStrengths_home _ _ _ _ _ _ _ _ hpos).2.2.1]
    exact not_isFinite_div_zero _
  · intro h0
    have hz := perMatch_zero (fun c => c.awayCorners) _ hne h0
    refine ⟨by rw [a6, hz], ?_⟩
    intro t team hfind hsplit
    rw [hteam t team hok hfind, hz]
    have hpos : (rawTotals t (acceptedMatches env files)).awayMatches > 0 :=
      (countOf_pos_iff _).2 hsplit
    rw [(overallStrengths_away _ _ _ _ _ _ _ _ hpos).2.2.1]
    exact not_isFinite_div_zero _

/-- C30, at concrete inputs: after the load of the three matches, whose four totals
are positive, the ratios of team A are finite; after the load of one match with
empty corner cells, the home corner attack of team A, the home side, is not a
finite number. -/
theorem ratio_divisions_are_well_defined_witness :
    acceptedMatches demoEnv demoFiles ≠ [] ∧
    (∃ team, (DataLoader.loadMultipleFiles demoEnv {} demoFiles).2.loadedTeams.find? "A"
        = some team ∧ Team.ratiosFinite team = true) ∧
    acceptedMatches demoEnv demoFilesNoCorners ≠ [] ∧
    (∃ team, (DataLoader.loadMultipleFiles demoEnv {} demoFilesNoCorners).2.loadedTeams.find? "A"
        = some team ∧ Dbl.isFinite team.homeCornerAttackStrength = false) := by
  have hne : acceptedMatches demoEnv demoFiles ≠ [] := by decide
  have hne2 : acceptedMatches demoEnv demoFilesNoCorners ≠ [] := by decide
  have hsA :
      ((DataLoader.loadMultipleFiles demoEnv {} demoFiles).2.loadedTeams.find? "A").isSome
        = true := by decide
  have hsA2 :
      ((DataLoader.loadMultipleFiles demoEnv {} demoFilesNoCorners).2.loadedTeams.find?
        "A").isSome = true := by decide
  obtain ⟨tA, hA⟩ := Option.isSome_iff_exists.1 hsA
  obtain ⟨tA2, hA2⟩ := Option.isSome_iff_exists.1 hsA2
  refine ⟨hne, ⟨tA, hA, ?_⟩, hne2, ⟨tA2, hA2, ?_⟩⟩
  · exact ((ratio_divisions_are_well_defined demoEnv {} demoFiles hne).2.1
      ⟨by decide, by decide, by decide, by decide⟩).2.2.2.2.2.2.1 "A" tA hA
  · exact ((ratio_divisions_are_well_defined demoEnv {} demoFilesNoCorners hne2).2.2.2.2.1
      (by decide)).2 "A" tA2 hA2 (by decide)

/-! ## Lemmas: the match-weighted sum of a ratio -/

theorem sum_ite_eq_of_nodup {K : Type} [DecidableEq K] (ks : List K) (x : K) (v : Int)
    (hnd : ks.Nodup) :
    (ks.map (fun k => if x = k then v else 0)).sum = if x ∈ ks then v else 0 := by
  induction ks with
  | nil => simp
  | cons k ks ih =>
    rw [List.nodup_cons] at hnd
    rw [List.map_cons, List.sum_cons, ih hnd.2]
    by_cases hx : x = k
    · subst hx
      simp [hnd.1]
    · simp [hx]

/-- Over distinct team names that hold the side of every match, the totals of the
teams add up to the total of the list. -/
theorem sum_total_over_teams (side : Completed → String) (f : Completed → Int)
    (ks : List String) (hnd : ks.Nodup) (ms : List Completed)
    (hall : ∀ c ∈ ms, side c ∈ ks) :
    (ks.map (fun t => total f (ms.filter (fun c => decide (side c = t))))).sum =
      total f ms := by
  induction ms with
  | nil => simp [total]
  | cons c ms ih =>
    have ih2 := ih (fun x hx => hall x (List.mem_cons_of_mem _ hx))
    have hc := hall c (List.mem_cons_self _ _)
    have hstep : ∀ t, total f ((c :: ms).filter (fun c => decide (side c = t))) =
        (if side c = t then f c else 0) +
          total f (ms.filter (fun c => decide (side c = t))) := by
      intro t
      rw [List.filter_cons]
      by_cases h : side c = t
      · simp [h, total]
      · simp [h, total]
    simp only [hstep]
    rw [List.sum_map_add, ih2, sum_ite_eq_of_nodup _ _ _ hnd, if_pos hc]
    simp [total]

theorem foldl_add_fin (es : List (String × Team)) (term : String × Team → Dbl)
    (q : String → ℚ) (h : ∀ p ∈ es, term p = Dbl.fin (q p.1)) (init : ℚ) :
    es.foldl (fun acc p => Dbl.add acc (term p)) (Dbl.fin init) =
      Dbl.fin (init + ((es.map Prod.fst).map q).sum) := by
  induction es generalizing init with
  | nil => simp
  | cons p es ih =>
    rw [List.foldl_cons, h p (List.mem_cons_self _ _)]
    show List.foldl _ (Dbl.fin (init + q p.1)) es = _
    rw [ih (fun x hx => h x (List.mem_cons_of_mem _ hx))]
    simp [add_assoc]

/-- The match-weighted sum of one family of ratios over the entries of a map. -/
theorem weighted_sum_of_family (side : Completed → String) (f : Completed → Int)
    (ms : List Completed) (hne : ms ≠ []) (hT : total f ms ≠ 0)
    (teams : StdMap String Team) (ratio : Team → Dbl)
    (hall : ∀ c ∈ ms, side c ∈ teams.entries.map Prod.fst)
    (hr : ∀ p ∈ teams.entries,
      (ms.filter (fun c => decide (side c = p.1)) ≠ [] →
        ratio p.2 =
          Dbl.div (Dbl.div (Dbl.ofInt (total f (ms.filter (fun c => decide (side c = p.1)))))
            (Dbl.ofInt (countOf (ms.filter (fun c => decide (side c = p.1))))))
            (perMatch f ms)) ∧
      (ms.filter (fun c => decide (side c = p.1)) = [] → ratio p.2 = Dbl.fin 1)) :
    weightedRatioSum (fun t => countOf (ms.filter (fun c => decide (side c = t)))) ratio teams =
      Dbl.fin (countOf ms) := by
  have hN : (countOf ms : ℚ) ≠ 0 := ne_of_gt (countOf_cast_pos ms hne)
  have hG : (total f ms : ℚ) ≠ 0 := by exact_mod_cast hT
  unfold weightedRatioSum
  rw [foldl_add_fin teams.entries _
    (fun t => (total f (ms.filter (fun c => decide (side c = t))) : ℚ) *
      ((countOf ms : ℚ) / (total f ms : ℚ)))]
  · rw [zero_add, List.sum_map_mul_right]
    have hsum := sum_total_over_teams side f (teams.entries.map Prod.fst) teams.nodup ms hall
    have hcast : ((teams.entries.map Prod.fst).map
        (fun t => (total f (ms.filter (fun c => decide (side c = t))) : ℚ))).sum =
        (total f ms : ℚ) := by
      rw [← hsum, Int.cast_list_sum]
      simp only [List.map_map]
      rfl
    rw [hcast]
    congr 1
    field_simp
  · intro p hp
    obtain ⟨h1, h2⟩ := hr p hp
    by_cases hs : ms.filter (fun c => decide (side c = p.1)) = []
    · rw [h2 hs]
      simp only [hs]
      unfold Dbl.ofInt
      rw [Dbl.mul_fin]
      congr 1
      simp [countOf, total]
    · rw [h1 hs, perMatch_eq f ms hne]
      have hM : (countOf (ms.filter (fun c => decide (side c = p.1))) : ℚ) ≠ 0 :=
        ne_of_gt (countOf_cast_pos _ hs)
      have hq : (total f ms : ℚ) / (countOf ms : ℚ) ≠ 0 := div_ne_zero hG hN
      unfold Dbl.ofInt
      rw [Dbl.div_fin _ _ hM, Dbl.div_fin _ _ hq, Dbl.mul_fin]
      congr 1
      field_simp
      ring

/-- The eight ratios of a loaded team after a successful load, by split: computed
from the totals of the split when it has a match, left at `1.0` otherwise. -/
theorem loaded_ratio_cases (env : Env) (self : DataLoader) (files : List ResultsFile)
    (t : String) (team : Team)
    (hok : (DataLoader.loadMultipleFiles env self files).1 = true)
    (hfind : (DataLoader.loadMultipleFiles env self files).2.loadedTeams.find? t = some team) :
    (homeMatchesOf t (acceptedMatches env files) ≠ [] →
      team.homeAttackStrength =
        Dbl.div (Dbl.div
          (Dbl.ofInt (total (fun c => c.result.homeGoals)
            (homeMatchesOf t (acceptedMatches env files))))
          (Dbl.ofInt (countOf (homeMatchesOf t (acceptedMatches env files)))))
          (perMatch (fun c => c.result.homeGoals) (acceptedMatches env files)) ∧
      team.homeDefenseStrength =
        Dbl.div (Dbl.div
          (Dbl.ofInt (total (fun c => c.result.awayGoals)
            (homeMatchesOf t (acceptedMatches env files))))
          (Dbl.ofInt (countOf (homeMatchesOf t (acceptedMatches env files)))))
          (perMatch (fun c => c.result.awayGoals) (acceptedMatches env files)) ∧
      team.homeCornerAttackStrength =
        Dbl.div (Dbl.div
          (Dbl.ofInt (total (fun c => c.homeCorners)
            (homeMatchesOf t (acceptedMatches env files))))
          (Dbl.ofInt (countOf (homeMatchesOf t (acceptedMatches env files)))))
          (perMatch (fun c => c.homeCorners) (acceptedMatches env files)) ∧
      team.homeCornerDefenseStrength =
        Dbl.div (Dbl.div
          (Dbl.ofInt (total (fun c => c.awayCorners)
            (homeMatchesOf t (acceptedMatches env files))))
          (Dbl.ofInt (countOf (homeMatchesOf t (acceptedMatches env files)))))
          (perMatch (fun c => c.awayCorners) (acceptedMatches env files))) ∧
    (homeMatchesOf t (acceptedMatches env files) = [] →
      team.homeAttackStrength = Dbl.fin 1 ∧ team.homeDefenseStrength = Dbl.fin 1 ∧
      team.homeCornerAttackStrength = Dbl.fin 1 ∧
      team.homeCornerDefenseStrength = Dbl.fin 1) ∧
    (awayMatchesOf t (acceptedMatches env files) ≠ [] →
      team.awayAttackStrength =
        Dbl.div (Dbl.div
          (Dbl.ofInt (total (fun c => c.result.awayGoals)
            (awayMatchesOf t (acceptedMatches env files))))
          (Dbl.ofInt (countOf (awayMatchesOf t (acceptedMatches env files)))))
          (perMatch (fun c => c.result.awayGoals) (acceptedMatches env files)) ∧
      team.awayDefenseStrength =
        Dbl.div (Dbl.div
          (Dbl.ofInt (total (fun c => c.result.homeGoals)
            (awayMatchesOf t (acceptedMatches env files))))
          (Dbl.ofInt (countOf (awayMatchesOf t (acceptedMatches env files)))))
          (perMatch (fun c => c.result.homeGoals) (acceptedMatches env files)) ∧
      team.awayCornerAttackStrength =
        Dbl.div (Dbl.div
          (Dbl.ofInt (total (fun c => c.awayCorners)
            (awayMatchesOf t (acceptedMatches env files))))
          (Dbl.ofInt (countOf (awayMatchesOf t (acceptedMatches env files)))))
          (perMatch (fun c => c.awayCorners) (acceptedMatches env files)) ∧
      team.awayCornerDefenseStrength =
        Dbl.div (Dbl.div
          (Dbl.ofInt (total (fun c => c.homeCorners)
            (awayMatchesOf t (acceptedMatches env files))))
          (Dbl.ofInt (countOf (awayMatchesOf t (acceptedMatches env files)))))
          (perMatch (fun c => c.homeCorners) (acceptedMatches env files))) ∧
    (awayMatchesOf t (acceptedMatches env files) = [] →
      team.awayAttackStrength = Dbl.fin 1 ∧ team.awayDefenseStrength = Dbl.fin 1 ∧
      team.awayCornerAttackStrength = Dbl.fin 1 ∧
      team.awayCornerDefenseStrength = Dbl.fin 1) := by
  rw [loaded_team_of_find env self files t team hok hfind]
  refine ⟨?_, ?_, ?_, ?_⟩
  · intro hs
    have hpos : (rawTotals t (acceptedMatches env files)).homeMatches > 0 :=
      (countOf_pos_iff _).2 hs
    exact overallStrengths_home _ _ _ _ _ _ _ _ hpos
  · intro hs
    have hpos : ¬ (rawTotals t (acceptedMatches env files)).homeMatches > 0 := by
      show ¬ countOf (homeMatchesOf t (acceptedMatches env files)) > 0
      rw [hs]
      decide
    obtain ⟨e1, e2, e3, e4⟩ := overallStrengths_home_none
      (perMatch (fun c => c.result.homeGoals) (acceptedMatches env files))
      (perMatch (fun c => c.result.awayGoals) (acceptedMatches env files))
      (perMatch (fun c => c.result.awayGoals) (acceptedMatches env files))
      (perMatch (fun c => c.result.homeGoals) (acceptedMatches env files))
      (perMatch (fun c => c.homeCorners) (acceptedMatches env files))
      (perMatch (fun c => c.awayCorners) (acceptedMatches env files))
      (rawTotals t (acceptedMatches env files))
      (attachHistory (env.sortByDate ((acceptedMatches env files).map (fun c => c.result)))
        t (Team.ofName t)) hpos
    rw [e1, e2, e3, e4]
    exact ⟨rfl, rfl, rfl, rfl⟩
  · intro hs
    have hpos : (rawTotals t (acceptedMatches env files)).awayMatches > 0 :=
      (countOf_pos_iff _).2 hs
    exact overallStrengths_away _ _ _ _ _ _ _ _ hpos
  · intro hs
    have hpos : ¬ (rawTotals t (acceptedMatches env files)).awayMatches > 0 := by
      show ¬ countOf (awayMatchesOf t (acceptedMatches env files)) > 0
      rw [hs]
      decide
    obtain ⟨e1, e2, e3, e4⟩ := overallStrengths_away_none
      (perMatch (fun c => c.result.homeGoals) (acceptedMatches env files))
      (perMatch (fun c => c.result.awayGoals) (acceptedMatches env files))
      (perMatch (fun c => c.result.awayGoals) (acceptedMatches env files))
      (perMatch (fun c => c.result.homeGoals) (acceptedMatches env files))
      (perMatch (fun c => c.homeCorners) (acceptedMatches env files))
      (perMatch (fun c => c.awayCorners) (acceptedMatches env files))
      (rawTotals t (acceptedMatches env files))
      (attachHistory (env.sortByDate ((acceptedMatches env files).map (fun c => c.result)))
        t (Team.ofName t)) hpos
    rw [e1, e2, e3, e4]
    exact ⟨rfl, rfl, rfl, rfl⟩

/-- Every side of an accepted match is a key of the team map after the load. -/
theorem sides_are_loaded (env : Env) (self : DataLoader) (files : List ResultsFile)
    (c : Completed) (hc : c ∈ acceptedMatches env files) :
    c.result.homeTeamName ∈
      (DataLoader.loadMultipleFiles env self files).2.loadedTeams.entries.map Prod.fst ∧
    c.result.awayTeamName ∈
      (DataLoader.loadMultipleFiles env self files).2.loadedTeams.entries.map Prod.fst := by
  constructor
  · have h := loaded_team_of_mem env self files c.result.homeTeamName c hc (Or.inl rfl)
    by_contra hn
    have := (StdMap.find?_eq_none_iff _ _).2 hn
    rw [h] at this
    exact absurd this (by simp)
  · have h := loaded_team_of_mem env self files c.result.awayTeamName c hc (Or.inr rfl)
    by_contra hn
    have := (StdMap.find?_eq_none_iff _ _).2 hn
    rw [h] at this
    exact absurd this (by simp)

/-- C28, in exact arithmetic. After a load that accepts at least one match, for each
of the eight families of ratios whose league total is not zero, the sum over the
loaded teams of (the team's number of matches in the split) x (the team's ratio) is
the number `N` of accepted matches, the divisions, products and sums taken without
rounding. -/
theorem ratios_are_centred_on_one (env : Env) (self : DataLoader) (files : List ResultsFile)
    (hne : acceptedMatches env files ≠ []) :
    (total (fun c => c.result.homeGoals) (acceptedMatches env files) ≠ 0 →
      weightedRatioSum (fun t => countOf (homeMatchesOf t (acceptedMatches env files)))
        (fun team => team.homeAttackStrength)
        (DataLoader.loadMultipleFiles env self files).2.loadedTeams =
      Dbl.fin (countOf (acceptedMatches env files))) ∧
    (total (fun c => c.result.awayGoals) (acceptedMatches env files) ≠ 0 →
      weightedRatioSum (fun t => countOf (homeMatchesOf t (acceptedMatches env files)))
        (fun team => team.homeDefenseStrength)
        (DataLoader.loadMultipleFiles env self files).2.loadedTeams =
      Dbl.fin (countOf (acceptedMatches env files))) ∧
    (total (fun c => c.result.awayGoals) (acceptedMatches env files) ≠ 0 →
      weightedRatioSum (fun t => countOf (awayMatchesOf t (acceptedMatches env files)))
        (fun team => team.awayAttackStrength)
        (DataLoader.loadMultipleFiles env self files).2.loadedTeams =
      Dbl.fin (countOf (acceptedMatches env files))) ∧
    (total (fun c => c.result.homeGoals) (acceptedMatches env files) ≠ 0 →
      weightedRatioSum (fun t => countOf (awayMatchesOf t (acceptedMatches env files)))
        (fun team => team.awayDefenseStrength)
        (DataLoader.loadMultipleFiles env self files).2.loadedTeams =
      Dbl.fin (countOf (acceptedMatches env files))) ∧
    (total (fun c => c.homeCorners) (acceptedMatches env files) ≠ 0 →
      weightedRatioSum (fun t => countOf (homeMatchesOf t (acceptedMatches env files)))
        (fun team => team.homeCornerAttackStrength)
        (DataLoader.loadMultipleFiles env self files).2.loadedTeams =
      Dbl.fin (countOf (acceptedMatches env files))) ∧
    (total (fun c => c.awayCorners) (acceptedMatches env files) ≠ 0 →
      weightedRatioSum (fun t => countOf (homeMatchesOf t (acceptedMatches env files)))
        (fun team => team.homeCornerDefenseStrength)
        (DataLoader.loadMultipleFiles env self files).2.loadedTeams =
      Dbl.fin (countOf (acceptedMatches env files))) ∧
    (total (fun c => c.awayCorners) (acceptedMatches env files) ≠ 0 →
      weightedRatioSum (fun t => countOf (awayMatchesOf t (acceptedMatches env files)))
        (fun team => team.awayCornerAttackStrength)
        (DataLoader.loadMultipleFiles env self files).2.loadedTeams =
      Dbl.fin (countOf (acceptedMatches env files))) ∧
    (total (fun c => c.homeCorners) (acceptedMatches env files) ≠ 0 →
      weightedRatioSum (fun t => countOf (awayMatchesOf t (acceptedMatches env files)))
        (fun team => team.awayCornerDefenseStrength)
        (DataLoader.loadMultipleFiles env self files).2.loadedTeams =
      Dbl.fin (countOf (acceptedMatches env files))) := by
  have hok : (DataLoader.loadMultipleFiles env self files).1 = true :=
    (loadMultipleFiles_flag env self files).2 hne
  have hcases : ∀ p ∈ (DataLoader.loadMultipleFiles env self files).2.loadedTeams.entries,
      _ := fun p hp => loaded_ratio_cases env self files p.1 p.2 hok
        ((mem_entries_iff_find _ p.1 p.2).1 hp)
  refine ⟨?_, ?_, ?_, ?_, ?_, ?_, ?_, ?_⟩
  · intro hT
    exact weighted_sum_of_family (fun c => c.result.homeTeamName) (fun c => c.result.homeGoals) _ hne hT _ _
      (fun c hc => (sides_are_loaded env self files c hc).1)
      (fun p hp =>
        ⟨fun hs => ((hcases p hp).1 hs).1, fun hs => ((hcases p hp).2.1 hs).1⟩)
  · intro hT
    exact weighted_sum_of_family (fun c => c.result.homeTeamName) (fun c => c.result.awayGoals) _ hne hT _ _
      (fun c hc => (sides_are_loaded env self files c hc).1)
      (fun p hp =>
        ⟨fun hs => ((hcases p hp).1 hs).2.1, fun hs => ((hcases p hp).2.1 hs).2.1⟩)
  · intro hT
    exact weighted_sum_of_family (fun c => c.result.awayTeamName) (fun c => c.result.awayGoals) _ hne hT _ _
      (fun c hc => (sides_are_loaded env self files c hc).2)
      (fun p hp =>
        ⟨fun hs => ((hcases p hp).2.2.1 hs).1, fun hs => ((hcases p hp).2.2.2 hs).1⟩)
  · intro hT
    exact weighted_sum_of_family (fun c => c.result.awayTeamName) (fun c => c.result.homeGoals) _ hne hT _ _
      (fun c hc => (sides_are_loaded env self files c hc).2)
      (fun p hp =>
        ⟨fun hs => ((hcases p hp).2.2.1 hs).2.1, fun hs => ((hcases p hp).2.2.2 hs).2.1⟩)
  · intro hT
    exact weighted_sum_of_family (fun c => c.result.homeTeamName) (fun c => c.homeCorners) _ hne hT _ _
      (fun c hc => (sides_are_loaded env self files c hc).1)
      (fun p hp =>
        ⟨fun hs => ((hcases p hp).1 hs).2.2.1, fun hs => ((hcases p hp).2.1 hs).2.2.1⟩)
  · intro hT
    exact weighted_sum_of_family (fun c => c.result.homeTeamName) (fun c => c.awayCorners) _ hne hT _ _
      (fun c hc => (sides_are_loaded env self files c hc).1)
      (fun p hp =>
        ⟨fun hs => ((hcases p hp).1 hs).2.2.2, fun hs => ((hcases p hp).2.1 hs).2.2.2⟩)
  · intro hT
    exact weighted_sum_of_family (fun c => c.result.awayTeamName) (fun c => c.awayCorners) _ hne hT _ _
      (fun c hc => (sides_are_loaded env self files c hc).2)
      (fun p hp =>
        ⟨fun hs => ((hcases p hp).2.2.1 hs).2.2.1, fun hs => ((hcases p hp).2.2.2 hs).2.2.1⟩)
  · intro hT
    exact weighted_sum_of_family (fun c => c.result.awayTeamName) (fun c => c.homeCorners) _ hne hT _ _
      (fun c hc => (sides_are_loaded env self files c hc).2)
      (fun p hp =>
        ⟨fun hs => ((hcases p hp).2.2.1 hs).2.2.2, fun hs => ((hcases p hp).2.2.2 hs).2.2.2⟩)

/-- C28, at a concrete input: after the load of A 2-1 B, B 0-0 A, A 1-1 B, the sum
over the teams of home matches x home attack is 2 x 3/2 + 1 x 0 = 3, the number of
matches. -/
theorem ratios_are_centred_on_one_witness :
    acceptedMatches demoEnv demoFiles ≠ [] ∧
    weightedRatioSum (fun t => countOf (homeMatchesOf t (acceptedMatches demoEnv demoFiles)))
      (fun team => team.homeAttackStrength)
      (DataLoader.loadMultipleFiles demoEnv {} demoFiles).2.loadedTeams = Dbl.fin 3 := by
  have hne : acceptedMatches demoEnv demoFiles ≠ [] := by decide
  have h := (ratios_are_centred_on_one demoEnv {} demoFiles hne).1 (by decide)
  have hN : countOf (acceptedMatches demoEnv demoFiles) = 3 := by decide
  rw [hN] at h
  exact ⟨hne, by simpa using h⟩

/-- C28 refuted for the doubles of the program: after the load of A 0-0 B, B 1-0 C,
C 6-0 A each team has one home match, the home goals are 0, 1 and 6 of a total of 7
in 3 matches, and in binary64 the sum over the teams of home matches x home attack
is 6755399441055743 / 2^51, the double next below 3.0. -/
theorem ratios_weighted_sum_rounds_below :
    acceptedMatches demoEnv demoSkewFiles ≠ [] ∧
    countOf (acceptedMatches demoEnv demoSkewFiles) = 3 ∧
    total (fun c => c.result.homeGoals) (acceptedMatches demoEnv demoSkewFiles) = 7 ∧
    (DataLoader.loadMultipleFiles demoEnv {} demoSkewFiles).2.loadedTeams.keys
      = ["A", "B", "C"] ∧
    ["A", "B", "C"].map (fun t =>
        ((rawTotals t (acceptedMatches demoEnv demoSkewFiles)).homeMatches,
          (rawTotals t (acceptedMatches demoEnv demoSkewFiles)).homeGoalsScored))
      = [(1, 0), (1, 1), (1, 6)] ∧
    F64.same
      (weightedRatioSumF64
        [(1, overallRatioF64 0 1 7 3), (1, overallRatioF64 1 1 7 3),
          (1, overallRatioF64 6 1 7 3)])
      ⟨6755399441055743, 2251799813685248⟩ = true ∧
    F64.lt
      (weightedRatioSumF64
        [(1, overallRatioF64 0 1 7 3), (1, overallRatioF64 1 1 7 3),
          (1, overallRatioF64 6 1 7 3)])
      (F64.ofNat 3) = true := by
  refine ⟨by decide, by decide, by decide, by decide, by decide, by decide, by decide⟩

/-! ## Lemmas: a form window that covers the history -/

/-- The window of one side of a team, when every accepted match is dated before the
reference date and the window is at least as large as the split: a rearrangement of
the records of the split. -/
theorem full_window_perm (side : MatchResult → String) (t : String) (d : TimePoint) (w : Int)
    (sorted : List MatchResult) (ms : List Completed)
    (hperm : sorted.Perm (ms.map (fun c => c.result)))
    (hlater : ∀ c ∈ ms, c.result.date < d)
    (hside : ∀ m, side m = t → m.homeTeamName = t ∨ m.awayTeamName = t)
    (hw : countOf (ms.filter (fun c => decide (side c.result = t))) ≤ w) :
    (((sorted.filter (fun result =>
        decide (result.homeTeamName = t ∨ result.awayTeamName = t))).reverse.filter
      (fun m => decide (m.date < d ∧ side m = t))).take w.toNat).Perm
      ((ms.filter (fun c => decide (side c.result = t))).map (fun c => c.result)) := by
  have h1 : ((sorted.filter (fun result =>
        decide (result.homeTeamName = t ∨ result.awayTeamName = t))).reverse.filter
      (fun m => decide (m.date < d ∧ side m = t))).Perm
      ((ms.filter (fun c => decide (side c.result = t))).map (fun c => c.result)) := by
    rw [List.filter_reverse]
    refine (List.reverse_perm _).trans ?_
    rw [List.filter_filter]
    refine (hperm.filter _).trans ?_
    rw [List.filter_map]
    apply List.Perm.of_eq
    congr 1
    apply List.filter_congr
    intro c hc
    have hd := hlater c hc
    by_cases hs : side c.result = t
    · have := hside c.result hs
      simp [hs, hd, this]
    · simp [hs]
  have hlen := h1.length_eq
  rw [List.length_map] at hlen
  rw [List.take_of_length_le]
  · exact h1
  · rw [hlen]
    unfold countOf at hw
    omega

theorem sumOver_perm_map (f : MatchResult → Int) (l : List MatchResult) (ms : List Completed)
    (h : l.Perm (ms.map (fun c => c.result))) :
    sumOver f l = total (fun c => f c.result) ms ∧ countOf l = countOf ms := by
  constructor
  · unfold sumOver total
    have := (h.map f).sum_eq
    rw [List.map_map] at this
    exact this
  · unfold countOf
    have := h.length_eq
    rw [List.length_map] at this
    rw [this]

/-- C27. After a successful `loadMultipleFiles` (`std::sort` having returned a
rearrangement of its input) of matches none of which has the same team on both
sides, for a reference date later than every match date and a window at least as
large as the numbers of home and of away matches of a team, the four goal ratios of
the team returned by `calculateFormStrengths` are the overall goal ratios of the
team. -/
theorem form_equals_overall_on_full_window (env : Env) (self : DataLoader)
    (files : List ResultsFile) (fixtureDateStr : String) (formMatches : Int) (t : String)
    (formTeam : Team)
    (hok : (DataLoader.loadMultipleFiles env self files).1 = true)
    (hperm : (env.sortByDate ((acceptedMatches env files).map (fun c => c.result))).Perm
      ((acceptedMatches env files).map (fun c => c.result)))
    (hself : ∀ c ∈ acceptedMatches env files, c.result.homeTeamName ≠ c.result.awayTeamName)
    (hlater : ∀ c ∈ acceptedMatches env files, c.result.date < parseDate env fixtureDateStr)
    (hw : countOf (homeMatchesOf t (acceptedMatches env files)) ≤ formMatches ∧
      countOf (awayMatchesOf t (acceptedMatches env files)) ≤ formMatches)
    (hform : (DataLoader.calculateFormStrengths env
      (DataLoader.loadMultipleFiles env self files).2 fixtureDateStr formMatches).1.find? t
        = some formTeam) :
    ∃ team, (DataLoader.loadMultipleFiles env self files).2.loadedTeams.find? t = some team ∧
      formTeam.homeAttackStrength = team.homeAttackStrength ∧
      formTeam.homeDefenseStrength = team.homeDefenseStrength ∧
      formTeam.awayAttackStrength = team.awayAttackStrength ∧
      formTeam.awayDefenseStrength = team.awayDefenseStrength := by
  have hne : acceptedMatches env files ≠ [] := (loadMultipleFiles_flag env self files).1 hok
  have hdate : parseDate env fixtureDateStr ≠ 0 := by
    intro h0
    rw [calculateFormStrengths_invalid env _ fixtureDateStr formMatches h0] at hform
    exact absurd hform (by simp [StdMap.find?_empty])
  cases hfind : (DataLoader.loadMultipleFiles env self files).2.loadedTeams.find? t with
  | none =>
    rw [calculateFormStrengths_none env _ fixtureDateStr formMatches t hfind] at hform
    exact absurd hform (by simp)
  | some team =>
    refine ⟨team, rfl, ?_⟩
    have hhist := loaded_team_history env self files t team hok hfind
    have hcases := loaded_ratio_cases env self files t team hok hfind
    have hL := loadMultipleFiles_of_ne_nil env self files hne
    have a1 : (DataLoader.loadMultipleFiles env self files).2.leagueAvgHomeGoalsScored =
        perMatch (fun c => c.result.homeGoals) (acceptedMatches env files) := by rw [hL]
    have a2 : (DataLoader.loadMultipleFiles env self files).2.leagueAvgAwayGoalsScored =
        perMatch (fun c => c.result.awayGoals) (acceptedMatches env files) := by rw [hL]
    have a3 : (DataLoader.loadMultipleFiles env self files).2.leagueAvgHomeGoalsConceded =
        perMatch (fun c => c.result.awayGoals) (acceptedMatches env files) := by rw [hL]
    have a4 : (DataLoader.loadMultipleFiles env self files).2.leagueAvgAwayGoalsConceded =
        perMatch (fun c => c.result.homeGoals) (acceptedMatches env files) := by rw [hL]
    clear hL
    rw [calculateFormStrengths_at env _ fixtureDateStr formMatches t team hfind hdate] at hform
    have hft : formTeam = formStrengths (DataLoader.loadMultipleFiles env self files).2
        ((formCollected (DataLoader.loadMultipleFiles env self files).2
          (parseDate env fixtureDateStr) formMatches).2 t) team (Team.ofName t) := by
      simpa using hform.symm
    have hno : ∀ m ∈ team.matchHistory, ¬ (m.homeTeamName = t ∧ m.awayTeamName = t) := by
      intro m hm hb
      rw [hhist] at hm
      have hm2 := hperm.mem_iff.1 (List.mem_of_mem_filter hm)
      rw [List.mem_map] at hm2
      obtain ⟨c, hc, rfl⟩ := hm2
      exact hself c hc (hb.1.trans hb.2.symm)
    have hdata := formCollected_windowTotals (DataLoader.loadMultipleFiles env self files).2
      (parseDate env fixtureDateStr) formMatches t team hfind hno
    have hH := full_window_perm (fun m => m.homeTeamName) t (parseDate env fixtureDateStr)
      formMatches _ _ hperm hlater (fun m h => Or.inl h) hw.1
    have hA := full_window_perm (fun m => m.awayTeamName) t (parseDate env fixtureDateStr)
      formMatches _ _ hperm hlater (fun m h => Or.inr h) hw.2
    rw [← hhist] at hH hA
    generalize (DataLoader.loadMultipleFiles env self files).2 = loaded
      at hft hdata a1 a2 a3 a4 hfind
    generalize (formCollected loaded (parseDate env fixtureDateStr) formMatches).2 t = data
      at hft hdata
    obtain ⟨hp, hn⟩ := formStrengths_home loaded data team (Team.ofName t)
    obtain ⟨ap, an⟩ := formStrengths_away loaded data team (Team.ofName t)
    have eH1 : data.homeMatches = countOf (homeMatchesOf t (acceptedMatches env files)) := by
      rw [hdata]
      exact (sumOver_perm_map (fun m => m.homeGoals) _ _ hH).2
    have eH2 : data.homeGoalsScored =
        total (fun c => c.result.homeGoals) (homeMatchesOf t (acceptedMatches env files)) := by
      rw [hdata]
      exact (sumOver_perm_map (fun m => m.homeGoals) _ _ hH).1
    have eH3 : data.homeGoalsConceded =
        total (fun c => c.result.awayGoals) (homeMatchesOf t (acceptedMatches env files)) := by
      rw [hdata]
      exact (sumOver_perm_map (fun m => m.awayGoals) _ _ hH).1
    have eA1 : data.awayMatches = countOf (awayMatchesOf t (acceptedMatches env files)) := by
      rw [hdata]
      exact (sumOver_perm_map (fun m => m.awayGoals) _ _ hA).2
    have eA2 : data.awayGoalsScored =
        total (fun c => c.result.awayGoals) (awayMatchesOf t (acceptedMatches env files)) := by
      rw [hdata]
      exact (sumOver_perm_map (fun m => m.awayGoals) _ _ hA).1
    have eA3 : data.awayGoalsConceded =
        total (fun c => c.result.homeGoals) (awayMatchesOf t (acceptedMatches env files)) := by
      rw [hdata]
      exact (sumOver_perm_map (fun m => m.homeGoals) _ _ hA).1
    rw [hft]
    have hhome : (formStrengths loaded data team (Team.ofName t)).homeAttackStrength =
          team.homeAttackStrength ∧
        (formStrengths loaded data team (Team.ofName t)).homeDefenseStrength =
          team.homeDefenseStrength := by
      by_cases hh : data.homeMatches > 0
      · obtain ⟨e1, e2⟩ := hp hh
        have hs : homeMatchesOf t (acceptedMatches env files) ≠ [] := by
          rw [eH1] at hh
          exact (countOf_pos_iff _).1 hh
        obtain ⟨o1, o2, _⟩ := hcases.1 hs
        rw [e1, e2, o1, o2, eH1, eH2, eH3, a1, a3]
        exact ⟨rfl, rfl⟩
      · exact hn hh
    have haway : (formStrengths loaded data team (Team.ofName t)).awayAttackStrength =
          team.awayAttackStrength ∧
        (formStrengths loaded data team (Team.ofName t)).awayDefenseStrength =
          team.awayDefenseStrength := by
      by_cases hh : data.awayMatches > 0
      · obtain ⟨e1, e2⟩ := ap hh
        have hs : awayMatchesOf t (acceptedMatches env files) ≠ [] := by
          rw [eA1] at hh
          exact (countOf_pos_iff _).1 hh
        obtain ⟨o1, o2, _⟩ := hcases.2.2.1 hs
        rw [e1, e2, o1, o2, eA1, eA2, eA3, a2, a4]
        exact ⟨rfl, rfl⟩
      · exact an hh
    exact ⟨hhome.1, hhome.2, haway.1, haway.2⟩

/-- C27, at a concrete input: the three matches of January 2024, the reference date
2024-01-22 and a window of 5 matches; the form goal ratios of team A are its overall
goal ratios. -/
theorem form_equals_overall_on_full_window_witness :
    (DataLoader.loadMultipleFiles demoEnv {} demoFiles).1 = true ∧
    ∃ formTeam team,
      (DataLoader.calculateFormStrengths demoEnv
        (DataLoader.loadMultipleFiles demoEnv {} demoFiles).2 "2024-01-22" 5).1.find? "A"
        = some formTeam ∧
      (DataLoader.loadMultipleFiles demoEnv {} demoFiles).2.loadedTeams.find? "A" = some team ∧
      formTeam.homeAttackStrength = team.homeAttackStrength ∧
      formTeam.homeDefenseStrength = team.homeDefenseStrength ∧
      formTeam.awayAttackStrength = team.awayAttackStrength ∧
      formTeam.awayDefenseStrength = team.awayDefenseStrength := by
  have hok : (DataLoader.loadMultipleFiles demoEnv {} demoFiles).1 = true := by decide
  have hs : ((DataLoader.calculateFormStrengths demoEnv
      (DataLoader.loadMultipleFiles demoEnv {} demoFiles).2 "2024-01-22" 5).1.find?
      "A").isSome = true := by decide
  obtain ⟨formTeam, hform⟩ := Option.isSome_iff_exists.1 hs
  obtain ⟨team, hfind, h1, h2, h3, h4⟩ :=
    form_equals_overall_on_full_window demoEnv {} demoFiles "2024-01-22" 5 "A" formTeam hok
      (List.Perm.refl _) (by decide) (by decide) (by decide) hform
  exact ⟨hok, formTeam, team, hform, hfind, h1, h2, h3, h4⟩

end FootballPredictor
